import Mathlib

/-!
# AIE power-domain housecleaning sequencer (xilpm, versal server, `xpm_aie.c`)

A shallow embedding of `lib/sw_services/xilpm/src/versal/server/xpm_aie.c`.

* Machine integers are natural numbers, truncated with `u16`, `u32`, `u64`
  where the C code works in that width.  Status codes (`XStatus`) are integers.
* Constants, masks, offsets and bit-field extraction helpers that the file takes
  from headers which are not among the sources are the fields of `Consts`; every
  function of the model takes them as the parameter `K`.
* Everything the file calls but does not define (register reads, device lookup,
  DMA, BISR repair, isolation control, ...) is answered by an `Env`: each answer
  may depend on the whole sequence of hardware events issued so far, so a
  statement quantified over `Env` covers every behaviour of the hardware.
* A computation is a function from the events issued so far to its result and
  the events it issues itself (`M`).  `goto done` and `goto fail` are the tail
  calls `gotoDone` and `gotoFail`.
-/

namespace XilPmAie

/-! ## Machine integers -/

/-- Truncation to an unsigned 16-bit value. -/
def u16 (x : Nat) : Nat := x % 2 ^ 16

/-- Truncation to an unsigned 32-bit value. -/
def u32 (x : Nat) : Nat := x % 2 ^ 32

/-- Truncation to an unsigned 64-bit value. -/
def u64 (x : Nat) : Nat := x % 2 ^ 64

/-- Bitwise complement of an unsigned 32-bit value (the C operator `~` on a `u32`). -/
def not32 (x : Nat) : Nat := 0xFFFFFFFF - u32 x

/-- Status code returned by every operation (`XStatus`, a C `int`). -/
abbrev XStatus := Int

/-! ## Diagnostic codes -/

/-- Modelled from the spec: the internal diagnostic enum (`XPM_INT_ERR_*`, declared in a
header that is not among the sources).  Section 4.4 of the spec: a step reports failure
via a status code plus an internal diagnostic enum.  Only the codes used by `xpm_aie.c`
are listed. -/
inductive XPm_IntErr
  | XPM_INT_ERR_UNDEFINED
  | XPM_INT_ERR_INVALID_DEVICE
  | XPM_INT_ERR_REG_WRT_NPI_PCSR_MASK
  | XPM_INT_ERR_REG_WRT_NPI_PCSR_CONTROL
  | XPM_INT_ERR_AIE_CORE_STATUS_TIMEOUT
  | XPM_INT_ERR_ARRAY_RESET
  | XPM_INT_ERR_ARRAY_RESET_RELEASE
  | XPM_INT_ERR_PRGRM_CORE
  | XPM_INT_ERR_POWER_SUPPLY
  | XPM_INT_ERR_RST_RELEASE
  | XPM_INT_ERR_AIE_INITSTATE_RELEASE
  | XPM_INT_ERR_AIE_PCOMPLETE
  | XPM_INT_ERR_ODISABLE_1_RELEASE
  | XPM_INT_ERR_SCAN_CLEAR_TRIGGER
  | XPM_INT_ERR_SCAN_CLEAR_TIMEOUT
  | XPM_INT_ERR_SCAN_CLEAR_PASS
  | XPM_INT_ERR_SCAN_CLEAR_TRIGGER_UNSET
  | XPM_INT_ERR_ODISABLE_0_RELEASE
  | XPM_INT_ERR_GATEREG_UNSET
  | XPM_INT_ERR_AIE_POST_SCAN_CLEAR_HOOK
  | XPM_INT_ERR_AIE_PRE_BISR_HOOK
  | XPM_INT_ERR_PMC_SOC_ISO
  | XPM_INT_ERR_MEA_BISR_REPAIR
  | XPM_INT_ERR_MEB_BISR_REPAIR
  | XPM_INT_ERR_MEC_BISR_REPAIR
  | XPM_INT_ERR_MEM_CLEAR_EN
  | XPM_INT_ERR_MBIST_RESET
  | XPM_INT_ERR_BIST_RESET
  | XPM_INT_ERR_MEM_CLEAR_TRIGGER
  | XPM_INT_ERR_MEM_CLEAR_DONE_TIMEOUT
  | XPM_INT_ERR_MEM_CLEAR_PASS
  | XPM_INT_ERR_MBIST_RESET_RELEASE
  | XPM_INT_ERR_BIST_RESET_RELEASE
  | XPM_INT_ERR_MEM_CLEAR_TRIGGER_UNSET
  | XPM_INT_ERR_AIE_MEMORY_ZEROISATION
  | XPM_INT_ERR_INVALID_PWR_DOMAIN
  | XPM_INT_ERR_POWER_DOMAIN_INIT
  deriving DecidableEq, Repr

/-! ## Constants of the missing headers -/

/-- The constants, masks, offsets and helper macros that `xpm_aie.c` uses and that are
declared in headers which are not among the sources.  No value is assumed for any of
them; a theorem that needs two of them to differ says so. -/
structure Consts where
  XST_SUCCESS : XStatus
  XST_FAILURE : XStatus
  XPM_REG_WRITE_FAILED : XStatus
  XPM_INVALID_PWRDOMAIN : XStatus
  XPM_PM_TIMEOUT : XStatus
  PM_DEV_AIE : Nat
  PM_POWER_ME : Nat
  PM_POWER_ME2 : Nat
  XPM_NODEIDX_ISO_PMC_SOC : Nat
  FALSE_VALUE : Nat
  MEA_TAG_ID : Nat
  MEB_TAG_ID : Nat
  MEC_TAG_ID : Nat
  XPLMI_PMCDMA_0 : Nat
  XPLMI_TIME_OUT_DEFAULT : Nat
  NPI_PCSR_MASK_OFFSET : Nat
  NPI_PCSR_CONTROL_OFFSET : Nat
  NPI_PCSR_STATUS_OFFSET : Nat
  ME_NPI_ME_TOP_ROW_OFFSET : Nat
  ME_NPI_ME_SMID_REG : Nat
  ME_NPI_ME_SECURE_REG : Nat
  AIE2_NPI_ME_PROT_REG_CTRL_OFFSET : Nat
  ME_PROT_REG_CTRL_PROTECTED_REG_EN_MASK : Nat
  PM_HOUSECLEAN_DISABLE_REG_2 : Nat
  PM_HOUSECLEAN_DISABLE_AIE_MASK : Nat
  HOUSECLEAN_AIE_SHIFT : Nat
  HOUSECLEAN_DISABLE_SCAN_CLEAR_MASK : Nat
  HOUSECLEAN_DISABLE_BISR_MASK : Nat
  HOUSECLEAN_DISABLE_MBIST_CLEAR_MASK : Nat
  ME_NPI_REG_PCSR_MASK_ME_IPOR_MASK : Nat
  ME_NPI_REG_PCSR_MASK_ME_ARRAY_RESET_MASK : Nat
  ME_NPI_REG_PCSR_MASK_ME_SHIM_RESET_MASK : Nat
  ME_NPI_REG_PCSR_MASK_INITSTATE_MASK : Nat
  ME_NPI_REG_PCSR_MASK_ODISABLE_1_MASK : Nat
  ME_NPI_REG_PCSR_MASK_ODISABLE_0_MASK : Nat
  ME_NPI_REG_PCSR_MASK_GATEREG_MASK : Nat
  ME_NPI_REG_PCSR_MASK_SCAN_CLEAR_TRIGGER_MASK : Nat
  ME_NPI_REG_PCSR_MASK_MEM_CLEAR_EN_ALL_MASK : Nat
  ME_NPI_REG_PCSR_MASK_OD_MBIST_ASYNC_RESET_N_MASK : Nat
  ME_NPI_REG_PCSR_MASK_OD_BIST_SETUP_1_MASK : Nat
  ME_NPI_REG_PCSR_MASK_MEM_CLEAR_TRIGGER_MASK : Nat
  ME_NPI_REG_PCSR_MASK_PCOMPLETE_MASK : Nat
  ME_NPI_REG_PCSR_STATUS_ME_PWR_SUPPLY_MASK : Nat
  ME_NPI_REG_PCSR_STATUS_SCAN_CLEAR_DONE_MASK : Nat
  ME_NPI_REG_PCSR_STATUS_SCAN_CLEAR_PASS_MASK : Nat
  ME_NPI_REG_PCSR_STATUS_MEM_CLEAR_DONE_MASK : Nat
  ME_NPI_REG_PCSR_STATUS_MEM_CLEAR_PASS_MASK : Nat
  AIE_CORE_CONTROL_OFFSET : Nat
  AIE_CORE_STATUS_OFFSET : Nat
  AIE_PROGRAM_MEM_OFFSET : Nat
  AIE_CORE_ECC_SCRUB_EVENT_OFFSET : Nat
  AIE_TILE_CLOCK_CONTROL_OFFSET : Nat
  AIE_TILE_CLOCK_CONTROL_CLK_BUFF_EN_MASK : Nat
  ECC_SCRUB_ENABLE : Nat
  ECC_SCRUB_DISABLE : Nat
  AIE2_PL_MODULE_COLUMN_CLK_CTRL_OFFSET : Nat
  AIE2_MEM_TILE_MODULE_MEM_CTRL_OFFSET : Nat
  AIE2_MEM_TILE_MODULE_MEM_CTRL_MEM_ZEROISATION_MASK : Nat
  AIE2_CORE_MODULE_MEM_CTRL_OFFSET : Nat
  AIE2_CORE_MODULE_MEM_CTRL_MEM_ZEROISATION_MASK : Nat
  AIE2_MEM_MODULE_MEM_CTRL_OFFSET : Nat
  AIE2_MEM_MODULE_MEM_CTRL_MEM_ZEROISATION_MASK : Nat
  VIVADO_ME_BASEADDR : Nat
  AIE_GENV1 : Nat
  AIE_GENV2 : Nat
  PLATFORM_VERSION_SILICON : Nat
  PLATFORM_VERSION_QEMU : Nat
  PMC_TAP_IDCODE_DEV_SBFMLY_MASK : Nat
  PMC_TAP_IDCODE_DEV_SBFMLY_VC1702 : Nat
  PMC_TAP_IDCODE_DEV_SBFMLY_VE1752 : Nat
  PMC_TAP_IDCODE_DEV_SBFMLY_VE2302 : Nat
  FUNC_INIT_START : Nat
  FUNC_INIT_FINISH : Nat
  FUNC_SCAN_CLEAR : Nat
  FUNC_BISR : Nat
  FUNC_MBIST_CLEAR : Nat
  FUNC_MEM_INIT : Nat
  ARR_GENV : Nat → Nat
  ARR_ROWS : Nat → Nat
  ARR_COLS : Nat → Nat
  ARR_AIEROWS : Nat → Nat
  ARR_MEMROWS : Nat → Nat
  ARR_SHMROWS : Nat → Nat

/-! ## Data model -/

/-- The array geometry (`XPm_AieArray`); `NocAddress` is a `u64`, the other fields `u16`. -/
structure XPm_AieArray where
  GenVersion : Nat
  NocAddress : Nat
  StartCol : Nat
  NumCols : Nat
  StartRow : Nat
  NumRows : Nat
  NumShimRows : Nat
  NumMemRows : Nat
  NumAieRows : Nat
  deriving DecidableEq, Repr

/-- The functions of `xpm_aie.c` that are stored in `Hooks.PreBisrHook`. -/
inductive PreBisrHookFn
  | AiePreBisrHook
  | Aie2PreBisrHook
  deriving DecidableEq, Repr

/-- The functions of `xpm_aie.c` that are stored in `Hooks.PostScanClearHook`. -/
inductive PostScanClearHookFn
  | AiePostScanClearHook
  deriving DecidableEq, Repr

/-- The hook set (`XPm_AieDomainOpHooks`); `none` is the `NULL` pointer. -/
structure XPm_AieDomainOpHooks where
  PostScanClearHook : Option PostScanClearHookFn
  PreBisrHook : Option PreBisrHookFn
  deriving DecidableEq, Repr

/-- The part of the generic power domain (`XPm_PowerDomain`) that `xpm_aie.c` reads and
writes: the housecleaning-disable mask. -/
structure XPm_PowerDomain where
  HcDisableMask : Nat
  deriving DecidableEq, Repr

/-- The AIE power domain (`XPm_AieDomain`): generic domain, geometry and hooks. -/
structure XPm_AieDomain where
  Domain : XPm_PowerDomain
  Array : XPm_AieArray
  Hooks : XPm_AieDomainOpHooks
  deriving DecidableEq, Repr

/-! ## Hardware events and the environment -/

/-- One observable action of the firmware on its surroundings, with the answer received
where there is one. -/
inductive Event
  | Out32 (addr val : Nat)
  | In32 (addr val : Nat)
  | swea (addr val : Nat)
  | lwea (addr val : Nat)
  | UnlockPcsr (BaseAddress : Nat)
  | LockPcsr (BaseAddress : Nat)
  | usleep (us : Nat)
  | PollForMask64 (hi lo mask timeout : Nat) (Status : XStatus)
  | DmaXfr (src : List Nat) (dst len flags : Nat) (Status : XStatus)
  | IsoControl (idx en : Nat) (Status : XStatus)
  | BisrRepair (tag : Nat) (Status : XStatus)
  | PowerDomainInit (Id BaseAddress Parent : Nat) (Ops : Option (Fin 2)) (Status : XStatus)
  | PrintDbgErr (Status : XStatus) (DbgErr : XPm_IntErr)
  deriving DecidableEq, Repr

/-- A call of `XPmAieDomain_LockPcsr`. -/
def Event.isLock : Event → Bool
  | .LockPcsr _ => true
  | _ => false

/-- A call of `XPmAieDomain_UnlockPcsr`. -/
def Event.isUnlock : Event → Bool
  | .UnlockPcsr _ => true
  | _ => false

/-- An action that changes hardware state: a register or memory write, a PCSR lock or
unlock, a DMA transfer, an isolation change or a BISR repair. -/
def Event.isRegWrite : Event → Bool
  | .Out32 _ _ => true
  | .swea _ _ => true
  | .UnlockPcsr _ => true
  | .LockPcsr _ => true
  | .DmaXfr _ _ _ _ _ => true
  | .IsoControl _ _ _ => true
  | .BisrRepair _ _ => true
  | _ => false

/-- A register read, single or as one iteration of a poll. -/
def Event.isRegRead : Event → Bool
  | .In32 _ _ => true
  | .lwea _ _ => true
  | .PollForMask64 _ _ _ _ _ => true
  | _ => false

/-- The surroundings of the sequencer: the answer of every external service, given the
events issued so far. -/
structure Env where
  XPmDevice_GetById : List Event → Nat → Option Nat
  In32 : List Event → Nat → Nat
  lwea : List Event → Nat → Nat
  XPlmi_UtilPollForMask64 : List Event → Nat → Nat → Nat → Nat → XStatus
  XPlmi_DmaXfr : List Event → List Nat → Nat → Nat → Nat → XStatus
  XPmDomainIso_Control : List Event → Nat → Nat → XStatus
  XPmBisr_Repair : List Event → Nat → XStatus
  XPmPowerDomain_Init : List Event → XPm_PowerDomain → Nat → Nat → Nat → Option (Fin 2) →
    XStatus × XPm_PowerDomain
  XPm_GetPlatform : Nat
  XPm_GetIdCode : Nat

/-! ## Computations -/

/-- A computation: from the events issued so far to a result and the events it issues. -/
def M (α : Type) : Type := List Event → α × List Event

/-- The computation that issues nothing. -/
def M.pure {α : Type} (a : α) : M α := fun _ => (a, [])

/-- Sequencing: the second computation sees the events of the first. -/
def M.bind {α β : Type} (m : M α) (f : α → M β) : M β := fun h =>
  ((f (m h).1 (h ++ (m h).2)).1, (m h).2 ++ (f (m h).1 (h ++ (m h).2)).2)

instance : Monad M where
  pure := M.pure
  bind := M.bind

/-- Issue one event. -/
def emit (e : Event) : M Unit := fun _ => ((), [e])

/-! ## External services and register primitives -/

section Primitives

variable (K : Consts) (env : Env)

/-- The device lookup `XPmDevice_GetById`; the answer is the `Node.BaseAddress` of the
device found, `none` for the `NULL` pointer. -/
def XPmDevice_GetById (Id : Nat) : M (Option Nat) := fun h =>
  (env.XPmDevice_GetById h Id, [])

/-- The 32-bit register read `XPm_In32`. -/
def XPm_In32 (RegAddress : Nat) : M Nat := fun h =>
  (u32 (env.In32 h (u32 RegAddress)),
   [Event.In32 (u32 RegAddress) (u32 (env.In32 h (u32 RegAddress)))])

/-- The 32-bit register write `PmOut32`. -/
def PmOut32 (RegAddress Data : Nat) : M Unit :=
  emit (Event.Out32 (u32 RegAddress) (u32 Data))

/-- The 64-bit-addressed word write `swea`, used as `AieWrite64`. -/
def AieWrite64 (addr val : Nat) : M Unit :=
  emit (Event.swea (u64 addr) (u32 val))

/-- The 64-bit-addressed word read `lwea`, used as `AieRead64`. -/
def AieRead64 (addr : Nat) : M Nat := fun h =>
  (u32 (env.lwea h (u64 addr)), [Event.lwea (u64 addr) (u32 (env.lwea h (u64 addr)))])

/-- Modelled from the spec: the macro `PmChkRegOut32` of the missing `xpm_common.h`.
Section 4.1: the register is read back and the operation fails with
`RegisterVerifyFailed` if the readback mismatches; otherwise the status is left as it was. -/
def PmChkRegOut32 (RegAddress Data : Nat) (Status : XStatus) : M XStatus := do
  let ReadBack ← XPm_In32 env RegAddress
  if u32 Data ≠ ReadBack then pure K.XPM_REG_WRITE_FAILED else pure Status

/-- Modelled from the spec: the macro `PmChkRegMask32` of the missing `xpm_common.h`.
Section 4.1: the register is read back and the masked bits are compared, failing with
`RegisterVerifyFailed` on mismatch; otherwise the status is left as it was. -/
def PmChkRegMask32 (RegAddress Mask Data : Nat) (Status : XStatus) : M XStatus := do
  let ReadBack ← XPm_In32 env RegAddress
  if (ReadBack &&& u32 Mask) ≠ (u32 Data &&& u32 Mask) then pure K.XPM_REG_WRITE_FAILED
  else pure Status

/-- Modelled from the spec: `XPm_RMW32` of the missing `xpm_common.c`, the 32-bit register
read-modify-write; it is the 32-bit sibling of `AieRMW64` below. -/
def XPm_RMW32 (RegAddress Mask Value : Nat) : M Unit := do
  let l_Val ← XPm_In32 env RegAddress
  PmOut32 RegAddress ((l_Val &&& not32 Mask) ||| (u32 Mask &&& u32 Value))

/-- Modelled from the spec: `XPm_PollForMask` of the missing `xpm_common.c`.  Section 4.2:
it repeatedly reads the status register until `(value & mask) == mask`, or the bounded
iteration counter is exhausted, in which case it fails with `Timeout`; it returns success
on the first iteration where the mask matches. -/
def XPm_PollForMask (RegAddress Mask : Nat) : (TimeOut : Nat) → M XStatus
  | 0 => pure K.XPM_PM_TIMEOUT
  | TimeOut + 1 => do
    let l_RegValue ← XPm_In32 env RegAddress
    if l_RegValue &&& u32 Mask = u32 Mask then pure K.XST_SUCCESS
    else XPm_PollForMask RegAddress Mask TimeOut

/-- Modelled from the spec: `XPmAieDomain_UnlockPcsr` of the missing `xpm_aie.h`; it
unlocks the protected register space of the domain. -/
def XPmAieDomain_UnlockPcsr (BaseAddress : Nat) : M Unit :=
  emit (Event.UnlockPcsr BaseAddress)

/-- Modelled from the spec: `XPmAieDomain_LockPcsr` of the missing `xpm_aie.h`; it
re-locks the protected register space of the domain. -/
def XPmAieDomain_LockPcsr (BaseAddress : Nat) : M Unit :=
  emit (Event.LockPcsr BaseAddress)

/-- The diagnostic sink `XPm_PrintDbgErr`. -/
def XPm_PrintDbgErr (Status : XStatus) (DbgErr : XPm_IntErr) : M Unit :=
  emit (Event.PrintDbgErr Status DbgErr)

/-- The external poll `XPlmi_UtilPollForMask64`. -/
def XPlmi_UtilPollForMask64 (HighAddr LowAddr Mask TimeOutInUs : Nat) : M XStatus := fun h =>
  (env.XPlmi_UtilPollForMask64 h HighAddr LowAddr Mask TimeOutInUs,
   [Event.PollForMask64 HighAddr LowAddr Mask TimeOutInUs
      (env.XPlmi_UtilPollForMask64 h HighAddr LowAddr Mask TimeOutInUs)])

/-- The external DMA transfer `XPlmi_DmaXfr`; the source pointer is given by the words it
points to. -/
def XPlmi_DmaXfr (Src : List Nat) (Dest Len Flags : Nat) : M XStatus := fun h =>
  (env.XPlmi_DmaXfr h Src Dest Len Flags,
   [Event.DmaXfr Src Dest Len Flags (env.XPlmi_DmaXfr h Src Dest Len Flags)])

/-- The external isolation control `XPmDomainIso_Control`. -/
def XPmDomainIso_Control (IsoIdx Enable : Nat) : M XStatus := fun h =>
  (env.XPmDomainIso_Control h IsoIdx Enable,
   [Event.IsoControl IsoIdx Enable (env.XPmDomainIso_Control h IsoIdx Enable)])

/-- The external repair pass `XPmBisr_Repair`. -/
def XPmBisr_Repair (TagId : Nat) : M XStatus := fun h =>
  (env.XPmBisr_Repair h TagId, [Event.BisrRepair TagId (env.XPmBisr_Repair h TagId)])

/-- The generic domain initialisation `XPmPowerDomain_Init`; it may rewrite the generic
part of the domain. -/
def XPmPowerDomain_Init (PowerDomain : XPm_PowerDomain) (Id BaseAddress Parent : Nat)
    (Ops : Option (Fin 2)) : M (XStatus × XPm_PowerDomain) := fun h =>
  (env.XPmPowerDomain_Init h PowerDomain Id BaseAddress Parent Ops,
   [Event.PowerDomainInit Id BaseAddress Parent Ops
      (env.XPmPowerDomain_Init h PowerDomain Id BaseAddress Parent Ops).1])

/-- The exit path `done:` of a function: report the diagnostic, return the status. -/
def gotoDone (Status : XStatus) (DbgErr : XPm_IntErr) : M XStatus := do
  XPm_PrintDbgErr Status DbgErr
  pure Status

/-- The exit path `fail:` of a step: lock the PCSR, then fall through to `done:`. -/
def gotoFail (BaseAddress : Nat) (Status : XStatus) (DbgErr : XPm_IntErr) : M XStatus := do
  XPmAieDomain_LockPcsr BaseAddress
  gotoDone Status DbgErr

/-- A counted loop `for (i = lo; i < hi; i++)`, by the number of remaining iterations. -/
def forLoop (body : Nat → M Unit) : (n : Nat) → (i : Nat) → M Unit
  | 0, _ => pure ()
  | n + 1, i => do
    body i
    forLoop body n (i + 1)

/-- The loop `for (i = lo; i < hi; i++) body(i)`. -/
def forRange (lo hi : Nat) (body : Nat → M Unit) : M Unit :=
  forLoop body (hi - lo) lo

/-- A counted loop whose body may leave the loops with a status (`some`); `none` means
that the iteration ran to its end. -/
def forLoopE (body : Nat → M (Option XStatus)) : (n : Nat) → (i : Nat) → M (Option XStatus)
  | 0, _ => pure none
  | n + 1, i => do
    let r ← body i
    match r with
    | some Status => pure (some Status)
    | none => forLoopE body n (i + 1)

/-- The loop `for (i = lo; i < hi; i++) body(i)` with a body that may leave it. -/
def forRangeE (lo hi : Nat) (body : Nat → M (Option XStatus)) : M (Option XStatus) :=
  forLoopE body (hi - lo) lo

end Primitives

/-! ## The functions of `xpm_aie.c` -/

section Source

set_option linter.unusedVariables false

variable (K : Consts) (env : Env)

/-- The poll budget `AIE_POLL_TIMEOUT`. -/
def AIE_POLL_TIMEOUT : Nat := 0x1000000

/-- The Generation-1 column shift `COL_SHIFT`. -/
def COL_SHIFT : Nat := 23

/-- The Generation-1 row shift `ROW_SHIFT`. -/
def ROW_SHIFT : Nat := 18

/-- The macro `AIE1_TILE_BADDR`: all three operands are cast to `u64`, the shifts and the
sums are 64-bit. -/
def AIE1_TILE_BADDR (NocAddr col row : Nat) : Nat :=
  u64 (u64 (u64 NocAddr + u64 (u64 col <<< COL_SHIFT)) + u64 (u64 row <<< ROW_SHIFT))

/-- The Generation-2 column shift `AIE2_COL_SHIFT`. -/
def AIE2_COL_SHIFT : Nat := 25

/-- The Generation-2 row shift `AIE2_ROW_SHIFT`. -/
def AIE2_ROW_SHIFT : Nat := 20

/-- The macro `AIE2_TILE_BADDR`. -/
def AIE2_TILE_BADDR (NocAddr col row : Nat) : Nat :=
  u64 (u64 (u64 NocAddr + u64 (u64 col <<< AIE2_COL_SHIFT)) + u64 (u64 row <<< AIE2_ROW_SHIFT))

/-- The mask `AIE_CORE_STATUS_DONE_MASK`, `1UL << 20U`. -/
def AIE_CORE_STATUS_DONE_MASK : Nat := 1 <<< 20

/-- Index of the Generation-1 table, `XPM_AIE_OPS`. -/
def XPM_AIE_OPS : Fin 2 := 0

/-- Index of the Generation-2 table, `XPM_AIE2_OPS`. -/
def XPM_AIE2_OPS : Fin 2 := 1

/-- The function `AieRMW64`. -/
def AieRMW64 (addr Mask Value : Nat) : M Unit := do
  let l_val ← AieRead64 env addr
  AieWrite64 addr ((l_val &&& not32 Mask) ||| (u32 Mask &&& u32 Value))

/-- The zeroization microcode `ProgramMem`. -/
def ProgramMem : List Nat :=
  [0x0600703f, 0x0a000804, 0x000018c0, 0x603803f7, 0x00000203, 0x400c9803, 0x13201803,
   0x31009803, 0x200003f7, 0x00000277, 0x800003f7, 0x00000257, 0x00000000, 0x39200000,
   0x0000003d, 0x00000000, 0x00000000, 0x00000000, 0x40000000, 0x00001888, 0x00000000,
   0x00000000, 0x00000000, 0x0000079a, 0x00000000, 0x00000000, 0x00000000, 0x00002614,
   0x00000000, 0x00000000, 0x07428800, 0x00000000, 0x00010001, 0x00010001, 0x00030001,
   0x00011000, 0x00010001, 0x00010001, 0x00010001, 0x00010001]

/-- The function `AiePcsrWrite`: set or clear bits in the AIE PCSR, with read-back checks. -/
def AiePcsrWrite (Mask Value : Nat) : M XStatus := do
  let AieDev ← XPmDevice_GetById env K.PM_DEV_AIE
  match AieDev with
  | none => gotoDone K.XST_FAILURE .XPM_INT_ERR_INVALID_DEVICE
  | some DevBase => do
    let BaseAddress := u32 DevBase
    PmOut32 (BaseAddress + K.NPI_PCSR_MASK_OFFSET) Mask
    let Status ← PmChkRegOut32 K env (BaseAddress + K.NPI_PCSR_MASK_OFFSET) Mask K.XST_FAILURE
    if K.XPM_REG_WRITE_FAILED = Status then
      gotoDone Status .XPM_INT_ERR_REG_WRT_NPI_PCSR_MASK
    else do
    PmOut32 (BaseAddress + K.NPI_PCSR_CONTROL_OFFSET) Value
    let Status ← PmChkRegMask32 K env (BaseAddress + K.NPI_PCSR_CONTROL_OFFSET) Mask Value Status
    if K.XPM_REG_WRITE_FAILED = Status then
      gotoDone Status .XPM_INT_ERR_REG_WRT_NPI_PCSR_CONTROL
    else
      gotoDone K.XST_SUCCESS .XPM_INT_ERR_UNDEFINED

/-- The function `AieWait` (`usleep`). -/
def AieWait (MicroSeconds : Nat) : M Unit :=
  emit (Event.usleep MicroSeconds)

/-- The function `AieCoreEnable`. -/
def AieCoreEnable (AieDomain : XPm_AieDomain) (Col Row : Nat) : M Unit := do
  let TileBaseAddress := AIE1_TILE_BADDR AieDomain.Array.NocAddress Col Row
  AieWrite64 (TileBaseAddress + K.AIE_CORE_CONTROL_OFFSET) 0
  AieWrite64 (TileBaseAddress + K.AIE_CORE_CONTROL_OFFSET) 1

/-- The function `AieWaitForCoreDone`. -/
def AieWaitForCoreDone (AieDomain : XPm_AieDomain) (Col Row : Nat) : M XStatus := do
  let TileBaseAddress := AIE1_TILE_BADDR AieDomain.Array.NocAddress Col Row
  let StatusRegAddr := u64 (TileBaseAddress + K.AIE_CORE_STATUS_OFFSET)
  let Status ← XPlmi_UtilPollForMask64 env (u32 (StatusRegAddr >>> 32)) (u32 StatusRegAddr)
    AIE_CORE_STATUS_DONE_MASK 10
  if Status ≠ K.XST_SUCCESS then
    gotoDone Status .XPM_INT_ERR_AIE_CORE_STATUS_TIMEOUT
  else
    gotoDone Status .XPM_INT_ERR_UNDEFINED

/-- The function `ProgramCore`. -/
def ProgramCore (AieDomain : XPm_AieDomain) (Col Row : Nat) (PrgData : List Nat)
    (NumOfWords : Nat) : M XStatus :=
  let TileBaseAddress := AIE1_TILE_BADDR AieDomain.Array.NocAddress Col Row
  let PrgAddr := u64 (TileBaseAddress + K.AIE_PROGRAM_MEM_OFFSET)
  XPlmi_DmaXfr env PrgData PrgAddr NumOfWords K.XPLMI_PMCDMA_0

/-- The function `ArrayReset`: cycle reset to the entire AIE array. -/
def ArrayReset : M XStatus := do
  let Status ← AiePcsrWrite K env K.ME_NPI_REG_PCSR_MASK_ME_ARRAY_RESET_MASK
    K.ME_NPI_REG_PCSR_MASK_ME_ARRAY_RESET_MASK
  if K.XST_SUCCESS ≠ Status then
    gotoDone Status .XPM_INT_ERR_ARRAY_RESET
  else do
  AieWait 1
  let Status ← AiePcsrWrite K env K.ME_NPI_REG_PCSR_MASK_ME_ARRAY_RESET_MASK 0
  let DbgErr := if K.XST_SUCCESS ≠ Status then XPm_IntErr.XPM_INT_ERR_ARRAY_RESET_RELEASE
    else XPm_IntErr.XPM_INT_ERR_UNDEFINED
  AieWait 1
  gotoDone Status DbgErr

/-- The function `TriggerEccScrub`. -/
def TriggerEccScrub (AieDomain : XPm_AieDomain) (Action : Nat) : M Unit :=
  let StartCol := u16 AieDomain.Array.StartCol
  let EndCol := u16 (StartCol + u16 AieDomain.Array.NumCols)
  let StartRow := u16 AieDomain.Array.StartRow
  let EndRow := u16 (StartRow + u16 AieDomain.Array.NumRows)
  forRange StartCol EndCol fun col =>
    forRange StartRow EndRow fun row =>
      let TileBaseAddress := AIE1_TILE_BADDR AieDomain.Array.NocAddress col row
      AieWrite64 (TileBaseAddress + K.AIE_CORE_ECC_SCRUB_EVENT_OFFSET) Action

/-- The function `AieClkGateByCol`: clock gate the tiles column-wise. -/
def AieClkGateByCol (AieDomain : XPm_AieDomain) : M Unit :=
  let StartCol := u16 AieDomain.Array.StartCol
  let EndCol := u16 (StartCol + u16 AieDomain.Array.NumCols)
  let StartRow := 0
  let EndRow := u16 AieDomain.Array.NumShimRows
  forRange StartRow EndRow fun row =>
    forRange StartCol EndCol fun col =>
      let TileBaseAddress := AIE1_TILE_BADDR AieDomain.Array.NocAddress col row
      AieRMW64 env (TileBaseAddress + K.AIE_TILE_CLOCK_CONTROL_OFFSET)
        K.AIE_TILE_CLOCK_CONTROL_CLK_BUFF_EN_MASK
        (not32 K.AIE_TILE_CLOCK_CONTROL_CLK_BUFF_EN_MASK)

/-- The function `AieCoreMemInit`. -/
def AieCoreMemInit (AieDomain : XPm_AieDomain) : M XStatus := do
  let StartCol := u16 AieDomain.Array.StartCol
  let EndCol := u16 (StartCol + u16 AieDomain.Array.NumCols)
  let StartRow := u16 AieDomain.Array.StartRow
  let EndRow := u16 (StartRow + u16 AieDomain.Array.NumRows)
  let r ← forRangeE StartCol EndCol fun col =>
    forRangeE StartRow EndRow fun row => do
      let Status ← ProgramCore K env AieDomain col row ProgramMem ProgramMem.length
      if K.XST_SUCCESS ≠ Status then pure (some Status) else do
      AieCoreEnable K AieDomain col row
      pure none
  match r with
  | some Status => gotoDone Status .XPM_INT_ERR_PRGRM_CORE
  | none => do
    let Status ← AieWaitForCoreDone K env AieDomain (u32 (EndCol + 2 ^ 32 - 1))
      (u32 (EndRow + 2 ^ 32 - 1))
    if K.XST_SUCCESS ≠ Status then
      gotoDone Status .XPM_INT_ERR_AIE_CORE_STATUS_TIMEOUT
    else
      gotoDone Status .XPM_INT_ERR_UNDEFINED

/-- The function `Aie2ClockInit`. -/
def Aie2ClockInit (AieDomain : XPm_AieDomain) (BaseAddress : Nat) : M Unit := do
  let StartCol := u16 AieDomain.Array.StartCol
  let EndCol := u16 (StartCol + u16 AieDomain.Array.NumCols)
  XPm_RMW32 env (BaseAddress + K.AIE2_NPI_ME_PROT_REG_CTRL_OFFSET)
    K.ME_PROT_REG_CTRL_PROTECTED_REG_EN_MASK K.ME_PROT_REG_CTRL_PROTECTED_REG_EN_MASK
  forRange StartCol EndCol fun col =>
    AieWrite64 (AIE2_TILE_BADDR AieDomain.Array.NocAddress col 0 +
      K.AIE2_PL_MODULE_COLUMN_CLK_CTRL_OFFSET) 1
  XPm_RMW32 env (BaseAddress + K.AIE2_NPI_ME_PROT_REG_CTRL_OFFSET)
    K.ME_PROT_REG_CTRL_PROTECTED_REG_EN_MASK 0

/-- The function `Aie2ClockGate`. -/
def Aie2ClockGate (AieDomain : XPm_AieDomain) (BaseAddress : Nat) : M Unit := do
  let StartCol := u16 AieDomain.Array.StartCol
  let EndCol := u16 (StartCol + u16 AieDomain.Array.NumCols)
  XPm_RMW32 env (BaseAddress + K.AIE2_NPI_ME_PROT_REG_CTRL_OFFSET)
    K.ME_PROT_REG_CTRL_PROTECTED_REG_EN_MASK K.ME_PROT_REG_CTRL_PROTECTED_REG_EN_MASK
  forRange StartCol EndCol fun col =>
    AieWrite64 (AIE2_TILE_BADDR AieDomain.Array.NocAddress col 0 +
      K.AIE2_PL_MODULE_COLUMN_CLK_CTRL_OFFSET) 0
  XPm_RMW32 env (BaseAddress + K.AIE2_NPI_ME_PROT_REG_CTRL_OFFSET)
    K.ME_PROT_REG_CTRL_PROTECTED_REG_EN_MASK 0

/-- The NoC address override of the two `InitStart` functions:
`Array.NocAddress = ((u64)Args[1] << 32U) | (Args[0])` when `2U <= NumOfArgs`. -/
def setNocAddress (AieDomain : XPm_AieDomain) (Args : Nat → Nat) (NumOfArgs : Nat) :
    XPm_AieDomain :=
  if 2 ≤ NumOfArgs then
    { AieDomain with
      Array := { AieDomain.Array with
        NocAddress := u64 (u64 (u32 (Args 1)) <<< 32) ||| u32 (Args 0) } }
  else AieDomain

/-- The houseclean-mask merge of the two `InitStart` functions:
`PwrDomain->HcDisableMask |= DisableMask`. -/
def setHcDisableMask (AieDomain : XPm_AieDomain) (DisableMask : Nat) : XPm_AieDomain :=
  { AieDomain with Domain := { HcDisableMask := AieDomain.Domain.HcDisableMask ||| DisableMask } }

/-- Return a status together with the domain as the function leaves it. -/
def withDomain (AieDomain : XPm_AieDomain) (m : M XStatus) : M (XStatus × XPm_AieDomain) := do
  let Status ← m
  pure (Status, AieDomain)

/-- The step `AieInitStart` (Generation 1). -/
def AieInitStart (PwrDomain : XPm_AieDomain) (Args : Nat → Nat) (NumOfArgs : Nat) :
    M (XStatus × XPm_AieDomain) := do
  let AieDev ← XPmDevice_GetById env K.PM_DEV_AIE
  match AieDev with
  | none => withDomain PwrDomain (gotoDone K.XST_FAILURE .XPM_INT_ERR_INVALID_DEVICE)
  | some DevBase => do
    let BaseAddress := u32 DevBase
    let AieDomain := setNocAddress PwrDomain Args NumOfArgs
    let PcsrStatus ← XPm_In32 env (BaseAddress + K.NPI_PCSR_STATUS_OFFSET)
    if (PcsrStatus &&& K.ME_NPI_REG_PCSR_STATUS_ME_PWR_SUPPLY_MASK) ≠
        K.ME_NPI_REG_PCSR_STATUS_ME_PWR_SUPPLY_MASK then
      withDomain AieDomain (gotoDone K.XST_FAILURE .XPM_INT_ERR_POWER_SUPPLY)
    else do
    XPmAieDomain_UnlockPcsr BaseAddress
    let Status ← AiePcsrWrite K env K.ME_NPI_REG_PCSR_MASK_ME_IPOR_MASK 0
    if K.XST_SUCCESS ≠ Status then
      withDomain AieDomain (gotoFail BaseAddress Status .XPM_INT_ERR_RST_RELEASE)
    else do
    PmOut32 (BaseAddress + K.ME_NPI_ME_TOP_ROW_OFFSET) AieDomain.Array.NumRows
    let HcReg ← XPm_In32 env K.PM_HOUSECLEAN_DISABLE_REG_2
    let DisableMask := HcReg >>> K.HOUSECLEAN_AIE_SHIFT
    withDomain (setHcDisableMask AieDomain DisableMask)
      (gotoDone Status .XPM_INT_ERR_UNDEFINED)

/-- The step `Aie2InitStart` (Generation 2). -/
def Aie2InitStart (PwrDomain : XPm_AieDomain) (Args : Nat → Nat) (NumOfArgs : Nat) :
    M (XStatus × XPm_AieDomain) := do
  let Aie2Dev ← XPmDevice_GetById env K.PM_DEV_AIE
  match Aie2Dev with
  | none => withDomain PwrDomain (gotoDone K.XST_FAILURE .XPM_INT_ERR_INVALID_DEVICE)
  | some DevBase => do
    let BaseAddress := u32 DevBase
    let AieDomain := setNocAddress PwrDomain Args NumOfArgs
    let PcsrStatus ← XPm_In32 env (BaseAddress + K.NPI_PCSR_STATUS_OFFSET)
    if (PcsrStatus &&& K.ME_NPI_REG_PCSR_STATUS_ME_PWR_SUPPLY_MASK) ≠
        K.ME_NPI_REG_PCSR_STATUS_ME_PWR_SUPPLY_MASK then
      withDomain AieDomain (gotoDone K.XST_FAILURE .XPM_INT_ERR_POWER_SUPPLY)
    else do
    XPmAieDomain_UnlockPcsr BaseAddress
    let Status ← AiePcsrWrite K env K.ME_NPI_REG_PCSR_MASK_ME_IPOR_MASK 0
    if K.XST_SUCCESS ≠ Status then
      withDomain AieDomain (gotoFail BaseAddress Status .XPM_INT_ERR_RST_RELEASE)
    else do
    PmOut32 (BaseAddress + K.ME_NPI_ME_TOP_ROW_OFFSET) AieDomain.Array.NumRows
    let Status ← AiePcsrWrite K env K.ME_NPI_REG_PCSR_MASK_INITSTATE_MASK 0
    if K.XST_SUCCESS ≠ Status then
      withDomain AieDomain (gotoFail BaseAddress Status .XPM_INT_ERR_AIE_INITSTATE_RELEASE)
    else do
    let Status ← AiePcsrWrite K env K.ME_NPI_REG_PCSR_MASK_ME_ARRAY_RESET_MASK 0
    if K.XST_SUCCESS ≠ Status then
      withDomain AieDomain (gotoFail BaseAddress Status .XPM_INT_ERR_ARRAY_RESET_RELEASE)
    else do
    let HcReg ← XPm_In32 env K.PM_HOUSECLEAN_DISABLE_REG_2
    let DisableMask := HcReg >>> K.HOUSECLEAN_AIE_SHIFT
    withDomain (setHcDisableMask AieDomain DisableMask)
      (gotoDone Status .XPM_INT_ERR_UNDEFINED)

/-- The exit of the two `InitFinish` functions, label `done:`: the PCSR is locked when
`BaseAddress` is not zero, then the diagnostic is reported. -/
def finishDone (BaseAddress : Nat) (Status : XStatus) (DbgErr : XPm_IntErr) : M XStatus := do
  if 0 ≠ BaseAddress then
    XPmAieDomain_LockPcsr BaseAddress
  else
    pure ()
  gotoDone Status DbgErr

/-- The step `AieInitFinish` (Generation 1). -/
def AieInitFinish (PwrDomain : XPm_AieDomain) (Args : Nat → Nat) (NumOfArgs : Nat) :
    M XStatus := do
  let AieDev ← XPmDevice_GetById env K.PM_DEV_AIE
  match AieDev with
  | none => finishDone 0 K.XST_FAILURE .XPM_INT_ERR_INVALID_DEVICE
  | some DevBase => do
    let BaseAddress := u32 DevBase
    let Status ← AiePcsrWrite K env K.ME_NPI_REG_PCSR_MASK_PCOMPLETE_MASK
      K.ME_NPI_REG_PCSR_MASK_PCOMPLETE_MASK
    if K.XST_SUCCESS ≠ Status then
      finishDone BaseAddress Status .XPM_INT_ERR_AIE_PCOMPLETE
    else do
    AieClkGateByCol K env PwrDomain
    finishDone BaseAddress Status .XPM_INT_ERR_UNDEFINED

/-- The step `Aie2InitFinish` (Generation 2). -/
def Aie2InitFinish (PwrDomain : XPm_AieDomain) (Args : Nat → Nat) (NumOfArgs : Nat) :
    M XStatus := do
  let AieDev ← XPmDevice_GetById env K.PM_DEV_AIE
  match AieDev with
  | none => finishDone 0 K.XST_FAILURE .XPM_INT_ERR_INVALID_DEVICE
  | some DevBase => do
    let BaseAddress := u32 DevBase
    Aie2ClockGate K env PwrDomain BaseAddress
    let Status ← AiePcsrWrite K env K.ME_NPI_REG_PCSR_MASK_PCOMPLETE_MASK
      K.ME_NPI_REG_PCSR_MASK_PCOMPLETE_MASK
    if K.XST_SUCCESS ≠ Status then
      finishDone BaseAddress Status .XPM_INT_ERR_AIE_PCOMPLETE
    else
      finishDone BaseAddress Status .XPM_INT_ERR_UNDEFINED

/-- The hook `AiePostScanClearHook` (Generation 1): de-assert INIT_STATE. -/
def AiePostScanClearHook (AieDomain : XPm_AieDomain) (BaseAddress : Nat) : M XStatus :=
  AiePcsrWrite K env K.ME_NPI_REG_PCSR_MASK_INITSTATE_MASK 0

/-- The call through the pointer `Hooks.PostScanClearHook`. -/
def invokePostScanClearHook (AieDomain : XPm_AieDomain) (BaseAddress : Nat) :
    PostScanClearHookFn → M XStatus
  | .AiePostScanClearHook => AiePostScanClearHook K env AieDomain BaseAddress

/-- The step `AieScanClear` (both generations).  `rest` is the code that follows the
scan-clear block, reached from both of its branches. -/
def AieScanClear (PwrDomain : XPm_AieDomain) (Args : Nat → Nat) (NumOfArgs : Nat) :
    M XStatus := do
  let AieDev ← XPmDevice_GetById env K.PM_DEV_AIE
  match AieDev with
  | none => gotoDone K.XST_FAILURE .XPM_INT_ERR_INVALID_DEVICE
  | some DevBase => do
    let BaseAddress := u32 DevBase
    let rest : M XStatus := do
      let Status ← AiePcsrWrite K env K.ME_NPI_REG_PCSR_MASK_ODISABLE_0_MASK 0
      if K.XST_SUCCESS ≠ Status then
        gotoFail BaseAddress Status .XPM_INT_ERR_ODISABLE_0_RELEASE
      else do
      let Status ← AiePcsrWrite K env K.ME_NPI_REG_PCSR_MASK_GATEREG_MASK 0
      if K.XST_SUCCESS ≠ Status then
        gotoFail BaseAddress Status .XPM_INT_ERR_GATEREG_UNSET
      else
        match PwrDomain.Hooks.PostScanClearHook with
        | some Hook => do
          let Status ← invokePostScanClearHook K env PwrDomain BaseAddress Hook
          if K.XST_SUCCESS ≠ Status then
            gotoFail BaseAddress Status .XPM_INT_ERR_AIE_POST_SCAN_CLEAR_HOOK
          else
            gotoDone Status .XPM_INT_ERR_UNDEFINED
        | none => gotoDone Status .XPM_INT_ERR_UNDEFINED
    let Status ← AiePcsrWrite K env K.ME_NPI_REG_PCSR_MASK_ODISABLE_1_MASK 0
    if K.XST_SUCCESS ≠ Status then
      gotoFail BaseAddress Status .XPM_INT_ERR_ODISABLE_1_RELEASE
    else
    if K.HOUSECLEAN_DISABLE_SCAN_CLEAR_MASK ≠
        (PwrDomain.Domain.HcDisableMask &&& K.HOUSECLEAN_DISABLE_SCAN_CLEAR_MASK) then do
      let Status ← AiePcsrWrite K env K.ME_NPI_REG_PCSR_MASK_SCAN_CLEAR_TRIGGER_MASK
        K.ME_NPI_REG_PCSR_MASK_SCAN_CLEAR_TRIGGER_MASK
      if K.XST_SUCCESS ≠ Status then
        gotoFail BaseAddress Status .XPM_INT_ERR_SCAN_CLEAR_TRIGGER
      else do
      let Status ← XPm_PollForMask K env (BaseAddress + K.NPI_PCSR_STATUS_OFFSET)
        K.ME_NPI_REG_PCSR_STATUS_SCAN_CLEAR_DONE_MASK AIE_POLL_TIMEOUT
      if K.XST_SUCCESS ≠ Status then
        gotoFail BaseAddress Status .XPM_INT_ERR_SCAN_CLEAR_TIMEOUT
      else do
      let PcsrStatus ← XPm_In32 env (BaseAddress + K.NPI_PCSR_STATUS_OFFSET)
      if (PcsrStatus &&& K.ME_NPI_REG_PCSR_STATUS_SCAN_CLEAR_PASS_MASK) ≠
          K.ME_NPI_REG_PCSR_STATUS_SCAN_CLEAR_PASS_MASK then
        gotoFail BaseAddress K.XST_FAILURE .XPM_INT_ERR_SCAN_CLEAR_PASS
      else do
      let Status ← AiePcsrWrite K env K.ME_NPI_REG_PCSR_MASK_SCAN_CLEAR_TRIGGER_MASK 0
      if K.XST_SUCCESS ≠ Status then
        gotoFail BaseAddress Status .XPM_INT_ERR_SCAN_CLEAR_TRIGGER_UNSET
      else
        rest
    else
      rest

/-- The hook `AiePreBisrHook` (Generation 1). -/
def AiePreBisrHook (AieDomain : XPm_AieDomain) (BaseAddress : Nat) : M XStatus := do
  PmOut32 (BaseAddress + K.ME_NPI_ME_SMID_REG) 0x1F
  PmOut32 (BaseAddress + K.ME_NPI_ME_SECURE_REG) 0
  AiePcsrWrite K env K.ME_NPI_REG_PCSR_MASK_ME_ARRAY_RESET_MASK 0

/-- The hook `Aie2PreBisrHook` (Generation 2). -/
def Aie2PreBisrHook (AieDomain : XPm_AieDomain) (BaseAddress : Nat) : M XStatus := do
  let Status ← AiePcsrWrite K env K.ME_NPI_REG_PCSR_MASK_ME_SHIM_RESET_MASK
    K.ME_NPI_REG_PCSR_MASK_ME_SHIM_RESET_MASK
  if K.XST_SUCCESS ≠ Status then pure Status else do
  PmOut32 (BaseAddress + K.ME_NPI_ME_SMID_REG) 0x1F
  PmOut32 (BaseAddress + K.ME_NPI_ME_SECURE_REG) 0
  pure Status

/-- The call through the pointer `Hooks.PreBisrHook`. -/
def invokePreBisrHook (AieDomain : XPm_AieDomain) (BaseAddress : Nat) :
    PreBisrHookFn → M XStatus
  | .AiePreBisrHook => AiePreBisrHook K env AieDomain BaseAddress
  | .Aie2PreBisrHook => Aie2PreBisrHook K env AieDomain BaseAddress

/-- The three repair passes shared by `AieBisr` and `Aie2Bisr`, from the test of the
BISR bit of the disable mask to the jump to `done:` or `fail:`; `Status` is the status
on entry (that of the isolation control). -/
def bisrRepairs (PwrDomain : XPm_AieDomain) (BaseAddress : Nat) (Status : XStatus) :
    M XStatus := do
  if K.HOUSECLEAN_DISABLE_BISR_MASK ≠
      (PwrDomain.Domain.HcDisableMask &&& K.HOUSECLEAN_DISABLE_BISR_MASK) then do
    let Status ← XPmBisr_Repair env K.MEA_TAG_ID
    if K.XST_SUCCESS ≠ Status then
      gotoFail BaseAddress Status .XPM_INT_ERR_MEA_BISR_REPAIR
    else do
    let Status ← XPmBisr_Repair env K.MEB_TAG_ID
    if K.XST_SUCCESS ≠ Status then
      gotoFail BaseAddress Status .XPM_INT_ERR_MEB_BISR_REPAIR
    else do
    let Status ← XPmBisr_Repair env K.MEC_TAG_ID
    if K.XST_SUCCESS ≠ Status then
      gotoFail BaseAddress Status .XPM_INT_ERR_MEC_BISR_REPAIR
    else
      gotoDone Status .XPM_INT_ERR_UNDEFINED
  else
    gotoDone Status .XPM_INT_ERR_UNDEFINED

/-- The step `AieBisr` (Generation 1).  `rest` is the code that follows the call of the
pre-BISR hook, reached whether or not a hook is installed. -/
def AieBisr (PwrDomain : XPm_AieDomain) (Args : Nat → Nat) (NumOfArgs : Nat) : M XStatus := do
  let AieDev ← XPmDevice_GetById env K.PM_DEV_AIE
  match AieDev with
  | none => gotoDone K.XST_FAILURE .XPM_INT_ERR_INVALID_DEVICE
  | some DevBase => do
    let BaseAddress := u32 DevBase
    let rest : M XStatus := do
      let Status ← XPmDomainIso_Control env K.XPM_NODEIDX_ISO_PMC_SOC K.FALSE_VALUE
      if K.XST_SUCCESS ≠ Status then
        gotoFail BaseAddress Status .XPM_INT_ERR_PMC_SOC_ISO
      else
        bisrRepairs K env PwrDomain BaseAddress Status
    match PwrDomain.Hooks.PreBisrHook with
    | some Hook => do
      let Status ← invokePreBisrHook K env PwrDomain BaseAddress Hook
      if K.XST_SUCCESS ≠ Status then
        gotoFail BaseAddress Status .XPM_INT_ERR_AIE_PRE_BISR_HOOK
      else
        rest
    | none => rest

/-- The step `Aie2Bisr` (Generation 2).  `rest` is the code that follows the call of the
pre-BISR hook, reached whether or not a hook is installed. -/
def Aie2Bisr (PwrDomain : XPm_AieDomain) (Args : Nat → Nat) (NumOfArgs : Nat) : M XStatus := do
  let AieDev ← XPmDevice_GetById env K.PM_DEV_AIE
  match AieDev with
  | none => gotoDone K.XST_FAILURE .XPM_INT_ERR_INVALID_DEVICE
  | some DevBase => do
    let BaseAddress := u32 DevBase
    let rest : M XStatus := do
      Aie2ClockInit K env PwrDomain BaseAddress
      let Status ← XPmDomainIso_Control env K.XPM_NODEIDX_ISO_PMC_SOC K.FALSE_VALUE
      if K.XST_SUCCESS ≠ Status then
        gotoFail BaseAddress Status .XPM_INT_ERR_PMC_SOC_ISO
      else
        bisrRepairs K env PwrDomain BaseAddress Status
    match PwrDomain.Hooks.PreBisrHook with
    | some Hook => do
      let Status ← invokePreBisrHook K env PwrDomain BaseAddress Hook
      if K.XST_SUCCESS ≠ Status then
        gotoFail BaseAddress Status .XPM_INT_ERR_AIE_PRE_BISR_HOOK
      else
        rest
    | none => rest

/-- The function `TriggerMemClear`; the second component is `*DbgErr` on return. -/
def TriggerMemClear (DbgErr : XPm_IntErr) : M (XStatus × XPm_IntErr) := do
  let Status ← AiePcsrWrite K env K.ME_NPI_REG_PCSR_MASK_MEM_CLEAR_EN_ALL_MASK 0
  if K.XST_SUCCESS ≠ Status then pure (Status, .XPM_INT_ERR_MEM_CLEAR_EN) else do
  let Status ← AiePcsrWrite K env K.ME_NPI_REG_PCSR_MASK_OD_MBIST_ASYNC_RESET_N_MASK
    K.ME_NPI_REG_PCSR_MASK_OD_MBIST_ASYNC_RESET_N_MASK
  if K.XST_SUCCESS ≠ Status then pure (Status, .XPM_INT_ERR_MBIST_RESET) else do
  let Status ← AiePcsrWrite K env K.ME_NPI_REG_PCSR_MASK_OD_BIST_SETUP_1_MASK
    K.ME_NPI_REG_PCSR_MASK_OD_BIST_SETUP_1_MASK
  if K.XST_SUCCESS ≠ Status then pure (Status, .XPM_INT_ERR_BIST_RESET) else do
  let Status ← AiePcsrWrite K env K.ME_NPI_REG_PCSR_MASK_MEM_CLEAR_TRIGGER_MASK
    K.ME_NPI_REG_PCSR_MASK_MEM_CLEAR_TRIGGER_MASK
  if K.XST_SUCCESS ≠ Status then pure (Status, .XPM_INT_ERR_MEM_CLEAR_TRIGGER)
  else pure (Status, DbgErr)

/-- The function `IsMemClearDone`; the second component is `*DbgErr` on return. -/
def IsMemClearDone (BaseAddress : Nat) (DbgErr : XPm_IntErr) : M (XStatus × XPm_IntErr) := do
  let Status ← XPm_PollForMask K env (BaseAddress + K.NPI_PCSR_STATUS_OFFSET)
    K.ME_NPI_REG_PCSR_STATUS_MEM_CLEAR_DONE_MASK AIE_POLL_TIMEOUT
  if Status ≠ K.XST_SUCCESS then pure (Status, .XPM_INT_ERR_MEM_CLEAR_DONE_TIMEOUT) else do
  let PcsrStatus ← XPm_In32 env (BaseAddress + K.NPI_PCSR_STATUS_OFFSET)
  if (PcsrStatus &&& K.ME_NPI_REG_PCSR_STATUS_MEM_CLEAR_PASS_MASK) ≠
      K.ME_NPI_REG_PCSR_STATUS_MEM_CLEAR_PASS_MASK then
    pure (K.XST_FAILURE, .XPM_INT_ERR_MEM_CLEAR_PASS)
  else pure (Status, DbgErr)

/-- The function `CleanupMemClear`; the second component is `*DbgErr` on return. -/
def CleanupMemClear (DbgErr : XPm_IntErr) : M (XStatus × XPm_IntErr) := do
  let Status ← AiePcsrWrite K env K.ME_NPI_REG_PCSR_MASK_OD_MBIST_ASYNC_RESET_N_MASK 0
  if K.XST_SUCCESS ≠ Status then pure (Status, .XPM_INT_ERR_MBIST_RESET_RELEASE) else do
  let Status ← AiePcsrWrite K env K.ME_NPI_REG_PCSR_MASK_OD_BIST_SETUP_1_MASK 0
  if K.XST_SUCCESS ≠ Status then pure (Status, .XPM_INT_ERR_BIST_RESET_RELEASE) else do
  let Status ← AiePcsrWrite K env K.ME_NPI_REG_PCSR_MASK_MEM_CLEAR_TRIGGER_MASK 0
  if K.XST_SUCCESS ≠ Status then pure (Status, .XPM_INT_ERR_MEM_CLEAR_TRIGGER_UNSET)
  else pure (Status, DbgErr)

/-- The step `AieMbistClear` (Generation 1). -/
def AieMbistClear (PwrDomain : XPm_AieDomain) (Args : Nat → Nat) (NumOfArgs : Nat) :
    M XStatus := do
  let AieDev ← XPmDevice_GetById env K.PM_DEV_AIE
  match AieDev with
  | none => gotoDone K.XST_FAILURE .XPM_INT_ERR_INVALID_DEVICE
  | some DevBase => do
    let BaseAddress := u32 DevBase
    if K.HOUSECLEAN_DISABLE_MBIST_CLEAR_MASK ≠
        (PwrDomain.Domain.HcDisableMask &&& K.HOUSECLEAN_DISABLE_MBIST_CLEAR_MASK) then do
      let r ← TriggerMemClear K env .XPM_INT_ERR_UNDEFINED
      if K.XST_SUCCESS ≠ r.1 then gotoFail BaseAddress r.1 r.2 else do
      let r ← IsMemClearDone K env BaseAddress r.2
      if K.XST_SUCCESS ≠ r.1 then gotoFail BaseAddress r.1 r.2 else do
      let r ← CleanupMemClear K env r.2
      if K.XST_SUCCESS ≠ r.1 then gotoFail BaseAddress r.1 r.2 else
      gotoDone r.1 r.2
    else
      gotoDone K.XST_SUCCESS .XPM_INT_ERR_UNDEFINED

/-- The step `Aie2MbistClear` (Generation 2). -/
def Aie2MbistClear (PwrDomain : XPm_AieDomain) (Args : Nat → Nat) (NumOfArgs : Nat) :
    M XStatus := do
  let AieDev ← XPmDevice_GetById env K.PM_DEV_AIE
  match AieDev with
  | none => gotoDone K.XST_FAILURE .XPM_INT_ERR_INVALID_DEVICE
  | some DevBase => do
    let BaseAddress := u32 DevBase
    if K.HOUSECLEAN_DISABLE_MBIST_CLEAR_MASK ≠
        (PwrDomain.Domain.HcDisableMask &&& K.HOUSECLEAN_DISABLE_MBIST_CLEAR_MASK) then do
      let Status ← AiePcsrWrite K env K.ME_NPI_REG_PCSR_MASK_MEM_CLEAR_EN_ALL_MASK
        K.ME_NPI_REG_PCSR_MASK_MEM_CLEAR_EN_ALL_MASK
      if K.XST_SUCCESS ≠ Status then
        gotoFail BaseAddress Status .XPM_INT_ERR_MEM_CLEAR_EN
      else do
      let Status ← AiePcsrWrite K env K.ME_NPI_REG_PCSR_MASK_OD_MBIST_ASYNC_RESET_N_MASK
        K.ME_NPI_REG_PCSR_MASK_OD_MBIST_ASYNC_RESET_N_MASK
      if K.XST_SUCCESS ≠ Status then
        gotoFail BaseAddress Status .XPM_INT_ERR_MBIST_RESET
      else do
      let Status ← AiePcsrWrite K env K.ME_NPI_REG_PCSR_MASK_OD_BIST_SETUP_1_MASK
        K.ME_NPI_REG_PCSR_MASK_OD_BIST_SETUP_1_MASK
      if K.XST_SUCCESS ≠ Status then
        gotoFail BaseAddress Status .XPM_INT_ERR_BIST_RESET
      else do
      let Status ← AiePcsrWrite K env K.ME_NPI_REG_PCSR_MASK_MEM_CLEAR_TRIGGER_MASK
        K.ME_NPI_REG_PCSR_MASK_MEM_CLEAR_TRIGGER_MASK
      if K.XST_SUCCESS ≠ Status then
        gotoFail BaseAddress Status .XPM_INT_ERR_MEM_CLEAR_TRIGGER
      else do
      let Status ← XPm_PollForMask K env (BaseAddress + K.NPI_PCSR_STATUS_OFFSET)
        K.ME_NPI_REG_PCSR_STATUS_MEM_CLEAR_DONE_MASK AIE_POLL_TIMEOUT
      if Status ≠ K.XST_SUCCESS then
        gotoFail BaseAddress Status .XPM_INT_ERR_MEM_CLEAR_DONE_TIMEOUT
      else do
      let PcsrStatus ← XPm_In32 env (BaseAddress + K.NPI_PCSR_STATUS_OFFSET)
      if (PcsrStatus &&& K.ME_NPI_REG_PCSR_STATUS_MEM_CLEAR_PASS_MASK) ≠
          K.ME_NPI_REG_PCSR_STATUS_MEM_CLEAR_PASS_MASK then
        gotoFail BaseAddress K.XST_FAILURE .XPM_INT_ERR_MEM_CLEAR_PASS
      else do
      let Status ← AiePcsrWrite K env K.ME_NPI_REG_PCSR_MASK_OD_MBIST_ASYNC_RESET_N_MASK 0
      if K.XST_SUCCESS ≠ Status then
        gotoFail BaseAddress Status .XPM_INT_ERR_MBIST_RESET_RELEASE
      else do
      let Status ← AiePcsrWrite K env K.ME_NPI_REG_PCSR_MASK_OD_BIST_SETUP_1_MASK 0
      if K.XST_SUCCESS ≠ Status then
        gotoFail BaseAddress Status .XPM_INT_ERR_BIST_RESET_RELEASE
      else do
      let Status ← AiePcsrWrite K env K.ME_NPI_REG_PCSR_MASK_MEM_CLEAR_TRIGGER_MASK 0
      if K.XST_SUCCESS ≠ Status then
        gotoFail BaseAddress Status .XPM_INT_ERR_MEM_CLEAR_TRIGGER_UNSET
      else
        gotoDone Status .XPM_INT_ERR_UNDEFINED
    else
      gotoDone K.XST_SUCCESS .XPM_INT_ERR_UNDEFINED

/-- The step `AieMemInit` (Generation 1). -/
def AieMemInit (PwrDomain : XPm_AieDomain) (Args : Nat → Nat) (NumOfArgs : Nat) :
    M XStatus := do
  let AieDev ← XPmDevice_GetById env K.PM_DEV_AIE
  match AieDev with
  | none => gotoDone K.XST_FAILURE .XPM_INT_ERR_INVALID_DEVICE
  | some DevBase => do
    let BaseAddress := u32 DevBase
    TriggerEccScrub K PwrDomain K.ECC_SCRUB_ENABLE
    AieWait 1000
    TriggerEccScrub K PwrDomain K.ECC_SCRUB_DISABLE
    let Status ← ArrayReset K env
    let Status ← AieCoreMemInit K env PwrDomain
    let Status ← ArrayReset K env
    if K.XST_SUCCESS ≠ Status then do
      XPmAieDomain_LockPcsr BaseAddress
      gotoDone Status .XPM_INT_ERR_UNDEFINED
    else
      gotoDone Status .XPM_INT_ERR_UNDEFINED

/-- The zeroization poll of `Aie2MemInit`, the `while` loop, from its test to the label
`done:`.  `fuel` bounds the number of iterations of the model; `none` is returned when
it runs out. -/
def Aie2MemInit_poll (Array : XPm_AieArray) (BaseAddress col row mrow : Nat) :
    (fuel : Nat) → (MemTileZeroStatus CoreZeroStatus MemZeroStatus : XStatus) →
    (AieZeroizationTime : Nat) → M (Option XStatus)
  | 0, _, _, _, _ => pure none
  | fuel + 1, MemTileZeroStatus, CoreZeroStatus, MemZeroStatus, AieZeroizationTime =>
    if K.XST_SUCCESS ≠ MemTileZeroStatus ∨ K.XST_SUCCESS ≠ CoreZeroStatus ∨
        K.XST_SUCCESS ≠ MemZeroStatus then do
      let MemTileCtrl ← AieRead64 env (AIE2_TILE_BADDR Array.NocAddress col mrow +
        K.AIE2_MEM_TILE_MODULE_MEM_CTRL_OFFSET)
      let MemTileZeroStatus := if 0 = MemTileCtrl then K.XST_SUCCESS else MemTileZeroStatus
      let CoreCtrl ← AieRead64 env (AIE2_TILE_BADDR Array.NocAddress col row +
        K.AIE2_CORE_MODULE_MEM_CTRL_OFFSET)
      let CoreZeroStatus := if 0 = CoreCtrl then K.XST_SUCCESS else CoreZeroStatus
      let MemCtrl ← AieRead64 env (AIE2_TILE_BADDR Array.NocAddress col row +
        K.AIE2_MEM_MODULE_MEM_CTRL_OFFSET)
      let MemZeroStatus := if 0 = MemCtrl then K.XST_SUCCESS else MemZeroStatus
      let AieZeroizationTime := u32 (AieZeroizationTime + 1)
      if AieZeroizationTime > K.XPLMI_TIME_OUT_DEFAULT then do
        XPmAieDomain_LockPcsr BaseAddress
        let Status ← gotoDone K.XST_FAILURE .XPM_INT_ERR_AIE_MEMORY_ZEROISATION
        pure (some Status)
      else
        Aie2MemInit_poll Array BaseAddress col row mrow fuel MemTileZeroStatus CoreZeroStatus
          MemZeroStatus AieZeroizationTime
    else do
      let Status ← gotoDone K.XST_SUCCESS .XPM_INT_ERR_UNDEFINED
      pure (some Status)

/-- The step `Aie2MemInit` (Generation 2); `fuel` bounds the iterations of its `while`
loop in the model. -/
def Aie2MemInit (fuel : Nat) (PwrDomain : XPm_AieDomain) (Args : Nat → Nat) (NumOfArgs : Nat) :
    M (Option XStatus) := do
  let Array := PwrDomain.Array
  let StartCol := u16 Array.StartCol
  let EndCol := u16 (StartCol + u16 Array.NumCols)
  let StartRow := u16 Array.StartRow
  let EndRow := u16 (StartRow + u16 Array.NumRows)
  let StartTileRow := u16 (StartRow + u16 Array.NumMemRows)
  let AieDev ← XPmDevice_GetById env K.PM_DEV_AIE
  match AieDev with
  | none => do
    let Status ← gotoDone K.XST_FAILURE .XPM_INT_ERR_INVALID_DEVICE
    pure (some Status)
  | some DevBase => do
    let BaseAddress := u32 DevBase
    XPm_RMW32 env (BaseAddress + K.AIE2_NPI_ME_PROT_REG_CTRL_OFFSET)
      K.ME_PROT_REG_CTRL_PROTECTED_REG_EN_MASK K.ME_PROT_REG_CTRL_PROTECTED_REG_EN_MASK
    forRange StartCol EndCol fun col =>
      forRange StartRow StartTileRow fun row =>
        let MemTileBaseAddress := AIE2_TILE_BADDR Array.NocAddress col row
        AieRMW64 env (MemTileBaseAddress + K.AIE2_MEM_TILE_MODULE_MEM_CTRL_OFFSET)
          K.AIE2_MEM_TILE_MODULE_MEM_CTRL_MEM_ZEROISATION_MASK
          K.AIE2_MEM_TILE_MODULE_MEM_CTRL_MEM_ZEROISATION_MASK
    forRange StartCol EndCol fun col =>
      forRange StartTileRow EndRow fun row => do
        let TileBaseAddress := AIE2_TILE_BADDR Array.NocAddress col row
        AieWrite64 (TileBaseAddress + K.AIE2_CORE_MODULE_MEM_CTRL_OFFSET)
          K.AIE2_CORE_MODULE_MEM_CTRL_MEM_ZEROISATION_MASK
        AieWrite64 (TileBaseAddress + K.AIE2_MEM_MODULE_MEM_CTRL_OFFSET)
          K.AIE2_MEM_MODULE_MEM_CTRL_MEM_ZEROISATION_MASK
    let col := u32 (u16 Array.StartCol + u16 Array.NumCols + 2 ^ 32 - 1)
    let row := u32 (u16 Array.StartRow + u16 Array.NumRows + 2 ^ 32 - 1)
    let mrow := u32 (u16 Array.StartRow + u16 Array.NumMemRows + 2 ^ 32 - 1)
    Aie2MemInit_poll K env Array BaseAddress col row mrow fuel K.XST_FAILURE K.XST_FAILURE
      K.XST_FAILURE 0

/-- Modelled from the spec: the macro `BIT16` of a missing header, the 16-bit value with
the given bit set (it marks which entry points a table provides). -/
def BIT16 (n : Nat) : Nat := u16 (1 <<< n)

/-- One table of step entry points (`struct XPm_PowerDomainOps`), all of one signature;
a step that does not change the domain returns it as it was, and `none` is returned only
when the model of `Aie2MemInit` runs out of fuel. -/
structure XPm_PowerDomainOps where
  InitStart : XPm_AieDomain → (Nat → Nat) → Nat → M (Option (XStatus × XPm_AieDomain))
  InitFinish : XPm_AieDomain → (Nat → Nat) → Nat → M (Option (XStatus × XPm_AieDomain))
  ScanClear : XPm_AieDomain → (Nat → Nat) → Nat → M (Option (XStatus × XPm_AieDomain))
  Bisr : XPm_AieDomain → (Nat → Nat) → Nat → M (Option (XStatus × XPm_AieDomain))
  Mbist : XPm_AieDomain → (Nat → Nat) → Nat → M (Option (XStatus × XPm_AieDomain))
  MemInit : XPm_AieDomain → (Nat → Nat) → Nat → M (Option (XStatus × XPm_AieDomain))
  InitMask : Nat

/-- A step that leaves the domain as it is, in the signature of the table. -/
def constStep (f : XPm_AieDomain → (Nat → Nat) → Nat → M XStatus) :
    XPm_AieDomain → (Nat → Nat) → Nat → M (Option (XStatus × XPm_AieDomain)) :=
  fun PwrDomain Args NumOfArgs => do
    let Status ← f PwrDomain Args NumOfArgs
    pure (some (Status, PwrDomain))

/-- A step that may change the domain, in the signature of the table. -/
def domStep (f : XPm_AieDomain → (Nat → Nat) → Nat → M (XStatus × XPm_AieDomain)) :
    XPm_AieDomain → (Nat → Nat) → Nat → M (Option (XStatus × XPm_AieDomain)) :=
  fun PwrDomain Args NumOfArgs => do
    let r ← f PwrDomain Args NumOfArgs
    pure (some r)

/-- A step with a fuel-bounded loop, in the signature of the table. -/
def fuelStep (f : XPm_AieDomain → (Nat → Nat) → Nat → M (Option XStatus)) :
    XPm_AieDomain → (Nat → Nat) → Nat → M (Option (XStatus × XPm_AieDomain)) :=
  fun PwrDomain Args NumOfArgs => do
    let r ← f PwrDomain Args NumOfArgs
    pure (r.map fun Status => (Status, PwrDomain))

/-- The mask of the entry points present, the same in both tables. -/
def AieInitMask : Nat :=
  BIT16 K.FUNC_INIT_START ||| BIT16 K.FUNC_INIT_FINISH ||| BIT16 K.FUNC_SCAN_CLEAR |||
    BIT16 K.FUNC_BISR ||| BIT16 K.FUNC_MBIST_CLEAR ||| BIT16 K.FUNC_MEM_INIT

/-- The table `AieOps`: entry `XPM_AIE_OPS` is Generation 1, entry `XPM_AIE2_OPS` is
Generation 2. -/
def AieOps (fuel : Nat) : Fin 2 → XPm_PowerDomainOps
  | 0 =>
    { InitStart := domStep (AieInitStart K env)
      InitFinish := constStep (AieInitFinish K env)
      ScanClear := constStep (AieScanClear K env)
      Bisr := constStep (AieBisr K env)
      Mbist := constStep (AieMbistClear K env)
      MemInit := constStep (AieMemInit K env)
      InitMask := AieInitMask K }
  | 1 =>
    { InitStart := domStep (Aie2InitStart K env)
      InitFinish := constStep (Aie2InitFinish K env)
      ScanClear := constStep (AieScanClear K env)
      Bisr := constStep (Aie2Bisr K env)
      Mbist := constStep (Aie2MbistClear K env)
      MemInit := fuelStep (Aie2MemInit K env fuel)
      InitMask := AieInitMask K }

/-- The geometry read from the topology words, the branch `3U <= NumArgs` of
`XPmAieDomain_Init`. -/
def topologyGeometry (Array : XPm_AieArray) (Args : Nat → Nat) : XPm_AieArray :=
  { Array with
    GenVersion := u16 (K.ARR_GENV (u32 (Args 0)))
    NumRows := u16 (K.ARR_ROWS (u32 (Args 1)))
    NumCols := u16 (K.ARR_COLS (u32 (Args 1)))
    NumAieRows := u16 (K.ARR_AIEROWS (u32 (Args 2)))
    NumMemRows := u16 (K.ARR_MEMROWS (u32 (Args 2)))
    NumShimRows := u16 (K.ARR_SHMROWS (u32 (Args 2)))
    StartCol := 0
    StartRow := u16 (K.ARR_SHMROWS (u32 (Args 2))) }

/-- The 16-bit difference `NumRows - NumMemRows` as it is stored into `NumAieRows`. -/
def sub16 (a b : Nat) : Nat := (((a : Int) - (b : Int)) % 2 ^ 16).toNat

/-- The default geometry of Generation 1, the branch `PM_POWER_ME == Id` under
`NumArgs < 3` of `XPmAieDomain_Init`. -/
def aie1DefaultGeometry (Array : XPm_AieArray) (Platform IdCode : Nat) : XPm_AieArray :=
  let Array := { Array with GenVersion := K.AIE_GENV1 }
  let Array :=
    if Platform ≠ K.PLATFORM_VERSION_SILICON then
      { Array with
        NumCols := 7
        NumRows := 5
        StartCol := 6
        StartRow := 1
        NumShimRows := 1
        NumAieRows := sub16 5 Array.NumMemRows }
    else
      { Array with
        NumCols := 50
        NumRows := 8
        StartCol := 0
        StartRow := 1
        NumShimRows := 1
        NumAieRows := sub16 8 Array.NumMemRows }
  if K.PMC_TAP_IDCODE_DEV_SBFMLY_VC1702 = (IdCode &&& K.PMC_TAP_IDCODE_DEV_SBFMLY_MASK) ∨
      K.PMC_TAP_IDCODE_DEV_SBFMLY_VE1752 = (IdCode &&& K.PMC_TAP_IDCODE_DEV_SBFMLY_MASK) then
    { Array with
      NumCols := 38
      NumRows := 8
      StartCol := 0
      StartRow := 1
      NumShimRows := 1
      NumAieRows := sub16 8 Array.NumMemRows }
  else Array

/-- The default geometry of Generation 2, the `else` branch under `NumArgs < 3` of
`XPmAieDomain_Init`. -/
def aie2DefaultGeometry (Array : XPm_AieArray) (IdCode : Nat) : XPm_AieArray :=
  let Array :=
    { Array with
      GenVersion := K.AIE_GENV2
      NumCols := 38
      NumRows := 10
      NumMemRows := 2
      NumShimRows := 1
      NumAieRows := sub16 10 2
      StartCol := 0
      StartRow := 1 }
  if K.PMC_TAP_IDCODE_DEV_SBFMLY_VE2302 = (IdCode &&& K.PMC_TAP_IDCODE_DEV_SBFMLY_MASK) then
    { Array with
      NumCols := 17
      NumRows := 3
      NumMemRows := 1
      NumShimRows := 1
      NumAieRows := sub16 3 1
      StartCol := 0
      StartRow := 1 }
  else Array

/-- The function `XPmAieDomain_Init`. -/
def XPmAieDomain_Init (AieDomain : XPm_AieDomain) (Id BaseAddress Parent : Nat)
    (Args : Nat → Nat) (NumArgs : Nat) : M (XStatus × XPm_AieDomain) := do
  let Platform := env.XPm_GetPlatform
  let IdCode := env.XPm_GetIdCode
  let sel : Option (Option (Fin 2) × XPm_AieDomainOpHooks) :=
    if K.PM_POWER_ME = Id then
      some (some XPM_AIE_OPS,
        { PostScanClearHook := some .AiePostScanClearHook, PreBisrHook := some .AiePreBisrHook })
    else if K.PM_POWER_ME2 = Id then
      some (some XPM_AIE2_OPS,
        { PostScanClearHook := none, PreBisrHook := some .Aie2PreBisrHook })
    else none
  match sel with
  | none =>
    withDomain AieDomain (gotoDone K.XPM_INVALID_PWRDOMAIN .XPM_INT_ERR_INVALID_PWR_DOMAIN)
  | some (Ops, Hooks) => do
    let Array := { AieDomain.Array with NocAddress := u64 K.VIVADO_ME_BASEADDR }
    let Array :=
      if 3 ≤ NumArgs then topologyGeometry K Array Args
      else if K.PM_POWER_ME = Id then aie1DefaultGeometry K Array Platform IdCode
      else aie2DefaultGeometry K Array IdCode
    let Ops := if Platform = K.PLATFORM_VERSION_QEMU then none else Ops
    let r ← XPmPowerDomain_Init env AieDomain.Domain Id BaseAddress Parent Ops
    let DbgErr := if K.XST_SUCCESS ≠ r.1 then XPm_IntErr.XPM_INT_ERR_POWER_DOMAIN_INIT
      else XPm_IntErr.XPM_INT_ERR_UNDEFINED
    XPm_RMW32 env K.PM_HOUSECLEAN_DISABLE_REG_2 K.PM_HOUSECLEAN_DISABLE_AIE_MASK 0
    withDomain { Domain := r.2, Array := Array, Hooks := Hooks } (gotoDone r.1 DbgErr)

end Source

/-! ## Vocabulary of the properties -/

section Vocabulary

variable {α : Type}

/-- No call of `XPmAieDomain_LockPcsr` among the events. -/
def NoLock (evs : List Event) : Prop := ∀ e ∈ evs, e.isLock = false

/-- No hardware mutation among the events. -/
def NoRegWrite (evs : List Event) : Prop := ∀ e ∈ evs, e.isRegWrite = false

/-- The computation never calls `XPmAieDomain_LockPcsr`, whatever was issued before it. -/
structure NoLockM (m : M α) : Prop where
  noLock : ∀ h, NoLock (m h).2

/-- The PCSR lock of `BaseAddress` was called and no hardware mutation follows it. -/
def LockedAtExit (BaseAddress : Nat) (evs : List Event) : Prop :=
  ∃ pre post, evs = pre ++ Event.LockPcsr BaseAddress :: post ∧ NoRegWrite post

/-- The lock discipline of a step that found the space unlocked: a status other than
`XST_SUCCESS` comes with the PCSR locked at exit, `XST_SUCCESS` with no call of the lock. -/
def LockDiscipline (K : Consts) (BaseAddress : Nat) (Status : XStatus) (evs : List Event) :
    Prop :=
  (Status ≠ K.XST_SUCCESS → LockedAtExit BaseAddress evs) ∧
  (Status = K.XST_SUCCESS → NoLock evs)

/-- The computation keeps the lock discipline from every history; `ret` reads the status
out of its result (`none`: the model ran out of fuel). -/
structure Disciplined (K : Consts) (BaseAddress : Nat) (ret : α → Option XStatus) (m : M α) :
    Prop where
  discipline : ∀ h Status, ret (m h).1 = some Status →
    LockDiscipline K BaseAddress Status (m h).2

/-- The PCSR lock of `BaseAddress` is called exactly once, as the last action before the
diagnostic report that ends the step. -/
def LockedOnceAtEnd (BaseAddress : Nat) (evs : List Event) : Prop :=
  ∃ pre Status DbgErr,
    evs = pre ++ [Event.LockPcsr BaseAddress, Event.PrintDbgErr Status DbgErr] ∧ NoLock pre

/-- Whether the protected register space is locked after the events, given whether it
was locked before them. -/
def pcsrLocked (locked : Bool) : List Event → Bool
  | [] => locked
  | Event.LockPcsr _ :: evs => pcsrLocked true evs
  | Event.UnlockPcsr _ :: evs => pcsrLocked false evs
  | _ :: evs => pcsrLocked locked evs

end Vocabulary

/-! ## Sample constants, environments and domains

Concrete values on which the statements below are instantiated. -/

section Samples

/-- A sample assignment of the header constants: distinct status codes and identities,
distinct register offsets, one bit per mask, and bit-field extraction for the topology
words (`ARR_*`). -/
def sampleConsts : Consts where
  XST_SUCCESS := 0
  XST_FAILURE := 1
  XPM_REG_WRITE_FAILED := 2003
  XPM_INVALID_PWRDOMAIN := 2011
  XPM_PM_TIMEOUT := 2006
  PM_DEV_AIE := 0x18224072
  PM_POWER_ME := 0x421C005
  PM_POWER_ME2 := 0x4228017
  XPM_NODEIDX_ISO_PMC_SOC := 13
  FALSE_VALUE := 0
  MEA_TAG_ID := 8
  MEB_TAG_ID := 9
  MEC_TAG_ID := 10
  XPLMI_PMCDMA_0 := 0x100
  XPLMI_TIME_OUT_DEFAULT := 0x10000000
  NPI_PCSR_MASK_OFFSET := 0x0
  NPI_PCSR_CONTROL_OFFSET := 0x4
  NPI_PCSR_STATUS_OFFSET := 0x8
  ME_NPI_ME_TOP_ROW_OFFSET := 0x148
  ME_NPI_ME_SMID_REG := 0x10C
  ME_NPI_ME_SECURE_REG := 0x108
  AIE2_NPI_ME_PROT_REG_CTRL_OFFSET := 0x208
  ME_PROT_REG_CTRL_PROTECTED_REG_EN_MASK := 0x1
  PM_HOUSECLEAN_DISABLE_REG_2 := 0xF2014304
  PM_HOUSECLEAN_DISABLE_AIE_MASK := 0xF0
  HOUSECLEAN_AIE_SHIFT := 4
  HOUSECLEAN_DISABLE_SCAN_CLEAR_MASK := 0x1
  HOUSECLEAN_DISABLE_BISR_MASK := 0x2
  HOUSECLEAN_DISABLE_MBIST_CLEAR_MASK := 0x4
  ME_NPI_REG_PCSR_MASK_ME_IPOR_MASK := 0x1000000
  ME_NPI_REG_PCSR_MASK_ME_ARRAY_RESET_MASK := 0x4000000
  ME_NPI_REG_PCSR_MASK_ME_SHIM_RESET_MASK := 0x8000000
  ME_NPI_REG_PCSR_MASK_INITSTATE_MASK := 0x40
  ME_NPI_REG_PCSR_MASK_ODISABLE_1_MASK := 0x8
  ME_NPI_REG_PCSR_MASK_ODISABLE_0_MASK := 0x4
  ME_NPI_REG_PCSR_MASK_GATEREG_MASK := 0x2
  ME_NPI_REG_PCSR_MASK_SCAN_CLEAR_TRIGGER_MASK := 0x2000
  ME_NPI_REG_PCSR_MASK_MEM_CLEAR_EN_ALL_MASK := 0x8000
  ME_NPI_REG_PCSR_MASK_OD_MBIST_ASYNC_RESET_N_MASK := 0x20000
  ME_NPI_REG_PCSR_MASK_OD_BIST_SETUP_1_MASK := 0x40000
  ME_NPI_REG_PCSR_MASK_MEM_CLEAR_TRIGGER_MASK := 0x4000
  ME_NPI_REG_PCSR_MASK_PCOMPLETE_MASK := 0x1
  ME_NPI_REG_PCSR_STATUS_ME_PWR_SUPPLY_MASK := 0x8000
  ME_NPI_REG_PCSR_STATUS_SCAN_CLEAR_DONE_MASK := 0x2
  ME_NPI_REG_PCSR_STATUS_SCAN_CLEAR_PASS_MASK := 0x4
  ME_NPI_REG_PCSR_STATUS_MEM_CLEAR_DONE_MASK := 0x8
  ME_NPI_REG_PCSR_STATUS_MEM_CLEAR_PASS_MASK := 0x10
  AIE_CORE_CONTROL_OFFSET := 0x32000
  AIE_CORE_STATUS_OFFSET := 0x32004
  AIE_PROGRAM_MEM_OFFSET := 0x20000
  AIE_CORE_ECC_SCRUB_EVENT_OFFSET := 0x32110
  AIE_TILE_CLOCK_CONTROL_OFFSET := 0x36040
  AIE_TILE_CLOCK_CONTROL_CLK_BUFF_EN_MASK := 0x1
  ECC_SCRUB_ENABLE := 1
  ECC_SCRUB_DISABLE := 0
  AIE2_PL_MODULE_COLUMN_CLK_CTRL_OFFSET := 0xFFF20
  AIE2_MEM_TILE_MODULE_MEM_CTRL_OFFSET := 0x96048
  AIE2_MEM_TILE_MODULE_MEM_CTRL_MEM_ZEROISATION_MASK := 0x1
  AIE2_CORE_MODULE_MEM_CTRL_OFFSET := 0x36070
  AIE2_CORE_MODULE_MEM_CTRL_MEM_ZEROISATION_MASK := 0x1
  AIE2_MEM_MODULE_MEM_CTRL_OFFSET := 0x13008
  AIE2_MEM_MODULE_MEM_CTRL_MEM_ZEROISATION_MASK := 0x1
  VIVADO_ME_BASEADDR := 0x200000000
  AIE_GENV1 := 1
  AIE_GENV2 := 2
  PLATFORM_VERSION_SILICON := 0
  PLATFORM_VERSION_QEMU := 3
  PMC_TAP_IDCODE_DEV_SBFMLY_MASK := 0xFFFC000
  PMC_TAP_IDCODE_DEV_SBFMLY_VC1702 := 0x4C08000
  PMC_TAP_IDCODE_DEV_SBFMLY_VE1752 := 0x4C24000
  PMC_TAP_IDCODE_DEV_SBFMLY_VE2302 := 0x4C94000
  FUNC_INIT_START := 0
  FUNC_INIT_FINISH := 1
  FUNC_SCAN_CLEAR := 2
  FUNC_BISR := 3
  FUNC_MBIST_CLEAR := 5
  FUNC_MEM_INIT := 6
  ARR_GENV := fun w => w &&& 0xFFFF
  ARR_ROWS := fun w => (w >>> 16) &&& 0xFFFF
  ARR_COLS := fun w => w &&& 0xFFFF
  ARR_AIEROWS := fun w => (w >>> 16) &&& 0xFFFF
  ARR_MEMROWS := fun w => (w >>> 8) &&& 0xFF
  ARR_SHMROWS := fun w => w &&& 0xFF

/-- A sample environment.  The AIE device is found at `DevBase` when `found`; a read of
the PCSR status register gives `PcsrStatus`, a read of any other register gives the value
just written to it when the last event is a write to it and 0 otherwise; every word read
through `lwea` is `Word`; the platform is `Platform`; every external service succeeds. -/
def sampleEnv (K : Consts) (found : Bool) (DevBase PcsrStatus Word Platform : Nat) : Env where
  XPmDevice_GetById := fun _ Id => if found ∧ Id = K.PM_DEV_AIE then some DevBase else none
  In32 := fun h a =>
    if a = u32 (u32 DevBase + K.NPI_PCSR_STATUS_OFFSET) then PcsrStatus
    else match h.getLast? with
      | some (Event.Out32 a' v) => if a' = a then v else 0
      | _ => 0
  lwea := fun _ _ => Word
  XPlmi_UtilPollForMask64 := fun _ _ _ _ _ => K.XST_SUCCESS
  XPlmi_DmaXfr := fun _ _ _ _ _ => K.XST_SUCCESS
  XPmDomainIso_Control := fun _ _ _ => K.XST_SUCCESS
  XPmBisr_Repair := fun _ _ => K.XST_SUCCESS
  XPmPowerDomain_Init := fun _ d _ _ _ _ => (K.XST_SUCCESS, d)
  XPm_GetPlatform := Platform
  XPm_GetIdCode := 0

/-- A sample domain: disable mask `HcDisableMask`, a one-column array with one shim row,
one memory-tile row and one core row, and the given hooks. -/
def sampleDomain (HcDisableMask : Nat) (Hooks : XPm_AieDomainOpHooks) : XPm_AieDomain where
  Domain := { HcDisableMask := HcDisableMask }
  Array :=
    { GenVersion := 1
      NocAddress := 0x20000000000
      StartCol := 0
      NumCols := 1
      StartRow := 1
      NumRows := 2
      NumShimRows := 1
      NumMemRows := 1
      NumAieRows := 1 }
  Hooks := Hooks

/-- The address of the PCSR status register of the device at `DevBase`. -/
def pcsrStatusAddr (K : Consts) (DevBase : Nat) : Nat :=
  u32 (u32 DevBase + K.NPI_PCSR_STATUS_OFFSET)

/-- The events of the two PCSR writes of `AieScanClear` that precede the scan-clear poll
(ODISABLE_1 := 0, then SCAN_CLEAR_TRIGGER := 1), issued after the events `h`. -/
def scanClearPrelude (K : Consts) (env : Env) (h : List Event) : List Event :=
  (AiePcsrWrite K env K.ME_NPI_REG_PCSR_MASK_ODISABLE_1_MASK 0 h).2 ++
  (AiePcsrWrite K env K.ME_NPI_REG_PCSR_MASK_SCAN_CLEAR_TRIGGER_MASK
    K.ME_NPI_REG_PCSR_MASK_SCAN_CLEAR_TRIGGER_MASK
    (h ++ (AiePcsrWrite K env K.ME_NPI_REG_PCSR_MASK_ODISABLE_1_MASK 0 h).2)).2

/-- The hooks that `XPmAieDomain_Init` installs for Generation 1. -/
def aie1Hooks : XPm_AieDomainOpHooks where
  PostScanClearHook := some .AiePostScanClearHook
  PreBisrHook := some .AiePreBisrHook

/-- The hooks that `XPmAieDomain_Init` installs for Generation 2. -/
def aie2Hooks : XPm_AieDomainOpHooks where
  PostScanClearHook := none
  PreBisrHook := some .Aie2PreBisrHook

/-- The `Ops` arguments of the calls of `XPmPowerDomain_Init` among the events. -/
def opsPassed : List Event → List (Option (Fin 2))
  | [] => []
  | Event.PowerDomainInit _ _ _ Ops _ :: evs => Ops :: opsPassed evs
  | _ :: evs => opsPassed evs

end Samples

/-! ## Reference programs for suppressed steps -/

section Suppressed

variable (K : Consts) (env : Env)

/-- What `AieScanClear` is stated to do when scan-clear is suppressed: the ODISABLE_1,
ODISABLE_0 and GATEREG writes and the post-scan-clear hook, without the trigger write,
the DONE poll, the PASS check and the trigger release. -/
def AieScanClear_suppressed (PwrDomain : XPm_AieDomain) : M XStatus := do
  let AieDev ← XPmDevice_GetById env K.PM_DEV_AIE
  match AieDev with
  | none => gotoDone K.XST_FAILURE .XPM_INT_ERR_INVALID_DEVICE
  | some DevBase => do
    let BaseAddress := u32 DevBase
    let Status ← AiePcsrWrite K env K.ME_NPI_REG_PCSR_MASK_ODISABLE_1_MASK 0
    if K.XST_SUCCESS ≠ Status then
      gotoFail BaseAddress Status .XPM_INT_ERR_ODISABLE_1_RELEASE
    else do
    let Status ← AiePcsrWrite K env K.ME_NPI_REG_PCSR_MASK_ODISABLE_0_MASK 0
    if K.XST_SUCCESS ≠ Status then
      gotoFail BaseAddress Status .XPM_INT_ERR_ODISABLE_0_RELEASE
    else do
    let Status ← AiePcsrWrite K env K.ME_NPI_REG_PCSR_MASK_GATEREG_MASK 0
    if K.XST_SUCCESS ≠ Status then
      gotoFail BaseAddress Status .XPM_INT_ERR_GATEREG_UNSET
    else
      match PwrDomain.Hooks.PostScanClearHook with
      | some Hook => do
        let Status ← invokePostScanClearHook K env PwrDomain BaseAddress Hook
        if K.XST_SUCCESS ≠ Status then
          gotoFail BaseAddress Status .XPM_INT_ERR_AIE_POST_SCAN_CLEAR_HOOK
        else
          gotoDone Status .XPM_INT_ERR_UNDEFINED
      | none => gotoDone Status .XPM_INT_ERR_UNDEFINED

/-- What `AieBisr` and `Aie2Bisr` are stated to do when BISR is suppressed: the pre-BISR
hook, for Generation 2 (`clocks`) the column clock enable, and the removal of the PMC-SoC
isolation, without any repair pass. -/
def Bisr_suppressed (clocks : Bool) (PwrDomain : XPm_AieDomain) : M XStatus := do
  let AieDev ← XPmDevice_GetById env K.PM_DEV_AIE
  match AieDev with
  | none => gotoDone K.XST_FAILURE .XPM_INT_ERR_INVALID_DEVICE
  | some DevBase => do
    let BaseAddress := u32 DevBase
    let iso : M XStatus := do
      let Status ← XPmDomainIso_Control env K.XPM_NODEIDX_ISO_PMC_SOC K.FALSE_VALUE
      if K.XST_SUCCESS ≠ Status then
        gotoFail BaseAddress Status .XPM_INT_ERR_PMC_SOC_ISO
      else
        gotoDone Status .XPM_INT_ERR_UNDEFINED
    let rest : M XStatus :=
      if clocks then do
        Aie2ClockInit K env PwrDomain BaseAddress
        iso
      else iso
    match PwrDomain.Hooks.PreBisrHook with
    | some Hook => do
      let Status ← invokePreBisrHook K env PwrDomain BaseAddress Hook
      if K.XST_SUCCESS ≠ Status then
        gotoFail BaseAddress Status .XPM_INT_ERR_AIE_PRE_BISR_HOOK
      else
        rest
    | none => rest

end Suppressed

/-! ## The end-to-end scenario -/

section Scenario

variable {α : Type}

/-- Every result of the computation satisfies `P`, from every history. -/
structure ReturnsP (m : M α) (P : α → Prop) : Prop where
  ret : ∀ h, P (m h).1

/-- The three registers polled by `Aie2MemInit` for the geometry `A`: the memory-tile
control register of the tile at the last column and last memory row, and the core-module
and memory-module control registers of the tile at the last column and last row. -/
def zeroizationPollAddrs (K : Consts) (A : XPm_AieArray) : List Nat :=
  [u64 (AIE2_TILE_BADDR A.NocAddress (u32 (u16 A.StartCol + u16 A.NumCols + 2 ^ 32 - 1))
      (u32 (u16 A.StartRow + u16 A.NumMemRows + 2 ^ 32 - 1)) +
      K.AIE2_MEM_TILE_MODULE_MEM_CTRL_OFFSET),
   u64 (AIE2_TILE_BADDR A.NocAddress (u32 (u16 A.StartCol + u16 A.NumCols + 2 ^ 32 - 1))
      (u32 (u16 A.StartRow + u16 A.NumRows + 2 ^ 32 - 1)) +
      K.AIE2_CORE_MODULE_MEM_CTRL_OFFSET),
   u64 (AIE2_TILE_BADDR A.NocAddress (u32 (u16 A.StartCol + u16 A.NumCols + 2 ^ 32 - 1))
      (u32 (u16 A.StartRow + u16 A.NumRows + 2 ^ 32 - 1)) +
      K.AIE2_MEM_MODULE_MEM_CTRL_OFFSET)]

/-- An environment that always reports success, for the device at `DevBase` and the
geometry `A`: the device lookup succeeds; the PCSR status register always shows the
power-supply bit and the DONE and PASS bits of scan-clear and mem-clear; a write to the
PCSR mask or control register reads back as written; the external poll, the DMA
transfer, the isolation control and the BISR repair succeed; the registers polled for
zeroization read zero. -/
structure AlwaysSucceeds (K : Consts) (env : Env) (DevBase : Nat) (A : XPm_AieArray) :
    Prop where
  lookup : ∀ h, env.XPmDevice_GetById h K.PM_DEV_AIE = some DevBase
  power : ∀ h, u32 (env.In32 h (u32 (u32 DevBase + K.NPI_PCSR_STATUS_OFFSET))) &&&
    K.ME_NPI_REG_PCSR_STATUS_ME_PWR_SUPPLY_MASK = K.ME_NPI_REG_PCSR_STATUS_ME_PWR_SUPPLY_MASK
  scanDone : ∀ h, u32 (env.In32 h (u32 (u32 DevBase + K.NPI_PCSR_STATUS_OFFSET))) &&&
    u32 K.ME_NPI_REG_PCSR_STATUS_SCAN_CLEAR_DONE_MASK =
      u32 K.ME_NPI_REG_PCSR_STATUS_SCAN_CLEAR_DONE_MASK
  scanPass : ∀ h, u32 (env.In32 h (u32 (u32 DevBase + K.NPI_PCSR_STATUS_OFFSET))) &&&
    K.ME_NPI_REG_PCSR_STATUS_SCAN_CLEAR_PASS_MASK = K.ME_NPI_REG_PCSR_STATUS_SCAN_CLEAR_PASS_MASK
  memDone : ∀ h, u32 (env.In32 h (u32 (u32 DevBase + K.NPI_PCSR_STATUS_OFFSET))) &&&
    u32 K.ME_NPI_REG_PCSR_STATUS_MEM_CLEAR_DONE_MASK =
      u32 K.ME_NPI_REG_PCSR_STATUS_MEM_CLEAR_DONE_MASK
  memPass : ∀ h, u32 (env.In32 h (u32 (u32 DevBase + K.NPI_PCSR_STATUS_OFFSET))) &&&
    K.ME_NPI_REG_PCSR_STATUS_MEM_CLEAR_PASS_MASK = K.ME_NPI_REG_PCSR_STATUS_MEM_CLEAR_PASS_MASK
  readbackMask : ∀ h v, u32 (env.In32
    (h ++ [Event.Out32 (u32 (u32 DevBase + K.NPI_PCSR_MASK_OFFSET)) (u32 v)])
    (u32 (u32 DevBase + K.NPI_PCSR_MASK_OFFSET))) = u32 v
  readbackControl : ∀ h v, u32 (env.In32
    (h ++ [Event.Out32 (u32 (u32 DevBase + K.NPI_PCSR_CONTROL_OFFSET)) (u32 v)])
    (u32 (u32 DevBase + K.NPI_PCSR_CONTROL_OFFSET))) = u32 v
  poll64 : ∀ h a b c d, env.XPlmi_UtilPollForMask64 h a b c d = K.XST_SUCCESS
  dma : ∀ h s a b c, env.XPlmi_DmaXfr h s a b c = K.XST_SUCCESS
  iso : ∀ h a b, env.XPmDomainIso_Control h a b = K.XST_SUCCESS
  bisr : ∀ h t, env.XPmBisr_Repair h t = K.XST_SUCCESS
  zero : ∀ h, ∀ a ∈ zeroizationPollAddrs K A, u32 (env.lwea h a) = 0

/-- The end-to-end scenario: the six step entry points of a table called in the order
Init-Start, BISR, Scan-Clear, Memory-BIST-Clear, Memory-Init, Init-Finish, each seeing the
events of the steps before it.  The result lists, for each step in that order, the status
it returned (`none`: the model ran out of fuel) and the events it issued; every step sees
the domain as Init-Start left it. -/
def runHouseclean (ops : XPm_PowerDomainOps) (PwrDomain : XPm_AieDomain) (Args : Nat → Nat)
    (NumOfArgs : Nat) (h : List Event) : List (Option XStatus × List Event) :=
  let r1 := ops.InitStart PwrDomain Args NumOfArgs h
  let d := match r1.1 with
    | some (_, d) => d
    | none => PwrDomain
  let r2 := ops.Bisr d Args NumOfArgs (h ++ r1.2)
  let r3 := ops.ScanClear d Args NumOfArgs (h ++ r1.2 ++ r2.2)
  let r4 := ops.Mbist d Args NumOfArgs (h ++ r1.2 ++ r2.2 ++ r3.2)
  let r5 := ops.MemInit d Args NumOfArgs (h ++ r1.2 ++ r2.2 ++ r3.2 ++ r4.2)
  let r6 := ops.InitFinish d Args NumOfArgs (h ++ r1.2 ++ r2.2 ++ r3.2 ++ r4.2 ++ r5.2)
  [(r1.1.map Prod.fst, r1.2), (r2.1.map Prod.fst, r2.2), (r3.1.map Prod.fst, r3.2),
   (r4.1.map Prod.fst, r4.2), (r5.1.map Prod.fst, r5.2), (r6.1.map Prod.fst, r6.2)]

/-- The events of a run, step after step. -/
def allEvents : List (Option XStatus × List Event) → List Event
  | [] => []
  | r :: rs => r.2 ++ allEvents rs

/-- The outcome of a good run of the six steps on the device at `BaseAddress`, the space
being locked before it: six results, each the status `XST_SUCCESS`; the space is unlocked
when the first step (Init-Start) returns; the first five steps never call the PCSR lock
and the space is unlocked after them; the sixth step (Init-Finish) calls the lock once,
as its last action before the diagnostic report, and the space is locked at the end. -/
def HousecleanOutcome (K : Consts) (BaseAddress : Nat)
    (rs : List (Option XStatus × List Event)) : Prop :=
  rs.length = 6 ∧
  (∀ r ∈ rs, r.1 = some K.XST_SUCCESS) ∧
  pcsrLocked true (allEvents (rs.take 1)) = false ∧
  NoLock (allEvents (rs.take 5)) ∧
  pcsrLocked true (allEvents (rs.take 5)) = false ∧
  (∀ r ∈ rs.drop 5, LockedOnceAtEnd BaseAddress r.2) ∧
  pcsrLocked true (allEvents rs) = true

end Scenario

/-! ## Memory initialisation, Generation 1 -/

section MemInitVocabulary

/-- The events of the ECC scrub that opens `AieMemInit`: scrub enabled on every tile, the
wait of 1 ms, scrub disabled on every tile. -/
def eccScrubEvents (K : Consts) (PwrDomain : XPm_AieDomain) (h : List Event) : List Event :=
  ((TriggerEccScrub K PwrDomain K.ECC_SCRUB_ENABLE >>= fun _ =>
    AieWait 1000 >>= fun _ => TriggerEccScrub K PwrDomain K.ECC_SCRUB_DISABLE) h).2

/-- The events that follow the first occurrence of `e`. -/
def afterFirst (e : Event) : List Event → List Event
  | [] => []
  | x :: evs => if x = e then evs else afterFirst e evs

/-- The sample environment with a DMA engine that always fails. -/
def sampleEnvDmaFails (K : Consts) (DevBase : Nat) : Env :=
  { sampleEnv K true DevBase 0xFFFFFFFF 0 0 with
    XPlmi_DmaXfr := fun _ _ _ _ _ => K.XST_FAILURE }

end MemInitVocabulary

/-! ## The PCSR write -/

section PcsrVocabulary

/-- The address of the PCSR mask register of the device at `DevBase`. -/
def pcsrMaskAddr (K : Consts) (DevBase : Nat) : Nat :=
  u32 (u32 DevBase + K.NPI_PCSR_MASK_OFFSET)

/-- The address of the PCSR control register of the device at `DevBase`. -/
def pcsrControlAddr (K : Consts) (DevBase : Nat) : Nat :=
  u32 (u32 DevBase + K.NPI_PCSR_CONTROL_OFFSET)

/-- The value that `AiePcsrWrite(Mask, _)` reads back from the mask register, right after
it has written `Mask` there. -/
def maskReadback (K : Consts) (env : Env) (DevBase Mask : Nat) (h : List Event) : Nat :=
  u32 (env.In32 (h ++ [Event.Out32 (pcsrMaskAddr K DevBase) (u32 Mask)])
    (pcsrMaskAddr K DevBase))

/-- The value that `AiePcsrWrite(Mask, Value)` reads back from the control register, right
after it has written `Value` there. -/
def controlReadback (K : Consts) (env : Env) (DevBase Mask Value : Nat) (h : List Event) :
    Nat :=
  u32 (env.In32 (h ++ [Event.Out32 (pcsrMaskAddr K DevBase) (u32 Mask),
      Event.In32 (pcsrMaskAddr K DevBase) (maskReadback K env DevBase Mask h),
      Event.Out32 (pcsrControlAddr K DevBase) (u32 Value)])
    (pcsrControlAddr K DevBase))

/-- The 32-bit register writes among the events, as pairs of address and value, in the
order of issue. -/
def regWrites : List Event → List (Nat × Nat)
  | [] => []
  | Event.Out32 a v :: evs => (a, v) :: regWrites evs
  | _ :: evs => regWrites evs

end PcsrVocabulary

/-! ## Init-Start: the houseclean mask -/

section InitStartVocabulary

/-- The sample environment in which the register `PM_HOUSECLEAN_DISABLE_REG_2` reads
`HcReg`; every other answer is that of the sample environment with the device at
`DevBase`. -/
def sampleEnvHcReg (K : Consts) (DevBase HcReg : Nat) : Env :=
  { sampleEnv K true DevBase 0xFFFFFFFF 0 0 with
    In32 := fun h a =>
      if a = u32 K.PM_HOUSECLEAN_DISABLE_REG_2 then HcReg
      else (sampleEnv K true DevBase 0xFFFFFFFF 0 0).In32 h a }

/-- The houseclean-mask merge of an `InitStart` computation, `m0` being the disable mask
before the step.  When the status is `XST_SUCCESS`, the last register access of the
computation is a read of `PM_HOUSECLEAN_DISABLE_REG_2`, only the diagnostic report
follows it, and the new mask is `m0` OR-ed with the value read shifted right by
`HOUSECLEAN_AIE_SHIFT`; with any other status the mask is `m0`. -/
structure MergesMask (K : Consts) (env : Env) (m0 : Nat) (m : M (XStatus × XPm_AieDomain)) :
    Prop where
  merge : ∀ h,
    ((m h).1.1 = K.XST_SUCCESS → ∃ pre v,
      (m h).2 = pre ++ [Event.In32 (u32 K.PM_HOUSECLEAN_DISABLE_REG_2) v,
        Event.PrintDbgErr K.XST_SUCCESS XPm_IntErr.XPM_INT_ERR_UNDEFINED] ∧
      v = u32 (env.In32 (h ++ pre) (u32 K.PM_HOUSECLEAN_DISABLE_REG_2)) ∧
      (m h).1.2.Domain.HcDisableMask = m0 ||| (v >>> K.HOUSECLEAN_AIE_SHIFT)) ∧
    ((m h).1.1 ≠ K.XST_SUCCESS → (m h).1.2.Domain.HcDisableMask = m0)

end InitStartVocabulary

/-! ## The zeroization poll of Generation 2 -/

section ZeroizationVocabulary

/-- One round of the three reads of the zeroization poll, in the order of the loop body:
the memory-tile control register `a1`, the core-module control register `a2`, the
memory-module control register `a3`. -/
def pollIter (env : Env) (a1 a2 a3 : Nat) : M (Nat × Nat × Nat) := do
  let MemTileCtrl ← AieRead64 env a1
  let CoreCtrl ← AieRead64 env a2
  let MemCtrl ← AieRead64 env a3
  pure (MemTileCtrl, CoreCtrl, MemCtrl)

/-- The events of the first `k` rounds of reads, issued after the events `h`. -/
def pollTrace (env : Env) (a1 a2 a3 : Nat) (h : List Event) : Nat → List Event
  | 0 => []
  | k + 1 => pollTrace env a1 a2 a3 h k ++
      (pollIter env a1 a2 a3 (h ++ pollTrace env a1 a2 a3 h k)).2

/-- For each of the three registers, whether one of the first `k` rounds has read it as
zero. -/
def seenZero (env : Env) (a1 a2 a3 : Nat) (h : List Event) : Nat → Bool × Bool × Bool
  | 0 => (false, false, false)
  | k + 1 =>
    ((seenZero env a1 a2 a3 h k).1 ||
        decide (0 = (pollIter env a1 a2 a3 (h ++ pollTrace env a1 a2 a3 h k)).1.1),
     (seenZero env a1 a2 a3 h k).2.1 ||
        decide (0 = (pollIter env a1 a2 a3 (h ++ pollTrace env a1 a2 a3 h k)).1.2.1),
     (seenZero env a1 a2 a3 h k).2.2 ||
        decide (0 = (pollIter env a1 a2 a3 (h ++ pollTrace env a1 a2 a3 h k)).1.2.2))

/-- Each of the three registers has been read as zero in one of the first `k` rounds (not
necessarily the same round). -/
def allZeroBy (env : Env) (a1 a2 a3 : Nat) (h : List Event) (k : Nat) : Bool :=
  (seenZero env a1 a2 a3 h k).1 && (seenZero env a1 a2 a3 h k).2.1 &&
    (seenZero env a1 a2 a3 h k).2.2

/-- The status variable of a register of the poll: `XST_SUCCESS` once the register has
been read as zero, `XST_FAILURE` before. -/
def zeroStatus (K : Consts) (seen : Bool) : XStatus :=
  if seen then K.XST_SUCCESS else K.XST_FAILURE

/-- The address of the memory-tile control register polled by `Aie2MemInit`. -/
def memTilePollAddr (K : Consts) (A : XPm_AieArray) : Nat :=
  AIE2_TILE_BADDR A.NocAddress (u32 (u16 A.StartCol + u16 A.NumCols + 2 ^ 32 - 1))
    (u32 (u16 A.StartRow + u16 A.NumMemRows + 2 ^ 32 - 1)) +
    K.AIE2_MEM_TILE_MODULE_MEM_CTRL_OFFSET

/-- The address of the core-module control register polled by `Aie2MemInit`. -/
def corePollAddr (K : Consts) (A : XPm_AieArray) : Nat :=
  AIE2_TILE_BADDR A.NocAddress (u32 (u16 A.StartCol + u16 A.NumCols + 2 ^ 32 - 1))
    (u32 (u16 A.StartRow + u16 A.NumRows + 2 ^ 32 - 1)) +
    K.AIE2_CORE_MODULE_MEM_CTRL_OFFSET

/-- The address of the memory-module control register polled by `Aie2MemInit`. -/
def memPollAddr (K : Consts) (A : XPm_AieArray) : Nat :=
  AIE2_TILE_BADDR A.NocAddress (u32 (u16 A.StartCol + u16 A.NumCols + 2 ^ 32 - 1))
    (u32 (u16 A.StartRow + u16 A.NumRows + 2 ^ 32 - 1)) +
    K.AIE2_MEM_MODULE_MEM_CTRL_OFFSET

/-- The events of `Aie2MemInit` that precede its poll loop: privileged write access is
enabled and the zeroization bit is set in every memory tile, core module and memory
module. -/
def zeroizeStart (K : Consts) (env : Env) (PwrDomain : XPm_AieDomain) (DevBase : Nat)
    (h : List Event) : List Event :=
  ((XPm_RMW32 env (u32 DevBase + K.AIE2_NPI_ME_PROT_REG_CTRL_OFFSET)
      K.ME_PROT_REG_CTRL_PROTECTED_REG_EN_MASK K.ME_PROT_REG_CTRL_PROTECTED_REG_EN_MASK >>=
    fun _ =>
    forRange (u16 PwrDomain.Array.StartCol)
      (u16 (u16 PwrDomain.Array.StartCol + u16 PwrDomain.Array.NumCols)) (fun col =>
      forRange (u16 PwrDomain.Array.StartRow)
        (u16 (u16 PwrDomain.Array.StartRow + u16 PwrDomain.Array.NumMemRows)) fun row =>
        AieRMW64 env (AIE2_TILE_BADDR PwrDomain.Array.NocAddress col row +
            K.AIE2_MEM_TILE_MODULE_MEM_CTRL_OFFSET)
          K.AIE2_MEM_TILE_MODULE_MEM_CTRL_MEM_ZEROISATION_MASK
          K.AIE2_MEM_TILE_MODULE_MEM_CTRL_MEM_ZEROISATION_MASK) >>= fun _ =>
    forRange (u16 PwrDomain.Array.StartCol)
      (u16 (u16 PwrDomain.Array.StartCol + u16 PwrDomain.Array.NumCols)) fun col =>
      forRange (u16 (u16 PwrDomain.Array.StartRow + u16 PwrDomain.Array.NumMemRows))
        (u16 (u16 PwrDomain.Array.StartRow + u16 PwrDomain.Array.NumRows)) fun row =>
        (AieWrite64 (AIE2_TILE_BADDR PwrDomain.Array.NocAddress col row +
            K.AIE2_CORE_MODULE_MEM_CTRL_OFFSET)
          K.AIE2_CORE_MODULE_MEM_CTRL_MEM_ZEROISATION_MASK >>= fun _ =>
        AieWrite64 (AIE2_TILE_BADDR PwrDomain.Array.NocAddress col row +
            K.AIE2_MEM_MODULE_MEM_CTRL_OFFSET)
          K.AIE2_MEM_MODULE_MEM_CTRL_MEM_ZEROISATION_MASK)) h).2

end ZeroizationVocabulary

section ZeroizationSamples

/-- The sample constants with the zeroization budget `XPLMI_TIME_OUT_DEFAULT` set to `T`. -/
def sampleConstsBudget (T : Nat) : Consts :=
  { sampleConsts with XPLMI_TIME_OUT_DEFAULT := T }

/-- The sample environment with zeroization that completes late: a word read through
`lwea` is 1 as long as fewer than `n` register reads have been issued, and 0 afterwards. -/
def sampleEnvZeroAfter (K : Consts) (DevBase n : Nat) : Env :=
  { sampleEnv K true DevBase 0xFFFFFFFF 0 0 with
    lwea := fun h _ => if n ≤ (h.filter Event.isRegRead).length then 0 else 1 }

end ZeroizationSamples

/-! ## The BISR repair passes -/

section BisrVocabulary

/-- The calls of `XPmBisr_Repair` among the events, as pairs of tag and returned status, in
the order of the calls. -/
def repairCalls : List Event → List (Nat × XStatus)
  | [] => []
  | Event.BisrRepair tag Status :: evs => (tag, Status) :: repairCalls evs
  | _ :: evs => repairCalls evs

/-- The computation never calls `XPmBisr_Repair`. -/
structure NoRepairM {α : Type} (m : M α) : Prop where
  noRepair : ∀ h, repairCalls (m h).2 = []

/-- The outcome of the repair passes of a BISR step on the device at `BaseAddress`, from
its status and events `r`.  Either the region-A repair failed, nothing else was tried, and
the step locked the PCSR and reported that status with the region-A diagnostic; or region
A succeeded and region B failed likewise; or A and B succeeded and region C failed
likewise; or all three repairs, called in the order A, B, C, returned `XST_SUCCESS`, the
step returned `XST_SUCCESS` and the PCSR lock was not called. -/
def RepairOutcome (K : Consts) (BaseAddress : Nat) (r : XStatus × List Event) : Prop :=
  (∃ s, K.XST_SUCCESS ≠ s ∧ repairCalls r.2 = [(K.MEA_TAG_ID, s)] ∧ r.1 = s ∧
    ∃ pre, r.2 = pre ++ [Event.LockPcsr BaseAddress,
      Event.PrintDbgErr s XPm_IntErr.XPM_INT_ERR_MEA_BISR_REPAIR]) ∨
  (∃ s, K.XST_SUCCESS ≠ s ∧
    repairCalls r.2 = [(K.MEA_TAG_ID, K.XST_SUCCESS), (K.MEB_TAG_ID, s)] ∧ r.1 = s ∧
    ∃ pre, r.2 = pre ++ [Event.LockPcsr BaseAddress,
      Event.PrintDbgErr s XPm_IntErr.XPM_INT_ERR_MEB_BISR_REPAIR]) ∨
  (∃ s, K.XST_SUCCESS ≠ s ∧
    repairCalls r.2 = [(K.MEA_TAG_ID, K.XST_SUCCESS), (K.MEB_TAG_ID, K.XST_SUCCESS),
      (K.MEC_TAG_ID, s)] ∧ r.1 = s ∧
    ∃ pre, r.2 = pre ++ [Event.LockPcsr BaseAddress,
      Event.PrintDbgErr s XPm_IntErr.XPM_INT_ERR_MEC_BISR_REPAIR]) ∨
  (repairCalls r.2 = [(K.MEA_TAG_ID, K.XST_SUCCESS), (K.MEB_TAG_ID, K.XST_SUCCESS),
      (K.MEC_TAG_ID, K.XST_SUCCESS)] ∧ r.1 = K.XST_SUCCESS ∧ NoLock r.2)

end BisrVocabulary

/-! ## The order of the PCSR writes of Memory-BIST-Clear -/

section MbistVocabulary

/-- The two register writes of a successful `AiePcsrWrite(Mask, Value)` on the device at
`DevBase`: `Mask` to the mask register, then `Value` to the control register. -/
def pcsrWritePair (K : Consts) (DevBase Mask Value : Nat) : List (Nat × Nat) :=
  [(pcsrMaskAddr K DevBase, u32 Mask), (pcsrControlAddr K DevBase, u32 Value)]

/-- Whenever the computation ends with the status `XST_SUCCESS` (read out of its result by
`ret`), its 32-bit register writes are exactly `w`, in that order. -/
structure WritesOk {α : Type} (K : Consts) (ret : α → XStatus) (m : M α)
    (w : List (Nat × Nat)) : Prop where
  writes : ∀ h, ret (m h).1 = K.XST_SUCCESS → regWrites (m h).2 = w

end MbistVocabulary

/-! ## The order of the register operations of Scan-Clear -/

section ScanClearVocabulary

end ScanClearVocabulary

/-! ## Loops over the tiles of the array -/

section TileVocabulary

/-- The hardware mutations among the events, in the order of issue. -/
def mutations (evs : List Event) : List Event := evs.filter Event.isRegWrite

/-- The index pairs `(i, j)` visited by a loop over `i` in `[lo1, hi1)` with an inner loop
over `j` in `[lo2, hi2)`, in the order of the visits. -/
def loopPairs (lo1 hi1 lo2 hi2 : Nat) : List (Nat × Nat) :=
  (List.range' lo1 (hi1 - lo1)).flatMap fun i =>
    (List.range' lo2 (hi2 - lo2)).map fun j => (i, j)

/-- The events are one read-modify-write of the word at each address of the list, in the
order of the list, and nothing else: the word is read and then written, the value written
having the bits of `Mask` clear and every other bit as it was read. -/
def RmwClears (Mask : Nat) : List Nat → List Event → Prop
  | [], evs => evs = []
  | a :: as, Event.lwea a1 v :: Event.swea a2 w :: evs =>
    a1 = a ∧ a2 = a ∧ w &&& u32 Mask = 0 ∧ w &&& not32 Mask = v &&& not32 Mask ∧
      RmwClears Mask as evs
  | _ :: _, _ => False

end TileVocabulary

/-! ## The regions zeroized by `Aie2MemInit` -/

section RegionVocabulary

/-- The addresses of the word writes (`swea`) among the events, in the order of issue. -/
def wordWriteAddrs : List Event → List Nat
  | [] => []
  | Event.swea a _ :: evs => a :: wordWriteAddrs evs
  | _ :: evs => wordWriteAddrs evs

/-- The word writes of the computation go to the addresses `w`, in that order, whatever
was issued before it. -/
structure WordWrites {α : Type} (m : M α) (w : List Nat) : Prop where
  addrs : ∀ h, wordWriteAddrs (m h).2 = w

/-- The tiles `(col, row)` of the memory-tile region of an array: the columns
`[StartCol, StartCol + NumCols)` and the rows `[StartRow, StartRow + NumMemRows)`. -/
def memTileRegion (A : XPm_AieArray) : List (Nat × Nat) :=
  loopPairs A.StartCol (A.StartCol + A.NumCols) A.StartRow (A.StartRow + A.NumMemRows)

/-- The tiles `(col, row)` of the core region of an array: the columns
`[StartCol, StartCol + NumCols)` and the rows `[StartRow + NumMemRows, StartRow + NumRows)`. -/
def coreRegion (A : XPm_AieArray) : List (Nat × Nat) :=
  loopPairs A.StartCol (A.StartCol + A.NumCols) (A.StartRow + A.NumMemRows)
    (A.StartRow + A.NumRows)

end RegionVocabulary

/-! ## The order of the mutations of BISR -/

section BisrOrderVocabulary

/-- Whenever the computation ends with the status `XST_SUCCESS` (read out of its result by
`ret`), its hardware mutations, in the order of issue, satisfy `P`. -/
structure MutRel {α : Type} (K : Consts) (ret : α → XStatus) (m : M α)
    (P : List Event → Prop) : Prop where
  rel : ∀ h, ret (m h).1 = K.XST_SUCCESS → P (mutations (m h).2)

end BisrOrderVocabulary

/-! ## The core memory initialisation of Generation 1 -/

section CoreInitVocabulary

/-- A loop over the items of a list, in order, whose body may leave the loop with a
status (`some`); `none` means that every iteration ran to its end. -/
def forListE {ι : Type} (body : ι → M (Option XStatus)) : List ι → M (Option XStatus)
  | [] => pure none
  | t :: ts => do
    let r ← body t
    match r with
    | some Status => pure (some Status)
    | none => forListE body ts

/-- The tiles `(col, row)` of the array `[StartCol, StartCol + NumCols) ×
[StartRow, StartRow + NumRows)`, column by column. -/
def arrayTiles (A : XPm_AieArray) : List (Nat × Nat) :=
  loopPairs A.StartCol (A.StartCol + A.NumCols) A.StartRow (A.StartRow + A.NumRows)

/-- The address of the program memory of the Generation-1 tile `t = (col, row)`. -/
def programMemAddr (K : Consts) (A : XPm_AieArray) (t : Nat × Nat) : Nat :=
  u64 (AIE1_TILE_BADDR A.NocAddress t.1 t.2 + K.AIE_PROGRAM_MEM_OFFSET)

/-- The events of a tile that is loaded and enabled: the transfer of the 40 words of
`ProgramMem` to the program memory of the tile, returning `XST_SUCCESS`, then the core
control register of the tile written 0 and written 1. -/
def coreInitEvents (K : Consts) (A : XPm_AieArray) (t : Nat × Nat) : List Event :=
  [Event.DmaXfr ProgramMem (programMemAddr K A t) 40 K.XPLMI_PMCDMA_0 K.XST_SUCCESS,
   Event.swea (u64 (AIE1_TILE_BADDR A.NocAddress t.1 t.2 + K.AIE_CORE_CONTROL_OFFSET)) 0,
   Event.swea (u64 (AIE1_TILE_BADDR A.NocAddress t.1 t.2 + K.AIE_CORE_CONTROL_OFFSET)) 1]

/-- The tile `(StartCol + NumCols - 1, StartRow + NumRows - 1)`, each coordinate computed
in 32-bit arithmetic: the last tile of a non-empty array. -/
def lastTile (A : XPm_AieArray) : Nat × Nat :=
  (u32 (A.StartCol + A.NumCols + 2 ^ 32 - 1), u32 (A.StartRow + A.NumRows + 2 ^ 32 - 1))

/-- The address of the core status register of the tile `lastTile`. -/
def lastCoreStatusAddr (K : Consts) (A : XPm_AieArray) : Nat :=
  u64 (AIE1_TILE_BADDR A.NocAddress (lastTile A).1 (lastTile A).2 + K.AIE_CORE_STATUS_OFFSET)

/-- A domain whose row bound wraps: one column, `StartRow = 1` and `NumRows = 65535`, so
that the 16-bit sum `StartRow + NumRows` is 0.  It is the geometry that
`XPmAieDomain_Init` reads from the topology words `Args[0] = 1`, `Args[1] = 0xFFFF0001`,
`Args[2] = 1` under the sample constants. -/
def rowWrapDomain : XPm_AieDomain where
  Domain := { HcDisableMask := 0 }
  Array :=
    { GenVersion := 1
      NocAddress := 0x200000000
      StartCol := 0
      NumCols := 1
      StartRow := 1
      NumRows := 65535
      NumShimRows := 1
      NumMemRows := 0
      NumAieRows := 0 }
  Hooks := aie1Hooks

/-- The events that end a run of `AieCoreMemInit` in which every tile was loaded: one poll
of the DONE bit of the core status register of the last tile, returning `st`, and the two
diagnostic reports (of `AieWaitForCoreDone` and of `AieCoreMemInit`). -/
def coreDonePoll (K : Consts) (A : XPm_AieArray) (st : XStatus) : List Event :=
  [Event.PollForMask64 (u32 (lastCoreStatusAddr K A >>> 32)) (u32 (lastCoreStatusAddr K A))
      AIE_CORE_STATUS_DONE_MASK 10 st,
   Event.PrintDbgErr st (if st ≠ K.XST_SUCCESS then
     XPm_IntErr.XPM_INT_ERR_AIE_CORE_STATUS_TIMEOUT else XPm_IntErr.XPM_INT_ERR_UNDEFINED),
   Event.PrintDbgErr st (if K.XST_SUCCESS ≠ st then
     XPm_IntErr.XPM_INT_ERR_AIE_CORE_STATUS_TIMEOUT else XPm_IntErr.XPM_INT_ERR_UNDEFINED)]

end CoreInitVocabulary

/-! ## Running computations -/

set_option linter.unusedTactic false

set_option linter.unreachableTactic false

set_option linter.unusedVariables false

section Run

variable {α β : Type}

theorem run_pure (a : α) (h : List Event) : (pure a : M α) h = (a, []) := rfl

theorem run_bind (m : M α) (f : α → M β) (h : List Event) :
    (m >>= f) h = ((f (m h).1 (h ++ (m h).2)).1, (m h).2 ++ (f (m h).1 (h ++ (m h).2)).2) :=
  rfl

theorem run_emit (e : Event) (h : List Event) : emit e h = ((), [e]) := rfl

theorem run_ite (c : Prop) [Decidable c] (a b : M α) (h : List Event) :
    (if c then a else b) h = if c then a h else b h := by
  split <;> rfl

end Run

/-! ## Tile base addresses -/

/-- C1: for every 64-bit `NocAddress` and 32-bit `col`, `row`, the Generation-1 tile base
address is `(NocAddress + col * 2^23 + row * 2^18) mod 2^64` and the Generation-2 one is
`(NocAddress + col * 2^25 + row * 2^20) mod 2^64`; tile (0,0) of Generation 1 is at
`NocAddress`, tile (1,0) at `NocAddress + 2^23` (Generation 2: `NocAddress + 2^25`), modulo
`2^64` and exactly so when the sum fits in 64 bits. -/
theorem tile_baddr_formula (NocAddress col row : Nat) (hN : NocAddress < 2 ^ 64)
    (hc : col < 2 ^ 32) (hr : row < 2 ^ 32) :
    AIE1_TILE_BADDR NocAddress col row = (NocAddress + col * 2 ^ 23 + row * 2 ^ 18) % 2 ^ 64 ∧
    AIE2_TILE_BADDR NocAddress col row = (NocAddress + col * 2 ^ 25 + row * 2 ^ 20) % 2 ^ 64 ∧
    AIE1_TILE_BADDR NocAddress 0 0 = NocAddress ∧
    AIE1_TILE_BADDR NocAddress 1 0 = (NocAddress + 2 ^ 23) % 2 ^ 64 ∧
    AIE2_TILE_BADDR NocAddress 1 0 = (NocAddress + 2 ^ 25) % 2 ^ 64 ∧
    (NocAddress + 2 ^ 23 < 2 ^ 64 → AIE1_TILE_BADDR NocAddress 1 0 = NocAddress + 2 ^ 23) ∧
    (NocAddress + 2 ^ 25 < 2 ^ 64 → AIE2_TILE_BADDR NocAddress 1 0 = NocAddress + 2 ^ 25) := by
  simp only [AIE1_TILE_BADDR, AIE2_TILE_BADDR, u64, COL_SHIFT, ROW_SHIFT, AIE2_COL_SHIFT,
    AIE2_ROW_SHIFT, Nat.shiftLeft_eq]
  refine ⟨?_, ?_, ?_, ?_, ?_, ?_, ?_⟩ <;> omega

/-- C1, an instance: the NoC address `0x20000000000` with column `0xFFFFFFFF` and row 3. -/
theorem tile_baddr_formula_witness :
    AIE1_TILE_BADDR 0x20000000000 0xFFFFFFFF 3 =
      (0x20000000000 + 0xFFFFFFFF * 2 ^ 23 + 3 * 2 ^ 18) % 2 ^ 64 ∧
    AIE2_TILE_BADDR 0x20000000000 0xFFFFFFFF 3 =
      (0x20000000000 + 0xFFFFFFFF * 2 ^ 25 + 3 * 2 ^ 20) % 2 ^ 64 ∧
    AIE1_TILE_BADDR 0x20000000000 0 0 = 0x20000000000 ∧
    AIE1_TILE_BADDR 0x20000000000 1 0 = (0x20000000000 + 2 ^ 23) % 2 ^ 64 ∧
    AIE2_TILE_BADDR 0x20000000000 1 0 = (0x20000000000 + 2 ^ 25) % 2 ^ 64 ∧
    (0x20000000000 + 2 ^ 23 < 2 ^ 64 →
      AIE1_TILE_BADDR 0x20000000000 1 0 = 0x20000000000 + 2 ^ 23) ∧
    (0x20000000000 + 2 ^ 25 < 2 ^ 64 →
      AIE2_TILE_BADDR 0x20000000000 1 0 = 0x20000000000 + 2 ^ 25) :=
  tile_baddr_formula 0x20000000000 0xFFFFFFFF 3 (by decide) (by decide) (by decide)

/-! ## Computations that never lock the PCSR -/

section NoLockLemmas

variable {α β : Type} (K : Consts) (env : Env)

theorem noLock_append (a b : List Event) : NoLock (a ++ b) ↔ NoLock a ∧ NoLock b := by
  simp only [NoLock, List.mem_append]
  constructor
  · intro hab
    exact ⟨fun e he => hab e (Or.inl he), fun e he => hab e (Or.inr he)⟩
  · rintro ⟨ha, hb⟩ e (he | he)
    · exact ha e he
    · exact hb e he

theorem noLock_singleton {e : Event} (he : e.isLock = false) : NoLock [e] := by
  intro e' he'
  simp only [List.mem_singleton] at he'
  exact he' ▸ he

theorem noLockM_pure (a : α) : NoLockM (pure a : M α) :=
  ⟨fun h e he => by simp [run_pure] at he⟩

theorem noLockM_bind {m : M α} {f : α → M β} (hm : NoLockM m) (hf : ∀ a, NoLockM (f a)) :
    NoLockM (m >>= f) :=
  ⟨fun h => by
    rw [run_bind]
    exact (noLock_append _ _).2 ⟨hm.noLock h, (hf _).noLock _⟩⟩

theorem noLockM_emit {e : Event} (he : e.isLock = false) : NoLockM (emit e) :=
  ⟨fun _ => noLock_singleton he⟩

theorem noLockM_ite {c : Prop} [Decidable c] {a b : M α} (ha : NoLockM a) (hb : NoLockM b) :
    NoLockM (if c then a else b) := by
  split
  · exact ha
  · exact hb

theorem noLockM_GetById (Id : Nat) : NoLockM (XPmDevice_GetById env Id) :=
  ⟨fun h e he => by simp [XPmDevice_GetById] at he⟩

theorem noLockM_In32 (a : Nat) : NoLockM (XPm_In32 env a) :=
  ⟨fun _ => noLock_singleton rfl⟩

theorem noLockM_Out32 (a v : Nat) : NoLockM (PmOut32 a v) := noLockM_emit rfl

theorem noLockM_AieWrite64 (a v : Nat) : NoLockM (AieWrite64 a v) := noLockM_emit rfl

theorem noLockM_AieRead64 (a : Nat) : NoLockM (AieRead64 env a) :=
  ⟨fun _ => noLock_singleton rfl⟩

theorem noLockM_Unlock (b : Nat) : NoLockM (XPmAieDomain_UnlockPcsr b) := noLockM_emit rfl

theorem noLockM_PrintDbgErr (s : XStatus) (d : XPm_IntErr) : NoLockM (XPm_PrintDbgErr s d) :=
  noLockM_emit rfl

theorem noLockM_AieWait (us : Nat) : NoLockM (AieWait us) := noLockM_emit rfl

theorem noLockM_PollForMask64 (a b c d : Nat) :
    NoLockM (XPlmi_UtilPollForMask64 env a b c d) :=
  ⟨fun _ => noLock_singleton rfl⟩

theorem noLockM_DmaXfr (s : List Nat) (a b c : Nat) : NoLockM (XPlmi_DmaXfr env s a b c) :=
  ⟨fun _ => noLock_singleton rfl⟩

theorem noLockM_IsoControl (a b : Nat) : NoLockM (XPmDomainIso_Control env a b) :=
  ⟨fun _ => noLock_singleton rfl⟩

theorem noLockM_BisrRepair (a : Nat) : NoLockM (XPmBisr_Repair env a) :=
  ⟨fun _ => noLock_singleton rfl⟩

theorem noLockM_gotoDone (s : XStatus) (d : XPm_IntErr) : NoLockM (gotoDone s d) :=
  noLockM_bind (noLockM_PrintDbgErr s d) fun _ => noLockM_pure s

theorem noLockM_PmChkRegOut32 (a d : Nat) (s : XStatus) :
    NoLockM (PmChkRegOut32 K env a d s) :=
  noLockM_bind (noLockM_In32 env a) fun _ => noLockM_ite (noLockM_pure _) (noLockM_pure _)

theorem noLockM_PmChkRegMask32 (a m d : Nat) (s : XStatus) :
    NoLockM (PmChkRegMask32 K env a m d s) :=
  noLockM_bind (noLockM_In32 env a) fun _ => noLockM_ite (noLockM_pure _) (noLockM_pure _)

theorem noLockM_RMW32 (a m v : Nat) : NoLockM (XPm_RMW32 env a m v) :=
  noLockM_bind (noLockM_In32 env a) fun _ => noLockM_Out32 _ _

theorem noLockM_AieRMW64 (a m v : Nat) : NoLockM (AieRMW64 env a m v) :=
  noLockM_bind (noLockM_AieRead64 env a) fun _ => noLockM_AieWrite64 _ _

theorem noLockM_PollForMask (a m n : Nat) : NoLockM (XPm_PollForMask K env a m n) := by
  induction n with
  | zero => exact noLockM_pure _
  | succ n ih =>
    exact noLockM_bind (noLockM_In32 env a) fun _ => noLockM_ite (noLockM_pure _) ih

theorem noLockM_forLoop {body : Nat → M Unit} (hb : ∀ i, NoLockM (body i)) (n i : Nat) :
    NoLockM (forLoop body n i) := by
  induction n generalizing i with
  | zero => exact noLockM_pure _
  | succ n ih => exact noLockM_bind (hb i) fun _ => ih (i + 1)

theorem noLockM_forRange {body : Nat → M Unit} (hb : ∀ i, NoLockM (body i)) (lo hi : Nat) :
    NoLockM (forRange lo hi body) :=
  noLockM_forLoop hb _ _

theorem noLockM_forLoopE {body : Nat → M (Option XStatus)} (hb : ∀ i, NoLockM (body i))
    (n i : Nat) : NoLockM (forLoopE body n i) := by
  induction n generalizing i with
  | zero => exact noLockM_pure _
  | succ n ih =>
    refine noLockM_bind (hb i) fun r => ?_
    cases r with
    | none => exact ih (i + 1)
    | some s => exact noLockM_pure _

theorem noLockM_forRangeE {body : Nat → M (Option XStatus)} (hb : ∀ i, NoLockM (body i))
    (lo hi : Nat) : NoLockM (forRangeE lo hi body) :=
  noLockM_forLoopE hb _ _

theorem noLockM_AiePcsrWrite (Mask Value : Nat) : NoLockM (AiePcsrWrite K env Mask Value) := by
  unfold AiePcsrWrite
  repeat' first
    | with_reducible exact noLockM_pure _
    | with_reducible exact noLockM_GetById _ _
    | with_reducible exact noLockM_gotoDone _ _
    | with_reducible exact noLockM_Out32 _ _
    | with_reducible exact noLockM_In32 _ _
    | with_reducible exact noLockM_AieWrite64 _ _
    | with_reducible exact noLockM_AieRead64 _ _
    | with_reducible exact noLockM_AieWait _
    | with_reducible exact noLockM_Unlock _
    | with_reducible exact noLockM_RMW32 _ _ _ _
    | with_reducible exact noLockM_AieRMW64 _ _ _ _
    | with_reducible exact noLockM_PollForMask64 _ _ _ _ _
    | with_reducible exact noLockM_DmaXfr _ _ _ _ _
    | with_reducible exact noLockM_IsoControl _ _ _
    | with_reducible exact noLockM_BisrRepair _ _
    | with_reducible exact noLockM_PollForMask _ _ _ _ _
    | with_reducible exact noLockM_PmChkRegOut32 _ _ _ _ _
    | with_reducible exact noLockM_PmChkRegMask32 _ _ _ _ _ _
    | with_reducible apply noLockM_forRange
    | with_reducible apply noLockM_forRangeE
    | with_reducible apply noLockM_bind
    | with_reducible apply noLockM_ite
    | intro _
    | split

theorem noLockM_AieCoreEnable (d : XPm_AieDomain) (c r : Nat) :
    NoLockM (AieCoreEnable K d c r) := by
  unfold AieCoreEnable
  try dsimp only
  repeat' first
    | with_reducible exact noLockM_pure _
    | with_reducible exact noLockM_GetById _ _
    | with_reducible exact noLockM_gotoDone _ _
    | with_reducible exact noLockM_Out32 _ _
    | with_reducible exact noLockM_In32 _ _
    | with_reducible exact noLockM_AieWrite64 _ _
    | with_reducible exact noLockM_AieRead64 _ _
    | with_reducible exact noLockM_AieWait _
    | with_reducible exact noLockM_Unlock _
    | with_reducible exact noLockM_RMW32 _ _ _ _
    | with_reducible exact noLockM_AieRMW64 _ _ _ _
    | with_reducible exact noLockM_PollForMask64 _ _ _ _ _
    | with_reducible exact noLockM_DmaXfr _ _ _ _ _
    | with_reducible exact noLockM_IsoControl _ _ _
    | with_reducible exact noLockM_BisrRepair _ _
    | with_reducible exact noLockM_PollForMask _ _ _ _ _
    | with_reducible exact noLockM_PmChkRegOut32 _ _ _ _ _
    | with_reducible exact noLockM_PmChkRegMask32 _ _ _ _ _ _
    | with_reducible apply noLockM_forRange
    | with_reducible apply noLockM_forRangeE
    | with_reducible apply noLockM_bind
    | with_reducible apply noLockM_ite
    | intro _
    | split

theorem noLockM_AieWaitForCoreDone (d : XPm_AieDomain) (c r : Nat) :
    NoLockM (AieWaitForCoreDone K env d c r) := by
  unfold AieWaitForCoreDone
  try dsimp only
  repeat' first
    | with_reducible exact noLockM_pure _
    | with_reducible exact noLockM_GetById _ _
    | with_reducible exact noLockM_gotoDone _ _
    | with_reducible exact noLockM_Out32 _ _
    | with_reducible exact noLockM_In32 _ _
    | with_reducible exact noLockM_AieWrite64 _ _
    | with_reducible exact noLockM_AieRead64 _ _
    | with_reducible exact noLockM_AieWait _
    | with_reducible exact noLockM_Unlock _
    | with_reducible exact noLockM_RMW32 _ _ _ _
    | with_reducible exact noLockM_AieRMW64 _ _ _ _
    | with_reducible exact noLockM_PollForMask64 _ _ _ _ _
    | with_reducible exact noLockM_DmaXfr _ _ _ _ _
    | with_reducible exact noLockM_IsoControl _ _ _
    | with_reducible exact noLockM_BisrRepair _ _
    | with_reducible exact noLockM_PollForMask _ _ _ _ _
    | with_reducible exact noLockM_PmChkRegOut32 _ _ _ _ _
    | with_reducible exact noLockM_PmChkRegMask32 _ _ _ _ _ _
    | with_reducible apply noLockM_forRange
    | with_reducible apply noLockM_forRangeE
    | with_reducible apply noLockM_bind
    | with_reducible apply noLockM_ite
    | intro _
    | split

theorem noLockM_ProgramCore (d : XPm_AieDomain) (c r : Nat) (p : List Nat) (n : Nat) :
    NoLockM (ProgramCore K env d c r p n) :=
  noLockM_DmaXfr env _ _ _ _

theorem noLockM_ArrayReset :
    NoLockM (ArrayReset K env) := by
  unfold ArrayReset
  try dsimp only
  repeat' first
    | with_reducible exact noLockM_pure _
    | with_reducible exact noLockM_GetById _ _
    | with_reducible exact noLockM_gotoDone _ _
    | with_reducible exact noLockM_Out32 _ _
    | with_reducible exact noLockM_In32 _ _
    | with_reducible exact noLockM_AieWrite64 _ _
    | with_reducible exact noLockM_AieRead64 _ _
    | with_reducible exact noLockM_AieWait _
    | with_reducible exact noLockM_Unlock _
    | with_reducible exact noLockM_RMW32 _ _ _ _
    | with_reducible exact noLockM_AieRMW64 _ _ _ _
    | with_reducible exact noLockM_PollForMask64 _ _ _ _ _
    | with_reducible exact noLockM_DmaXfr _ _ _ _ _
    | with_reducible exact noLockM_IsoControl _ _ _
    | with_reducible exact noLockM_BisrRepair _ _
    | with_reducible exact noLockM_PollForMask _ _ _ _ _
    | with_reducible exact noLockM_PmChkRegOut32 _ _ _ _ _
    | with_reducible exact noLockM_PmChkRegMask32 _ _ _ _ _ _
    | with_reducible exact noLockM_AiePcsrWrite _ _ _ _
    | with_reducible apply noLockM_forRange
    | with_reducible apply noLockM_forRangeE
    | with_reducible apply noLockM_bind
    | with_reducible apply noLockM_ite
    | intro _
    | split

theorem noLockM_TriggerEccScrub (d : XPm_AieDomain) (a : Nat) :
    NoLockM (TriggerEccScrub K d a) := by
  unfold TriggerEccScrub
  try dsimp only
  repeat' first
    | with_reducible exact noLockM_pure _
    | with_reducible exact noLockM_GetById _ _
    | with_reducible exact noLockM_gotoDone _ _
    | with_reducible exact noLockM_Out32 _ _
    | with_reducible exact noLockM_In32 _ _
    | with_reducible exact noLockM_AieWrite64 _ _
    | with_reducible exact noLockM_AieRead64 _ _
    | with_reducible exact noLockM_AieWait _
    | with_reducible exact noLockM_Unlock _
    | with_reducible exact noLockM_RMW32 _ _ _ _
    | with_reducible exact noLockM_AieRMW64 _ _ _ _
    | with_reducible exact noLockM_PollForMask64 _ _ _ _ _
    | with_reducible exact noLockM_DmaXfr _ _ _ _ _
    | with_reducible exact noLockM_IsoControl _ _ _
    | with_reducible exact noLockM_BisrRepair _ _
    | with_reducible exact noLockM_PollForMask _ _ _ _ _
    | with_reducible exact noLockM_PmChkRegOut32 _ _ _ _ _
    | with_reducible exact noLockM_PmChkRegMask32 _ _ _ _ _ _
    | with_reducible apply noLockM_forRange
    | with_reducible apply noLockM_forRangeE
    | with_reducible apply noLockM_bind
    | with_reducible apply noLockM_ite
    | intro _
    | split

theorem noLockM_AieClkGateByCol (d : XPm_AieDomain) :
    NoLockM (AieClkGateByCol K env d) := by
  unfold AieClkGateByCol
  try dsimp only
  repeat' first
    | with_reducible exact noLockM_pure _
    | with_reducible exact noLockM_GetById _ _
    | with_reducible exact noLockM_gotoDone _ _
    | with_reducible exact noLockM_Out32 _ _
    | with_reducible exact noLockM_In32 _ _
    | with_reducible exact noLockM_AieWrite64 _ _
    | with_reducible exact noLockM_AieRead64 _ _
    | with_reducible exact noLockM_AieWait _
    | with_reducible exact noLockM_Unlock _
    | with_reducible exact noLockM_RMW32 _ _ _ _
    | with_reducible exact noLockM_AieRMW64 _ _ _ _
    | with_reducible exact noLockM_PollForMask64 _ _ _ _ _
    | with_reducible exact noLockM_DmaXfr _ _ _ _ _
    | with_reducible exact noLockM_IsoControl _ _ _
    | with_reducible exact noLockM_BisrRepair _ _
    | with_reducible exact noLockM_PollForMask _ _ _ _ _
    | with_reducible exact noLockM_PmChkRegOut32 _ _ _ _ _
    | with_reducible exact noLockM_PmChkRegMask32 _ _ _ _ _ _
    | with_reducible apply noLockM_forRange
    | with_reducible apply noLockM_forRangeE
    | with_reducible apply noLockM_bind
    | with_reducible apply noLockM_ite
    | intro _
    | split

theorem noLockM_AieCoreMemInit (d : XPm_AieDomain) :
    NoLockM (AieCoreMemInit K env d) := by
  unfold AieCoreMemInit
  try dsimp only
  repeat' first
    | with_reducible exact noLockM_pure _
    | with_reducible exact noLockM_GetById _ _
    | with_reducible exact noLockM_gotoDone _ _
    | with_reducible exact noLockM_Out32 _ _
    | with_reducible exact noLockM_In32 _ _
    | with_reducible exact noLockM_AieWrite64 _ _
    | with_reducible exact noLockM_AieRead64 _ _
    | with_reducible exact noLockM_AieWait _
    | with_reducible exact noLockM_Unlock _
    | with_reducible exact noLockM_RMW32 _ _ _ _
    | with_reducible exact noLockM_AieRMW64 _ _ _ _
    | with_reducible exact noLockM_PollForMask64 _ _ _ _ _
    | with_reducible exact noLockM_DmaXfr _ _ _ _ _
    | with_reducible exact noLockM_IsoControl _ _ _
    | with_reducible exact noLockM_BisrRepair _ _
    | with_reducible exact noLockM_PollForMask _ _ _ _ _
    | with_reducible exact noLockM_PmChkRegOut32 _ _ _ _ _
    | with_reducible exact noLockM_PmChkRegMask32 _ _ _ _ _ _
    | with_reducible exact noLockM_ProgramCore _ _ _ _ _ _ _
    | with_reducible exact noLockM_AieCoreEnable _ _ _ _
    | with_reducible exact noLockM_AieWaitForCoreDone _ _ _ _ _
    | with_reducible apply noLockM_forRange
    | with_reducible apply noLockM_forRangeE
    | with_reducible apply noLockM_bind
    | with_reducible apply noLockM_ite
    | intro _
    | split

theorem noLockM_Aie2ClockInit (d : XPm_AieDomain) (b : Nat) :
    NoLockM (Aie2ClockInit K env d b) := by
  unfold Aie2ClockInit
  try dsimp only
  repeat' first
    | with_reducible exact noLockM_pure _
    | with_reducible exact noLockM_GetById _ _
    | with_reducible exact noLockM_gotoDone _ _
    | with_reducible exact noLockM_Out32 _ _
    | with_reducible exact noLockM_In32 _ _
    | with_reducible exact noLockM_AieWrite64 _ _
    | with_reducible exact noLockM_AieRead64 _ _
    | with_reducible exact noLockM_AieWait _
    | with_reducible exact noLockM_Unlock _
    | with_reducible exact noLockM_RMW32 _ _ _ _
    | with_reducible exact noLockM_AieRMW64 _ _ _ _
    | with_reducible exact noLockM_PollForMask64 _ _ _ _ _
    | with_reducible exact noLockM_DmaXfr _ _ _ _ _
    | with_reducible exact noLockM_IsoControl _ _ _
    | with_reducible exact noLockM_BisrRepair _ _
    | with_reducible exact noLockM_PollForMask _ _ _ _ _
    | with_reducible exact noLockM_PmChkRegOut32 _ _ _ _ _
    | with_reducible exact noLockM_PmChkRegMask32 _ _ _ _ _ _
    | with_reducible apply noLockM_forRange
    | with_reducible apply noLockM_forRangeE
    | with_reducible apply noLockM_bind
    | with_reducible apply noLockM_ite
    | intro _
    | split

theorem noLockM_Aie2ClockGate (d : XPm_AieDomain) (b : Nat) :
    NoLockM (Aie2ClockGate K env d b) := by
  unfold Aie2ClockGate
  try dsimp only
  repeat' first
    | with_reducible exact noLockM_pure _
    | with_reducible exact noLockM_GetById _ _
    | with_reducible exact noLockM_gotoDone _ _
    | with_reducible exact noLockM_Out32 _ _
    | with_reducible exact noLockM_In32 _ _
    | with_reducible exact noLockM_AieWrite64 _ _
    | with_reducible exact noLockM_AieRead64 _ _
    | with_reducible exact noLockM_AieWait _
    | with_reducible exact noLockM_Unlock _
    | with_reducible exact noLockM_RMW32 _ _ _ _
    | with_reducible exact noLockM_AieRMW64 _ _ _ _
    | with_reducible exact noLockM_PollForMask64 _ _ _ _ _
    | with_reducible exact noLockM_DmaXfr _ _ _ _ _
    | with_reducible exact noLockM_IsoControl _ _ _
    | with_reducible exact noLockM_BisrRepair _ _
    | with_reducible exact noLockM_PollForMask _ _ _ _ _
    | with_reducible exact noLockM_PmChkRegOut32 _ _ _ _ _
    | with_reducible exact noLockM_PmChkRegMask32 _ _ _ _ _ _
    | with_reducible apply noLockM_forRange
    | with_reducible apply noLockM_forRangeE
    | with_reducible apply noLockM_bind
    | with_reducible apply noLockM_ite
    | intro _
    | split

theorem noLockM_AiePostScanClearHook (d : XPm_AieDomain) (b : Nat) :
    NoLockM (AiePostScanClearHook K env d b) :=
  noLockM_AiePcsrWrite K env _ _

theorem noLockM_AiePreBisrHook (d : XPm_AieDomain) (b : Nat) :
    NoLockM (AiePreBisrHook K env d b) := by
  unfold AiePreBisrHook
  try dsimp only
  repeat' first
    | with_reducible exact noLockM_pure _
    | with_reducible exact noLockM_GetById _ _
    | with_reducible exact noLockM_gotoDone _ _
    | with_reducible exact noLockM_Out32 _ _
    | with_reducible exact noLockM_In32 _ _
    | with_reducible exact noLockM_AieWrite64 _ _
    | with_reducible exact noLockM_AieRead64 _ _
    | with_reducible exact noLockM_AieWait _
    | with_reducible exact noLockM_Unlock _
    | with_reducible exact noLockM_RMW32 _ _ _ _
    | with_reducible exact noLockM_AieRMW64 _ _ _ _
    | with_reducible exact noLockM_PollForMask64 _ _ _ _ _
    | with_reducible exact noLockM_DmaXfr _ _ _ _ _
    | with_reducible exact noLockM_IsoControl _ _ _
    | with_reducible exact noLockM_BisrRepair _ _
    | with_reducible exact noLockM_PollForMask _ _ _ _ _
    | with_reducible exact noLockM_PmChkRegOut32 _ _ _ _ _
    | with_reducible exact noLockM_PmChkRegMask32 _ _ _ _ _ _
    | with_reducible exact noLockM_AiePcsrWrite _ _ _ _
    | with_reducible apply noLockM_forRange
    | with_reducible apply noLockM_forRangeE
    | with_reducible apply noLockM_bind
    | with_reducible apply noLockM_ite
    | intro _
    | split

theorem noLockM_Aie2PreBisrHook (d : XPm_AieDomain) (b : Nat) :
    NoLockM (Aie2PreBisrHook K env d b) := by
  unfold Aie2PreBisrHook
  try dsimp only
  repeat' first
    | with_reducible exact noLockM_pure _
    | with_reducible exact noLockM_GetById _ _
    | with_reducible exact noLockM_gotoDone _ _
    | with_reducible exact noLockM_Out32 _ _
    | with_reducible exact noLockM_In32 _ _
    | with_reducible exact noLockM_AieWrite64 _ _
    | with_reducible exact noLockM_AieRead64 _ _
    | with_reducible exact noLockM_AieWait _
    | with_reducible exact noLockM_Unlock _
    | with_reducible exact noLockM_RMW32 _ _ _ _
    | with_reducible exact noLockM_AieRMW64 _ _ _ _
    | with_reducible exact noLockM_PollForMask64 _ _ _ _ _
    | with_reducible exact noLockM_DmaXfr _ _ _ _ _
    | with_reducible exact noLockM_IsoControl _ _ _
    | with_reducible exact noLockM_BisrRepair _ _
    | with_reducible exact noLockM_PollForMask _ _ _ _ _
    | with_reducible exact noLockM_PmChkRegOut32 _ _ _ _ _
    | with_reducible exact noLockM_PmChkRegMask32 _ _ _ _ _ _
    | with_reducible exact noLockM_AiePcsrWrite _ _ _ _
    | with_reducible apply noLockM_forRange
    | with_reducible apply noLockM_forRangeE
    | with_reducible apply noLockM_bind
    | with_reducible apply noLockM_ite
    | intro _
    | split

theorem noLockM_invokePostScanClearHook (d : XPm_AieDomain) (b : Nat)
    (f : PostScanClearHookFn) : NoLockM (invokePostScanClearHook K env d b f) := by
  cases f
  exact noLockM_AiePostScanClearHook K env d b

theorem noLockM_invokePreBisrHook (d : XPm_AieDomain) (b : Nat) (f : PreBisrHookFn) :
    NoLockM (invokePreBisrHook K env d b f) := by
  cases f
  · exact noLockM_AiePreBisrHook K env d b
  · exact noLockM_Aie2PreBisrHook K env d b

theorem noLockM_TriggerMemClear (e : XPm_IntErr) :
    NoLockM (TriggerMemClear K env e) := by
  unfold TriggerMemClear
  try dsimp only
  repeat' first
    | with_reducible exact noLockM_pure _
    | with_reducible exact noLockM_GetById _ _
    | with_reducible exact noLockM_gotoDone _ _
    | with_reducible exact noLockM_Out32 _ _
    | with_reducible exact noLockM_In32 _ _
    | with_reducible exact noLockM_AieWrite64 _ _
    | with_reducible exact noLockM_AieRead64 _ _
    | with_reducible exact noLockM_AieWait _
    | with_reducible exact noLockM_Unlock _
    | with_reducible exact noLockM_RMW32 _ _ _ _
    | with_reducible exact noLockM_AieRMW64 _ _ _ _
    | with_reducible exact noLockM_PollForMask64 _ _ _ _ _
    | with_reducible exact noLockM_DmaXfr _ _ _ _ _
    | with_reducible exact noLockM_IsoControl _ _ _
    | with_reducible exact noLockM_BisrRepair _ _
    | with_reducible exact noLockM_PollForMask _ _ _ _ _
    | with_reducible exact noLockM_PmChkRegOut32 _ _ _ _ _
    | with_reducible exact noLockM_PmChkRegMask32 _ _ _ _ _ _
    | with_reducible exact noLockM_AiePcsrWrite _ _ _ _
    | with_reducible apply noLockM_forRange
    | with_reducible apply noLockM_forRangeE
    | with_reducible apply noLockM_bind
    | with_reducible apply noLockM_ite
    | intro _
    | split

theorem noLockM_IsMemClearDone (b : Nat) (e : XPm_IntErr) :
    NoLockM (IsMemClearDone K env b e) := by
  unfold IsMemClearDone
  try dsimp only
  repeat' first
    | with_reducible exact noLockM_pure _
    | with_reducible exact noLockM_GetById _ _
    | with_reducible exact noLockM_gotoDone _ _
    | with_reducible exact noLockM_Out32 _ _
    | with_reducible exact noLockM_In32 _ _
    | with_reducible exact noLockM_AieWrite64 _ _
    | with_reducible exact noLockM_AieRead64 _ _
    | with_reducible exact noLockM_AieWait _
    | with_reducible exact noLockM_Unlock _
    | with_reducible exact noLockM_RMW32 _ _ _ _
    | with_reducible exact noLockM_AieRMW64 _ _ _ _
    | with_reducible exact noLockM_PollForMask64 _ _ _ _ _
    | with_reducible exact noLockM_DmaXfr _ _ _ _ _
    | with_reducible exact noLockM_IsoControl _ _ _
    | with_reducible exact noLockM_BisrRepair _ _
    | with_reducible exact noLockM_PollForMask _ _ _ _ _
    | with_reducible exact noLockM_PmChkRegOut32 _ _ _ _ _
    | with_reducible exact noLockM_PmChkRegMask32 _ _ _ _ _ _
    | with_reducible exact noLockM_AiePcsrWrite _ _ _ _
    | with_reducible apply noLockM_forRange
    | with_reducible apply noLockM_forRangeE
    | with_reducible apply noLockM_bind
    | with_reducible apply noLockM_ite
    | intro _
    | split

theorem noLockM_CleanupMemClear (e : XPm_IntErr) :
    NoLockM (CleanupMemClear K env e) := by
  unfold CleanupMemClear
  try dsimp only
  repeat' first
    | with_reducible exact noLockM_pure _
    | with_reducible exact noLockM_GetById _ _
    | with_reducible exact noLockM_gotoDone _ _
    | with_reducible exact noLockM_Out32 _ _
    | with_reducible exact noLockM_In32 _ _
    | with_reducible exact noLockM_AieWrite64 _ _
    | with_reducible exact noLockM_AieRead64 _ _
    | with_reducible exact noLockM_AieWait _
    | with_reducible exact noLockM_Unlock _
    | with_reducible exact noLockM_RMW32 _ _ _ _
    | with_reducible exact noLockM_AieRMW64 _ _ _ _
    | with_reducible exact noLockM_PollForMask64 _ _ _ _ _
    | with_reducible exact noLockM_DmaXfr _ _ _ _ _
    | with_reducible exact noLockM_IsoControl _ _ _
    | with_reducible exact noLockM_BisrRepair _ _
    | with_reducible exact noLockM_PollForMask _ _ _ _ _
    | with_reducible exact noLockM_PmChkRegOut32 _ _ _ _ _
    | with_reducible exact noLockM_PmChkRegMask32 _ _ _ _ _ _
    | with_reducible exact noLockM_AiePcsrWrite _ _ _ _
    | with_reducible apply noLockM_forRange
    | with_reducible apply noLockM_forRangeE
    | with_reducible apply noLockM_bind
    | with_reducible apply noLockM_ite
    | intro _
    | split

end NoLockLemmas

/-! ## The lock discipline, compositionally -/

section DisciplineLemmas

variable {α β : Type} (K : Consts) (env : Env)

theorem run_gotoDone (s : XStatus) (d : XPm_IntErr) (h : List Event) :
    gotoDone s d h = (s, [Event.PrintDbgErr s d]) := rfl

theorem run_gotoFail (b : Nat) (s : XStatus) (d : XPm_IntErr) (h : List Event) :
    gotoFail b s d h = (s, [Event.LockPcsr b, Event.PrintDbgErr s d]) := rfl

theorem run_GetById (Id : Nat) (h : List Event) :
    XPmDevice_GetById env Id h = (env.XPmDevice_GetById h Id, []) := rfl

theorem run_lookup_bind (Id : Nat) (f : Option Nat → M α) (h : List Event) :
    (XPmDevice_GetById env Id >>= f) h = f (env.XPmDevice_GetById h Id) h := by
  rw [run_bind, run_GetById]
  simp

theorem lockedAtExit_append_left {b : Nat} (pre : List Event) {evs : List Event}
    (hl : LockedAtExit b evs) : LockedAtExit b (pre ++ evs) := by
  obtain ⟨p, q, rfl, hq⟩ := hl
  exact ⟨pre ++ p, q, by simp, hq⟩

theorem lockedAtExit_gotoFail (b : Nat) (s : XStatus) (d : XPm_IntErr) :
    LockedAtExit b [Event.LockPcsr b, Event.PrintDbgErr s d] := by
  refine ⟨[], [Event.PrintDbgErr s d], rfl, ?_⟩
  intro e he
  simp only [List.mem_singleton] at he
  subst he
  rfl

theorem disc_bind {b : Nat} {ret : β → Option XStatus} {m : M α} {f : α → M β}
    (hm : NoLockM m) (hf : ∀ a, Disciplined K b ret (f a)) :
    Disciplined K b ret (m >>= f) := by
  refine ⟨fun h Status hret => ?_⟩
  rw [run_bind] at hret ⊢
  have hd := (hf (m h).1).discipline (h ++ (m h).2) Status hret
  exact ⟨fun hs => lockedAtExit_append_left _ (hd.1 hs),
    fun hs => (noLock_append _ _).2 ⟨hm.noLock h, hd.2 hs⟩⟩

theorem disc_ite {b : Nat} {ret : α → Option XStatus} {c : Prop} [Decidable c] {x y : M α}
    (hx : c → Disciplined K b ret x) (hy : ¬ c → Disciplined K b ret y) :
    Disciplined K b ret (if c then x else y) := by
  split
  · exact hx ‹_›
  · exact hy ‹_›

theorem disc_gotoFail {b : Nat} {s : XStatus} {d : XPm_IntErr} (hs : K.XST_SUCCESS ≠ s) :
    Disciplined K b some (gotoFail b s d) := by
  refine ⟨fun h Status hret => ?_⟩
  rw [run_gotoFail] at hret ⊢
  cases hret
  exact ⟨fun _ => lockedAtExit_gotoFail b s d, fun h' => absurd h'.symm hs⟩

theorem disc_gotoDone {b : Nat} {s : XStatus} {d : XPm_IntErr} (hs : ¬ K.XST_SUCCESS ≠ s) :
    Disciplined K b some (gotoDone s d) := by
  refine ⟨fun h Status hret => ?_⟩
  rw [run_gotoDone] at hret ⊢
  cases hret
  exact ⟨fun h' => absurd (fun h'' => h' h''.symm) hs, fun _ => noLock_singleton rfl⟩

theorem disc_gotoDone_success {b : Nat} {d : XPm_IntErr} :
    Disciplined K b some (gotoDone K.XST_SUCCESS d) :=
  disc_gotoDone K fun hne => hne rfl

theorem disc_withDomain {b : Nat} {m : M XStatus} (dom : XPm_AieDomain)
    (hm : Disciplined K b some m) :
    Disciplined K b (fun r => some r.1) (withDomain dom m) := by
  refine ⟨fun h Status hret => ?_⟩
  have hd := hm.discipline h Status
  simp only [withDomain, run_bind, run_pure, List.append_nil] at hret ⊢
  exact hd hret

theorem disc_ret_some {b : Nat} {m : M XStatus} (hm : Disciplined K b some m) :
    Disciplined K b id (m >>= fun Status => pure (some Status)) := by
  refine ⟨fun h Status hret => ?_⟩
  have hd := hm.discipline h Status
  simp only [run_bind, run_pure, List.append_nil, id] at hret ⊢
  exact hd hret

theorem disc_of_lookup {b : Nat} {f : Option Nat → M XStatus} {h : List Event} {Id DevBase : Nat}
    (hl : env.XPmDevice_GetById h Id = some DevBase)
    (hf : Disciplined K b some (f (some DevBase))) :
    LockDiscipline K b ((XPmDevice_GetById env Id >>= f) h).1
      ((XPmDevice_GetById env Id >>= f) h).2 := by
  rw [run_lookup_bind, hl]
  exact hf.discipline h _ rfl

end DisciplineLemmas

/-! ## The lock discipline of each step -/

section StepDiscipline

variable (K : Consts) (env : Env)

theorem disc_lock_gotoDone {b : Nat} {s : XStatus} {d : XPm_IntErr} (hs : K.XST_SUCCESS ≠ s) :
    Disciplined K b some (XPmAieDomain_LockPcsr b >>= fun _ => gotoDone s d) :=
  disc_gotoFail K hs

theorem disc_gotoFail_symm {b : Nat} {s : XStatus} {d : XPm_IntErr} (hs : s ≠ K.XST_SUCCESS) :
    Disciplined K b some (gotoFail b s d) :=
  disc_gotoFail K (Ne.symm hs)

theorem disc_gotoDone_symm {b : Nat} {s : XStatus} {d : XPm_IntErr}
    (hs : ¬ s ≠ K.XST_SUCCESS) : Disciplined K b some (gotoDone s d) :=
  disc_gotoDone K fun hh => hs (Ne.symm hh)

theorem disc_bisrRepairs (PwrDomain : XPm_AieDomain) (b : Nat) {s : XStatus}
    (hs : ¬ K.XST_SUCCESS ≠ s) : Disciplined K b some (bisrRepairs K env PwrDomain b s) := by
  unfold bisrRepairs
  repeat' first
    | with_reducible exact disc_gotoFail K (by assumption)
    | with_reducible exact disc_gotoDone K (by assumption)
    | with_reducible exact noLockM_BisrRepair _ _
    | with_reducible apply disc_bind
    | with_reducible apply disc_ite
    | intro _
    | split

theorem lockDiscipline_AieBisr (hne : K.XST_FAILURE ≠ K.XST_SUCCESS)
    (PwrDomain : XPm_AieDomain) (Args : Nat → Nat) (NumOfArgs : Nat) (h : List Event)
    (DevBase : Nat) (hl : env.XPmDevice_GetById h K.PM_DEV_AIE = some DevBase) :
    LockDiscipline K (u32 DevBase) (AieBisr K env PwrDomain Args NumOfArgs h).1
      (AieBisr K env PwrDomain Args NumOfArgs h).2 := by
  unfold AieBisr
  refine disc_of_lookup K env hl ?_
  dsimp only
  repeat' first
    | with_reducible exact disc_gotoFail K (by assumption)
    | with_reducible exact disc_gotoFail K (Ne.symm hne)
    | with_reducible exact disc_gotoDone K (by assumption)
    | with_reducible exact disc_gotoDone_success K
    | with_reducible exact disc_gotoFail_symm K (by assumption)
    | with_reducible exact disc_gotoDone_symm K (by assumption)
    | with_reducible exact disc_lock_gotoDone K (by assumption)
    | with_reducible exact disc_bisrRepairs K env _ _ (by assumption)
    | with_reducible exact noLockM_pure _
    | with_reducible exact noLockM_In32 _ _
    | with_reducible exact noLockM_Out32 _ _
    | with_reducible exact noLockM_AieWait _
    | with_reducible exact noLockM_IsoControl _ _ _
    | with_reducible exact noLockM_BisrRepair _ _
    | with_reducible exact noLockM_PollForMask _ _ _ _ _
    | with_reducible exact noLockM_AiePcsrWrite _ _ _ _
    | with_reducible exact noLockM_ArrayReset _ _
    | with_reducible exact noLockM_TriggerEccScrub _ _ _
    | with_reducible exact noLockM_AieCoreMemInit _ _ _
    | with_reducible exact noLockM_Aie2ClockInit _ _ _ _
    | with_reducible exact noLockM_invokePostScanClearHook _ _ _ _ _
    | with_reducible exact noLockM_invokePreBisrHook _ _ _ _ _
    | with_reducible exact noLockM_TriggerMemClear _ _ _
    | with_reducible exact noLockM_IsMemClearDone _ _ _ _
    | with_reducible exact noLockM_CleanupMemClear _ _ _
    | with_reducible apply disc_bind
    | with_reducible apply disc_ite
    | intro _
    | split

theorem lockDiscipline_Aie2Bisr (hne : K.XST_FAILURE ≠ K.XST_SUCCESS)
    (PwrDomain : XPm_AieDomain) (Args : Nat → Nat) (NumOfArgs : Nat) (h : List Event)
    (DevBase : Nat) (hl : env.XPmDevice_GetById h K.PM_DEV_AIE = some DevBase) :
    LockDiscipline K (u32 DevBase) (Aie2Bisr K env PwrDomain Args NumOfArgs h).1
      (Aie2Bisr K env PwrDomain Args NumOfArgs h).2 := by
  unfold Aie2Bisr
  refine disc_of_lookup K env hl ?_
  dsimp only
  repeat' first
    | with_reducible exact disc_gotoFail K (by assumption)
    | with_reducible exact disc_gotoFail K (Ne.symm hne)
    | with_reducible exact disc_gotoDone K (by assumption)
    | with_reducible exact disc_gotoDone_success K
    | with_reducible exact disc_gotoFail_symm K (by assumption)
    | with_reducible exact disc_gotoDone_symm K (by assumption)
    | with_reducible exact disc_lock_gotoDone K (by assumption)
    | with_reducible exact disc_bisrRepairs K env _ _ (by assumption)
    | with_reducible exact noLockM_pure _
    | with_reducible exact noLockM_In32 _ _
    | with_reducible exact noLockM_Out32 _ _
    | with_reducible exact noLockM_AieWait _
    | with_reducible exact noLockM_IsoControl _ _ _
    | with_reducible exact noLockM_BisrRepair _ _
    | with_reducible exact noLockM_PollForMask _ _ _ _ _
    | with_reducible exact noLockM_AiePcsrWrite _ _ _ _
    | with_reducible exact noLockM_ArrayReset _ _
    | with_reducible exact noLockM_TriggerEccScrub _ _ _
    | with_reducible exact noLockM_AieCoreMemInit _ _ _
    | with_reducible exact noLockM_Aie2ClockInit _ _ _ _
    | with_reducible exact noLockM_invokePostScanClearHook _ _ _ _ _
    | with_reducible exact noLockM_invokePreBisrHook _ _ _ _ _
    | with_reducible exact noLockM_TriggerMemClear _ _ _
    | with_reducible exact noLockM_IsMemClearDone _ _ _ _
    | with_reducible exact noLockM_CleanupMemClear _ _ _
    | with_reducible apply disc_bind
    | with_reducible apply disc_ite
    | intro _
    | split

theorem lockDiscipline_AieScanClear (hne : K.XST_FAILURE ≠ K.XST_SUCCESS)
    (PwrDomain : XPm_AieDomain) (Args : Nat → Nat) (NumOfArgs : Nat) (h : List Event)
    (DevBase : Nat) (hl : env.XPmDevice_GetById h K.PM_DEV_AIE = some DevBase) :
    LockDiscipline K (u32 DevBase) (AieScanClear K env PwrDomain Args NumOfArgs h).1
      (AieScanClear K env PwrDomain Args NumOfArgs h).2 := by
  unfold AieScanClear
  refine disc_of_lookup K env hl ?_
  dsimp only
  repeat' first
    | with_reducible exact disc_gotoFail K (by assumption)
    | with_reducible exact disc_gotoFail K (Ne.symm hne)
    | with_reducible exact disc_gotoDone K (by assumption)
    | with_reducible exact disc_gotoDone_success K
    | with_reducible exact disc_gotoFail_symm K (by assumption)
    | with_reducible exact disc_gotoDone_symm K (by assumption)
    | with_reducible exact disc_lock_gotoDone K (by assumption)
    | with_reducible exact disc_bisrRepairs K env _ _ (by assumption)
    | with_reducible exact noLockM_pure _
    | with_reducible exact noLockM_In32 _ _
    | with_reducible exact noLockM_Out32 _ _
    | with_reducible exact noLockM_AieWait _
    | with_reducible exact noLockM_IsoControl _ _ _
    | with_reducible exact noLockM_BisrRepair _ _
    | with_reducible exact noLockM_PollForMask _ _ _ _ _
    | with_reducible exact noLockM_AiePcsrWrite _ _ _ _
    | with_reducible exact noLockM_ArrayReset _ _
    | with_reducible exact noLockM_TriggerEccScrub _ _ _
    | with_reducible exact noLockM_AieCoreMemInit _ _ _
    | with_reducible exact noLockM_Aie2ClockInit _ _ _ _
    | with_reducible exact noLockM_invokePostScanClearHook _ _ _ _ _
    | with_reducible exact noLockM_invokePreBisrHook _ _ _ _ _
    | with_reducible exact noLockM_TriggerMemClear _ _ _
    | with_reducible exact noLockM_IsMemClearDone _ _ _ _
    | with_reducible exact noLockM_CleanupMemClear _ _ _
    | with_reducible apply disc_bind
    | with_reducible apply disc_ite
    | intro _
    | split

theorem lockDiscipline_AieMbistClear (hne : K.XST_FAILURE ≠ K.XST_SUCCESS)
    (PwrDomain : XPm_AieDomain) (Args : Nat → Nat) (NumOfArgs : Nat) (h : List Event)
    (DevBase : Nat) (hl : env.XPmDevice_GetById h K.PM_DEV_AIE = some DevBase) :
    LockDiscipline K (u32 DevBase) (AieMbistClear K env PwrDomain Args NumOfArgs h).1
      (AieMbistClear K env PwrDomain Args NumOfArgs h).2 := by
  unfold AieMbistClear
  refine disc_of_lookup K env hl ?_
  dsimp only
  repeat' first
    | with_reducible exact disc_gotoFail K (by assumption)
    | with_reducible exact disc_gotoFail K (Ne.symm hne)
    | with_reducible exact disc_gotoDone K (by assumption)
    | with_reducible exact disc_gotoDone_success K
    | with_reducible exact disc_gotoFail_symm K (by assumption)
    | with_reducible exact disc_gotoDone_symm K (by assumption)
    | with_reducible exact disc_lock_gotoDone K (by assumption)
    | with_reducible exact disc_bisrRepairs K env _ _ (by assumption)
    | with_reducible exact noLockM_pure _
    | with_reducible exact noLockM_In32 _ _
    | with_reducible exact noLockM_Out32 _ _
    | with_reducible exact noLockM_AieWait _
    | with_reducible exact noLockM_IsoControl _ _ _
    | with_reducible exact noLockM_BisrRepair _ _
    | with_reducible exact noLockM_PollForMask _ _ _ _ _
    | with_reducible exact noLockM_AiePcsrWrite _ _ _ _
    | with_reducible exact noLockM_ArrayReset _ _
    | with_reducible exact noLockM_TriggerEccScrub _ _ _
    | with_reducible exact noLockM_AieCoreMemInit _ _ _
    | with_reducible exact noLockM_Aie2ClockInit _ _ _ _
    | with_reducible exact noLockM_invokePostScanClearHook _ _ _ _ _
    | with_reducible exact noLockM_invokePreBisrHook _ _ _ _ _
    | with_reducible exact noLockM_TriggerMemClear _ _ _
    | with_reducible exact noLockM_IsMemClearDone _ _ _ _
    | with_reducible exact noLockM_CleanupMemClear _ _ _
    | with_reducible apply disc_bind
    | with_reducible apply disc_ite
    | intro _
    | split

theorem lockDiscipline_Aie2MbistClear (hne : K.XST_FAILURE ≠ K.XST_SUCCESS)
    (PwrDomain : XPm_AieDomain) (Args : Nat → Nat) (NumOfArgs : Nat) (h : List Event)
    (DevBase : Nat) (hl : env.XPmDevice_GetById h K.PM_DEV_AIE = some DevBase) :
    LockDiscipline K (u32 DevBase) (Aie2MbistClear K env PwrDomain Args NumOfArgs h).1
      (Aie2MbistClear K env PwrDomain Args NumOfArgs h).2 := by
  unfold Aie2MbistClear
  refine disc_of_lookup K env hl ?_
  dsimp only
  repeat' first
    | with_reducible exact disc_gotoFail K (by assumption)
    | with_reducible exact disc_gotoFail K (Ne.symm hne)
    | with_reducible exact disc_gotoDone K (by assumption)
    | with_reducible exact disc_gotoDone_success K
    | with_reducible exact disc_gotoFail_symm K (by assumption)
    | with_reducible exact disc_gotoDone_symm K (by assumption)
    | with_reducible exact disc_lock_gotoDone K (by assumption)
    | with_reducible exact disc_bisrRepairs K env _ _ (by assumption)
    | with_reducible exact noLockM_pure _
    | with_reducible exact noLockM_In32 _ _
    | with_reducible exact noLockM_Out32 _ _
    | with_reducible exact noLockM_AieWait _
    | with_reducible exact noLockM_IsoControl _ _ _
    | with_reducible exact noLockM_BisrRepair _ _
    | with_reducible exact noLockM_PollForMask _ _ _ _ _
    | with_reducible exact noLockM_AiePcsrWrite _ _ _ _
    | with_reducible exact noLockM_ArrayReset _ _
    | with_reducible exact noLockM_TriggerEccScrub _ _ _
    | with_reducible exact noLockM_AieCoreMemInit _ _ _
    | with_reducible exact noLockM_Aie2ClockInit _ _ _ _
    | with_reducible exact noLockM_invokePostScanClearHook _ _ _ _ _
    | with_reducible exact noLockM_invokePreBisrHook _ _ _ _ _
    | with_reducible exact noLockM_TriggerMemClear _ _ _
    | with_reducible exact noLockM_IsMemClearDone _ _ _ _
    | with_reducible exact noLockM_CleanupMemClear _ _ _
    | with_reducible apply disc_bind
    | with_reducible apply disc_ite
    | intro _
    | split

theorem lockDiscipline_AieMemInit (hne : K.XST_FAILURE ≠ K.XST_SUCCESS)
    (PwrDomain : XPm_AieDomain) (Args : Nat → Nat) (NumOfArgs : Nat) (h : List Event)
    (DevBase : Nat) (hl : env.XPmDevice_GetById h K.PM_DEV_AIE = some DevBase) :
    LockDiscipline K (u32 DevBase) (AieMemInit K env PwrDomain Args NumOfArgs h).1
      (AieMemInit K env PwrDomain Args NumOfArgs h).2 := by
  unfold AieMemInit
  refine disc_of_lookup K env hl ?_
  dsimp only
  repeat' first
    | with_reducible exact disc_gotoFail K (by assumption)
    | with_reducible exact disc_gotoFail K (Ne.symm hne)
    | with_reducible exact disc_gotoDone K (by assumption)
    | with_reducible exact disc_gotoDone_success K
    | with_reducible exact disc_gotoFail_symm K (by assumption)
    | with_reducible exact disc_gotoDone_symm K (by assumption)
    | with_reducible exact disc_lock_gotoDone K (by assumption)
    | with_reducible exact disc_bisrRepairs K env _ _ (by assumption)
    | with_reducible exact noLockM_pure _
    | with_reducible exact noLockM_In32 _ _
    | with_reducible exact noLockM_Out32 _ _
    | with_reducible exact noLockM_AieWait _
    | with_reducible exact noLockM_IsoControl _ _ _
    | with_reducible exact noLockM_BisrRepair _ _
    | with_reducible exact noLockM_PollForMask _ _ _ _ _
    | with_reducible exact noLockM_AiePcsrWrite _ _ _ _
    | with_reducible exact noLockM_ArrayReset _ _
    | with_reducible exact noLockM_TriggerEccScrub _ _ _
    | with_reducible exact noLockM_AieCoreMemInit _ _ _
    | with_reducible exact noLockM_Aie2ClockInit _ _ _ _
    | with_reducible exact noLockM_invokePostScanClearHook _ _ _ _ _
    | with_reducible exact noLockM_invokePreBisrHook _ _ _ _ _
    | with_reducible exact noLockM_TriggerMemClear _ _ _
    | with_reducible exact noLockM_IsMemClearDone _ _ _ _
    | with_reducible exact noLockM_CleanupMemClear _ _ _
    | with_reducible apply disc_bind
    | with_reducible apply disc_ite
    | intro _
    | split

theorem disc_of_lookup_ret {α : Type} (ret : α → Option XStatus) {b : Nat}
    {f : Option Nat → M α} {h : List Event} {Id DevBase : Nat}
    (hl : env.XPmDevice_GetById h Id = some DevBase)
    (hf : Disciplined K b ret (f (some DevBase))) (Status : XStatus)
    (hret : ret ((XPmDevice_GetById env Id >>= f) h).1 = some Status) :
    LockDiscipline K b Status ((XPmDevice_GetById env Id >>= f) h).2 := by
  rw [run_lookup_bind, hl] at hret ⊢
  exact hf.discipline h _ hret

theorem initStart_discipline (hne : K.XST_FAILURE ≠ K.XST_SUCCESS) {b : Nat}
    {cont : M (XStatus × XPm_AieDomain)} (hc : Disciplined K b (fun r => some r.1) cont)
    (a : Nat) (P : Nat → Prop) [DecidablePred P] (d : XPm_AieDomain) (e : XPm_IntErr)
    (h : List Event) :
    (((XPm_In32 env a >>= fun v =>
        if P v then withDomain d (gotoDone K.XST_FAILURE e)
        else (XPmAieDomain_UnlockPcsr b >>= fun _ => cont)) h).1.1 ≠ K.XST_SUCCESS →
      Event.UnlockPcsr b ∈ ((XPm_In32 env a >>= fun v =>
        if P v then withDomain d (gotoDone K.XST_FAILURE e)
        else (XPmAieDomain_UnlockPcsr b >>= fun _ => cont)) h).2 →
      LockedAtExit b ((XPm_In32 env a >>= fun v =>
        if P v then withDomain d (gotoDone K.XST_FAILURE e)
        else (XPmAieDomain_UnlockPcsr b >>= fun _ => cont)) h).2) ∧
    (((XPm_In32 env a >>= fun v =>
        if P v then withDomain d (gotoDone K.XST_FAILURE e)
        else (XPmAieDomain_UnlockPcsr b >>= fun _ => cont)) h).1.1 = K.XST_SUCCESS →
      NoLock ((XPm_In32 env a >>= fun v =>
        if P v then withDomain d (gotoDone K.XST_FAILURE e)
        else (XPmAieDomain_UnlockPcsr b >>= fun _ => cont)) h).2) := by
  rw [run_bind]
  by_cases hp : P (XPm_In32 env a h).1
  · rw [if_pos hp]
    simp only [withDomain, run_bind, run_pure, run_gotoDone, List.append_nil]
    refine ⟨fun _ hmem => ?_, fun hs => absurd hs hne⟩
    simp [XPm_In32] at hmem
  · rw [if_neg hp, run_bind]
    have hd := hc.discipline (h ++ (XPm_In32 env a h).2 ++
      (XPmAieDomain_UnlockPcsr b (h ++ (XPm_In32 env a h).2)).2)
      ((cont (h ++ (XPm_In32 env a h).2 ++
        (XPmAieDomain_UnlockPcsr b (h ++ (XPm_In32 env a h).2)).2)).1.1) rfl
    refine ⟨fun hs _ => ?_, fun hs => ?_⟩
    · exact lockedAtExit_append_left _ (lockedAtExit_append_left _ (hd.1 hs))
    · exact (noLock_append _ _).2 ⟨(noLockM_In32 env a).noLock h,
        (noLock_append _ _).2 ⟨(noLockM_Unlock b).noLock _, hd.2 hs⟩⟩

theorem lockDiscipline_AieInitStart (hne : K.XST_FAILURE ≠ K.XST_SUCCESS)
    (PwrDomain : XPm_AieDomain) (Args : Nat → Nat) (NumOfArgs : Nat) (h : List Event)
    (DevBase : Nat) (hl : env.XPmDevice_GetById h K.PM_DEV_AIE = some DevBase) :
    ((AieInitStart K env PwrDomain Args NumOfArgs h).1.1 ≠ K.XST_SUCCESS →
      Event.UnlockPcsr (u32 DevBase) ∈ (AieInitStart K env PwrDomain Args NumOfArgs h).2 →
      LockedAtExit (u32 DevBase) (AieInitStart K env PwrDomain Args NumOfArgs h).2) ∧
    ((AieInitStart K env PwrDomain Args NumOfArgs h).1.1 = K.XST_SUCCESS →
      NoLock (AieInitStart K env PwrDomain Args NumOfArgs h).2) := by
  unfold AieInitStart
  rw [run_lookup_bind, hl]
  dsimp only
  refine initStart_discipline K env hne ?_ _ _ _ _ h
  repeat' first
    | with_reducible exact disc_gotoFail K (by assumption)
    | with_reducible exact disc_gotoFail K (Ne.symm hne)
    | with_reducible exact disc_gotoDone K (by assumption)
    | with_reducible exact disc_gotoDone_success K
    | with_reducible exact disc_gotoFail_symm K (by assumption)
    | with_reducible exact disc_gotoDone_symm K (by assumption)
    | with_reducible exact disc_lock_gotoDone K (by assumption)
    | with_reducible exact disc_bisrRepairs K env _ _ (by assumption)
    | with_reducible exact noLockM_pure _
    | with_reducible exact noLockM_In32 _ _
    | with_reducible exact noLockM_Out32 _ _
    | with_reducible exact noLockM_AieWait _
    | with_reducible exact noLockM_IsoControl _ _ _
    | with_reducible exact noLockM_BisrRepair _ _
    | with_reducible exact noLockM_PollForMask _ _ _ _ _
    | with_reducible exact noLockM_AiePcsrWrite _ _ _ _
    | with_reducible exact noLockM_ArrayReset _ _
    | with_reducible exact noLockM_TriggerEccScrub _ _ _
    | with_reducible exact noLockM_AieCoreMemInit _ _ _
    | with_reducible exact noLockM_Aie2ClockInit _ _ _ _
    | with_reducible exact noLockM_invokePostScanClearHook _ _ _ _ _
    | with_reducible exact noLockM_invokePreBisrHook _ _ _ _ _
    | with_reducible exact noLockM_TriggerMemClear _ _ _
    | with_reducible exact noLockM_IsMemClearDone _ _ _ _
    | with_reducible exact noLockM_CleanupMemClear _ _ _
    | with_reducible apply disc_withDomain
    | with_reducible apply disc_bind
    | with_reducible apply disc_ite
    | with_reducible apply disc_ite
    | intro _
    | split

theorem lockDiscipline_Aie2InitStart (hne : K.XST_FAILURE ≠ K.XST_SUCCESS)
    (PwrDomain : XPm_AieDomain) (Args : Nat → Nat) (NumOfArgs : Nat) (h : List Event)
    (DevBase : Nat) (hl : env.XPmDevice_GetById h K.PM_DEV_AIE = some DevBase) :
    ((Aie2InitStart K env PwrDomain Args NumOfArgs h).1.1 ≠ K.XST_SUCCESS →
      Event.UnlockPcsr (u32 DevBase) ∈ (Aie2InitStart K env PwrDomain Args NumOfArgs h).2 →
      LockedAtExit (u32 DevBase) (Aie2InitStart K env PwrDomain Args NumOfArgs h).2) ∧
    ((Aie2InitStart K env PwrDomain Args NumOfArgs h).1.1 = K.XST_SUCCESS →
      NoLock (Aie2InitStart K env PwrDomain Args NumOfArgs h).2) := by
  unfold Aie2InitStart
  rw [run_lookup_bind, hl]
  dsimp only
  refine initStart_discipline K env hne ?_ _ _ _ _ h
  repeat' first
    | with_reducible exact disc_gotoFail K (by assumption)
    | with_reducible exact disc_gotoFail K (Ne.symm hne)
    | with_reducible exact disc_gotoDone K (by assumption)
    | with_reducible exact disc_gotoDone_success K
    | with_reducible exact disc_gotoFail_symm K (by assumption)
    | with_reducible exact disc_gotoDone_symm K (by assumption)
    | with_reducible exact disc_lock_gotoDone K (by assumption)
    | with_reducible exact disc_bisrRepairs K env _ _ (by assumption)
    | with_reducible exact noLockM_pure _
    | with_reducible exact noLockM_In32 _ _
    | with_reducible exact noLockM_Out32 _ _
    | with_reducible exact noLockM_AieWait _
    | with_reducible exact noLockM_IsoControl _ _ _
    | with_reducible exact noLockM_BisrRepair _ _
    | with_reducible exact noLockM_PollForMask _ _ _ _ _
    | with_reducible exact noLockM_AiePcsrWrite _ _ _ _
    | with_reducible exact noLockM_ArrayReset _ _
    | with_reducible exact noLockM_TriggerEccScrub _ _ _
    | with_reducible exact noLockM_AieCoreMemInit _ _ _
    | with_reducible exact noLockM_Aie2ClockInit _ _ _ _
    | with_reducible exact noLockM_invokePostScanClearHook _ _ _ _ _
    | with_reducible exact noLockM_invokePreBisrHook _ _ _ _ _
    | with_reducible exact noLockM_TriggerMemClear _ _ _
    | with_reducible exact noLockM_IsMemClearDone _ _ _ _
    | with_reducible exact noLockM_CleanupMemClear _ _ _
    | with_reducible apply disc_withDomain
    | with_reducible apply disc_bind
    | with_reducible apply disc_ite
    | with_reducible apply disc_ite
    | intro _
    | split

theorem disc_Aie2MemInit_poll (hne : K.XST_FAILURE ≠ K.XST_SUCCESS) (Array : XPm_AieArray)
    (b col row mrow fuel : Nat) (mt cz mz : XStatus) (t : Nat) :
    Disciplined K b id (Aie2MemInit_poll K env Array b col row mrow fuel mt cz mz t) := by
  induction fuel generalizing mt cz mz t with
  | zero =>
    refine ⟨fun h Status hret => ?_⟩
    simp [Aie2MemInit_poll, run_pure] at hret
  | succ fuel ih =>
    unfold Aie2MemInit_poll
    refine disc_ite K (fun _ => ?_) (fun _ => disc_ret_some K (disc_gotoDone_success K))
    refine disc_bind K (noLockM_AieRead64 env _) fun _ => ?_
    refine disc_bind K (noLockM_AieRead64 env _) fun _ => ?_
    refine disc_bind K (noLockM_AieRead64 env _) fun _ => ?_
    refine disc_ite K (fun _ => ?_) (fun _ => ih _ _ _ _)
    refine ⟨fun h Status hret => ?_⟩
    have hs : Status = K.XST_FAILURE := by
      simp only [run_bind, run_pure, run_gotoDone, id, Option.some.injEq] at hret
      exact hret.symm
    subst hs
    refine ⟨fun _ => ⟨[], [Event.PrintDbgErr K.XST_FAILURE
      XPm_IntErr.XPM_INT_ERR_AIE_MEMORY_ZEROISATION], rfl, ?_⟩, fun hs => absurd hs hne⟩
    intro e he
    simp only [List.mem_singleton] at he
    subst he
    rfl

theorem lockDiscipline_Aie2MemInit (hne : K.XST_FAILURE ≠ K.XST_SUCCESS) (fuel : Nat)
    (PwrDomain : XPm_AieDomain) (Args : Nat → Nat) (NumOfArgs : Nat) (h : List Event)
    (DevBase : Nat) (hl : env.XPmDevice_GetById h K.PM_DEV_AIE = some DevBase)
    (Status : XStatus)
    (hret : (Aie2MemInit K env fuel PwrDomain Args NumOfArgs h).1 = some Status) :
    LockDiscipline K (u32 DevBase) Status
      (Aie2MemInit K env fuel PwrDomain Args NumOfArgs h).2 := by
  unfold Aie2MemInit at hret ⊢
  refine disc_of_lookup_ret K env id hl ?_ Status hret
  dsimp only
  refine disc_bind K (noLockM_RMW32 env _ _ _) fun _ => ?_
  refine disc_bind K (noLockM_forRange (fun _ => noLockM_forRange
    (fun _ => noLockM_AieRMW64 env _ _ _) _ _) _ _) fun _ => ?_
  refine disc_bind K (noLockM_forRange (fun _ => noLockM_forRange
    (fun _ => noLockM_bind (noLockM_AieWrite64 _ _) fun _ => noLockM_AieWrite64 _ _) _ _)
    _ _) fun _ => ?_
  exact disc_Aie2MemInit_poll K env hne _ _ _ _ _ _ _ _ _ _

theorem Aie2MemInit_poll_returns (Array : XPm_AieArray) (b col row mrow : Nat)
    (hT : K.XPLMI_TIME_OUT_DEFAULT + 1 < 2 ^ 32) (fuel : Nat) (mt cz mz : XStatus) (t : Nat)
    (ht : t ≤ K.XPLMI_TIME_OUT_DEFAULT) (hf : K.XPLMI_TIME_OUT_DEFAULT + 1 ≤ t + fuel)
    (h : List Event) :
    ((Aie2MemInit_poll K env Array b col row mrow fuel mt cz mz t) h).1 ≠ none := by
  induction fuel generalizing mt cz mz t h with
  | zero => omega
  | succ fuel ih =>
    unfold Aie2MemInit_poll
    rw [run_ite]
    split
    · simp only [run_bind]
      have hu : u32 (t + 1) = t + 1 := by
        unfold u32
        exact Nat.mod_eq_of_lt (by omega)
      rw [hu, run_ite]
      split
      · simp [run_bind, run_pure]
      · exact ih _ _ _ _ (by omega) (by omega) _
    · simp [run_bind, run_pure]

theorem Aie2MemInit_returns (hT : K.XPLMI_TIME_OUT_DEFAULT + 1 < 2 ^ 32) (fuel : Nat)
    (hfuel : K.XPLMI_TIME_OUT_DEFAULT < fuel) (PwrDomain : XPm_AieDomain) (Args : Nat → Nat)
    (NumOfArgs : Nat) (h : List Event) :
    (Aie2MemInit K env fuel PwrDomain Args NumOfArgs h).1 ≠ none := by
  unfold Aie2MemInit
  rw [run_lookup_bind]
  cases env.XPmDevice_GetById h K.PM_DEV_AIE with
  | none => simp [run_bind, run_pure]
  | some DevBase =>
    simp only [run_bind]
    exact Aie2MemInit_poll_returns K env _ _ _ _ _ hT fuel _ _ _ 0 (Nat.zero_le _)
      (by omega) _

end StepDiscipline

/-! ## Domain initialisation -/

section DomainInit

variable (K : Consts) (env : Env)

/-- C2: `XPmAieDomain_Init` selects the ops table and the hooks from the domain identity
and the platform only.  For `PM_POWER_ME` it installs `AiePreBisrHook` and
`AiePostScanClearHook` and makes one call of `XPmPowerDomain_Init`, with `AieOps[XPM_AIE_OPS]`;
for `PM_POWER_ME2` it installs `Aie2PreBisrHook` and no post-scan-clear hook and passes
`AieOps[XPM_AIE2_OPS]`; on QEMU the pointer passed is `NULL` for both.  Neither formula
mentions `Args`, `NumArgs` or the IdCode.  Entry `XPM_AIE_OPS` of the table holds the
Generation-1 steps, entry `XPM_AIE2_OPS` the Generation-2 steps. -/
theorem init_selects_ops_and_hooks (hdistinct : K.PM_POWER_ME ≠ K.PM_POWER_ME2)
    (AieDomain : XPm_AieDomain) (BaseAddress Parent : Nat) (Args : Nat → Nat) (NumArgs : Nat)
    (h : List Event) (fuel : Nat) :
    ((XPmAieDomain_Init K env AieDomain K.PM_POWER_ME BaseAddress Parent Args NumArgs h).1.2.Hooks
        = { PostScanClearHook := some .AiePostScanClearHook,
            PreBisrHook := some .AiePreBisrHook } ∧
      opsPassed (XPmAieDomain_Init K env AieDomain K.PM_POWER_ME BaseAddress Parent Args
        NumArgs h).2
        = [if env.XPm_GetPlatform = K.PLATFORM_VERSION_QEMU then none else some XPM_AIE_OPS]) ∧
    ((XPmAieDomain_Init K env AieDomain K.PM_POWER_ME2 BaseAddress Parent Args NumArgs h).1.2.Hooks
        = { PostScanClearHook := none, PreBisrHook := some .Aie2PreBisrHook } ∧
      opsPassed (XPmAieDomain_Init K env AieDomain K.PM_POWER_ME2 BaseAddress Parent Args
        NumArgs h).2
        = [if env.XPm_GetPlatform = K.PLATFORM_VERSION_QEMU then none else some XPM_AIE2_OPS]) ∧
    ((AieOps K env fuel XPM_AIE_OPS).InitStart = domStep (AieInitStart K env) ∧
      (AieOps K env fuel XPM_AIE_OPS).Bisr = constStep (AieBisr K env) ∧
      (AieOps K env fuel XPM_AIE_OPS).ScanClear = constStep (AieScanClear K env) ∧
      (AieOps K env fuel XPM_AIE_OPS).Mbist = constStep (AieMbistClear K env) ∧
      (AieOps K env fuel XPM_AIE_OPS).MemInit = constStep (AieMemInit K env) ∧
      (AieOps K env fuel XPM_AIE_OPS).InitFinish = constStep (AieInitFinish K env)) ∧
    ((AieOps K env fuel XPM_AIE2_OPS).InitStart = domStep (Aie2InitStart K env) ∧
      (AieOps K env fuel XPM_AIE2_OPS).Bisr = constStep (Aie2Bisr K env) ∧
      (AieOps K env fuel XPM_AIE2_OPS).ScanClear = constStep (AieScanClear K env) ∧
      (AieOps K env fuel XPM_AIE2_OPS).Mbist = constStep (Aie2MbistClear K env) ∧
      (AieOps K env fuel XPM_AIE2_OPS).MemInit = fuelStep (Aie2MemInit K env fuel) ∧
      (AieOps K env fuel XPM_AIE2_OPS).InitFinish = constStep (Aie2InitFinish K env)) := by
  refine ⟨⟨?_, ?_⟩, ⟨?_, ?_⟩, ⟨rfl, rfl, rfl, rfl, rfl, rfl⟩, ⟨rfl, rfl, rfl, rfl, rfl, rfl⟩⟩
  · simp [XPmAieDomain_Init, run_bind, run_pure, withDomain]
  · simp [XPmAieDomain_Init, run_bind, run_pure, withDomain, XPmPowerDomain_Init, XPm_RMW32,
      XPm_In32, PmOut32, run_emit, run_gotoDone, opsPassed]
  · simp [XPmAieDomain_Init, run_bind, run_pure, withDomain, hdistinct]
  · simp [XPmAieDomain_Init, run_bind, run_pure, withDomain, XPmPowerDomain_Init, XPm_RMW32,
      XPm_In32, PmOut32, run_emit, run_gotoDone, opsPassed, hdistinct]

/-- C2, an instance: the sample constants on a silicon platform. -/
theorem init_selects_ops_and_hooks_witness :
    sampleConsts.PM_POWER_ME ≠ sampleConsts.PM_POWER_ME2 ∧
    opsPassed (XPmAieDomain_Init sampleConsts (sampleEnv sampleConsts true 0xF70A0000 0 0 0)
      (sampleDomain 0 aie2Hooks) sampleConsts.PM_POWER_ME 0xF70A0000 0 (fun _ => 0) 0 []).2
      = [if (sampleEnv sampleConsts true 0xF70A0000 0 0 0).XPm_GetPlatform =
          sampleConsts.PLATFORM_VERSION_QEMU then none else some XPM_AIE_OPS] :=
  ⟨by decide,
   (init_selects_ops_and_hooks sampleConsts (sampleEnv sampleConsts true 0xF70A0000 0 0 0)
     (by decide) (sampleDomain 0 aie2Hooks) 0xF70A0000 0 (fun _ => 0) 0 [] 0).1.2⟩

/-- C3: for every identity other than `PM_POWER_ME` and `PM_POWER_ME2`, whatever the
platform, the IdCode and the arguments, `XPmAieDomain_Init` returns
`XPM_INVALID_PWRDOMAIN`, leaves the domain (hooks and geometry included) exactly as it
was, and issues nothing but the diagnostic: no register write (the houseclean-disable
register is not cleared) and no call of `XPmPowerDomain_Init`. -/
theorem init_rejects_unknown_identity (AieDomain : XPm_AieDomain) (Id BaseAddress Parent : Nat)
    (Args : Nat → Nat) (NumArgs : Nat) (h : List Event)
    (hme : Id ≠ K.PM_POWER_ME) (hme2 : Id ≠ K.PM_POWER_ME2) :
    XPmAieDomain_Init K env AieDomain Id BaseAddress Parent Args NumArgs h =
      ((K.XPM_INVALID_PWRDOMAIN, AieDomain),
       [Event.PrintDbgErr K.XPM_INVALID_PWRDOMAIN XPm_IntErr.XPM_INT_ERR_INVALID_PWR_DOMAIN]) ∧
    (XPmAieDomain_Init K env AieDomain Id BaseAddress Parent Args NumArgs h).1.2.Hooks =
      AieDomain.Hooks ∧
    (XPmAieDomain_Init K env AieDomain Id BaseAddress Parent Args NumArgs h).1.2.Array =
      AieDomain.Array ∧
    NoRegWrite (XPmAieDomain_Init K env AieDomain Id BaseAddress Parent Args NumArgs h).2 ∧
    opsPassed (XPmAieDomain_Init K env AieDomain Id BaseAddress Parent Args NumArgs h).2 = [] := by
  have hrun : XPmAieDomain_Init K env AieDomain Id BaseAddress Parent Args NumArgs h =
      ((K.XPM_INVALID_PWRDOMAIN, AieDomain),
       [Event.PrintDbgErr K.XPM_INVALID_PWRDOMAIN
          XPm_IntErr.XPM_INT_ERR_INVALID_PWR_DOMAIN]) := by
    simp [XPmAieDomain_Init, Ne.symm hme, Ne.symm hme2, withDomain, run_bind, run_pure,
      run_gotoDone]
  rw [hrun]
  refine ⟨rfl, rfl, rfl, ?_, rfl⟩
  intro e he
  simp only [List.mem_singleton] at he
  subst he
  rfl

/-- C3, an instance: identity 7 with the sample constants. -/
theorem init_rejects_unknown_identity_witness :
    (7 ≠ sampleConsts.PM_POWER_ME ∧ 7 ≠ sampleConsts.PM_POWER_ME2) ∧
    XPmAieDomain_Init sampleConsts (sampleEnv sampleConsts true 0xF70A0000 0 0 0)
        (sampleDomain 0 aie1Hooks) 7 0xF70A0000 0 (fun _ => 0) 3 [] =
      ((sampleConsts.XPM_INVALID_PWRDOMAIN, sampleDomain 0 aie1Hooks),
       [Event.PrintDbgErr sampleConsts.XPM_INVALID_PWRDOMAIN
          XPm_IntErr.XPM_INT_ERR_INVALID_PWR_DOMAIN]) :=
  ⟨⟨by decide, by decide⟩,
   (init_rejects_unknown_identity sampleConsts (sampleEnv sampleConsts true 0xF70A0000 0 0 0)
     (sampleDomain 0 aie1Hooks) 7 0xF70A0000 0 (fun _ => 0) 3 [] (by decide) (by decide)).1⟩

/-- C4, the claim fails on the topology path: with the sample bit-field macros and the
topology words `0x80032` (8 rows, 50 columns) and `0x30201` (3 AIE rows, 2 memory rows,
1 shim row), `XPmAieDomain_Init` for `PM_POWER_ME` stores `NumAieRows = 3`, `NumRows = 8`
and `NumMemRows = 2`, and 3 is not 8 - 2. -/
theorem init_geometry_topology_counterexample :
    ((XPmAieDomain_Init sampleConsts (sampleEnv sampleConsts true 0xF70A0000 0 0 0)
        (sampleDomain 0 aie1Hooks) sampleConsts.PM_POWER_ME 0xF70A0000 0
        (fun i => if i = 0 then 1 else if i = 1 then 0x80032 else 0x30201) 3 []).1.2.Array.NumAieRows
      = 3 ∧
    (XPmAieDomain_Init sampleConsts (sampleEnv sampleConsts true 0xF70A0000 0 0 0)
        (sampleDomain 0 aie1Hooks) sampleConsts.PM_POWER_ME 0xF70A0000 0
        (fun i => if i = 0 then 1 else if i = 1 then 0x80032 else 0x30201) 3 []).1.2.Array.NumRows
      = 8 ∧
    (XPmAieDomain_Init sampleConsts (sampleEnv sampleConsts true 0xF70A0000 0 0 0)
        (sampleDomain 0 aie1Hooks) sampleConsts.PM_POWER_ME 0xF70A0000 0
        (fun i => if i = 0 then 1 else if i = 1 then 0x80032 else 0x30201) 3 []).1.2.Array.NumMemRows
      = 2) ∧
    ¬ (3 : Int) = 8 - 2 := by
  decide

/-- C4 as amended: for each recognized identity, every platform and IdCode, on the
default-geometry path (`NumArgs < 3`) the stored `NumAieRows` is the 16-bit difference of
`NumRows` and `NumMemRows`, which is `NumRows - NumMemRows` whenever
`NumMemRows <= NumRows`, and that is always so for `PM_POWER_ME2`; on the topology path
(`NumArgs >= 3`) the three fields are copied from the topology words independently of
each other. -/
theorem init_geometry_invariant (hdistinct : K.PM_POWER_ME ≠ K.PM_POWER_ME2)
    (AieDomain : XPm_AieDomain) (Id BaseAddress Parent : Nat) (Args : Nat → Nat) (NumArgs : Nat)
    (h : List Event) (hId : Id = K.PM_POWER_ME ∨ Id = K.PM_POWER_ME2) :
    (NumArgs < 3 →
      (XPmAieDomain_Init K env AieDomain Id BaseAddress Parent Args NumArgs h).1.2.Array.NumAieRows
        = sub16
          (XPmAieDomain_Init K env AieDomain Id BaseAddress Parent Args NumArgs h).1.2.Array.NumRows
          (XPmAieDomain_Init K env AieDomain Id BaseAddress Parent Args NumArgs h).1.2.Array.NumMemRows
      ∧
      ((XPmAieDomain_Init K env AieDomain Id BaseAddress Parent Args NumArgs h).1.2.Array.NumMemRows
          ≤ (XPmAieDomain_Init K env AieDomain Id BaseAddress Parent Args NumArgs
              h).1.2.Array.NumRows →
        ((XPmAieDomain_Init K env AieDomain Id BaseAddress Parent Args NumArgs
            h).1.2.Array.NumAieRows : Int)
          = ((XPmAieDomain_Init K env AieDomain Id BaseAddress Parent Args NumArgs
              h).1.2.Array.NumRows : Int)
            - ((XPmAieDomain_Init K env AieDomain Id BaseAddress Parent Args NumArgs
              h).1.2.Array.NumMemRows : Int))
      ∧
      (Id = K.PM_POWER_ME2 →
        (XPmAieDomain_Init K env AieDomain Id BaseAddress Parent Args NumArgs
            h).1.2.Array.NumMemRows
          ≤ (XPmAieDomain_Init K env AieDomain Id BaseAddress Parent Args NumArgs
              h).1.2.Array.NumRows)) ∧
    (3 ≤ NumArgs →
      (XPmAieDomain_Init K env AieDomain Id BaseAddress Parent Args NumArgs h).1.2.Array.NumAieRows
        = u16 (K.ARR_AIEROWS (u32 (Args 2))) ∧
      (XPmAieDomain_Init K env AieDomain Id BaseAddress Parent Args NumArgs h).1.2.Array.NumRows
        = u16 (K.ARR_ROWS (u32 (Args 1))) ∧
      (XPmAieDomain_Init K env AieDomain Id BaseAddress Parent Args NumArgs h).1.2.Array.NumMemRows
        = u16 (K.ARR_MEMROWS (u32 (Args 2)))) := by
  have hsub : ∀ a b : Nat, b ≤ a → a < 2 ^ 16 → ((sub16 a b : Nat) : Int) = (a : Int) - b := by
    intro a b hba ha
    unfold sub16
    omega
  have hArr : (XPmAieDomain_Init K env AieDomain Id BaseAddress Parent Args NumArgs h).1.2.Array =
      (if 3 ≤ NumArgs then
        topologyGeometry K { AieDomain.Array with NocAddress := u64 K.VIVADO_ME_BASEADDR } Args
      else if K.PM_POWER_ME = Id then
        aie1DefaultGeometry K { AieDomain.Array with NocAddress := u64 K.VIVADO_ME_BASEADDR }
          env.XPm_GetPlatform env.XPm_GetIdCode
      else
        aie2DefaultGeometry K { AieDomain.Array with NocAddress := u64 K.VIVADO_ME_BASEADDR }
          env.XPm_GetIdCode) := by
    rcases hId with rfl | rfl
    · simp [XPmAieDomain_Init, withDomain, run_bind, run_pure]
    · simp [XPmAieDomain_Init, withDomain, run_bind, run_pure, hdistinct]
  rw [hArr]
  refine ⟨fun hlt => ?_, fun hge => ?_⟩
  · rw [if_neg (by omega)]
    by_cases hg1 : K.PM_POWER_ME = Id
    · rw [if_pos hg1]
      have hne2 : Id ≠ K.PM_POWER_ME2 := fun hh => hdistinct (hg1.trans hh)
      unfold aie1DefaultGeometry
      dsimp only
      split <;> split <;> refine ⟨rfl, fun hle => hsub _ _ hle (by norm_num), fun hh => absurd hh hne2⟩
    · rw [if_neg hg1]
      unfold aie2DefaultGeometry
      dsimp only
      split <;> refine ⟨rfl, fun hle => hsub _ _ hle (by norm_num), fun _ => by norm_num⟩
  · rw [if_pos hge]
    exact ⟨rfl, rfl, rfl⟩

/-- C4 as amended, an instance: `PM_POWER_ME2` with the sample constants and no
arguments. -/
theorem init_geometry_invariant_witness :
    (sampleConsts.PM_POWER_ME ≠ sampleConsts.PM_POWER_ME2 ∧
      (sampleConsts.PM_POWER_ME2 = sampleConsts.PM_POWER_ME ∨
        sampleConsts.PM_POWER_ME2 = sampleConsts.PM_POWER_ME2)) ∧
    ((0 : Nat) < 3 →
      (XPmAieDomain_Init sampleConsts (sampleEnv sampleConsts true 0xF70A0000 0 0 0)
          (sampleDomain 0 aie1Hooks) sampleConsts.PM_POWER_ME2 0xF70A0000 0 (fun _ => 0) 0
          []).1.2.Array.NumAieRows
        = sub16
          (XPmAieDomain_Init sampleConsts (sampleEnv sampleConsts true 0xF70A0000 0 0 0)
            (sampleDomain 0 aie1Hooks) sampleConsts.PM_POWER_ME2 0xF70A0000 0 (fun _ => 0) 0
            []).1.2.Array.NumRows
          (XPmAieDomain_Init sampleConsts (sampleEnv sampleConsts true 0xF70A0000 0 0 0)
            (sampleDomain 0 aie1Hooks) sampleConsts.PM_POWER_ME2 0xF70A0000 0 (fun _ => 0) 0
            []).1.2.Array.NumMemRows) :=
  ⟨⟨by decide, Or.inr rfl⟩,
   fun hlt => ((init_geometry_invariant sampleConsts
     (sampleEnv sampleConsts true 0xF70A0000 0 0 0) (by decide) (sampleDomain 0 aie1Hooks)
     sampleConsts.PM_POWER_ME2 0xF70A0000 0 (fun _ => 0) 0 [] (Or.inr rfl)).1 hlt).1⟩

end DomainInit

/-! ## Steps under the housecleaning-disable mask -/

section DisableMask

variable (K : Consts) (env : Env)

/-- C5: for both generations, when the device lookup succeeds and the MBIST-clear bit is
set in the domain's disable mask, the Memory-BIST-Clear step returns `XST_SUCCESS` and
issues nothing but its diagnostic report: no register write, no register read or poll, no
PCSR lock, whatever the other mask bits and the register contents are. -/
theorem mbist_clear_suppressed (PwrDomain : XPm_AieDomain) (Args : Nat → Nat)
    (NumOfArgs : Nat) (h : List Event) (DevBase : Nat)
    (hl : env.XPmDevice_GetById h K.PM_DEV_AIE = some DevBase)
    (hmask : PwrDomain.Domain.HcDisableMask &&& K.HOUSECLEAN_DISABLE_MBIST_CLEAR_MASK =
      K.HOUSECLEAN_DISABLE_MBIST_CLEAR_MASK) :
    (AieMbistClear K env PwrDomain Args NumOfArgs h =
        (K.XST_SUCCESS, [Event.PrintDbgErr K.XST_SUCCESS XPm_IntErr.XPM_INT_ERR_UNDEFINED]) ∧
      Aie2MbistClear K env PwrDomain Args NumOfArgs h =
        (K.XST_SUCCESS, [Event.PrintDbgErr K.XST_SUCCESS XPm_IntErr.XPM_INT_ERR_UNDEFINED])) ∧
    (∀ e ∈ (AieMbistClear K env PwrDomain Args NumOfArgs h).2,
      e.isRegWrite = false ∧ e.isRegRead = false ∧ e.isLock = false) ∧
    (∀ e ∈ (Aie2MbistClear K env PwrDomain Args NumOfArgs h).2,
      e.isRegWrite = false ∧ e.isRegRead = false ∧ e.isLock = false) := by
  have h1 : AieMbistClear K env PwrDomain Args NumOfArgs h =
      (K.XST_SUCCESS, [Event.PrintDbgErr K.XST_SUCCESS XPm_IntErr.XPM_INT_ERR_UNDEFINED]) := by
    unfold AieMbistClear
    rw [run_lookup_bind, hl]
    simp only [hmask, ne_eq, not_true_eq_false, if_false, run_gotoDone]
  have h2 : Aie2MbistClear K env PwrDomain Args NumOfArgs h =
      (K.XST_SUCCESS, [Event.PrintDbgErr K.XST_SUCCESS XPm_IntErr.XPM_INT_ERR_UNDEFINED]) := by
    unfold Aie2MbistClear
    rw [run_lookup_bind, hl]
    simp only [hmask, ne_eq, not_true_eq_false, if_false, run_gotoDone]
  rw [h1, h2]
  refine ⟨⟨rfl, rfl⟩, ?_, ?_⟩ <;>
  · intro e he
    simp only [List.mem_singleton] at he
    subst he
    exact ⟨rfl, rfl, rfl⟩

/-- C5, an instance: the sample domain with all three disable bits set. -/
theorem mbist_clear_suppressed_witness :
    ((sampleEnv sampleConsts true 0xF70A0000 0 0 0).XPmDevice_GetById []
        sampleConsts.PM_DEV_AIE = some 0xF70A0000 ∧
      (sampleDomain 7 aie1Hooks).Domain.HcDisableMask &&&
          sampleConsts.HOUSECLEAN_DISABLE_MBIST_CLEAR_MASK =
        sampleConsts.HOUSECLEAN_DISABLE_MBIST_CLEAR_MASK) ∧
    AieMbistClear sampleConsts (sampleEnv sampleConsts true 0xF70A0000 0 0 0)
        (sampleDomain 7 aie1Hooks) (fun _ => 0) 0 [] =
      (sampleConsts.XST_SUCCESS,
       [Event.PrintDbgErr sampleConsts.XST_SUCCESS XPm_IntErr.XPM_INT_ERR_UNDEFINED]) :=
  ⟨⟨by decide, by decide⟩,
   (mbist_clear_suppressed sampleConsts (sampleEnv sampleConsts true 0xF70A0000 0 0 0)
     (sampleDomain 7 aie1Hooks) (fun _ => 0) 0 [] 0xF70A0000 (by decide) (by decide)).1.1⟩

/-- C6, the claim fails: with the scan-clear bit set in the disable mask, `AieScanClear`
still writes the PCSR registers, and with the BISR bit set `AieBisr` and `Aie2Bisr` still
write the SMID and secure registers and change the isolation (sample constants, every
operation succeeding). -/
theorem suppressed_steps_still_write_counterexample :
    ((sampleDomain 3 aie1Hooks).Domain.HcDisableMask &&&
        sampleConsts.HOUSECLEAN_DISABLE_SCAN_CLEAR_MASK =
      sampleConsts.HOUSECLEAN_DISABLE_SCAN_CLEAR_MASK ∧
    (sampleDomain 3 aie1Hooks).Domain.HcDisableMask &&&
        sampleConsts.HOUSECLEAN_DISABLE_BISR_MASK =
      sampleConsts.HOUSECLEAN_DISABLE_BISR_MASK) ∧
    Event.Out32 0xF70A0004 0 ∈
      (AieScanClear sampleConsts (sampleEnv sampleConsts true 0xF70A0000 0xFFFFFFFF 0 0)
        (sampleDomain 3 aie1Hooks) (fun _ => 0) 0 []).2 ∧
    (Event.Out32 0xF70A0004 0).isRegWrite = true ∧
    Event.Out32 0xF70A010C 0x1F ∈
      (AieBisr sampleConsts (sampleEnv sampleConsts true 0xF70A0000 0xFFFFFFFF 0 0)
        (sampleDomain 3 aie1Hooks) (fun _ => 0) 0 []).2 ∧
    Event.Out32 0xF70A010C 0x1F ∈
      (Aie2Bisr sampleConsts (sampleEnv sampleConsts true 0xF70A0000 0xFFFFFFFF 0 0)
        (sampleDomain 3 aie2Hooks) (fun _ => 0) 0 []).2 ∧
    (Event.Out32 0xF70A010C 0x1F).isRegWrite = true := by
  decide

/-- C6 as amended: when its own bit is set in the disable mask, a step skips only the
suppressed operation.  `AieScanClear` runs as the program without the trigger write, the
DONE poll, the PASS check and the trigger release (it still writes ODISABLE_1, ODISABLE_0
and GATEREG and runs the post-scan-clear hook); `AieBisr` and `Aie2Bisr` run as the
program without repair passes (they still run the pre-BISR hook, Generation 2 enables its
column clocks, and the isolation is removed); each returns success exactly when what it
still does succeeds. -/
theorem suppressed_steps_skip_only_their_operation (PwrDomain : XPm_AieDomain)
    (Args : Nat → Nat) (NumOfArgs : Nat) (h : List Event) :
    (PwrDomain.Domain.HcDisableMask &&& K.HOUSECLEAN_DISABLE_SCAN_CLEAR_MASK =
        K.HOUSECLEAN_DISABLE_SCAN_CLEAR_MASK →
      AieScanClear K env PwrDomain Args NumOfArgs h =
        AieScanClear_suppressed K env PwrDomain h) ∧
    (PwrDomain.Domain.HcDisableMask &&& K.HOUSECLEAN_DISABLE_BISR_MASK =
        K.HOUSECLEAN_DISABLE_BISR_MASK →
      AieBisr K env PwrDomain Args NumOfArgs h = Bisr_suppressed K env false PwrDomain h ∧
      Aie2Bisr K env PwrDomain Args NumOfArgs h = Bisr_suppressed K env true PwrDomain h) := by
  refine ⟨fun hmask => ?_, fun hmask => ?_⟩
  · simp only [AieScanClear, AieScanClear_suppressed, hmask, ne_eq, not_true_eq_false,
      if_false]
  · have hrep : ∀ (b : Nat) (s : XStatus),
        bisrRepairs K env PwrDomain b s = gotoDone s XPm_IntErr.XPM_INT_ERR_UNDEFINED := by
      intro b s
      simp only [bisrRepairs, hmask, ne_eq, not_true_eq_false, if_false]
    constructor
    · simp only [AieBisr, Bisr_suppressed, hrep, Bool.false_eq_true, if_false]
    · simp only [Aie2Bisr, Bisr_suppressed, hrep, if_true]

end DisableMask

section DisableMaskWitness

/-- C6 as amended, an instance: the sample domain with the scan-clear and BISR bits set. -/
theorem suppressed_steps_skip_only_their_operation_witness :
    (sampleDomain 3 aie1Hooks).Domain.HcDisableMask &&&
        sampleConsts.HOUSECLEAN_DISABLE_SCAN_CLEAR_MASK =
      sampleConsts.HOUSECLEAN_DISABLE_SCAN_CLEAR_MASK ∧
    AieScanClear sampleConsts (sampleEnv sampleConsts true 0xF70A0000 0xFFFFFFFF 0 0)
        (sampleDomain 3 aie1Hooks) (fun _ => 0) 0 [] =
      AieScanClear_suppressed sampleConsts
        (sampleEnv sampleConsts true 0xF70A0000 0xFFFFFFFF 0 0) (sampleDomain 3 aie1Hooks) [] :=
  ⟨by decide,
   (suppressed_steps_skip_only_their_operation sampleConsts
     (sampleEnv sampleConsts true 0xF70A0000 0xFFFFFFFF 0 0) (sampleDomain 3 aie1Hooks)
     (fun _ => 0) 0 []).1 (by decide)⟩

end DisableMaskWitness

/-! ## Init-Finish -/

section InitFinish

variable (K : Consts) (env : Env)

theorem lockedOnce_finishDone {b : Nat} (hb : 0 ≠ b) (s : XStatus) (d : XPm_IntErr)
    (h : List Event) : LockedOnceAtEnd b (finishDone b s d h).2 := by
  refine ⟨[], s, d, ?_, fun e he => by simp at he⟩
  simp [finishDone, hb, run_bind, XPmAieDomain_LockPcsr, run_emit, run_gotoDone]

theorem lockedOnce_bind {α β : Type} {b : Nat} {m : M α} {f : α → M β} (hm : NoLockM m)
    (hf : ∀ a h, LockedOnceAtEnd b (f a h).2) (h : List Event) :
    LockedOnceAtEnd b ((m >>= f) h).2 := by
  rw [run_bind]
  obtain ⟨pre, s, d, heq, hpre⟩ := hf (m h).1 (h ++ (m h).2)
  refine ⟨(m h).2 ++ pre, s, d, ?_, (noLock_append _ _).2 ⟨hm.noLock h, hpre⟩⟩
  simp only [heq, List.append_assoc]

theorem noLockM_finishDone_zero (s : XStatus) (d : XPm_IntErr) :
    NoLockM (finishDone 0 s d) := by
  unfold finishDone
  rw [if_neg (fun hh => hh rfl)]
  exact noLockM_bind (noLockM_pure _) fun _ => noLockM_gotoDone s d

theorem lockedOnce_AieInitFinish (PwrDomain : XPm_AieDomain) (Args : Nat → Nat)
    (NumOfArgs : Nat) (h : List Event) (DevBase : Nat)
    (hl : env.XPmDevice_GetById h K.PM_DEV_AIE = some DevBase) (hb : u32 DevBase ≠ 0) :
    LockedOnceAtEnd (u32 DevBase) (AieInitFinish K env PwrDomain Args NumOfArgs h).2 := by
  unfold AieInitFinish
  rw [run_lookup_bind, hl]
  dsimp only
  refine lockedOnce_bind (noLockM_AiePcsrWrite K env _ _) (fun Status h' => ?_) h
  rw [run_ite]
  split
  · exact lockedOnce_finishDone (Ne.symm hb) _ _ _
  · exact lockedOnce_bind (noLockM_AieClkGateByCol K env _)
      (fun _ h'' => lockedOnce_finishDone (Ne.symm hb) _ _ _) h'

theorem lockedOnce_Aie2InitFinish (PwrDomain : XPm_AieDomain) (Args : Nat → Nat)
    (NumOfArgs : Nat) (h : List Event) (DevBase : Nat)
    (hl : env.XPmDevice_GetById h K.PM_DEV_AIE = some DevBase) (hb : u32 DevBase ≠ 0) :
    LockedOnceAtEnd (u32 DevBase) (Aie2InitFinish K env PwrDomain Args NumOfArgs h).2 := by
  unfold Aie2InitFinish
  rw [run_lookup_bind, hl]
  dsimp only
  refine lockedOnce_bind (noLockM_Aie2ClockGate K env _ _) (fun _ h' => ?_) h
  refine lockedOnce_bind (noLockM_AiePcsrWrite K env _ _) (fun Status h'' => ?_) h'
  rw [run_ite]
  split <;> exact lockedOnce_finishDone (Ne.symm hb) _ _ _

theorem noLock_AieInitFinish_of_zero (PwrDomain : XPm_AieDomain) (Args : Nat → Nat)
    (NumOfArgs : Nat) (h : List Event)
    (hl : env.XPmDevice_GetById h K.PM_DEV_AIE = none ∨
      ∃ DevBase, env.XPmDevice_GetById h K.PM_DEV_AIE = some DevBase ∧ u32 DevBase = 0) :
    NoLock (AieInitFinish K env PwrDomain Args NumOfArgs h).2 := by
  unfold AieInitFinish
  rw [run_lookup_bind]
  rcases hl with hl | ⟨DevBase, hl, hb⟩
  · rw [hl]
    exact (noLockM_finishDone_zero _ _).noLock h
  · rw [hl]
    dsimp only
    rw [hb]
    exact (noLockM_bind (noLockM_AiePcsrWrite K env _ _) fun _ =>
      noLockM_ite (noLockM_finishDone_zero _ _)
        (noLockM_bind (noLockM_AieClkGateByCol K env _)
          fun _ => noLockM_finishDone_zero _ _)).noLock h

theorem noLock_Aie2InitFinish_of_zero (PwrDomain : XPm_AieDomain) (Args : Nat → Nat)
    (NumOfArgs : Nat) (h : List Event)
    (hl : env.XPmDevice_GetById h K.PM_DEV_AIE = none ∨
      ∃ DevBase, env.XPmDevice_GetById h K.PM_DEV_AIE = some DevBase ∧ u32 DevBase = 0) :
    NoLock (Aie2InitFinish K env PwrDomain Args NumOfArgs h).2 := by
  unfold Aie2InitFinish
  rw [run_lookup_bind]
  rcases hl with hl | ⟨DevBase, hl, hb⟩
  · rw [hl]
    exact (noLockM_finishDone_zero _ _).noLock h
  · rw [hl]
    dsimp only
    rw [hb]
    exact (noLockM_bind (noLockM_Aie2ClockGate K env _ _) fun _ =>
      noLockM_bind (noLockM_AiePcsrWrite K env _ _) fun _ =>
        noLockM_ite (noLockM_finishDone_zero _ _) (noLockM_finishDone_zero _ _)).noLock h

/-- C10, the claim fails: when the device lookup fails, and when the device is found at
base address 0, neither `AieInitFinish` nor `Aie2InitFinish` calls the PCSR lock (sample
constants). -/
theorem init_finish_lock_counterexample :
    AieInitFinish sampleConsts (sampleEnv sampleConsts false 0 0 0 0)
        (sampleDomain 0 aie1Hooks) (fun _ => 0) 0 [] =
      (sampleConsts.XST_FAILURE,
       [Event.PrintDbgErr sampleConsts.XST_FAILURE XPm_IntErr.XPM_INT_ERR_INVALID_DEVICE]) ∧
    Aie2InitFinish sampleConsts (sampleEnv sampleConsts false 0 0 0 0)
        (sampleDomain 0 aie2Hooks) (fun _ => 0) 0 [] =
      (sampleConsts.XST_FAILURE,
       [Event.PrintDbgErr sampleConsts.XST_FAILURE XPm_IntErr.XPM_INT_ERR_INVALID_DEVICE]) ∧
    (∀ e ∈ (AieInitFinish sampleConsts (sampleEnv sampleConsts true 0 0xFFFFFFFF 0 0)
        (sampleDomain 0 aie1Hooks) (fun _ => 0) 0 []).2, e.isLock = false) ∧
    (∀ e ∈ (Aie2InitFinish sampleConsts (sampleEnv sampleConsts true 0 0xFFFFFFFF 0 0)
        (sampleDomain 0 aie2Hooks) (fun _ => 0) 0 []).2, e.isLock = false) := by
  decide

/-- C10 as amended: for both `AieInitFinish` and `Aie2InitFinish` and every environment,
if the device lookup succeeds with a base address other than 0 then, whether the
PCOMPLETE write succeeds or fails, `XPmAieDomain_LockPcsr` is called exactly once and only
the diagnostic report follows it; if the lookup fails or the base address is 0 the lock
is not called. -/
theorem init_finish_locks_when_base_nonzero (PwrDomain : XPm_AieDomain) (Args : Nat → Nat)
    (NumOfArgs : Nat) (h : List Event) :
    (∀ DevBase, env.XPmDevice_GetById h K.PM_DEV_AIE = some DevBase → u32 DevBase ≠ 0 →
      LockedOnceAtEnd (u32 DevBase) (AieInitFinish K env PwrDomain Args NumOfArgs h).2 ∧
      LockedOnceAtEnd (u32 DevBase) (Aie2InitFinish K env PwrDomain Args NumOfArgs h).2) ∧
    ((env.XPmDevice_GetById h K.PM_DEV_AIE = none ∨
        ∃ DevBase, env.XPmDevice_GetById h K.PM_DEV_AIE = some DevBase ∧ u32 DevBase = 0) →
      NoLock (AieInitFinish K env PwrDomain Args NumOfArgs h).2 ∧
      NoLock (Aie2InitFinish K env PwrDomain Args NumOfArgs h).2) :=
  ⟨fun DevBase hl hb =>
    ⟨lockedOnce_AieInitFinish K env PwrDomain Args NumOfArgs h DevBase hl hb,
     lockedOnce_Aie2InitFinish K env PwrDomain Args NumOfArgs h DevBase hl hb⟩,
   fun hl =>
    ⟨noLock_AieInitFinish_of_zero K env PwrDomain Args NumOfArgs h hl,
     noLock_Aie2InitFinish_of_zero K env PwrDomain Args NumOfArgs h hl⟩⟩

/-- C10 as amended, an instance: the sample device at `0xF70A0000`. -/
theorem init_finish_locks_when_base_nonzero_witness :
    ((sampleEnv sampleConsts true 0xF70A0000 0xFFFFFFFF 0 0).XPmDevice_GetById []
        sampleConsts.PM_DEV_AIE = some 0xF70A0000 ∧ u32 0xF70A0000 ≠ 0) ∧
    LockedOnceAtEnd (u32 0xF70A0000)
      (AieInitFinish sampleConsts (sampleEnv sampleConsts true 0xF70A0000 0xFFFFFFFF 0 0)
        (sampleDomain 0 aie1Hooks) (fun _ => 0) 0 []).2 :=
  ⟨⟨by decide, by decide⟩,
   ((init_finish_locks_when_base_nonzero sampleConsts
      (sampleEnv sampleConsts true 0xF70A0000 0xFFFFFFFF 0 0) (sampleDomain 0 aie1Hooks)
      (fun _ => 0) 0 []).1 0xF70A0000 (by decide) (by decide)).1⟩

end InitFinish

/-! ## Scan-Clear failure -/

section ScanClearFailure

variable (K : Consts) (env : Env)

theorem run_In32 (a : Nat) (h : List Event) :
    XPm_In32 env a h =
      (u32 (env.In32 h (u32 a)), [Event.In32 (u32 a) (u32 (env.In32 h (u32 a)))]) := rfl

theorem poll_zero (a m : Nat) (h : List Event) :
    XPm_PollForMask K env a m 0 h = (K.XPM_PM_TIMEOUT, []) := rfl

theorem poll_succ (a m n : Nat) (h : List Event) :
    XPm_PollForMask K env a m (n + 1) h =
      if u32 (env.In32 h (u32 a)) &&& u32 m = u32 m then
        (K.XST_SUCCESS, [Event.In32 (u32 a) (u32 (env.In32 h (u32 a)))])
      else
        ((XPm_PollForMask K env a m n
            (h ++ [Event.In32 (u32 a) (u32 (env.In32 h (u32 a)))])).1,
         Event.In32 (u32 a) (u32 (env.In32 h (u32 a))) ::
          (XPm_PollForMask K env a m n
            (h ++ [Event.In32 (u32 a) (u32 (env.In32 h (u32 a)))])).2) := by
  show (XPm_In32 env a >>= fun l_RegValue =>
      if l_RegValue &&& u32 m = u32 m then pure K.XST_SUCCESS
      else XPm_PollForMask K env a m n) h = _
  rw [run_bind, run_In32]
  dsimp only
  split
  · simp [run_pure]
  · simp

theorem poll_never (a m : Nat)
    (hnever : ∀ h', u32 (env.In32 h' (u32 a)) &&& u32 m ≠ u32 m) (n : Nat) (h : List Event) :
    (XPm_PollForMask K env a m n h).1 = K.XPM_PM_TIMEOUT ∧
    (XPm_PollForMask K env a m n h).2.length = n ∧
    ∀ e ∈ (XPm_PollForMask K env a m n h).2, ∃ v, e = Event.In32 (u32 a) v := by
  induction n generalizing h with
  | zero => simp [poll_zero]
  | succ n ih =>
    rw [poll_succ, if_neg (hnever h)]
    obtain ⟨h1, h2, h3⟩ := ih (h ++ [Event.In32 (u32 a) (u32 (env.In32 h (u32 a)))])
    refine ⟨h1, by simp [h2], ?_⟩
    intro e he
    rcases List.mem_cons.1 he with rfl | he
    · exact ⟨_, rfl⟩
    · exact h3 e he

theorem poll_status (a m n : Nat) (h : List Event) :
    (XPm_PollForMask K env a m n h).1 = K.XST_SUCCESS ∨
    (XPm_PollForMask K env a m n h).1 = K.XPM_PM_TIMEOUT := by
  induction n generalizing h with
  | zero => exact Or.inr rfl
  | succ n ih =>
    rw [poll_succ]
    split
    · exact Or.inl rfl
    · exact ih _

/-- C8, the claim fails: with a status register that shows DONE but never PASS, the
scan-clear step does not wait for the poll timeout and does not record the timeout
diagnostic; it fails after two reads of the status register with `XST_FAILURE` and the
diagnostic `XPM_INT_ERR_SCAN_CLEAR_PASS` (sample constants, status register reading `0x2`). -/
theorem scan_clear_pass_never_counterexample :
    (0x2 &&& sampleConsts.ME_NPI_REG_PCSR_STATUS_SCAN_CLEAR_PASS_MASK ≠
      sampleConsts.ME_NPI_REG_PCSR_STATUS_SCAN_CLEAR_PASS_MASK) ∧
    AieScanClear sampleConsts (sampleEnv sampleConsts true 0xF70A0000 0x2 0 0)
        (sampleDomain 0 aie1Hooks) (fun _ => 0) 0 [] =
      (sampleConsts.XST_FAILURE,
       scanClearPrelude sampleConsts (sampleEnv sampleConsts true 0xF70A0000 0x2 0 0) [] ++
       [Event.In32 0xF70A0008 0x2, Event.In32 0xF70A0008 0x2, Event.LockPcsr 0xF70A0000,
        Event.PrintDbgErr sampleConsts.XST_FAILURE XPm_IntErr.XPM_INT_ERR_SCAN_CLEAR_PASS]) ∧
    Event.PrintDbgErr sampleConsts.XST_FAILURE XPm_IntErr.XPM_INT_ERR_SCAN_CLEAR_TIMEOUT ∉
      (AieScanClear sampleConsts (sampleEnv sampleConsts true 0xF70A0000 0x2 0 0)
        (sampleDomain 0 aie1Hooks) (fun _ => 0) 0 []).2 := by
  decide

/-- C8 as amended: for `AieScanClear` with scan-clear not suppressed and the device lookup
and the two preceding PCSR writes succeeding, if the status register never shows the PASS
bit then the step returns a status other than `XST_SUCCESS` and the PCSR lock is called
exactly once, as its last action before the diagnostic report.  If the DONE bit never
shows either, the status is the timeout status of the poll, the diagnostic is
`XPM_INT_ERR_SCAN_CLEAR_TIMEOUT` and exactly `AIE_POLL_TIMEOUT` reads of the status
register precede the lock; if the DONE bit shows at the first read of the poll, the step
fails at once, after two reads of the status register, with `XST_FAILURE` and the
diagnostic `XPM_INT_ERR_SCAN_CLEAR_PASS`. -/
theorem scan_clear_pass_never (hne : K.XST_FAILURE ≠ K.XST_SUCCESS)
    (hto : K.XPM_PM_TIMEOUT ≠ K.XST_SUCCESS) (PwrDomain : XPm_AieDomain) (Args : Nat → Nat)
    (NumOfArgs : Nat) (h : List Event) (DevBase : Nat)
    (hl : env.XPmDevice_GetById h K.PM_DEV_AIE = some DevBase)
    (hnot : K.HOUSECLEAN_DISABLE_SCAN_CLEAR_MASK ≠
      (PwrDomain.Domain.HcDisableMask &&& K.HOUSECLEAN_DISABLE_SCAN_CLEAR_MASK))
    (hw1 : (AiePcsrWrite K env K.ME_NPI_REG_PCSR_MASK_ODISABLE_1_MASK 0 h).1 = K.XST_SUCCESS)
    (hw2 : (AiePcsrWrite K env K.ME_NPI_REG_PCSR_MASK_SCAN_CLEAR_TRIGGER_MASK
      K.ME_NPI_REG_PCSR_MASK_SCAN_CLEAR_TRIGGER_MASK
      (h ++ (AiePcsrWrite K env K.ME_NPI_REG_PCSR_MASK_ODISABLE_1_MASK 0 h).2)).1 =
        K.XST_SUCCESS)
    (hpass : ∀ h', u32 (env.In32 h' (pcsrStatusAddr K DevBase)) &&&
        K.ME_NPI_REG_PCSR_STATUS_SCAN_CLEAR_PASS_MASK ≠
      K.ME_NPI_REG_PCSR_STATUS_SCAN_CLEAR_PASS_MASK) :
    (AieScanClear K env PwrDomain Args NumOfArgs h).1 ≠ K.XST_SUCCESS ∧
    LockedOnceAtEnd (u32 DevBase) (AieScanClear K env PwrDomain Args NumOfArgs h).2 ∧
    ((∀ h', u32 (env.In32 h' (pcsrStatusAddr K DevBase)) &&&
          u32 K.ME_NPI_REG_PCSR_STATUS_SCAN_CLEAR_DONE_MASK ≠
        u32 K.ME_NPI_REG_PCSR_STATUS_SCAN_CLEAR_DONE_MASK) →
      (AieScanClear K env PwrDomain Args NumOfArgs h).1 = K.XPM_PM_TIMEOUT ∧
      ∃ reads : List Event, reads.length = AIE_POLL_TIMEOUT ∧
        (∀ e ∈ reads, ∃ v, e = Event.In32 (pcsrStatusAddr K DevBase) v) ∧
        (AieScanClear K env PwrDomain Args NumOfArgs h).2 =
          scanClearPrelude K env h ++ reads ++
            [Event.LockPcsr (u32 DevBase),
             Event.PrintDbgErr K.XPM_PM_TIMEOUT XPm_IntErr.XPM_INT_ERR_SCAN_CLEAR_TIMEOUT]) ∧
    (u32 (env.In32 (h ++ scanClearPrelude K env h) (pcsrStatusAddr K DevBase)) &&&
          u32 K.ME_NPI_REG_PCSR_STATUS_SCAN_CLEAR_DONE_MASK =
        u32 K.ME_NPI_REG_PCSR_STATUS_SCAN_CLEAR_DONE_MASK →
      (AieScanClear K env PwrDomain Args NumOfArgs h).1 = K.XST_FAILURE ∧
      ∃ v1 v2, (AieScanClear K env PwrDomain Args NumOfArgs h).2 =
        scanClearPrelude K env h ++
          [Event.In32 (pcsrStatusAddr K DevBase) v1, Event.In32 (pcsrStatusAddr K DevBase) v2,
           Event.LockPcsr (u32 DevBase),
           Event.PrintDbgErr K.XST_FAILURE XPm_IntErr.XPM_INT_ERR_SCAN_CLEAR_PASS]) := by
  have hA : u32 (u32 DevBase + K.NPI_PCSR_STATUS_OFFSET) = pcsrStatusAddr K DevBase := rfl
  have hrun : AieScanClear K env PwrDomain Args NumOfArgs h =
      (if K.XST_SUCCESS ≠ (XPm_PollForMask K env (u32 DevBase + K.NPI_PCSR_STATUS_OFFSET)
            K.ME_NPI_REG_PCSR_STATUS_SCAN_CLEAR_DONE_MASK AIE_POLL_TIMEOUT
            (h ++ scanClearPrelude K env h)).1 then
        ((XPm_PollForMask K env (u32 DevBase + K.NPI_PCSR_STATUS_OFFSET)
            K.ME_NPI_REG_PCSR_STATUS_SCAN_CLEAR_DONE_MASK AIE_POLL_TIMEOUT
            (h ++ scanClearPrelude K env h)).1,
         scanClearPrelude K env h ++
          (XPm_PollForMask K env (u32 DevBase + K.NPI_PCSR_STATUS_OFFSET)
            K.ME_NPI_REG_PCSR_STATUS_SCAN_CLEAR_DONE_MASK AIE_POLL_TIMEOUT
            (h ++ scanClearPrelude K env h)).2 ++
          [Event.LockPcsr (u32 DevBase),
           Event.PrintDbgErr (XPm_PollForMask K env (u32 DevBase + K.NPI_PCSR_STATUS_OFFSET)
            K.ME_NPI_REG_PCSR_STATUS_SCAN_CLEAR_DONE_MASK AIE_POLL_TIMEOUT
            (h ++ scanClearPrelude K env h)).1 XPm_IntErr.XPM_INT_ERR_SCAN_CLEAR_TIMEOUT])
      else
        (K.XST_FAILURE,
         scanClearPrelude K env h ++
          (XPm_PollForMask K env (u32 DevBase + K.NPI_PCSR_STATUS_OFFSET)
            K.ME_NPI_REG_PCSR_STATUS_SCAN_CLEAR_DONE_MASK AIE_POLL_TIMEOUT
            (h ++ scanClearPrelude K env h)).2 ++
          [Event.In32 (pcsrStatusAddr K DevBase)
            (u32 (env.In32 (h ++ scanClearPrelude K env h ++
              (XPm_PollForMask K env (u32 DevBase + K.NPI_PCSR_STATUS_OFFSET)
                K.ME_NPI_REG_PCSR_STATUS_SCAN_CLEAR_DONE_MASK AIE_POLL_TIMEOUT
                (h ++ scanClearPrelude K env h)).2) (pcsrStatusAddr K DevBase))),
           Event.LockPcsr (u32 DevBase),
           Event.PrintDbgErr K.XST_FAILURE XPm_IntErr.XPM_INT_ERR_SCAN_CLEAR_PASS])) := by
    unfold AieScanClear
    rw [run_lookup_bind, hl]
    dsimp only
    rw [run_bind, hw1, if_neg (fun hh => hh rfl), if_pos hnot, run_bind, hw2,
      if_neg (fun hh => hh rfl), run_bind]
    simp only [scanClearPrelude, List.append_assoc]
    split
    · rw [run_gotoFail]
    · rw [run_bind, run_In32, hA]
      dsimp only
      rw [if_pos (hpass _), run_gotoFail]
      simp [List.append_assoc]
  have hpre : NoLock (scanClearPrelude K env h) :=
    (noLock_append _ _).2 ⟨(noLockM_AiePcsrWrite K env _ _).noLock _,
      (noLockM_AiePcsrWrite K env _ _).noLock _⟩
  have hpoll : NoLock (XPm_PollForMask K env (u32 DevBase + K.NPI_PCSR_STATUS_OFFSET)
      K.ME_NPI_REG_PCSR_STATUS_SCAN_CLEAR_DONE_MASK AIE_POLL_TIMEOUT
      (h ++ scanClearPrelude K env h)).2 := (noLockM_PollForMask K env _ _ _).noLock _
  refine ⟨?_, ?_, fun hnever => ?_, fun hdone => ?_⟩
  · rw [hrun]
    split
    · exact fun hh => ‹K.XST_SUCCESS ≠ _› hh.symm
    · exact hne
  · rw [hrun]
    split
    · exact ⟨_, _, _, rfl, (noLock_append _ _).2 ⟨hpre, hpoll⟩⟩
    · refine ⟨scanClearPrelude K env h ++ (XPm_PollForMask K env
        (u32 DevBase + K.NPI_PCSR_STATUS_OFFSET) K.ME_NPI_REG_PCSR_STATUS_SCAN_CLEAR_DONE_MASK
        AIE_POLL_TIMEOUT (h ++ scanClearPrelude K env h)).2 ++
        [Event.In32 (pcsrStatusAddr K DevBase)
          (u32 (env.In32 (h ++ scanClearPrelude K env h ++
            (XPm_PollForMask K env (u32 DevBase + K.NPI_PCSR_STATUS_OFFSET)
              K.ME_NPI_REG_PCSR_STATUS_SCAN_CLEAR_DONE_MASK AIE_POLL_TIMEOUT
              (h ++ scanClearPrelude K env h)).2) (pcsrStatusAddr K DevBase)))],
        K.XST_FAILURE, XPm_IntErr.XPM_INT_ERR_SCAN_CLEAR_PASS, ?_, ?_⟩
      · simp [List.append_assoc]
      · exact (noLock_append _ _).2 ⟨(noLock_append _ _).2 ⟨hpre, hpoll⟩,
          noLock_singleton rfl⟩
  · obtain ⟨h1, h2, h3⟩ := poll_never K env (u32 DevBase + K.NPI_PCSR_STATUS_OFFSET)
      K.ME_NPI_REG_PCSR_STATUS_SCAN_CLEAR_DONE_MASK hnever AIE_POLL_TIMEOUT
      (h ++ scanClearPrelude K env h)
    rw [hrun, if_pos (by rw [h1]; exact Ne.symm hto), h1]
    exact ⟨rfl, _, h2, h3, rfl⟩
  · have hP : XPm_PollForMask K env (u32 DevBase + K.NPI_PCSR_STATUS_OFFSET)
        K.ME_NPI_REG_PCSR_STATUS_SCAN_CLEAR_DONE_MASK AIE_POLL_TIMEOUT
        (h ++ scanClearPrelude K env h) =
        (K.XST_SUCCESS, [Event.In32 (pcsrStatusAddr K DevBase)
          (u32 (env.In32 (h ++ scanClearPrelude K env h) (pcsrStatusAddr K DevBase)))]) := by
      rw [show AIE_POLL_TIMEOUT = 16777215 + 1 from rfl, poll_succ, hA, if_pos hdone]
    rw [hrun, hP, if_neg (fun hh => hh rfl)]
    refine ⟨rfl, u32 (env.In32 (h ++ scanClearPrelude K env h) (pcsrStatusAddr K DevBase)),
      u32 (env.In32 (h ++ scanClearPrelude K env h ++
        [Event.In32 (pcsrStatusAddr K DevBase)
          (u32 (env.In32 (h ++ scanClearPrelude K env h) (pcsrStatusAddr K DevBase)))])
        (pcsrStatusAddr K DevBase)), ?_⟩
    dsimp only
    rw [List.append_assoc]
    rfl

theorem sampleEnv_status (K' : Consts) (found : Bool) (DevBase s w p : Nat) (h' : List Event) :
    (sampleEnv K' found DevBase s w p).In32 h' (pcsrStatusAddr K' DevBase) = s := by
  simp [sampleEnv, pcsrStatusAddr]

/-- C8 as amended, an instance: the sample status register reading 0, so that neither
DONE nor PASS ever shows; the step returns the timeout status of the poll. -/
theorem scan_clear_pass_never_witness :
    (sampleConsts.XST_FAILURE ≠ sampleConsts.XST_SUCCESS ∧
      sampleConsts.XPM_PM_TIMEOUT ≠ sampleConsts.XST_SUCCESS ∧
      (sampleEnv sampleConsts true 0xF70A0000 0 0 0).XPmDevice_GetById []
        sampleConsts.PM_DEV_AIE = some 0xF70A0000 ∧
      sampleConsts.HOUSECLEAN_DISABLE_SCAN_CLEAR_MASK ≠
        ((sampleDomain 0 aie1Hooks).Domain.HcDisableMask &&&
          sampleConsts.HOUSECLEAN_DISABLE_SCAN_CLEAR_MASK)) ∧
    (AieScanClear sampleConsts (sampleEnv sampleConsts true 0xF70A0000 0 0 0)
      (sampleDomain 0 aie1Hooks) (fun _ => 0) 0 []).1 = sampleConsts.XPM_PM_TIMEOUT :=
  ⟨⟨by decide, by decide, by decide, by decide⟩,
   ((scan_clear_pass_never sampleConsts (sampleEnv sampleConsts true 0xF70A0000 0 0 0)
      (by decide) (by decide) (sampleDomain 0 aie1Hooks) (fun _ => 0) 0 [] 0xF70A0000
      (by decide) (by decide) (by decide) (by decide)
      (fun h' => by rw [sampleEnv_status]; decide)).2.2.1
      (fun h' => by rw [sampleEnv_status]; decide)).1⟩

end ScanClearFailure

/-! ## Lock discipline of the steps before Init-Finish -/

section LockDisciplineClaim

variable (K : Consts) (env : Env)

/-- C9: lock discipline of the steps before Init-Finish.  For each of `AieInitStart`,
`Aie2InitStart`, `AieBisr`, `Aie2Bisr`, `AieScanClear`, `AieMbistClear`, `Aie2MbistClear`,
`AieMemInit` and `Aie2MemInit`, in every environment in which the device lookup of the
step succeeds: (a) if the step returns a status other than `XST_SUCCESS` (for the two
`InitStart` steps: after their own unlock), then `XPmAieDomain_LockPcsr(BaseAddress)` was
called during the step and no register write follows it; (b) if the step returns
`XST_SUCCESS`, the PCSR lock was not called during the step.  `Aie2MemInit` does return:
its loop ends within `XPLMI_TIME_OUT_DEFAULT + 1` iterations. -/
theorem lock_discipline_before_init_finish (hne : K.XST_FAILURE ≠ K.XST_SUCCESS)
    (PwrDomain : XPm_AieDomain) (Args : Nat → Nat) (NumOfArgs : Nat) (h : List Event)
    (DevBase : Nat) (hl : env.XPmDevice_GetById h K.PM_DEV_AIE = some DevBase) :
    (((AieInitStart K env PwrDomain Args NumOfArgs h).1.1 ≠ K.XST_SUCCESS →
        Event.UnlockPcsr (u32 DevBase) ∈ (AieInitStart K env PwrDomain Args NumOfArgs h).2 →
        LockedAtExit (u32 DevBase) (AieInitStart K env PwrDomain Args NumOfArgs h).2) ∧
      ((AieInitStart K env PwrDomain Args NumOfArgs h).1.1 = K.XST_SUCCESS →
        NoLock (AieInitStart K env PwrDomain Args NumOfArgs h).2)) ∧
    (((Aie2InitStart K env PwrDomain Args NumOfArgs h).1.1 ≠ K.XST_SUCCESS →
        Event.UnlockPcsr (u32 DevBase) ∈ (Aie2InitStart K env PwrDomain Args NumOfArgs h).2 →
        LockedAtExit (u32 DevBase) (Aie2InitStart K env PwrDomain Args NumOfArgs h).2) ∧
      ((Aie2InitStart K env PwrDomain Args NumOfArgs h).1.1 = K.XST_SUCCESS →
        NoLock (Aie2InitStart K env PwrDomain Args NumOfArgs h).2)) ∧
    LockDiscipline K (u32 DevBase) (AieBisr K env PwrDomain Args NumOfArgs h).1
      (AieBisr K env PwrDomain Args NumOfArgs h).2 ∧
    LockDiscipline K (u32 DevBase) (Aie2Bisr K env PwrDomain Args NumOfArgs h).1
      (Aie2Bisr K env PwrDomain Args NumOfArgs h).2 ∧
    LockDiscipline K (u32 DevBase) (AieScanClear K env PwrDomain Args NumOfArgs h).1
      (AieScanClear K env PwrDomain Args NumOfArgs h).2 ∧
    LockDiscipline K (u32 DevBase) (AieMbistClear K env PwrDomain Args NumOfArgs h).1
      (AieMbistClear K env PwrDomain Args NumOfArgs h).2 ∧
    LockDiscipline K (u32 DevBase) (Aie2MbistClear K env PwrDomain Args NumOfArgs h).1
      (Aie2MbistClear K env PwrDomain Args NumOfArgs h).2 ∧
    LockDiscipline K (u32 DevBase) (AieMemInit K env PwrDomain Args NumOfArgs h).1
      (AieMemInit K env PwrDomain Args NumOfArgs h).2 ∧
    (∀ fuel Status, (Aie2MemInit K env fuel PwrDomain Args NumOfArgs h).1 = some Status →
      LockDiscipline K (u32 DevBase) Status
        (Aie2MemInit K env fuel PwrDomain Args NumOfArgs h).2) ∧
    (K.XPLMI_TIME_OUT_DEFAULT + 1 < 2 ^ 32 → ∀ fuel, K.XPLMI_TIME_OUT_DEFAULT < fuel →
      ∃ Status, (Aie2MemInit K env fuel PwrDomain Args NumOfArgs h).1 = some Status) :=
  ⟨lockDiscipline_AieInitStart K env hne PwrDomain Args NumOfArgs h DevBase hl,
   lockDiscipline_Aie2InitStart K env hne PwrDomain Args NumOfArgs h DevBase hl,
   lockDiscipline_AieBisr K env hne PwrDomain Args NumOfArgs h DevBase hl,
   lockDiscipline_Aie2Bisr K env hne PwrDomain Args NumOfArgs h DevBase hl,
   lockDiscipline_AieScanClear K env hne PwrDomain Args NumOfArgs h DevBase hl,
   lockDiscipline_AieMbistClear K env hne PwrDomain Args NumOfArgs h DevBase hl,
   lockDiscipline_Aie2MbistClear K env hne PwrDomain Args NumOfArgs h DevBase hl,
   lockDiscipline_AieMemInit K env hne PwrDomain Args NumOfArgs h DevBase hl,
   fun fuel Status hret =>
     lockDiscipline_Aie2MemInit K env hne fuel PwrDomain Args NumOfArgs h DevBase hl Status hret,
   fun hT fuel hfuel =>
     Option.ne_none_iff_exists'.1
       (Aie2MemInit_returns K env hT fuel hfuel PwrDomain Args NumOfArgs h)⟩

/-- C9, an instance: the sample status register reading `0x2` (DONE without PASS), on which
`AieScanClear` fails and locks. -/
theorem lock_discipline_before_init_finish_witness :
    (sampleConsts.XST_FAILURE ≠ sampleConsts.XST_SUCCESS ∧
      (sampleEnv sampleConsts true 0xF70A0000 0x2 0 0).XPmDevice_GetById []
        sampleConsts.PM_DEV_AIE = some 0xF70A0000) ∧
    LockDiscipline sampleConsts (u32 0xF70A0000)
      (AieScanClear sampleConsts (sampleEnv sampleConsts true 0xF70A0000 0x2 0 0)
        (sampleDomain 0 aie1Hooks) (fun _ => 0) 0 []).1
      (AieScanClear sampleConsts (sampleEnv sampleConsts true 0xF70A0000 0x2 0 0)
        (sampleDomain 0 aie1Hooks) (fun _ => 0) 0 []).2 :=
  ⟨⟨by decide, by decide⟩,
   (lock_discipline_before_init_finish sampleConsts
     (sampleEnv sampleConsts true 0xF70A0000 0x2 0 0) (by decide) (sampleDomain 0 aie1Hooks)
     (fun _ => 0) 0 [] 0xF70A0000 (by decide)).2.2.2.2.1⟩

end LockDisciplineClaim

/-! ## Every step succeeds in an environment that always reports success -/

section Success

variable {α β : Type} (K : Consts) (env : Env)

theorem retP_pure {P : α → Prop} {a : α} (ha : P a) : ReturnsP (pure a : M α) P :=
  ⟨fun _ => ha⟩

theorem retP_bind {m : M α} {f : α → M β} (P : α → Prop) {Q : β → Prop}
    (hm : ReturnsP m P) (hf : ∀ a, P a → ReturnsP (f a) Q) : ReturnsP (m >>= f) Q :=
  ⟨fun h => by
    rw [run_bind]
    exact (hf _ (hm.ret h)).ret _⟩

theorem retP_seq {m : M α} {f : α → M β} {Q : β → Prop} (hf : ∀ a, ReturnsP (f a) Q) :
    ReturnsP (m >>= f) Q :=
  retP_bind (fun _ => True) ⟨fun _ => trivial⟩ fun a _ => hf a

theorem retP_ite {c : Prop} [Decidable c] {x y : M α} {P : α → Prop}
    (hx : c → ReturnsP x P) (hy : ¬ c → ReturnsP y P) : ReturnsP (if c then x else y) P := by
  split
  · exact hx ‹_›
  · exact hy ‹_›

theorem retS_step {m : M XStatus} {x y : XStatus → M α} {Q : α → Prop}
    (hm : ReturnsP m (fun s => s = K.XST_SUCCESS)) (hy : ReturnsP (y K.XST_SUCCESS) Q) :
    ReturnsP (m >>= fun s => if K.XST_SUCCESS ≠ s then x s else y s) Q :=
  retP_bind _ hm fun s hs => by
    subst hs
    rw [if_neg (fun hh => hh rfl)]
    exact hy

theorem retS_step_symm {m : M XStatus} {x y : XStatus → M α} {Q : α → Prop}
    (hm : ReturnsP m (fun s => s = K.XST_SUCCESS)) (hy : ReturnsP (y K.XST_SUCCESS) Q) :
    ReturnsP (m >>= fun s => if s ≠ K.XST_SUCCESS then x s else y s) Q :=
  retP_bind _ hm fun s hs => by
    subst hs
    rw [if_neg (fun hh => hh rfl)]
    exact hy

theorem retS_gotoDone (d : XPm_IntErr) :
    ReturnsP (gotoDone K.XST_SUCCESS d) (fun s => s = K.XST_SUCCESS) :=
  ⟨fun _ => rfl⟩

theorem retP_check {a msk : Nat} {x y : Nat → M α} {Q : α → Prop}
    (hv : ∀ h, u32 (env.In32 h (u32 a)) &&& msk = msk) (hy : ∀ v, ReturnsP (y v) Q) :
    ReturnsP (XPm_In32 env a >>= fun v => if (v &&& msk) ≠ msk then x v else y v) Q :=
  retP_bind (fun v => v &&& msk = msk) ⟨fun h => hv h⟩ fun v hvv => by
    rw [if_neg (fun hh => hh hvv)]
    exact hy v

theorem retS_poll {a msk n : Nat} (hv : ∀ h, u32 (env.In32 h (u32 a)) &&& u32 msk = u32 msk) :
    ReturnsP (XPm_PollForMask K env a msk (n + 1)) (fun s => s = K.XST_SUCCESS) :=
  ⟨fun h => by rw [poll_succ, if_pos (hv h)]⟩

theorem retP_forLoopE_none {body : Nat → M (Option XStatus)}
    (hb : ∀ i, ReturnsP (body i) (fun r => r = none)) (n i : Nat) :
    ReturnsP (forLoopE body n i) (fun r => r = none) := by
  induction n generalizing i with
  | zero => exact retP_pure rfl
  | succ n ih =>
    refine retP_bind _ (hb i) fun r hr => ?_
    subst hr
    exact ih (i + 1)

section Ideal

variable {DevBase : Nat} {A : XPm_AieArray}

theorem retS_AiePcsrWrite (hwf : K.XPM_REG_WRITE_FAILED ≠ K.XST_FAILURE) (hE : AlwaysSucceeds K env DevBase A)
    (Mask Value : Nat) :
    ReturnsP (AiePcsrWrite K env Mask Value) (fun s => s = K.XST_SUCCESS) := by
  refine ⟨fun h => ?_⟩
  unfold AiePcsrWrite
  rw [run_lookup_bind, hE.lookup h]
  simp only [run_bind, PmOut32, run_emit, PmChkRegOut32, PmChkRegMask32, run_In32,
    hE.readbackMask, ne_eq, not_true_eq_false, if_false, run_pure, List.append_nil,
    hE.readbackControl, hwf, run_gotoDone]

theorem retP_lookup (hE : AlwaysSucceeds K env DevBase A) {Q : α → Prop}
    {f : Option Nat → M α} (hf : ReturnsP (f (some DevBase)) Q) :
    ReturnsP (XPmDevice_GetById env K.PM_DEV_AIE >>= f) Q :=
  ⟨fun h => by
    rw [run_lookup_bind, hE.lookup h]
    exact hf.ret h⟩

theorem retS_IsoControl (hE : AlwaysSucceeds K env DevBase A) (a b : Nat) :
    ReturnsP (XPmDomainIso_Control env a b) (fun s => s = K.XST_SUCCESS) :=
  ⟨fun h => hE.iso h a b⟩

theorem retS_BisrRepair (hE : AlwaysSucceeds K env DevBase A) (t : Nat) :
    ReturnsP (XPmBisr_Repair env t) (fun s => s = K.XST_SUCCESS) :=
  ⟨fun h => hE.bisr h t⟩

theorem retS_DmaXfr (hE : AlwaysSucceeds K env DevBase A) (s : List Nat) (a b c : Nat) :
    ReturnsP (XPlmi_DmaXfr env s a b c) (fun s => s = K.XST_SUCCESS) :=
  ⟨fun h => hE.dma h s a b c⟩

theorem retS_PollForMask64 (hE : AlwaysSucceeds K env DevBase A) (a b c d : Nat) :
    ReturnsP (XPlmi_UtilPollForMask64 env a b c d) (fun s => s = K.XST_SUCCESS) :=
  ⟨fun h => hE.poll64 h a b c d⟩

theorem retS_pollAie {a msk : Nat}
    (hv : ∀ h, u32 (env.In32 h (u32 a)) &&& u32 msk = u32 msk) :
    ReturnsP (XPm_PollForMask K env a msk AIE_POLL_TIMEOUT) (fun s => s = K.XST_SUCCESS) :=
  retS_poll K env hv

theorem retS_ArrayReset (hwf : K.XPM_REG_WRITE_FAILED ≠ K.XST_FAILURE) (hE : AlwaysSucceeds K env DevBase A)
    :
    ReturnsP (ArrayReset K env) (fun s => s = K.XST_SUCCESS) := by
  unfold ArrayReset
  repeat' first
    | with_reducible exact retS_gotoDone K _
    | with_reducible exact retP_pure rfl
    | with_reducible refine retP_lookup K env hE ?_
    | with_reducible refine retS_step K (retS_AiePcsrWrite K env hwf hE _ _) ?_
    | with_reducible refine retS_step K (retS_IsoControl K env hE _ _) ?_
    | with_reducible refine retS_step K (retS_BisrRepair K env hE _) ?_
    | with_reducible refine retS_step K (retS_DmaXfr K env hE _ _ _ _) ?_
    | with_reducible refine retS_step K (retS_pollAie K env hE.scanDone) ?_
    | with_reducible refine retS_step_symm K (retS_pollAie K env hE.memDone) ?_
    | with_reducible refine retP_check env hE.power (fun _ => ?_)
    | with_reducible refine retP_check env hE.scanPass (fun _ => ?_)
    | with_reducible refine retP_check env hE.memPass (fun _ => ?_)
    | with_reducible refine retP_bind _ (retS_AiePcsrWrite K env hwf hE _ _) (fun s hs => ?_)
    | (subst hs; exact retP_seq fun _ => retS_gotoDone K _)
    | with_reducible refine retP_seq (fun _ => ?_)
    | with_reducible apply retP_ite
    | intro _
    | dsimp only

theorem retS_AieWaitForCoreDone (hE : AlwaysSucceeds K env DevBase A) (d : XPm_AieDomain)
    (c r : Nat) :
    ReturnsP (AieWaitForCoreDone K env d c r) (fun s => s = K.XST_SUCCESS) := by
  unfold AieWaitForCoreDone
  dsimp only
  exact retS_step_symm K (retS_PollForMask64 K env hE _ _ _ _) (retS_gotoDone K _)

theorem retS_ProgramCore (hE : AlwaysSucceeds K env DevBase A) (d : XPm_AieDomain) (c r : Nat)
    (p : List Nat) (n : Nat) :
    ReturnsP (ProgramCore K env d c r p n) (fun s => s = K.XST_SUCCESS) :=
  retS_DmaXfr K env hE _ _ _ _

theorem retS_AieCoreMemInit (hE : AlwaysSucceeds K env DevBase A) (d : XPm_AieDomain) :
    ReturnsP (AieCoreMemInit K env d) (fun s => s = K.XST_SUCCESS) := by
  unfold AieCoreMemInit
  dsimp only
  refine retP_bind (fun r => r = none) (retP_forLoopE_none (fun col =>
    retP_forLoopE_none (fun row => ?_) _ _) _ _) (fun r hr => ?_)
  · exact retS_step K (retS_ProgramCore K env hE _ _ _ _ _)
      (retP_seq fun _ => retP_pure rfl)
  · subst hr
    dsimp only
    exact retS_step K (retS_AieWaitForCoreDone K env hE _ _ _) (retS_gotoDone K _)

theorem retS_AiePostScanClearHook (hwf : K.XPM_REG_WRITE_FAILED ≠ K.XST_FAILURE) (hE : AlwaysSucceeds K env DevBase A)
    (d : XPm_AieDomain) (b : Nat) :
    ReturnsP (AiePostScanClearHook K env d b) (fun s => s = K.XST_SUCCESS) :=
  retS_AiePcsrWrite K env hwf hE _ _

theorem retS_AiePreBisrHook (hwf : K.XPM_REG_WRITE_FAILED ≠ K.XST_FAILURE) (hE : AlwaysSucceeds K env DevBase A)
    (d : XPm_AieDomain) (b : Nat) :
    ReturnsP (AiePreBisrHook K env d b) (fun s => s = K.XST_SUCCESS) := by
  unfold AiePreBisrHook
  exact retP_seq fun _ => retP_seq fun _ => retS_AiePcsrWrite K env hwf hE _ _

theorem retS_Aie2PreBisrHook (hwf : K.XPM_REG_WRITE_FAILED ≠ K.XST_FAILURE) (hE : AlwaysSucceeds K env DevBase A)
    (d : XPm_AieDomain) (b : Nat) :
    ReturnsP (Aie2PreBisrHook K env d b) (fun s => s = K.XST_SUCCESS) := by
  unfold Aie2PreBisrHook
  exact retS_step K (retS_AiePcsrWrite K env hwf hE _ _)
    (retP_seq fun _ => retP_seq fun _ => retP_pure rfl)

theorem retS_invokePostScanClearHook (hwf : K.XPM_REG_WRITE_FAILED ≠ K.XST_FAILURE) (hE : AlwaysSucceeds K env DevBase A)
    (d : XPm_AieDomain) (b : Nat) (f : PostScanClearHookFn) :
    ReturnsP (invokePostScanClearHook K env d b f) (fun s => s = K.XST_SUCCESS) := by
  cases f
  exact retS_AiePostScanClearHook K env hwf hE d b

theorem retS_invokePreBisrHook (hwf : K.XPM_REG_WRITE_FAILED ≠ K.XST_FAILURE) (hE : AlwaysSucceeds K env DevBase A)
    (d : XPm_AieDomain) (b : Nat) (f : PreBisrHookFn) :
    ReturnsP (invokePreBisrHook K env d b f) (fun s => s = K.XST_SUCCESS) := by
  cases f
  · exact retS_AiePreBisrHook K env hwf hE d b
  · exact retS_Aie2PreBisrHook K env hwf hE d b

theorem retS_bisrRepairs (hE : AlwaysSucceeds K env DevBase A) (d : XPm_AieDomain) (b : Nat) :
    ReturnsP (bisrRepairs K env d b K.XST_SUCCESS) (fun s => s = K.XST_SUCCESS) := by
  unfold bisrRepairs
  refine retP_ite (fun _ => ?_) (fun _ => retS_gotoDone K _)
  exact retS_step K (retS_BisrRepair K env hE _) (retS_step K (retS_BisrRepair K env hE _)
    (retS_step K (retS_BisrRepair K env hE _) (retS_gotoDone K _)))

theorem retS_AieBisr (hwf : K.XPM_REG_WRITE_FAILED ≠ K.XST_FAILURE) (hE : AlwaysSucceeds K env DevBase A)
    (PwrDomain : XPm_AieDomain) (Args : Nat → Nat) (NumOfArgs : Nat) :
    ReturnsP (AieBisr K env PwrDomain Args NumOfArgs) (fun s => s = K.XST_SUCCESS) := by
  unfold AieBisr
  repeat' first
    | with_reducible exact retS_gotoDone K _
    | with_reducible exact retP_pure rfl
    | with_reducible refine retP_lookup K env hE ?_
    | with_reducible refine retS_step K (retS_AiePcsrWrite K env hwf hE _ _) ?_
    | with_reducible refine retS_step K (retS_IsoControl K env hE _ _) ?_
    | with_reducible refine retS_step K (retS_BisrRepair K env hE _) ?_
    | with_reducible refine retS_step K (retS_DmaXfr K env hE _ _ _ _) ?_
    | with_reducible refine retS_step K (retS_pollAie K env hE.scanDone) ?_
    | with_reducible refine retS_step_symm K (retS_pollAie K env hE.memDone) ?_
    | with_reducible refine retP_check env hE.power (fun _ => ?_)
    | with_reducible refine retP_check env hE.scanPass (fun _ => ?_)
    | with_reducible refine retP_check env hE.memPass (fun _ => ?_)
    | with_reducible refine retS_step K (retS_invokePreBisrHook K env hwf hE _ _ _) ?_
    | with_reducible refine retS_step K (retS_invokePostScanClearHook K env hwf hE _ _ _) ?_
    | with_reducible exact retS_bisrRepairs K env hE _ _
    | with_reducible refine retS_step K (retS_ArrayReset K env hwf hE) ?_
    | with_reducible refine retP_seq (fun _ => ?_)
    | with_reducible apply retP_ite
    | intro _
    | dsimp only
    | split

theorem retS_Aie2Bisr (hwf : K.XPM_REG_WRITE_FAILED ≠ K.XST_FAILURE) (hE : AlwaysSucceeds K env DevBase A)
    (PwrDomain : XPm_AieDomain) (Args : Nat → Nat) (NumOfArgs : Nat) :
    ReturnsP (Aie2Bisr K env PwrDomain Args NumOfArgs) (fun s => s = K.XST_SUCCESS) := by
  unfold Aie2Bisr
  repeat' first
    | with_reducible exact retS_gotoDone K _
    | with_reducible exact retP_pure rfl
    | with_reducible refine retP_lookup K env hE ?_
    | with_reducible refine retS_step K (retS_AiePcsrWrite K env hwf hE _ _) ?_
    | with_reducible refine retS_step K (retS_IsoControl K env hE _ _) ?_
    | with_reducible refine retS_step K (retS_BisrRepair K env hE _) ?_
    | with_reducible refine retS_step K (retS_DmaXfr K env hE _ _ _ _) ?_
    | with_reducible refine retS_step K (retS_pollAie K env hE.scanDone) ?_
    | with_reducible refine retS_step_symm K (retS_pollAie K env hE.memDone) ?_
    | with_reducible refine retP_check env hE.power (fun _ => ?_)
    | with_reducible refine retP_check env hE.scanPass (fun _ => ?_)
    | with_reducible refine retP_check env hE.memPass (fun _ => ?_)
    | with_reducible refine retS_step K (retS_invokePreBisrHook K env hwf hE _ _ _) ?_
    | with_reducible refine retS_step K (retS_invokePostScanClearHook K env hwf hE _ _ _) ?_
    | with_reducible exact retS_bisrRepairs K env hE _ _
    | with_reducible refine retS_step K (retS_ArrayReset K env hwf hE) ?_
    | with_reducible refine retP_seq (fun _ => ?_)
    | with_reducible apply retP_ite
    | intro _
    | dsimp only
    | split

theorem retS_AieScanClear (hwf : K.XPM_REG_WRITE_FAILED ≠ K.XST_FAILURE) (hE : AlwaysSucceeds K env DevBase A)
    (PwrDomain : XPm_AieDomain) (Args : Nat → Nat) (NumOfArgs : Nat) :
    ReturnsP (AieScanClear K env PwrDomain Args NumOfArgs) (fun s => s = K.XST_SUCCESS) := by
  unfold AieScanClear
  repeat' first
    | with_reducible exact retS_gotoDone K _
    | with_reducible exact retP_pure rfl
    | with_reducible refine retP_lookup K env hE ?_
    | with_reducible refine retS_step K (retS_AiePcsrWrite K env hwf hE _ _) ?_
    | with_reducible refine retS_step K (retS_IsoControl K env hE _ _) ?_
    | with_reducible refine retS_step K (retS_BisrRepair K env hE _) ?_
    | with_reducible refine retS_step K (retS_DmaXfr K env hE _ _ _ _) ?_
    | with_reducible refine retS_step K (retS_pollAie K env hE.scanDone) ?_
    | with_reducible refine retS_step_symm K (retS_pollAie K env hE.memDone) ?_
    | with_reducible refine retP_check env hE.power (fun _ => ?_)
    | with_reducible refine retP_check env hE.scanPass (fun _ => ?_)
    | with_reducible refine retP_check env hE.memPass (fun _ => ?_)
    | with_reducible refine retS_step K (retS_invokePreBisrHook K env hwf hE _ _ _) ?_
    | with_reducible refine retS_step K (retS_invokePostScanClearHook K env hwf hE _ _ _) ?_
    | with_reducible exact retS_bisrRepairs K env hE _ _
    | with_reducible refine retS_step K (retS_ArrayReset K env hwf hE) ?_
    | with_reducible refine retP_seq (fun _ => ?_)
    | with_reducible apply retP_ite
    | intro _
    | dsimp only
    | split

theorem retS_Aie2MbistClear (hwf : K.XPM_REG_WRITE_FAILED ≠ K.XST_FAILURE) (hE : AlwaysSucceeds K env DevBase A)
    (PwrDomain : XPm_AieDomain) (Args : Nat → Nat) (NumOfArgs : Nat) :
    ReturnsP (Aie2MbistClear K env PwrDomain Args NumOfArgs) (fun s => s = K.XST_SUCCESS) := by
  unfold Aie2MbistClear
  repeat' first
    | with_reducible exact retS_gotoDone K _
    | with_reducible exact retP_pure rfl
    | with_reducible refine retP_lookup K env hE ?_
    | with_reducible refine retS_step K (retS_AiePcsrWrite K env hwf hE _ _) ?_
    | with_reducible refine retS_step K (retS_IsoControl K env hE _ _) ?_
    | with_reducible refine retS_step K (retS_BisrRepair K env hE _) ?_
    | with_reducible refine retS_step K (retS_DmaXfr K env hE _ _ _ _) ?_
    | with_reducible refine retS_step K (retS_pollAie K env hE.scanDone) ?_
    | with_reducible refine retS_step_symm K (retS_pollAie K env hE.memDone) ?_
    | with_reducible refine retP_check env hE.power (fun _ => ?_)
    | with_reducible refine retP_check env hE.scanPass (fun _ => ?_)
    | with_reducible refine retP_check env hE.memPass (fun _ => ?_)
    | with_reducible refine retS_step K (retS_invokePreBisrHook K env hwf hE _ _ _) ?_
    | with_reducible refine retS_step K (retS_invokePostScanClearHook K env hwf hE _ _ _) ?_
    | with_reducible exact retS_bisrRepairs K env hE _ _
    | with_reducible refine retS_step K (retS_ArrayReset K env hwf hE) ?_
    | with_reducible refine retP_seq (fun _ => ?_)
    | with_reducible apply retP_ite
    | intro _
    | dsimp only
    | split

theorem retS_TriggerMemClear (hwf : K.XPM_REG_WRITE_FAILED ≠ K.XST_FAILURE) (hE : AlwaysSucceeds K env DevBase A)
    (e : XPm_IntErr) :
    ReturnsP (TriggerMemClear K env e) (fun r => r.1 = K.XST_SUCCESS) := by
  unfold TriggerMemClear
  repeat' first
    | with_reducible exact retS_gotoDone K _
    | with_reducible exact retP_pure rfl
    | with_reducible refine retP_lookup K env hE ?_
    | with_reducible refine retS_step K (retS_AiePcsrWrite K env hwf hE _ _) ?_
    | with_reducible refine retS_step K (retS_IsoControl K env hE _ _) ?_
    | with_reducible refine retS_step K (retS_BisrRepair K env hE _) ?_
    | with_reducible refine retS_step K (retS_DmaXfr K env hE _ _ _ _) ?_
    | with_reducible refine retS_step K (retS_pollAie K env hE.scanDone) ?_
    | with_reducible refine retS_step_symm K (retS_pollAie K env hE.memDone) ?_
    | with_reducible refine retP_check env hE.power (fun _ => ?_)
    | with_reducible refine retP_check env hE.scanPass (fun _ => ?_)
    | with_reducible refine retP_check env hE.memPass (fun _ => ?_)
    | with_reducible refine retP_seq (fun _ => ?_)
    | with_reducible apply retP_ite
    | intro _
    | dsimp only

theorem retS_IsMemClearDone (hwf : K.XPM_REG_WRITE_FAILED ≠ K.XST_FAILURE) (hE : AlwaysSucceeds K env DevBase A)
    (e : XPm_IntErr) :
    ReturnsP (IsMemClearDone K env (u32 DevBase) e) (fun r => r.1 = K.XST_SUCCESS) := by
  unfold IsMemClearDone
  repeat' first
    | with_reducible exact retS_gotoDone K _
    | with_reducible exact retP_pure rfl
    | with_reducible refine retP_lookup K env hE ?_
    | with_reducible refine retS_step K (retS_AiePcsrWrite K env hwf hE _ _) ?_
    | with_reducible refine retS_step K (retS_IsoControl K env hE _ _) ?_
    | with_reducible refine retS_step K (retS_BisrRepair K env hE _) ?_
    | with_reducible refine retS_step K (retS_DmaXfr K env hE _ _ _ _) ?_
    | with_reducible refine retS_step K (retS_pollAie K env hE.scanDone) ?_
    | with_reducible refine retS_step_symm K (retS_pollAie K env hE.memDone) ?_
    | with_reducible refine retP_check env hE.power (fun _ => ?_)
    | with_reducible refine retP_check env hE.scanPass (fun _ => ?_)
    | with_reducible refine retP_check env hE.memPass (fun _ => ?_)
    | with_reducible refine retP_seq (fun _ => ?_)
    | with_reducible apply retP_ite
    | intro _
    | dsimp only

theorem retS_CleanupMemClear (hwf : K.XPM_REG_WRITE_FAILED ≠ K.XST_FAILURE) (hE : AlwaysSucceeds K env DevBase A)
    (e : XPm_IntErr) :
    ReturnsP (CleanupMemClear K env e) (fun r => r.1 = K.XST_SUCCESS) := by
  unfold CleanupMemClear
  repeat' first
    | with_reducible exact retS_gotoDone K _
    | with_reducible exact retP_pure rfl
    | with_reducible refine retP_lookup K env hE ?_
    | with_reducible refine retS_step K (retS_AiePcsrWrite K env hwf hE _ _) ?_
    | with_reducible refine retS_step K (retS_IsoControl K env hE _ _) ?_
    | with_reducible refine retS_step K (retS_BisrRepair K env hE _) ?_
    | with_reducible refine retS_step K (retS_DmaXfr K env hE _ _ _ _) ?_
    | with_reducible refine retS_step K (retS_pollAie K env hE.scanDone) ?_
    | with_reducible refine retS_step_symm K (retS_pollAie K env hE.memDone) ?_
    | with_reducible refine retP_check env hE.power (fun _ => ?_)
    | with_reducible refine retP_check env hE.scanPass (fun _ => ?_)
    | with_reducible refine retP_check env hE.memPass (fun _ => ?_)
    | with_reducible refine retP_seq (fun _ => ?_)
    | with_reducible apply retP_ite
    | intro _
    | dsimp only

theorem retS_AieMbistClear (hwf : K.XPM_REG_WRITE_FAILED ≠ K.XST_FAILURE) (hE : AlwaysSucceeds K env DevBase A)
    (PwrDomain : XPm_AieDomain) (Args : Nat → Nat) (NumOfArgs : Nat) :
    ReturnsP (AieMbistClear K env PwrDomain Args NumOfArgs) (fun s => s = K.XST_SUCCESS) := by
  unfold AieMbistClear
  refine retP_lookup K env hE ?_
  dsimp only
  refine retP_ite (fun _ => ?_) (fun _ => retS_gotoDone K _)
  refine retP_bind _ (retS_TriggerMemClear K env hwf hE _) (fun r hr => ?_)
  rw [if_neg (fun hh => hh hr.symm)]
  refine retP_bind _ (retS_IsMemClearDone K env hwf hE _) (fun r hr => ?_)
  rw [if_neg (fun hh => hh hr.symm)]
  refine retP_bind _ (retS_CleanupMemClear K env hwf hE _) (fun r hr => ?_)
  rw [if_neg (fun hh => hh hr.symm), hr]
  exact retS_gotoDone K _

theorem retS_AieMemInit (hwf : K.XPM_REG_WRITE_FAILED ≠ K.XST_FAILURE) (hE : AlwaysSucceeds K env DevBase A)
    (PwrDomain : XPm_AieDomain) (Args : Nat → Nat) (NumOfArgs : Nat) :
    ReturnsP (AieMemInit K env PwrDomain Args NumOfArgs) (fun s => s = K.XST_SUCCESS) := by
  unfold AieMemInit
  refine retP_lookup K env hE ?_
  dsimp only
  refine retP_seq fun _ => retP_seq fun _ => retP_seq fun _ => retP_seq fun _ =>
    retP_seq fun _ => ?_
  exact retS_step K (retS_ArrayReset K env hwf hE) (retS_gotoDone K _)

theorem retS_finishDone (b : Nat) (d : XPm_IntErr) :
    ReturnsP (finishDone b K.XST_SUCCESS d) (fun s => s = K.XST_SUCCESS) := by
  unfold finishDone
  dsimp only
  exact retP_ite (fun _ => retP_seq fun _ => retS_gotoDone K _)
    (fun _ => retP_seq fun _ => retS_gotoDone K _)

theorem retS_AieInitFinish (hwf : K.XPM_REG_WRITE_FAILED ≠ K.XST_FAILURE) (hE : AlwaysSucceeds K env DevBase A)
    (PwrDomain : XPm_AieDomain) (Args : Nat → Nat) (NumOfArgs : Nat) :
    ReturnsP (AieInitFinish K env PwrDomain Args NumOfArgs) (fun s => s = K.XST_SUCCESS) := by
  unfold AieInitFinish
  refine retP_lookup K env hE ?_
  dsimp only
  refine retS_step K (retS_AiePcsrWrite K env hwf hE _ _) ?_
  exact retP_seq fun _ => retS_finishDone K _ _

theorem retS_Aie2InitFinish (hwf : K.XPM_REG_WRITE_FAILED ≠ K.XST_FAILURE) (hE : AlwaysSucceeds K env DevBase A)
    (PwrDomain : XPm_AieDomain) (Args : Nat → Nat) (NumOfArgs : Nat) :
    ReturnsP (Aie2InitFinish K env PwrDomain Args NumOfArgs) (fun s => s = K.XST_SUCCESS) := by
  unfold Aie2InitFinish
  refine retP_lookup K env hE ?_
  dsimp only
  refine retP_seq fun _ => ?_
  exact retS_step K (retS_AiePcsrWrite K env hwf hE _ _) (retS_finishDone K _ _)

theorem retS_initStart_exit (d : XPm_AieDomain) (v : Nat) (e : XPm_IntErr) :
    ReturnsP (withDomain (setHcDisableMask d v) (gotoDone K.XST_SUCCESS e))
      (fun r => r.1 = K.XST_SUCCESS ∧ r.2.Array = d.Array) :=
  ⟨fun _ => ⟨rfl, rfl⟩⟩

theorem retS_AieInitStart (hwf : K.XPM_REG_WRITE_FAILED ≠ K.XST_FAILURE) (hE : AlwaysSucceeds K env DevBase A)
    (PwrDomain : XPm_AieDomain) (Args : Nat → Nat) (NumOfArgs : Nat) :
    ReturnsP (AieInitStart K env PwrDomain Args NumOfArgs)
      (fun r => r.1 = K.XST_SUCCESS ∧
        r.2.Array = (setNocAddress PwrDomain Args NumOfArgs).Array) := by
  unfold AieInitStart
  repeat' first
    | with_reducible exact retS_gotoDone K _
    | with_reducible exact retP_pure rfl
    | with_reducible refine retP_lookup K env hE ?_
    | with_reducible refine retS_step K (retS_AiePcsrWrite K env hwf hE _ _) ?_
    | with_reducible refine retS_step K (retS_IsoControl K env hE _ _) ?_
    | with_reducible refine retS_step K (retS_BisrRepair K env hE _) ?_
    | with_reducible refine retS_step K (retS_DmaXfr K env hE _ _ _ _) ?_
    | with_reducible refine retS_step K (retS_pollAie K env hE.scanDone) ?_
    | with_reducible refine retS_step_symm K (retS_pollAie K env hE.memDone) ?_
    | with_reducible refine retP_check env hE.power (fun _ => ?_)
    | with_reducible refine retP_check env hE.scanPass (fun _ => ?_)
    | with_reducible refine retP_check env hE.memPass (fun _ => ?_)
    | with_reducible exact retS_initStart_exit K _ _ _
    | with_reducible refine retP_seq (fun _ => ?_)
    | with_reducible apply retP_ite
    | intro _
    | dsimp only

theorem retS_Aie2InitStart (hwf : K.XPM_REG_WRITE_FAILED ≠ K.XST_FAILURE) (hE : AlwaysSucceeds K env DevBase A)
    (PwrDomain : XPm_AieDomain) (Args : Nat → Nat) (NumOfArgs : Nat) :
    ReturnsP (Aie2InitStart K env PwrDomain Args NumOfArgs)
      (fun r => r.1 = K.XST_SUCCESS ∧
        r.2.Array = (setNocAddress PwrDomain Args NumOfArgs).Array) := by
  unfold Aie2InitStart
  repeat' first
    | with_reducible exact retS_gotoDone K _
    | with_reducible exact retP_pure rfl
    | with_reducible refine retP_lookup K env hE ?_
    | with_reducible refine retS_step K (retS_AiePcsrWrite K env hwf hE _ _) ?_
    | with_reducible refine retS_step K (retS_IsoControl K env hE _ _) ?_
    | with_reducible refine retS_step K (retS_BisrRepair K env hE _) ?_
    | with_reducible refine retS_step K (retS_DmaXfr K env hE _ _ _ _) ?_
    | with_reducible refine retS_step K (retS_pollAie K env hE.scanDone) ?_
    | with_reducible refine retS_step_symm K (retS_pollAie K env hE.memDone) ?_
    | with_reducible refine retP_check env hE.power (fun _ => ?_)
    | with_reducible refine retP_check env hE.scanPass (fun _ => ?_)
    | with_reducible refine retP_check env hE.memPass (fun _ => ?_)
    | with_reducible exact retS_initStart_exit K _ _ _
    | with_reducible refine retP_seq (fun _ => ?_)
    | with_reducible apply retP_ite
    | intro _
    | dsimp only

theorem retS_zeroRead (hE : AlwaysSucceeds K env DevBase A) (a : Nat)
    (ha : u64 a ∈ zeroizationPollAddrs K A) :
    ReturnsP (AieRead64 env a) (fun v => v = 0) :=
  ⟨fun h => hE.zero h _ ha⟩

theorem retS_Aie2MemInit_poll (hE : AlwaysSucceeds K env DevBase A) (hT : 1 ≤ K.XPLMI_TIME_OUT_DEFAULT)
    (b fuel : Nat) (mt cz mz : XStatus) :
    ReturnsP (Aie2MemInit_poll K env A b
        (u32 (u16 A.StartCol + u16 A.NumCols + 2 ^ 32 - 1))
        (u32 (u16 A.StartRow + u16 A.NumRows + 2 ^ 32 - 1))
        (u32 (u16 A.StartRow + u16 A.NumMemRows + 2 ^ 32 - 1)) (fuel + 2) mt cz mz 0)
      (fun r => r = some K.XST_SUCCESS) := by
  unfold Aie2MemInit_poll
  refine retP_ite (fun _ => ?_) (fun _ => ⟨fun _ => rfl⟩)
  refine retP_bind _ (retS_zeroRead K env hE _ (by simp [zeroizationPollAddrs])) fun v1 h1 => ?_
  refine retP_bind _ (retS_zeroRead K env hE _ (by simp [zeroizationPollAddrs])) fun v2 h2 => ?_
  refine retP_bind _ (retS_zeroRead K env hE _ (by simp [zeroizationPollAddrs])) fun v3 h3 => ?_
  subst h1 h2 h3
  have hu : u32 (0 + 1) = 1 := rfl
  simp only [if_true, hu]
  rw [if_neg (by omega)]
  unfold Aie2MemInit_poll
  rw [if_neg (by simp)]
  exact ⟨fun _ => rfl⟩

theorem retS_Aie2MemInit (hE : AlwaysSucceeds K env DevBase A) (hT : 1 ≤ K.XPLMI_TIME_OUT_DEFAULT)
    (fuel : Nat) (PwrDomain : XPm_AieDomain) (hA : PwrDomain.Array = A) (Args : Nat → Nat)
    (NumOfArgs : Nat) :
    ReturnsP (Aie2MemInit K env (fuel + 2) PwrDomain Args NumOfArgs)
      (fun r => r = some K.XST_SUCCESS) := by
  unfold Aie2MemInit
  dsimp only
  refine retP_lookup K env hE ?_
  dsimp only
  refine retP_seq fun _ => retP_seq fun _ => retP_seq fun _ => ?_
  rw [hA]
  exact retS_Aie2MemInit_poll K env hE hT _ _ _ _ _

end Ideal

end Success

section Houseclean

variable (K : Consts) (env : Env)

theorem run_domStep (f : XPm_AieDomain → (Nat → Nat) → Nat → M (XStatus × XPm_AieDomain))
    (d : XPm_AieDomain) (a : Nat → Nat) (n : Nat) (h : List Event) :
    domStep f d a n h = (some (f d a n h).1, (f d a n h).2) := by
  simp [domStep, run_bind, run_pure]

theorem run_constStep (f : XPm_AieDomain → (Nat → Nat) → Nat → M XStatus)
    (d : XPm_AieDomain) (a : Nat → Nat) (n : Nat) (h : List Event) :
    constStep f d a n h = (some ((f d a n h).1, d), (f d a n h).2) := by
  simp [constStep, run_bind, run_pure]

theorem run_fuelStep (f : XPm_AieDomain → (Nat → Nat) → Nat → M (Option XStatus))
    (d : XPm_AieDomain) (a : Nat → Nat) (n : Nat) (h : List Event) :
    fuelStep f d a n h = ((f d a n h).1.map fun s => (s, d), (f d a n h).2) := by
  simp [fuelStep, run_bind, run_pure]

theorem pcsrLocked_append (x : Bool) (a b : List Event) :
    pcsrLocked x (a ++ b) = pcsrLocked (pcsrLocked x a) b := by
  induction a generalizing x with
  | nil => rfl
  | cons e a ih => cases e <;> simp [pcsrLocked, ih]

theorem pcsrLocked_false_of_noLock {evs : List Event} (hn : NoLock evs) :
    pcsrLocked false evs = false := by
  induction evs with
  | nil => rfl
  | cons e evs ih =>
    have hevs : NoLock evs := fun e' he' => hn e' (List.mem_cons_of_mem _ he')
    have he := hn e (List.mem_cons_self _ _)
    cases e <;> simp_all [pcsrLocked, Event.isLock]

theorem pcsrLocked_of_unlock {b : Nat} {evs : List Event} (x : Bool)
    (hu : Event.UnlockPcsr b ∈ evs) (hn : NoLock evs) : pcsrLocked x evs = false := by
  obtain ⟨pre, post, rfl⟩ := List.append_of_mem hu
  rw [pcsrLocked_append]
  exact pcsrLocked_false_of_noLock fun e he =>
    hn e (List.mem_append_right _ (List.mem_cons_of_mem _ he))

theorem pcsrLocked_of_lockedOnce {b : Nat} {evs : List Event} (x : Bool) (pre : List Event)
    (hl : LockedOnceAtEnd b evs) : pcsrLocked x (pre ++ evs) = true := by
  obtain ⟨p, s, d, rfl, _⟩ := hl
  rw [pcsrLocked_append, pcsrLocked_append]
  rfl

theorem initStart_unlocks {b : Nat} {cont : M (XStatus × XPm_AieDomain)} {a msk : Nat}
    (x : Nat → M (XStatus × XPm_AieDomain))
    (hv : ∀ h, u32 (env.In32 h (u32 a)) &&& msk = msk) (h : List Event) :
    Event.UnlockPcsr b ∈ ((XPm_In32 env a >>= fun v =>
      if (v &&& msk) ≠ msk then x v
      else (XPmAieDomain_UnlockPcsr b >>= fun _ => cont)) h).2 := by
  rw [run_bind]
  have hp : ¬ ((XPm_In32 env a h).1 &&& msk) ≠ msk := fun hh => hh (hv h)
  rw [if_neg hp, run_bind]
  simp [XPmAieDomain_UnlockPcsr, run_emit]

theorem unlocks_AieInitStart {DevBase : Nat} {A : XPm_AieArray}
    (hE : AlwaysSucceeds K env DevBase A) (PwrDomain : XPm_AieDomain) (Args : Nat → Nat)
    (NumOfArgs : Nat) (h : List Event) :
    Event.UnlockPcsr (u32 DevBase) ∈ (AieInitStart K env PwrDomain Args NumOfArgs h).2 := by
  unfold AieInitStart
  rw [run_lookup_bind, hE.lookup]
  dsimp only
  exact initStart_unlocks env _ hE.power h

theorem unlocks_Aie2InitStart {DevBase : Nat} {A : XPm_AieArray}
    (hE : AlwaysSucceeds K env DevBase A) (PwrDomain : XPm_AieDomain) (Args : Nat → Nat)
    (NumOfArgs : Nat) (h : List Event) :
    Event.UnlockPcsr (u32 DevBase) ∈ (Aie2InitStart K env PwrDomain Args NumOfArgs h).2 := by
  unfold Aie2InitStart
  rw [run_lookup_bind, hE.lookup]
  dsimp only
  exact initStart_unlocks env _ hE.power h

theorem outcome_of_steps {b : Nat} (r1 r2 r3 r4 r5 r6 : Option XStatus × List Event)
    (s1 : r1.1 = some K.XST_SUCCESS) (s2 : r2.1 = some K.XST_SUCCESS)
    (s3 : r3.1 = some K.XST_SUCCESS) (s4 : r4.1 = some K.XST_SUCCESS)
    (s5 : r5.1 = some K.XST_SUCCESS) (s6 : r6.1 = some K.XST_SUCCESS)
    (hu : Event.UnlockPcsr b ∈ r1.2) (n1 : NoLock r1.2) (n2 : NoLock r2.2)
    (n3 : NoLock r3.2) (n4 : NoLock r4.2) (n5 : NoLock r5.2)
    (l6 : LockedOnceAtEnd b r6.2) :
    HousecleanOutcome K b [r1, r2, r3, r4, r5, r6] := by
  have n15 : NoLock (r1.2 ++ (r2.2 ++ (r3.2 ++ (r4.2 ++ (r5.2 ++ []))))) := by
    simp only [noLock_append, List.append_nil]
    exact ⟨n1, n2, n3, n4, n5⟩
  refine ⟨rfl, ?_, ?_, n15, ?_, ?_, ?_⟩
  · intro r hr
    simp only [List.mem_cons, List.mem_singleton, List.not_mem_nil, or_false] at hr
    rcases hr with rfl | rfl | rfl | rfl | rfl | rfl <;> assumption
  · simp only [List.take, allEvents, List.append_nil]
    exact pcsrLocked_of_unlock true hu n1
  · exact pcsrLocked_of_unlock true (List.mem_append_left _ hu) n15
  · intro r hr
    simp only [List.drop, List.mem_singleton] at hr
    exact hr ▸ l6
  · have : allEvents [r1, r2, r3, r4, r5, r6] =
        (r1.2 ++ (r2.2 ++ (r3.2 ++ (r4.2 ++ r5.2)))) ++ r6.2 := by
      simp [allEvents]
    rw [this]
    exact pcsrLocked_of_lockedOnce true _ l6

theorem houseclean_aie1 {DevBase : Nat} (hwf : K.XPM_REG_WRITE_FAILED ≠ K.XST_FAILURE)
    (hne : K.XST_FAILURE ≠ K.XST_SUCCESS) (PwrDomain : XPm_AieDomain) (Args : Nat → Nat)
    (NumOfArgs : Nat)
    (hE : AlwaysSucceeds K env DevBase (setNocAddress PwrDomain Args NumOfArgs).Array)
    (hb : u32 DevBase ≠ 0) (fuel : Nat) (h : List Event) :
    HousecleanOutcome K (u32 DevBase)
      (runHouseclean (AieOps K env fuel 0) PwrDomain Args NumOfArgs h) := by
  unfold runHouseclean
  simp only [AieOps, run_domStep, run_constStep, Option.map_some']
  apply outcome_of_steps
  · exact congrArg some ((retS_AieInitStart K env hwf hE _ Args NumOfArgs).ret _).1
  · exact congrArg some ((retS_AieBisr K env hwf hE _ Args NumOfArgs).ret _)
  · exact congrArg some ((retS_AieScanClear K env hwf hE _ Args NumOfArgs).ret _)
  · exact congrArg some ((retS_AieMbistClear K env hwf hE _ Args NumOfArgs).ret _)
  · exact congrArg some ((retS_AieMemInit K env hwf hE _ Args NumOfArgs).ret _)
  · exact congrArg some ((retS_AieInitFinish K env hwf hE _ Args NumOfArgs).ret _)
  · exact unlocks_AieInitStart K env hE _ Args NumOfArgs _
  · exact (lockDiscipline_AieInitStart K env hne _ Args NumOfArgs _ DevBase (hE.lookup _)).2
      ((retS_AieInitStart K env hwf hE _ Args NumOfArgs).ret _).1
  · exact (lockDiscipline_AieBisr K env hne _ Args NumOfArgs _ DevBase (hE.lookup _)).2
      ((retS_AieBisr K env hwf hE _ Args NumOfArgs).ret _)
  · exact (lockDiscipline_AieScanClear K env hne _ Args NumOfArgs _ DevBase (hE.lookup _)).2
      ((retS_AieScanClear K env hwf hE _ Args NumOfArgs).ret _)
  · exact (lockDiscipline_AieMbistClear K env hne _ Args NumOfArgs _ DevBase (hE.lookup _)).2
      ((retS_AieMbistClear K env hwf hE _ Args NumOfArgs).ret _)
  · exact (lockDiscipline_AieMemInit K env hne _ Args NumOfArgs _ DevBase (hE.lookup _)).2
      ((retS_AieMemInit K env hwf hE _ Args NumOfArgs).ret _)
  · exact lockedOnce_AieInitFinish K env _ Args NumOfArgs _ DevBase (hE.lookup _) hb

theorem houseclean_aie2 {DevBase : Nat} (hwf : K.XPM_REG_WRITE_FAILED ≠ K.XST_FAILURE)
    (hne : K.XST_FAILURE ≠ K.XST_SUCCESS) (hT : 1 ≤ K.XPLMI_TIME_OUT_DEFAULT)
    (PwrDomain : XPm_AieDomain) (Args : Nat → Nat) (NumOfArgs : Nat)
    (hE : AlwaysSucceeds K env DevBase (setNocAddress PwrDomain Args NumOfArgs).Array)
    (hb : u32 DevBase ≠ 0) (fuel : Nat) (h : List Event) :
    HousecleanOutcome K (u32 DevBase)
      (runHouseclean (AieOps K env (fuel + 2) 1) PwrDomain Args NumOfArgs h) := by
  have hA := ((retS_Aie2InitStart K env hwf hE PwrDomain Args NumOfArgs).ret h).2
  have s5 := fun h' => (retS_Aie2MemInit K env hE hT fuel _ hA Args NumOfArgs).ret h'
  unfold runHouseclean
  simp only [AieOps, run_domStep, run_constStep, run_fuelStep, Option.map_some']
  apply outcome_of_steps
  · exact congrArg some ((retS_Aie2InitStart K env hwf hE _ Args NumOfArgs).ret _).1
  · exact congrArg some ((retS_Aie2Bisr K env hwf hE _ Args NumOfArgs).ret _)
  · exact congrArg some ((retS_AieScanClear K env hwf hE _ Args NumOfArgs).ret _)
  · exact congrArg some ((retS_Aie2MbistClear K env hwf hE _ Args NumOfArgs).ret _)
  · simp only [s5, Option.map_some']
  · exact congrArg some ((retS_Aie2InitFinish K env hwf hE _ Args NumOfArgs).ret _)
  · exact unlocks_Aie2InitStart K env hE _ Args NumOfArgs _
  · exact (lockDiscipline_Aie2InitStart K env hne _ Args NumOfArgs _ DevBase (hE.lookup _)).2
      ((retS_Aie2InitStart K env hwf hE _ Args NumOfArgs).ret _).1
  · exact (lockDiscipline_Aie2Bisr K env hne _ Args NumOfArgs _ DevBase (hE.lookup _)).2
      ((retS_Aie2Bisr K env hwf hE _ Args NumOfArgs).ret _)
  · exact (lockDiscipline_AieScanClear K env hne _ Args NumOfArgs _ DevBase (hE.lookup _)).2
      ((retS_AieScanClear K env hwf hE _ Args NumOfArgs).ret _)
  · exact (lockDiscipline_Aie2MbistClear K env hne _ Args NumOfArgs _ DevBase (hE.lookup _)).2
      ((retS_Aie2MbistClear K env hwf hE _ Args NumOfArgs).ret _)
  · exact (lockDiscipline_Aie2MemInit K env hne _ _ Args NumOfArgs _ DevBase (hE.lookup _) _ (s5 _)).2 rfl
  · exact lockedOnce_Aie2InitFinish K env _ Args NumOfArgs _ DevBase (hE.lookup _) hb

theorem sampleEnv_alwaysSucceeds (D : Nat) (hD : D = 0 ∨ D = 0xF70A0000) (A : XPm_AieArray) :
    AlwaysSucceeds sampleConsts (sampleEnv sampleConsts true D 0xFFFFFFFF 0 0) D A where
  lookup := fun _ => by simp [sampleEnv]
  power := fun h => by
    have hs := sampleEnv_status sampleConsts true D 0xFFFFFFFF 0 0 h
    unfold pcsrStatusAddr at hs
    rw [hs]
    decide
  scanDone := fun h => by
    have hs := sampleEnv_status sampleConsts true D 0xFFFFFFFF 0 0 h
    unfold pcsrStatusAddr at hs
    rw [hs]
    decide
  scanPass := fun h => by
    have hs := sampleEnv_status sampleConsts true D 0xFFFFFFFF 0 0 h
    unfold pcsrStatusAddr at hs
    rw [hs]
    decide
  memDone := fun h => by
    have hs := sampleEnv_status sampleConsts true D 0xFFFFFFFF 0 0 h
    unfold pcsrStatusAddr at hs
    rw [hs]
    decide
  memPass := fun h => by
    have hs := sampleEnv_status sampleConsts true D 0xFFFFFFFF 0 0 h
    unfold pcsrStatusAddr at hs
    rw [hs]
    decide
  readbackMask := fun h v => by
    rcases hD with rfl | rfl <;> simp [sampleEnv, sampleConsts, u32]
  readbackControl := fun h v => by
    rcases hD with rfl | rfl <;> simp [sampleEnv, sampleConsts, u32]
  poll64 := fun _ _ _ _ _ => rfl
  dma := fun _ _ _ _ _ => rfl
  iso := fun _ _ _ => rfl
  bisr := fun _ _ => rfl
  zero := fun _ _ _ => rfl

/-- C7, the claim fails: in the sample environment that always reports success and finds
the AIE device at base address 0, every step of either table returns `XST_SUCCESS`, yet
the protected register space, locked before the run, is unlocked when Init-Finish has
returned. -/
theorem houseclean_lock_counterexample :
    AlwaysSucceeds sampleConsts (sampleEnv sampleConsts true 0 0xFFFFFFFF 0 0) 0
      (sampleDomain 0 aie1Hooks).Array ∧
    (∀ r ∈ runHouseclean (AieOps sampleConsts (sampleEnv sampleConsts true 0 0xFFFFFFFF 0 0) 2 0)
        (sampleDomain 0 aie1Hooks) (fun _ => 0) 0 [], r.1 = some sampleConsts.XST_SUCCESS) ∧
    pcsrLocked true (allEvents
      (runHouseclean (AieOps sampleConsts (sampleEnv sampleConsts true 0 0xFFFFFFFF 0 0) 2 0)
        (sampleDomain 0 aie1Hooks) (fun _ => 0) 0 [])) = false ∧
    (∀ r ∈ runHouseclean (AieOps sampleConsts (sampleEnv sampleConsts true 0 0xFFFFFFFF 0 0) 2 1)
        (sampleDomain 0 aie2Hooks) (fun _ => 0) 0 [], r.1 = some sampleConsts.XST_SUCCESS) ∧
    pcsrLocked true (allEvents
      (runHouseclean (AieOps sampleConsts (sampleEnv sampleConsts true 0 0xFFFFFFFF 0 0) 2 1)
        (sampleDomain 0 aie2Hooks) (fun _ => 0) 0 [])) = false :=
  ⟨sampleEnv_alwaysSucceeds 0 (Or.inl rfl) _, by decide, by decide, by decide, by decide⟩

/-- C7 as amended: for each generation's table, in an environment that always reports
success and finds the AIE device at a base address other than 0 (the status codes
`XST_SUCCESS`, `XST_FAILURE` and `XPM_REG_WRITE_FAILED` being distinct and the zeroization
budget at least 1), running InitStart, Bisr, ScanClear, Mbist, MemInit, InitFinish in
that order from a locked space returns `XST_SUCCESS` from every step, the space is
unlocked by InitStart, no step before InitFinish calls the PCSR lock, and InitFinish
locks the space as its last action, so that it is locked at the end. -/
theorem houseclean_sequence_succeeds (hwf : K.XPM_REG_WRITE_FAILED ≠ K.XST_FAILURE)
    (hne : K.XST_FAILURE ≠ K.XST_SUCCESS) (hT : 1 ≤ K.XPLMI_TIME_OUT_DEFAULT)
    (PwrDomain : XPm_AieDomain) (Args : Nat → Nat) (NumOfArgs : Nat) (DevBase : Nat)
    (hE : AlwaysSucceeds K env DevBase (setNocAddress PwrDomain Args NumOfArgs).Array)
    (hb : u32 DevBase ≠ 0) (fuel : Nat) (h : List Event) (i : Fin 2) :
    HousecleanOutcome K (u32 DevBase)
      (runHouseclean (AieOps K env (fuel + 2) i) PwrDomain Args NumOfArgs h) :=
  match i with
  | 0 => houseclean_aie1 K env hwf hne PwrDomain Args NumOfArgs hE hb (fuel + 2) h
  | 1 => houseclean_aie2 K env hwf hne hT PwrDomain Args NumOfArgs hE hb fuel h

/-- C7 as amended, an instance: the Generation 2 table on the sample device at
`0xF70A0000`. -/
theorem houseclean_sequence_succeeds_witness :
    (sampleConsts.XPM_REG_WRITE_FAILED ≠ sampleConsts.XST_FAILURE ∧
      sampleConsts.XST_FAILURE ≠ sampleConsts.XST_SUCCESS ∧
      1 ≤ sampleConsts.XPLMI_TIME_OUT_DEFAULT ∧
      AlwaysSucceeds sampleConsts (sampleEnv sampleConsts true 0xF70A0000 0xFFFFFFFF 0 0)
        0xF70A0000 (setNocAddress (sampleDomain 0 aie2Hooks) (fun _ => 0) 0).Array ∧
      u32 0xF70A0000 ≠ 0) ∧
    HousecleanOutcome sampleConsts (u32 0xF70A0000)
      (runHouseclean
        (AieOps sampleConsts (sampleEnv sampleConsts true 0xF70A0000 0xFFFFFFFF 0 0) (0 + 2) 1)
        (sampleDomain 0 aie2Hooks) (fun _ => 0) 0 []) :=
  ⟨⟨by decide, by decide, by decide, sampleEnv_alwaysSucceeds _ (Or.inr rfl) _, by decide⟩,
   houseclean_sequence_succeeds sampleConsts
     (sampleEnv sampleConsts true 0xF70A0000 0xFFFFFFFF 0 0) (by decide) (by decide)
     (by decide) (sampleDomain 0 aie2Hooks) (fun _ => 0) 0 0xF70A0000
     (sampleEnv_alwaysSucceeds _ (Or.inr rfl) _) (by decide) 0 [] 1⟩

end Houseclean

/-! ## Memory initialisation, Generation 1 -/

section MemInitGen1

variable (K : Consts) (env : Env)

/-- C11, the claim fails: with a DMA engine that always fails, `AieCoreMemInit` fails in
`ProgramCore` and reports `XPM_INT_ERR_PRGRM_CORE`, yet `AieMemInit` goes on to the second
array reset (the PCSR control register is written after the report) and returns
`XST_SUCCESS` (sample constants). -/
theorem mem_init_ignores_failure_counterexample :
    (AieMemInit sampleConsts (sampleEnvDmaFails sampleConsts 0xF70A0000)
      (sampleDomain 0 aie1Hooks) (fun _ => 0) 0 []).1 = sampleConsts.XST_SUCCESS ∧
    Event.PrintDbgErr sampleConsts.XST_FAILURE XPm_IntErr.XPM_INT_ERR_PRGRM_CORE ∈
      (AieMemInit sampleConsts (sampleEnvDmaFails sampleConsts 0xF70A0000)
        (sampleDomain 0 aie1Hooks) (fun _ => 0) 0 []).2 ∧
    Event.Out32 0xF70A0004 sampleConsts.ME_NPI_REG_PCSR_MASK_ME_ARRAY_RESET_MASK ∈
      afterFirst (Event.PrintDbgErr sampleConsts.XST_FAILURE XPm_IntErr.XPM_INT_ERR_PRGRM_CORE)
        (AieMemInit sampleConsts (sampleEnvDmaFails sampleConsts 0xF70A0000)
          (sampleDomain 0 aie1Hooks) (fun _ => 0) 0 []).2 := by
  decide

/-- C11 as amended: when the device lookup succeeds, `AieMemInit` always runs the ECC
scrub, the first array reset, the core memory initialisation and the second array reset,
whatever the first two return; its status is the status of the second array reset alone,
and it calls the PCSR lock exactly when that status is not `XST_SUCCESS`. -/
theorem mem_init_returns_last_reset (PwrDomain : XPm_AieDomain) (Args : Nat → Nat)
    (NumOfArgs : Nat) (h : List Event) (DevBase : Nat)
    (hl : env.XPmDevice_GetById h K.PM_DEV_AIE = some DevBase) :
    AieMemInit K env PwrDomain Args NumOfArgs h =
      ((ArrayReset K env (h ++ eccScrubEvents K PwrDomain h ++
          (ArrayReset K env (h ++ eccScrubEvents K PwrDomain h)).2 ++
          (AieCoreMemInit K env PwrDomain (h ++ eccScrubEvents K PwrDomain h ++
            (ArrayReset K env (h ++ eccScrubEvents K PwrDomain h)).2)).2)).1,
       eccScrubEvents K PwrDomain h ++
        (ArrayReset K env (h ++ eccScrubEvents K PwrDomain h)).2 ++
        (AieCoreMemInit K env PwrDomain (h ++ eccScrubEvents K PwrDomain h ++
          (ArrayReset K env (h ++ eccScrubEvents K PwrDomain h)).2)).2 ++
        (ArrayReset K env (h ++ eccScrubEvents K PwrDomain h ++
          (ArrayReset K env (h ++ eccScrubEvents K PwrDomain h)).2 ++
          (AieCoreMemInit K env PwrDomain (h ++ eccScrubEvents K PwrDomain h ++
            (ArrayReset K env (h ++ eccScrubEvents K PwrDomain h)).2)).2)).2 ++
        (if K.XST_SUCCESS ≠ (ArrayReset K env (h ++ eccScrubEvents K PwrDomain h ++
            (ArrayReset K env (h ++ eccScrubEvents K PwrDomain h)).2 ++
            (AieCoreMemInit K env PwrDomain (h ++ eccScrubEvents K PwrDomain h ++
              (ArrayReset K env (h ++ eccScrubEvents K PwrDomain h)).2)).2)).1
         then [Event.LockPcsr (u32 DevBase)] else []) ++
        [Event.PrintDbgErr (ArrayReset K env (h ++ eccScrubEvents K PwrDomain h ++
            (ArrayReset K env (h ++ eccScrubEvents K PwrDomain h)).2 ++
            (AieCoreMemInit K env PwrDomain (h ++ eccScrubEvents K PwrDomain h ++
              (ArrayReset K env (h ++ eccScrubEvents K PwrDomain h)).2)).2)).1
          XPm_IntErr.XPM_INT_ERR_UNDEFINED]) := by
  unfold AieMemInit
  rw [run_lookup_bind, hl]
  simp only [run_bind, run_ite, eccScrubEvents, List.append_assoc]
  split <;>
    simp [run_bind, run_gotoDone, XPmAieDomain_LockPcsr, run_emit, List.append_assoc]

/-- C11 as amended, an instance: the sample environment with the failing DMA engine. -/
theorem mem_init_returns_last_reset_witness :
    (sampleEnvDmaFails sampleConsts 0xF70A0000).XPmDevice_GetById []
        sampleConsts.PM_DEV_AIE = some 0xF70A0000 ∧
    (AieMemInit sampleConsts (sampleEnvDmaFails sampleConsts 0xF70A0000)
      (sampleDomain 0 aie1Hooks) (fun _ => 0) 0 []).1 = sampleConsts.XST_SUCCESS :=
  ⟨by decide,
   (congrArg Prod.fst (mem_init_returns_last_reset sampleConsts
      (sampleEnvDmaFails sampleConsts 0xF70A0000) (sampleDomain 0 aie1Hooks) (fun _ => 0) 0 []
      0xF70A0000 (by decide))).trans (by decide)⟩

end MemInitGen1

/-! ## The PCSR write -/

section PcsrWrite

variable (K : Consts) (env : Env)

theorem run_AiePcsrWrite_none (Mask Value : Nat) (h : List Event)
    (hl : env.XPmDevice_GetById h K.PM_DEV_AIE = none) :
    AiePcsrWrite K env Mask Value h =
      (K.XST_FAILURE,
       [Event.PrintDbgErr K.XST_FAILURE XPm_IntErr.XPM_INT_ERR_INVALID_DEVICE]) := by
  unfold AiePcsrWrite
  rw [run_lookup_bind, hl]
  rfl

theorem run_AiePcsrWrite_mask (hwf : K.XPM_REG_WRITE_FAILED ≠ K.XST_FAILURE)
    (Mask Value : Nat) (h : List Event) (DevBase : Nat)
    (hl : env.XPmDevice_GetById h K.PM_DEV_AIE = some DevBase)
    (hm : maskReadback K env DevBase Mask h ≠ u32 Mask) :
    AiePcsrWrite K env Mask Value h =
      (K.XPM_REG_WRITE_FAILED,
       [Event.Out32 (pcsrMaskAddr K DevBase) (u32 Mask),
        Event.In32 (pcsrMaskAddr K DevBase) (maskReadback K env DevBase Mask h),
        Event.PrintDbgErr K.XPM_REG_WRITE_FAILED
          XPm_IntErr.XPM_INT_ERR_REG_WRT_NPI_PCSR_MASK]) := by
  unfold AiePcsrWrite
  rw [run_lookup_bind, hl]
  have hm' : ¬ u32 Mask = maskReadback K env DevBase Mask h := fun hh => hm hh.symm
  simp only [maskReadback, pcsrMaskAddr] at hm hm' ⊢
  simp [run_bind, run_pure, PmOut32, run_emit, PmChkRegOut32, run_In32, run_ite, hm',
    run_gotoDone]

theorem run_AiePcsrWrite_control (hwf : K.XPM_REG_WRITE_FAILED ≠ K.XST_FAILURE)
    (Mask Value : Nat) (h : List Event) (DevBase : Nat)
    (hl : env.XPmDevice_GetById h K.PM_DEV_AIE = some DevBase)
    (hm : maskReadback K env DevBase Mask h = u32 Mask)
    (hc : controlReadback K env DevBase Mask Value h &&& u32 Mask ≠ u32 Value &&& u32 Mask) :
    AiePcsrWrite K env Mask Value h =
      (K.XPM_REG_WRITE_FAILED,
       [Event.Out32 (pcsrMaskAddr K DevBase) (u32 Mask),
        Event.In32 (pcsrMaskAddr K DevBase) (maskReadback K env DevBase Mask h),
        Event.Out32 (pcsrControlAddr K DevBase) (u32 Value),
        Event.In32 (pcsrControlAddr K DevBase) (controlReadback K env DevBase Mask Value h),
        Event.PrintDbgErr K.XPM_REG_WRITE_FAILED
          XPm_IntErr.XPM_INT_ERR_REG_WRT_NPI_PCSR_CONTROL]) := by
  unfold AiePcsrWrite
  rw [run_lookup_bind, hl]
  simp only [controlReadback, maskReadback, pcsrMaskAddr, pcsrControlAddr] at hm hc ⊢
  rw [hm] at hc
  simp [run_bind, run_pure, PmOut32, run_emit, PmChkRegOut32, PmChkRegMask32, run_In32,
    run_ite, hm, hc, hwf, run_gotoDone]

theorem run_AiePcsrWrite_ok (hwf : K.XPM_REG_WRITE_FAILED ≠ K.XST_FAILURE)
    (Mask Value : Nat) (h : List Event) (DevBase : Nat)
    (hl : env.XPmDevice_GetById h K.PM_DEV_AIE = some DevBase)
    (hm : maskReadback K env DevBase Mask h = u32 Mask)
    (hc : controlReadback K env DevBase Mask Value h &&& u32 Mask = u32 Value &&& u32 Mask) :
    AiePcsrWrite K env Mask Value h =
      (K.XST_SUCCESS,
       [Event.Out32 (pcsrMaskAddr K DevBase) (u32 Mask),
        Event.In32 (pcsrMaskAddr K DevBase) (maskReadback K env DevBase Mask h),
        Event.Out32 (pcsrControlAddr K DevBase) (u32 Value),
        Event.In32 (pcsrControlAddr K DevBase) (controlReadback K env DevBase Mask Value h),
        Event.PrintDbgErr K.XST_SUCCESS XPm_IntErr.XPM_INT_ERR_UNDEFINED]) := by
  unfold AiePcsrWrite
  rw [run_lookup_bind, hl]
  simp only [controlReadback, maskReadback, pcsrMaskAddr, pcsrControlAddr] at hm hc ⊢
  rw [hm] at hc
  simp [run_bind, run_pure, PmOut32, run_emit, PmChkRegOut32, PmChkRegMask32, run_In32,
    run_ite, hm, hc, hwf, run_gotoDone]

/-- C12: the contract of `AiePcsrWrite(Mask, Value)`, the status codes `XST_SUCCESS`,
`XST_FAILURE` and `XPM_REG_WRITE_FAILED` being distinct.  It returns `XST_SUCCESS` if and
only if the device lookup succeeds, the read-back of the PCSR mask register equals `Mask`
and the read-back of the PCSR control register agrees with `Value` on the bits of `Mask`.
If the lookup fails nothing is written.  If the mask read-back mismatches the status is
`XPM_REG_WRITE_FAILED` and the only register write is that of the mask register.  On
success the register writes are exactly two: `Mask` to the mask register, then `Value` to
the control register. -/
theorem pcsr_write_contract (hwf : K.XPM_REG_WRITE_FAILED ≠ K.XST_FAILURE)
    (hws : K.XPM_REG_WRITE_FAILED ≠ K.XST_SUCCESS) (hne : K.XST_FAILURE ≠ K.XST_SUCCESS)
    (Mask Value : Nat) (h : List Event) :
    ((AiePcsrWrite K env Mask Value h).1 = K.XST_SUCCESS ↔
      ∃ DevBase, env.XPmDevice_GetById h K.PM_DEV_AIE = some DevBase ∧
        maskReadback K env DevBase Mask h = u32 Mask ∧
        controlReadback K env DevBase Mask Value h &&& u32 Mask = u32 Value &&& u32 Mask) ∧
    (env.XPmDevice_GetById h K.PM_DEV_AIE = none →
      NoRegWrite (AiePcsrWrite K env Mask Value h).2) ∧
    (∀ DevBase, env.XPmDevice_GetById h K.PM_DEV_AIE = some DevBase →
      maskReadback K env DevBase Mask h ≠ u32 Mask →
      (AiePcsrWrite K env Mask Value h).1 = K.XPM_REG_WRITE_FAILED ∧
      regWrites (AiePcsrWrite K env Mask Value h).2 = [(pcsrMaskAddr K DevBase, u32 Mask)]) ∧
    (∀ DevBase, env.XPmDevice_GetById h K.PM_DEV_AIE = some DevBase →
      (AiePcsrWrite K env Mask Value h).1 = K.XST_SUCCESS →
      (AiePcsrWrite K env Mask Value h).2.filter Event.isRegWrite =
        [Event.Out32 (pcsrMaskAddr K DevBase) (u32 Mask),
         Event.Out32 (pcsrControlAddr K DevBase) (u32 Value)]) := by
  have key : ∀ DevBase, env.XPmDevice_GetById h K.PM_DEV_AIE = some DevBase →
      (AiePcsrWrite K env Mask Value h).1 = K.XST_SUCCESS →
      maskReadback K env DevBase Mask h = u32 Mask ∧
      controlReadback K env DevBase Mask Value h &&& u32 Mask = u32 Value &&& u32 Mask := by
    intro DevBase hl hs
    by_cases hm : maskReadback K env DevBase Mask h = u32 Mask
    · by_cases hc : controlReadback K env DevBase Mask Value h &&& u32 Mask =
          u32 Value &&& u32 Mask
      · exact ⟨hm, hc⟩
      · rw [run_AiePcsrWrite_control K env hwf Mask Value h DevBase hl hm hc] at hs
        exact absurd hs hws
    · rw [run_AiePcsrWrite_mask K env hwf Mask Value h DevBase hl hm] at hs
      exact absurd hs hws
  refine ⟨⟨fun hs => ?_, fun ⟨DevBase, hl, hm, hc⟩ => ?_⟩, fun hl => ?_,
    fun DevBase hl hm => ?_, fun DevBase hl hs => ?_⟩
  · cases hl : env.XPmDevice_GetById h K.PM_DEV_AIE with
    | none =>
      rw [run_AiePcsrWrite_none K env Mask Value h hl] at hs
      exact absurd hs hne
    | some DevBase => exact ⟨DevBase, rfl, key DevBase hl hs⟩
  · rw [run_AiePcsrWrite_ok K env hwf Mask Value h DevBase hl hm hc]
  · rw [run_AiePcsrWrite_none K env Mask Value h hl]
    intro e he
    simp only [List.mem_singleton] at he
    subst he
    rfl
  · rw [run_AiePcsrWrite_mask K env hwf Mask Value h DevBase hl hm]
    exact ⟨rfl, rfl⟩
  · obtain ⟨hm, hc⟩ := key DevBase hl hs
    rw [run_AiePcsrWrite_ok K env hwf Mask Value h DevBase hl hm hc]
    rfl

/-- C12, an instance: the sample environment, in which a register reads back as written;
the write of the array-reset bit succeeds. -/
theorem pcsr_write_contract_witness :
    (sampleConsts.XPM_REG_WRITE_FAILED ≠ sampleConsts.XST_FAILURE ∧
      sampleConsts.XPM_REG_WRITE_FAILED ≠ sampleConsts.XST_SUCCESS ∧
      sampleConsts.XST_FAILURE ≠ sampleConsts.XST_SUCCESS) ∧
    ((AiePcsrWrite sampleConsts (sampleEnv sampleConsts true 0xF70A0000 0xFFFFFFFF 0 0)
        0x4000000 0x4000000 []).1 = sampleConsts.XST_SUCCESS ↔
      ∃ DevBase, (sampleEnv sampleConsts true 0xF70A0000 0xFFFFFFFF 0 0).XPmDevice_GetById []
          sampleConsts.PM_DEV_AIE = some DevBase ∧
        maskReadback sampleConsts (sampleEnv sampleConsts true 0xF70A0000 0xFFFFFFFF 0 0)
          DevBase 0x4000000 [] = u32 0x4000000 ∧
        controlReadback sampleConsts (sampleEnv sampleConsts true 0xF70A0000 0xFFFFFFFF 0 0)
          DevBase 0x4000000 0x4000000 [] &&& u32 0x4000000 = u32 0x4000000 &&& u32 0x4000000) :=
  ⟨⟨by decide, by decide, by decide⟩,
   (pcsr_write_contract sampleConsts (sampleEnv sampleConsts true 0xF70A0000 0xFFFFFFFF 0 0)
     (by decide) (by decide) (by decide) 0x4000000 0x4000000 []).1⟩

end PcsrWrite

/-! ## Init-Start -/

section InitStart

variable (K : Consts) (env : Env)

theorem setNocAddress_hooks (d : XPm_AieDomain) (Args : Nat → Nat) (n : Nat) :
    (setNocAddress d Args n).Hooks = d.Hooks := by
  unfold setNocAddress
  split <;> rfl

theorem setNocAddress_mask (d : XPm_AieDomain) (Args : Nat → Nat) (n : Nat) :
    (setNocAddress d Args n).Domain.HcDisableMask = d.Domain.HcDisableMask := by
  unfold setNocAddress
  split <;> rfl

theorem setNocAddress_array (d : XPm_AieDomain) (Args : Nat → Nat) (n : Nat) :
    (setNocAddress d Args n).Array =
      { d.Array with NocAddress := (setNocAddress d Args n).Array.NocAddress } := by
  unfold setNocAddress
  split <;> rfl

theorem nocAddress_words (a b : Nat) :
    (u64 (u64 (u32 a) <<< 32) ||| u32 b) >>> 32 = u32 a ∧
    (u64 (u64 (u32 a) <<< 32) ||| u32 b) % 2 ^ 32 = u32 b := by
  have ha : u32 a < 2 ^ 32 := Nat.mod_lt _ (by norm_num)
  have hb : u32 b < 2 ^ 32 := Nat.mod_lt _ (by norm_num)
  have h1 : u64 (u32 a) = u32 a := Nat.mod_eq_of_lt (by omega)
  have h2 : u64 (u32 a <<< 32) = u32 a <<< 32 := by
    apply Nat.mod_eq_of_lt
    rw [Nat.shiftLeft_eq]
    omega
  rw [h1, h2, Nat.shiftLeft_eq, Nat.mul_comm, ← Nat.mul_add_lt_is_or hb,
    Nat.shiftRight_eq_div_pow]
  constructor <;> omega

theorem retP_withDomain {d : XPm_AieDomain} {m : M XStatus} {A : XPm_AieArray}
    {H : XPm_AieDomainOpHooks} (hp : d.Array = A ∧ d.Hooks = H) :
    ReturnsP (withDomain d m) (fun r => r.2.Array = A ∧ r.2.Hooks = H) :=
  ⟨fun _ => hp⟩

theorem initStart_array_hooks (PwrDomain : XPm_AieDomain) (Args : Nat → Nat)
    (NumOfArgs : Nat) (h : List Event) (DevBase : Nat)
    (hl : env.XPmDevice_GetById h K.PM_DEV_AIE = some DevBase) :
    ((AieInitStart K env PwrDomain Args NumOfArgs h).1.2.Array =
        (setNocAddress PwrDomain Args NumOfArgs).Array ∧
      (AieInitStart K env PwrDomain Args NumOfArgs h).1.2.Hooks = PwrDomain.Hooks) ∧
    ((Aie2InitStart K env PwrDomain Args NumOfArgs h).1.2.Array =
        (setNocAddress PwrDomain Args NumOfArgs).Array ∧
      (Aie2InitStart K env PwrDomain Args NumOfArgs h).1.2.Hooks = PwrDomain.Hooks) := by
  have hd : (setNocAddress PwrDomain Args NumOfArgs).Array =
        (setNocAddress PwrDomain Args NumOfArgs).Array ∧
      (setNocAddress PwrDomain Args NumOfArgs).Hooks = PwrDomain.Hooks :=
    ⟨rfl, setNocAddress_hooks _ _ _⟩
  have hd' : ∀ v, (setHcDisableMask (setNocAddress PwrDomain Args NumOfArgs) v).Array =
        (setNocAddress PwrDomain Args NumOfArgs).Array ∧
      (setHcDisableMask (setNocAddress PwrDomain Args NumOfArgs) v).Hooks = PwrDomain.Hooks :=
    fun _ => ⟨rfl, setNocAddress_hooks _ _ _⟩
  constructor
  · unfold AieInitStart
    rw [run_lookup_bind, hl]
    dsimp only
    refine ReturnsP.ret (P := fun (r : XStatus × XPm_AieDomain) =>
      r.2.Array = (setNocAddress PwrDomain Args NumOfArgs).Array ∧
      r.2.Hooks = PwrDomain.Hooks) ?_ h
    repeat' first
      | with_reducible exact retP_withDomain hd
      | with_reducible exact retP_withDomain (hd' _)
      | with_reducible apply retP_seq
      | with_reducible apply retP_ite
      | intro _
  · unfold Aie2InitStart
    rw [run_lookup_bind, hl]
    dsimp only
    refine ReturnsP.ret (P := fun (r : XStatus × XPm_AieDomain) =>
      r.2.Array = (setNocAddress PwrDomain Args NumOfArgs).Array ∧
      r.2.Hooks = PwrDomain.Hooks) ?_ h
    repeat' first
      | with_reducible exact retP_withDomain hd
      | with_reducible exact retP_withDomain (hd' _)
      | with_reducible apply retP_seq
      | with_reducible apply retP_ite
      | intro _

/-- C13: the NoC address override of `AieInitStart` and `Aie2InitStart`, given a
successful device lookup.  With `NumOfArgs >= 2` the new `NocAddress` has `Args[1]` as its
high and `Args[0]` as its low 32-bit word; with `NumOfArgs < 2` it is unchanged; in both
cases every other geometry field and the hooks are as before the step, whatever status
the step returns. -/
theorem init_start_noc_override (PwrDomain : XPm_AieDomain) (Args : Nat → Nat)
    (NumOfArgs : Nat) (h : List Event) (DevBase : Nat)
    (hl : env.XPmDevice_GetById h K.PM_DEV_AIE = some DevBase) :
    ∀ d ∈ [(AieInitStart K env PwrDomain Args NumOfArgs h).1.2,
        (Aie2InitStart K env PwrDomain Args NumOfArgs h).1.2],
      (2 ≤ NumOfArgs → d.Array.NocAddress >>> 32 = u32 (Args 1) ∧
        d.Array.NocAddress % 2 ^ 32 = u32 (Args 0)) ∧
      (NumOfArgs < 2 → d.Array.NocAddress = PwrDomain.Array.NocAddress) ∧
      d.Array = { PwrDomain.Array with NocAddress := d.Array.NocAddress } ∧
      d.Hooks = PwrDomain.Hooks := by
  have key : ∀ d : XPm_AieDomain,
      d.Array = (setNocAddress PwrDomain Args NumOfArgs).Array ∧ d.Hooks = PwrDomain.Hooks →
      (2 ≤ NumOfArgs → d.Array.NocAddress >>> 32 = u32 (Args 1) ∧
        d.Array.NocAddress % 2 ^ 32 = u32 (Args 0)) ∧
      (NumOfArgs < 2 → d.Array.NocAddress = PwrDomain.Array.NocAddress) ∧
      d.Array = { PwrDomain.Array with NocAddress := d.Array.NocAddress } ∧
      d.Hooks = PwrDomain.Hooks := by
    intro d hd
    refine ⟨fun hn => ?_, fun hn => ?_, ?_, hd.2⟩
    · rw [hd.1]
      unfold setNocAddress
      rw [if_pos hn]
      exact nocAddress_words _ _
    · rw [hd.1]
      unfold setNocAddress
      rw [if_neg (by omega)]
    · rw [hd.1]
      exact setNocAddress_array _ _ _
  intro d hmem
  simp only [List.mem_cons, List.mem_singleton, List.not_mem_nil, or_false] at hmem
  rcases hmem with rfl | rfl
  · exact key _ (initStart_array_hooks K env PwrDomain Args NumOfArgs h DevBase hl).1
  · exact key _ (initStart_array_hooks K env PwrDomain Args NumOfArgs h DevBase hl).2

/-- C13, an instance: the sample domain started with the two address words `0x0` and
`0x200`; the new NoC address is `0x20000000000`. -/
theorem init_start_noc_override_witness :
    (sampleEnv sampleConsts true 0xF70A0000 0xFFFFFFFF 0 0).XPmDevice_GetById []
        sampleConsts.PM_DEV_AIE = some 0xF70A0000 ∧
    (2 ≤ 2 → (AieInitStart sampleConsts (sampleEnv sampleConsts true 0xF70A0000 0xFFFFFFFF 0 0)
        (sampleDomain 0 aie1Hooks) (fun i => if i = 1 then 0x200 else 0) 2
        []).1.2.Array.NocAddress >>> 32 = u32 0x200 ∧
      (AieInitStart sampleConsts (sampleEnv sampleConsts true 0xF70A0000 0xFFFFFFFF 0 0)
        (sampleDomain 0 aie1Hooks) (fun i => if i = 1 then 0x200 else 0) 2
        []).1.2.Array.NocAddress % 2 ^ 32 = u32 0) :=
  ⟨by decide,
   (init_start_noc_override sampleConsts (sampleEnv sampleConsts true 0xF70A0000 0xFFFFFFFF 0 0)
     (sampleDomain 0 aie1Hooks) (fun i => if i = 1 then 0x200 else 0) 2 [] 0xF70A0000
     (by decide) _ (List.mem_cons_self _ _)).1⟩

theorem mm_bind {α : Type} {m0 : Nat} {m : M α} {f : α → M (XStatus × XPm_AieDomain)}
    (hf : ∀ a, MergesMask K env m0 (f a)) : MergesMask K env m0 (m >>= f) := by
  refine ⟨fun h => ?_⟩
  rw [run_bind]
  obtain ⟨hs, hn⟩ := (hf (m h).1).merge (h ++ (m h).2)
  refine ⟨fun hsucc => ?_, hn⟩
  obtain ⟨pre, v, he, hv, hm⟩ := hs hsucc
  refine ⟨(m h).2 ++ pre, v, ?_, ?_, hm⟩
  · simp only [he, List.append_assoc]
  · rw [hv, List.append_assoc]

theorem mm_ite {m0 : Nat} {c : Prop} [Decidable c] {x y : M (XStatus × XPm_AieDomain)}
    (hx : c → MergesMask K env m0 x) (hy : ¬ c → MergesMask K env m0 y) :
    MergesMask K env m0 (if c then x else y) := by
  split
  · exact hx ‹_›
  · exact hy ‹_›

theorem mm_exit_done {m0 : Nat} {d : XPm_AieDomain} {s : XStatus} (e : XPm_IntErr)
    (hs : s ≠ K.XST_SUCCESS) (hd : d.Domain.HcDisableMask = m0) :
    MergesMask K env m0 (withDomain d (gotoDone s e)) :=
  ⟨fun _ => ⟨fun hsucc => absurd hsucc hs, fun _ => hd⟩⟩

theorem mm_exit_fail {m0 : Nat} {d : XPm_AieDomain} {s : XStatus} (b : Nat) (e : XPm_IntErr)
    (hs : K.XST_SUCCESS ≠ s) (hd : d.Domain.HcDisableMask = m0) :
    MergesMask K env m0 (withDomain d (gotoFail b s e)) :=
  ⟨fun _ => ⟨fun hsucc => absurd hsucc.symm hs, fun _ => hd⟩⟩

theorem mm_tail {m0 : Nat} {d : XPm_AieDomain} {s : XStatus} (hs : ¬ K.XST_SUCCESS ≠ s)
    (hd : d.Domain.HcDisableMask = m0) :
    MergesMask K env m0 (XPm_In32 env K.PM_HOUSECLEAN_DISABLE_REG_2 >>= fun HcReg =>
      withDomain (setHcDisableMask d (HcReg >>> K.HOUSECLEAN_AIE_SHIFT))
        (gotoDone s XPm_IntErr.XPM_INT_ERR_UNDEFINED)) := by
  have hs' : s = K.XST_SUCCESS := (not_not.1 hs).symm
  subst hs'
  refine ⟨fun h => ⟨fun _ => ⟨[], u32 (env.In32 h (u32 K.PM_HOUSECLEAN_DISABLE_REG_2)),
    ?_, ?_, ?_⟩, fun hn => absurd rfl hn⟩⟩
  · rw [run_bind, run_In32]
    rfl
  · rw [List.append_nil]
  · rw [run_bind, run_In32, ← hd]
    rfl

theorem mergesMask_AieInitStart (hne : K.XST_FAILURE ≠ K.XST_SUCCESS)
    (PwrDomain : XPm_AieDomain) (Args : Nat → Nat) (NumOfArgs : Nat) :
    MergesMask K env PwrDomain.Domain.HcDisableMask
      (AieInitStart K env PwrDomain Args NumOfArgs) := by
  unfold AieInitStart
  refine mm_bind K env fun AieDev => ?_
  cases AieDev with
  | none => exact mm_exit_done K env _ hne rfl
  | some DevBase =>
    dsimp only
    repeat' first
      | with_reducible exact mm_tail K env (by assumption) (setNocAddress_mask _ _ _)
      | with_reducible exact mm_exit_fail K env _ _ (by assumption) (setNocAddress_mask _ _ _)
      | with_reducible exact mm_exit_done K env _ hne (setNocAddress_mask _ _ _)
      | with_reducible apply mm_bind
      | with_reducible apply mm_ite
      | intro _

theorem mergesMask_Aie2InitStart (hne : K.XST_FAILURE ≠ K.XST_SUCCESS)
    (PwrDomain : XPm_AieDomain) (Args : Nat → Nat) (NumOfArgs : Nat) :
    MergesMask K env PwrDomain.Domain.HcDisableMask
      (Aie2InitStart K env PwrDomain Args NumOfArgs) := by
  unfold Aie2InitStart
  refine mm_bind K env fun AieDev => ?_
  cases AieDev with
  | none => exact mm_exit_done K env _ hne rfl
  | some DevBase =>
    dsimp only
    repeat' first
      | with_reducible exact mm_tail K env (by assumption) (setNocAddress_mask _ _ _)
      | with_reducible exact mm_exit_fail K env _ _ (by assumption) (setNocAddress_mask _ _ _)
      | with_reducible exact mm_exit_done K env _ hne (setNocAddress_mask _ _ _)
      | with_reducible apply mm_bind
      | with_reducible apply mm_ite
      | intro _

theorem or_and_self_left (a b : Nat) : (a ||| b) &&& a = a := by
  apply Nat.eq_of_testBit_eq
  intro i
  simp only [Nat.testBit_and, Nat.testBit_or]
  cases a.testBit i <;> cases b.testBit i <;> rfl

theorem or_or_self_right (a b : Nat) : (a ||| b) ||| b = a ||| b := by
  apply Nat.eq_of_testBit_eq
  intro i
  simp only [Nat.testBit_or]
  cases a.testBit i <;> cases b.testBit i <;> rfl

/-- C14: the houseclean-mask merge of `AieInitStart` and `Aie2InitStart`, `XST_FAILURE`
and `XST_SUCCESS` being distinct.  When the step returns `XST_SUCCESS`, its last register
access is the read of `PM_HOUSECLEAN_DISABLE_REG_2` and the new `HcDisableMask` is the old
one OR-ed with the value read shifted right by `HOUSECLEAN_AIE_SHIFT`; so every bit set
before is still set, and merging the same value again changes nothing.  When the step
returns another status, `HcDisableMask` is unchanged.  The step does return `XST_SUCCESS`,
and so merges, in every environment that always reports success. -/
theorem init_start_merges_mask (hne : K.XST_FAILURE ≠ K.XST_SUCCESS)
    (PwrDomain : XPm_AieDomain) (Args : Nat → Nat) (NumOfArgs : Nat) (h : List Event) :
    ∀ r ∈ [AieInitStart K env PwrDomain Args NumOfArgs h,
        Aie2InitStart K env PwrDomain Args NumOfArgs h],
      (r.1.1 = K.XST_SUCCESS → ∃ pre v,
        r.2 = pre ++ [Event.In32 (u32 K.PM_HOUSECLEAN_DISABLE_REG_2) v,
          Event.PrintDbgErr K.XST_SUCCESS XPm_IntErr.XPM_INT_ERR_UNDEFINED] ∧
        v = u32 (env.In32 (h ++ pre) (u32 K.PM_HOUSECLEAN_DISABLE_REG_2)) ∧
        r.1.2.Domain.HcDisableMask =
          PwrDomain.Domain.HcDisableMask ||| (v >>> K.HOUSECLEAN_AIE_SHIFT) ∧
        r.1.2.Domain.HcDisableMask &&& PwrDomain.Domain.HcDisableMask =
          PwrDomain.Domain.HcDisableMask ∧
        r.1.2.Domain.HcDisableMask ||| (v >>> K.HOUSECLEAN_AIE_SHIFT) =
          r.1.2.Domain.HcDisableMask) ∧
      (r.1.1 ≠ K.XST_SUCCESS →
        r.1.2.Domain.HcDisableMask = PwrDomain.Domain.HcDisableMask) ∧
      (∀ (DevBase : Nat) (A : XPm_AieArray), K.XPM_REG_WRITE_FAILED ≠ K.XST_FAILURE →
        AlwaysSucceeds K env DevBase A → r.1.1 = K.XST_SUCCESS) := by
  have key : ∀ m : M (XStatus × XPm_AieDomain),
      MergesMask K env PwrDomain.Domain.HcDisableMask m →
      ((m h).1.1 = K.XST_SUCCESS → ∃ pre v,
        (m h).2 = pre ++ [Event.In32 (u32 K.PM_HOUSECLEAN_DISABLE_REG_2) v,
          Event.PrintDbgErr K.XST_SUCCESS XPm_IntErr.XPM_INT_ERR_UNDEFINED] ∧
        v = u32 (env.In32 (h ++ pre) (u32 K.PM_HOUSECLEAN_DISABLE_REG_2)) ∧
        (m h).1.2.Domain.HcDisableMask =
          PwrDomain.Domain.HcDisableMask ||| (v >>> K.HOUSECLEAN_AIE_SHIFT) ∧
        (m h).1.2.Domain.HcDisableMask &&& PwrDomain.Domain.HcDisableMask =
          PwrDomain.Domain.HcDisableMask ∧
        (m h).1.2.Domain.HcDisableMask ||| (v >>> K.HOUSECLEAN_AIE_SHIFT) =
          (m h).1.2.Domain.HcDisableMask) ∧
      ((m h).1.1 ≠ K.XST_SUCCESS →
        (m h).1.2.Domain.HcDisableMask = PwrDomain.Domain.HcDisableMask) := by
    intro m hm
    refine ⟨fun hs => ?_, (hm.merge h).2⟩
    obtain ⟨pre, v, he, hv, hmask⟩ := (hm.merge h).1 hs
    refine ⟨pre, v, he, hv, hmask, ?_, ?_⟩
    · rw [hmask]
      exact or_and_self_left _ _
    · rw [hmask]
      exact or_or_self_right _ _
  intro r hmem
  simp only [List.mem_cons, List.mem_singleton, List.not_mem_nil, or_false] at hmem
  rcases hmem with rfl | rfl
  · exact ⟨(key _ (mergesMask_AieInitStart K env hne PwrDomain Args NumOfArgs)).1,
      (key _ (mergesMask_AieInitStart K env hne PwrDomain Args NumOfArgs)).2,
      fun DevBase A hwf hE =>
        ((retS_AieInitStart K env hwf hE PwrDomain Args NumOfArgs).ret h).1⟩
  · exact ⟨(key _ (mergesMask_Aie2InitStart K env hne PwrDomain Args NumOfArgs)).1,
      (key _ (mergesMask_Aie2InitStart K env hne PwrDomain Args NumOfArgs)).2,
      fun DevBase A hwf hE =>
        ((retS_Aie2InitStart K env hwf hE PwrDomain Args NumOfArgs).ret h).1⟩

/-- C14, an instance: the sample environment in which `PM_HOUSECLEAN_DISABLE_REG_2` reads
`0xA0000`, the shift being 4 and the mask before the step 5.  `AieInitStart` and
`Aie2InitStart` return `XST_SUCCESS` and the new mask is `5 ||| 0xA000 = 0xA005`: the
merge has happened.  When no device is found the step fails and the mask is still 5. -/
theorem init_start_merges_mask_witness :
    (sampleConsts.XST_FAILURE ≠ sampleConsts.XST_SUCCESS ∧
      (AieInitStart sampleConsts (sampleEnvHcReg sampleConsts 0xF70A0000 0xA0000)
        (sampleDomain 5 aie1Hooks) (fun _ => 0) 0 []).1.1 = sampleConsts.XST_SUCCESS ∧
      (Aie2InitStart sampleConsts (sampleEnvHcReg sampleConsts 0xF70A0000 0xA0000)
        (sampleDomain 5 aie1Hooks) (fun _ => 0) 0 []).1.1 = sampleConsts.XST_SUCCESS ∧
      (AieInitStart sampleConsts (sampleEnv sampleConsts false 0 0 0 0)
        (sampleDomain 5 aie1Hooks) (fun _ => 0) 0 []).1.1 ≠ sampleConsts.XST_SUCCESS) ∧
    (∃ pre v,
      (AieInitStart sampleConsts (sampleEnvHcReg sampleConsts 0xF70A0000 0xA0000)
        (sampleDomain 5 aie1Hooks) (fun _ => 0) 0 []).2 =
        pre ++ [Event.In32 (u32 sampleConsts.PM_HOUSECLEAN_DISABLE_REG_2) v,
          Event.PrintDbgErr sampleConsts.XST_SUCCESS XPm_IntErr.XPM_INT_ERR_UNDEFINED] ∧
      v = u32 ((sampleEnvHcReg sampleConsts 0xF70A0000 0xA0000).In32 ([] ++ pre)
        (u32 sampleConsts.PM_HOUSECLEAN_DISABLE_REG_2)) ∧
      (AieInitStart sampleConsts (sampleEnvHcReg sampleConsts 0xF70A0000 0xA0000)
        (sampleDomain 5 aie1Hooks) (fun _ => 0) 0 []).1.2.Domain.HcDisableMask =
        (sampleDomain 5 aie1Hooks).Domain.HcDisableMask |||
          (v >>> sampleConsts.HOUSECLEAN_AIE_SHIFT) ∧
      (AieInitStart sampleConsts (sampleEnvHcReg sampleConsts 0xF70A0000 0xA0000)
        (sampleDomain 5 aie1Hooks) (fun _ => 0) 0 []).1.2.Domain.HcDisableMask &&&
          (sampleDomain 5 aie1Hooks).Domain.HcDisableMask =
        (sampleDomain 5 aie1Hooks).Domain.HcDisableMask ∧
      (AieInitStart sampleConsts (sampleEnvHcReg sampleConsts 0xF70A0000 0xA0000)
        (sampleDomain 5 aie1Hooks) (fun _ => 0) 0 []).1.2.Domain.HcDisableMask |||
          (v >>> sampleConsts.HOUSECLEAN_AIE_SHIFT) =
        (AieInitStart sampleConsts (sampleEnvHcReg sampleConsts 0xF70A0000 0xA0000)
          (sampleDomain 5 aie1Hooks) (fun _ => 0) 0 []).1.2.Domain.HcDisableMask) ∧
    (AieInitStart sampleConsts (sampleEnvHcReg sampleConsts 0xF70A0000 0xA0000)
      (sampleDomain 5 aie1Hooks) (fun _ => 0) 0 []).1.2.Domain.HcDisableMask = 0xA005 ∧
    (Aie2InitStart sampleConsts (sampleEnvHcReg sampleConsts 0xF70A0000 0xA0000)
      (sampleDomain 5 aie1Hooks) (fun _ => 0) 0 []).1.2.Domain.HcDisableMask = 0xA005 ∧
    (AieInitStart sampleConsts (sampleEnv sampleConsts false 0 0 0 0)
      (sampleDomain 5 aie1Hooks) (fun _ => 0) 0 []).1.2.Domain.HcDisableMask =
      (sampleDomain 5 aie1Hooks).Domain.HcDisableMask :=
  ⟨⟨by decide, by decide, by decide, by decide⟩,
   (init_start_merges_mask sampleConsts (sampleEnvHcReg sampleConsts 0xF70A0000 0xA0000)
     (by decide) (sampleDomain 5 aie1Hooks) (fun _ => 0) 0 [] _
     (List.mem_cons_self _ _)).1 (by decide),
   by decide, by decide,
   (init_start_merges_mask sampleConsts (sampleEnv sampleConsts false 0 0 0 0) (by decide)
     (sampleDomain 5 aie1Hooks) (fun _ => 0) 0 [] _ (List.mem_cons_self _ _)).2.1
     (by decide)⟩

/-- C15: the power-supply gate of `AieInitStart` and `Aie2InitStart`.  When the device
lookup succeeds and the power-supply bit is not set in the PCSR status register, the step
returns `XST_FAILURE`; it issues the read of the status register and the report of the
power-supply diagnostic and nothing else: no register write, no unlock and no lock; the
disable mask is unchanged. -/
theorem init_start_power_gate (PwrDomain : XPm_AieDomain) (Args : Nat → Nat)
    (NumOfArgs : Nat) (h : List Event) (DevBase : Nat)
    (hl : env.XPmDevice_GetById h K.PM_DEV_AIE = some DevBase)
    (hp : u32 (env.In32 h (pcsrStatusAddr K DevBase)) &&&
        K.ME_NPI_REG_PCSR_STATUS_ME_PWR_SUPPLY_MASK ≠
      K.ME_NPI_REG_PCSR_STATUS_ME_PWR_SUPPLY_MASK) :
    ∀ r ∈ [AieInitStart K env PwrDomain Args NumOfArgs h,
        Aie2InitStart K env PwrDomain Args NumOfArgs h],
      r.1.1 = K.XST_FAILURE ∧
      r.2 = [Event.In32 (pcsrStatusAddr K DevBase)
          (u32 (env.In32 h (pcsrStatusAddr K DevBase))),
        Event.PrintDbgErr K.XST_FAILURE XPm_IntErr.XPM_INT_ERR_POWER_SUPPLY] ∧
      NoRegWrite r.2 ∧
      r.1.2.Domain.HcDisableMask = PwrDomain.Domain.HcDisableMask := by
  have hw : NoRegWrite [Event.In32 (pcsrStatusAddr K DevBase)
      (u32 (env.In32 h (pcsrStatusAddr K DevBase))),
      Event.PrintDbgErr K.XST_FAILURE XPm_IntErr.XPM_INT_ERR_POWER_SUPPLY] := by
    intro e he
    simp only [List.mem_cons, List.mem_singleton, List.not_mem_nil, or_false] at he
    rcases he with rfl | rfl <;> rfl
  unfold pcsrStatusAddr at hp hw ⊢
  intro r hmem
  simp only [List.mem_cons, List.mem_singleton, List.not_mem_nil, or_false] at hmem
  rcases hmem with rfl | rfl
  · have he : AieInitStart K env PwrDomain Args NumOfArgs h =
        ((K.XST_FAILURE, setNocAddress PwrDomain Args NumOfArgs),
         [Event.In32 (u32 (u32 DevBase + K.NPI_PCSR_STATUS_OFFSET))
            (u32 (env.In32 h (u32 (u32 DevBase + K.NPI_PCSR_STATUS_OFFSET)))),
          Event.PrintDbgErr K.XST_FAILURE XPm_IntErr.XPM_INT_ERR_POWER_SUPPLY]) := by
      unfold AieInitStart
      rw [run_lookup_bind, hl]
      dsimp only
      rw [run_bind, run_In32]
      dsimp only
      rw [if_pos hp]
      rfl
    rw [he]
    exact ⟨rfl, rfl, hw, setNocAddress_mask _ _ _⟩
  · have he : Aie2InitStart K env PwrDomain Args NumOfArgs h =
        ((K.XST_FAILURE, setNocAddress PwrDomain Args NumOfArgs),
         [Event.In32 (u32 (u32 DevBase + K.NPI_PCSR_STATUS_OFFSET))
            (u32 (env.In32 h (u32 (u32 DevBase + K.NPI_PCSR_STATUS_OFFSET)))),
          Event.PrintDbgErr K.XST_FAILURE XPm_IntErr.XPM_INT_ERR_POWER_SUPPLY]) := by
      unfold Aie2InitStart
      rw [run_lookup_bind, hl]
      dsimp only
      rw [run_bind, run_In32]
      dsimp only
      rw [if_pos hp]
      rfl
    rw [he]
    exact ⟨rfl, rfl, hw, setNocAddress_mask _ _ _⟩

/-- C15, an instance: the sample status register reading 0, so that the power-supply bit
is missing. -/
theorem init_start_power_gate_witness :
    ((sampleEnv sampleConsts true 0xF70A0000 0 0 0).XPmDevice_GetById []
        sampleConsts.PM_DEV_AIE = some 0xF70A0000 ∧
      u32 ((sampleEnv sampleConsts true 0xF70A0000 0 0 0).In32 []
          (pcsrStatusAddr sampleConsts 0xF70A0000)) &&&
          sampleConsts.ME_NPI_REG_PCSR_STATUS_ME_PWR_SUPPLY_MASK ≠
        sampleConsts.ME_NPI_REG_PCSR_STATUS_ME_PWR_SUPPLY_MASK) ∧
    (AieInitStart sampleConsts (sampleEnv sampleConsts true 0xF70A0000 0 0 0)
      (sampleDomain 0 aie1Hooks) (fun _ => 0) 0 []).1.1 = sampleConsts.XST_FAILURE :=
  ⟨⟨by decide, by decide⟩,
   (init_start_power_gate sampleConsts (sampleEnv sampleConsts true 0xF70A0000 0 0 0)
     (sampleDomain 0 aie1Hooks) (fun _ => 0) 0 [] 0xF70A0000 (by decide) (by decide) _
     (List.mem_cons_self _ _)).1⟩

end InitStart

/-! ## The zeroization poll of Generation 2 -/

section ZeroizationStep

variable (K : Consts) (env : Env)

theorem poll_exit (A : XPm_AieArray) (b col row mrow fuel : Nat) (t : Nat) (h : List Event) :
    Aie2MemInit_poll K env A b col row mrow (fuel + 1) K.XST_SUCCESS K.XST_SUCCESS
        K.XST_SUCCESS t h =
      (some K.XST_SUCCESS,
       [Event.PrintDbgErr K.XST_SUCCESS XPm_IntErr.XPM_INT_ERR_UNDEFINED]) := by
  unfold Aie2MemInit_poll
  rw [if_neg (by simp)]
  rfl

theorem poll_step (A : XPm_AieArray) (b col row mrow fuel : Nat) (mt cz mz : XStatus)
    (t : Nat) (h : List Event)
    (hc : K.XST_SUCCESS ≠ mt ∨ K.XST_SUCCESS ≠ cz ∨ K.XST_SUCCESS ≠ mz)
    (r : (Nat × Nat × Nat) × List Event)
    (hr : r = pollIter env
      (AIE2_TILE_BADDR A.NocAddress col mrow + K.AIE2_MEM_TILE_MODULE_MEM_CTRL_OFFSET)
      (AIE2_TILE_BADDR A.NocAddress col row + K.AIE2_CORE_MODULE_MEM_CTRL_OFFSET)
      (AIE2_TILE_BADDR A.NocAddress col row + K.AIE2_MEM_MODULE_MEM_CTRL_OFFSET) h) :
    Aie2MemInit_poll K env A b col row mrow (fuel + 1) mt cz mz t h =
      if u32 (t + 1) > K.XPLMI_TIME_OUT_DEFAULT then
        (some K.XST_FAILURE,
         r.2 ++ [Event.LockPcsr b,
           Event.PrintDbgErr K.XST_FAILURE XPm_IntErr.XPM_INT_ERR_AIE_MEMORY_ZEROISATION])
      else
        ((Aie2MemInit_poll K env A b col row mrow fuel
            (if 0 = r.1.1 then K.XST_SUCCESS else mt)
            (if 0 = r.1.2.1 then K.XST_SUCCESS else cz)
            (if 0 = r.1.2.2 then K.XST_SUCCESS else mz) (u32 (t + 1)) (h ++ r.2)).1,
         r.2 ++ (Aie2MemInit_poll K env A b col row mrow fuel
            (if 0 = r.1.1 then K.XST_SUCCESS else mt)
            (if 0 = r.1.2.1 then K.XST_SUCCESS else cz)
            (if 0 = r.1.2.2 then K.XST_SUCCESS else mz) (u32 (t + 1)) (h ++ r.2)).2) := by
  subst hr
  rw [Aie2MemInit_poll, if_pos hc]
  simp only [run_bind, pollIter, run_pure, List.append_nil, List.append_assoc, run_ite]
  split
  · simp [run_bind, XPmAieDomain_LockPcsr, run_emit, run_gotoDone, run_pure]
  · rfl

end ZeroizationStep

section ZeroizationLoop

variable (K : Consts) (env : Env)

theorem zeroStatus_or (s : Bool) (v : Nat) :
    (if 0 = v then K.XST_SUCCESS else zeroStatus K s) = zeroStatus K (s || decide (0 = v)) := by
  unfold zeroStatus
  by_cases hv : 0 = v <;> cases s <;> simp [hv]

theorem pollCond_of_not_all (hne : K.XST_FAILURE ≠ K.XST_SUCCESS) (s : Bool × Bool × Bool)
    (hs : (s.1 && s.2.1 && s.2.2) = false) :
    K.XST_SUCCESS ≠ zeroStatus K s.1 ∨ K.XST_SUCCESS ≠ zeroStatus K s.2.1 ∨
      K.XST_SUCCESS ≠ zeroStatus K s.2.2 := by
  obtain ⟨s1, s2, s3⟩ := s
  unfold zeroStatus
  cases s1 <;> cases s2 <;> cases s3 <;> simp_all [Ne.symm hne]

theorem zeroStatus_of_all (s : Bool × Bool × Bool) (hs : (s.1 && s.2.1 && s.2.2) = true) :
    zeroStatus K s.1 = K.XST_SUCCESS ∧ zeroStatus K s.2.1 = K.XST_SUCCESS ∧
      zeroStatus K s.2.2 = K.XST_SUCCESS := by
  obtain ⟨s1, s2, s3⟩ := s
  unfold zeroStatus
  cases s1 <;> cases s2 <;> cases s3 <;> simp_all

theorem allZeroBy_succ (a1 a2 a3 : Nat) (h : List Event) (k : Nat)
    (hk : allZeroBy env a1 a2 a3 h k = true) : allZeroBy env a1 a2 a3 h (k + 1) = true := by
  unfold allZeroBy at hk ⊢
  simp only [seenZero]
  simp only [Bool.and_eq_true] at hk ⊢
  simp [hk.1.1, hk.1.2, hk.2]

theorem allZeroBy_mono (a1 a2 a3 : Nat) (h : List Event) {j k : Nat} (hjk : j ≤ k)
    (hj : allZeroBy env a1 a2 a3 h j = true) : allZeroBy env a1 a2 a3 h k = true := by
  induction hjk with
  | refl => exact hj
  | step _ ih => exact allZeroBy_succ env a1 a2 a3 h _ ih

theorem poll_success (hne : K.XST_FAILURE ≠ K.XST_SUCCESS)
    (hT : K.XPLMI_TIME_OUT_DEFAULT + 1 < 2 ^ 32) (A : XPm_AieArray) (b col row mrow : Nat)
    (a1 a2 a3 : Nat)
    (h1 : a1 = AIE2_TILE_BADDR A.NocAddress col mrow + K.AIE2_MEM_TILE_MODULE_MEM_CTRL_OFFSET)
    (h2 : a2 = AIE2_TILE_BADDR A.NocAddress col row + K.AIE2_CORE_MODULE_MEM_CTRL_OFFSET)
    (h3 : a3 = AIE2_TILE_BADDR A.NocAddress col row + K.AIE2_MEM_MODULE_MEM_CTRL_OFFSET)
    (h : List Event) (k : Nat) :
    ∀ i fuel, i + k ≤ K.XPLMI_TIME_OUT_DEFAULT → k < fuel →
      (∀ j, j < k → allZeroBy env a1 a2 a3 h (i + j) = false) →
      allZeroBy env a1 a2 a3 h (i + k) = true →
      (Aie2MemInit_poll K env A b col row mrow fuel
          (zeroStatus K (seenZero env a1 a2 a3 h i).1)
          (zeroStatus K (seenZero env a1 a2 a3 h i).2.1)
          (zeroStatus K (seenZero env a1 a2 a3 h i).2.2) i
          (h ++ pollTrace env a1 a2 a3 h i)).1 = some K.XST_SUCCESS ∧
      pollTrace env a1 a2 a3 h i ++
        (Aie2MemInit_poll K env A b col row mrow fuel
          (zeroStatus K (seenZero env a1 a2 a3 h i).1)
          (zeroStatus K (seenZero env a1 a2 a3 h i).2.1)
          (zeroStatus K (seenZero env a1 a2 a3 h i).2.2) i
          (h ++ pollTrace env a1 a2 a3 h i)).2 =
        pollTrace env a1 a2 a3 h (i + k) ++
          [Event.PrintDbgErr K.XST_SUCCESS XPm_IntErr.XPM_INT_ERR_UNDEFINED] := by
  induction k with
  | zero =>
    intro i fuel _ hf _ hall
    obtain ⟨fuel, rfl⟩ : ∃ f, fuel = f + 1 := ⟨fuel - 1, by omega⟩
    rw [Nat.add_zero] at hall
    obtain ⟨e1, e2, e3⟩ := zeroStatus_of_all K _ hall
    rw [e1, e2, e3, poll_exit]
    exact ⟨rfl, rfl⟩
  | succ k ih =>
    intro i fuel hi hf hnot hall
    obtain ⟨fuel, rfl⟩ : ∃ f, fuel = f + 1 := ⟨fuel - 1, by omega⟩
    have h0 := hnot 0 (by omega)
    rw [Nat.add_zero] at h0
    have hc := pollCond_of_not_all K hne _ h0
    have hu : u32 (i + 1) = i + 1 := Nat.mod_eq_of_lt (by omega)
    rw [poll_step K env A b col row mrow fuel _ _ _ i _ hc _ rfl, hu,
      if_neg (by omega), zeroStatus_or, zeroStatus_or, zeroStatus_or, ← h1, ← h2, ← h3]
    have hrec := ih (i + 1) fuel (by omega) (by omega)
      (fun j hj => by
        have := hnot (j + 1) (by omega)
        rwa [show i + (j + 1) = i + 1 + j by omega] at this)
      (by rwa [show i + (k + 1) = i + 1 + k by omega] at hall)
    rw [List.append_assoc]
    refine ⟨hrec.1, (List.append_assoc _ _ _).symm.trans (hrec.2.trans ?_)⟩
    rw [show i + 1 + k = i + (k + 1) by omega]

theorem poll_failure (hne : K.XST_FAILURE ≠ K.XST_SUCCESS)
    (hT : K.XPLMI_TIME_OUT_DEFAULT + 1 < 2 ^ 32) (A : XPm_AieArray) (b col row mrow : Nat)
    (a1 a2 a3 : Nat)
    (h1 : a1 = AIE2_TILE_BADDR A.NocAddress col mrow + K.AIE2_MEM_TILE_MODULE_MEM_CTRL_OFFSET)
    (h2 : a2 = AIE2_TILE_BADDR A.NocAddress col row + K.AIE2_CORE_MODULE_MEM_CTRL_OFFSET)
    (h3 : a3 = AIE2_TILE_BADDR A.NocAddress col row + K.AIE2_MEM_MODULE_MEM_CTRL_OFFSET)
    (h : List Event) (d : Nat) :
    ∀ i fuel, i + d = K.XPLMI_TIME_OUT_DEFAULT → d < fuel →
      (∀ j, j ≤ d → allZeroBy env a1 a2 a3 h (i + j) = false) →
      (Aie2MemInit_poll K env A b col row mrow fuel
          (zeroStatus K (seenZero env a1 a2 a3 h i).1)
          (zeroStatus K (seenZero env a1 a2 a3 h i).2.1)
          (zeroStatus K (seenZero env a1 a2 a3 h i).2.2) i
          (h ++ pollTrace env a1 a2 a3 h i)).1 = some K.XST_FAILURE ∧
      pollTrace env a1 a2 a3 h i ++
        (Aie2MemInit_poll K env A b col row mrow fuel
          (zeroStatus K (seenZero env a1 a2 a3 h i).1)
          (zeroStatus K (seenZero env a1 a2 a3 h i).2.1)
          (zeroStatus K (seenZero env a1 a2 a3 h i).2.2) i
          (h ++ pollTrace env a1 a2 a3 h i)).2 =
        pollTrace env a1 a2 a3 h (K.XPLMI_TIME_OUT_DEFAULT + 1) ++
          [Event.LockPcsr b,
           Event.PrintDbgErr K.XST_FAILURE XPm_IntErr.XPM_INT_ERR_AIE_MEMORY_ZEROISATION] := by
  induction d with
  | zero =>
    intro i fuel hi hf hnot
    obtain ⟨fuel, rfl⟩ : ∃ f, fuel = f + 1 := ⟨fuel - 1, by omega⟩
    have h0 := hnot 0 (by omega)
    rw [Nat.add_zero] at h0
    have hc := pollCond_of_not_all K hne _ h0
    have hu : u32 (i + 1) = i + 1 := Nat.mod_eq_of_lt (by omega)
    have hi' : i = K.XPLMI_TIME_OUT_DEFAULT := by omega
    rw [poll_step K env A b col row mrow fuel _ _ _ i _ hc _ rfl, hu,
      if_pos (by omega), ← h1, ← h2, ← h3]
    subst hi'
    exact ⟨rfl, (List.append_assoc _ _ _).symm⟩
  | succ d ih =>
    intro i fuel hi hf hnot
    obtain ⟨fuel, rfl⟩ : ∃ f, fuel = f + 1 := ⟨fuel - 1, by omega⟩
    have h0 := hnot 0 (by omega)
    rw [Nat.add_zero] at h0
    have hc := pollCond_of_not_all K hne _ h0
    have hu : u32 (i + 1) = i + 1 := Nat.mod_eq_of_lt (by omega)
    rw [poll_step K env A b col row mrow fuel _ _ _ i _ hc _ rfl, hu,
      if_neg (by omega), zeroStatus_or, zeroStatus_or, zeroStatus_or, ← h1, ← h2, ← h3]
    have hrec := ih (i + 1) fuel (by omega) (by omega)
      (fun j hj => by
        have := hnot (j + 1) (by omega)
        rwa [show i + (j + 1) = i + 1 + j by omega] at this)
    rw [List.append_assoc]
    exact ⟨hrec.1, (List.append_assoc _ _ _).symm.trans hrec.2⟩

end ZeroizationLoop

section ZeroizationRun

variable (K : Consts) (env : Env)

theorem run_Aie2MemInit (fuel : Nat) (PwrDomain : XPm_AieDomain) (Args : Nat → Nat)
    (NumOfArgs : Nat) (h : List Event) (DevBase : Nat)
    (hl : env.XPmDevice_GetById h K.PM_DEV_AIE = some DevBase) :
    Aie2MemInit K env fuel PwrDomain Args NumOfArgs h =
      ((Aie2MemInit_poll K env PwrDomain.Array (u32 DevBase)
          (u32 (u16 PwrDomain.Array.StartCol + u16 PwrDomain.Array.NumCols + 2 ^ 32 - 1))
          (u32 (u16 PwrDomain.Array.StartRow + u16 PwrDomain.Array.NumRows + 2 ^ 32 - 1))
          (u32 (u16 PwrDomain.Array.StartRow + u16 PwrDomain.Array.NumMemRows + 2 ^ 32 - 1))
          fuel K.XST_FAILURE K.XST_FAILURE K.XST_FAILURE 0
          (h ++ zeroizeStart K env PwrDomain DevBase h)).1,
       zeroizeStart K env PwrDomain DevBase h ++
        (Aie2MemInit_poll K env PwrDomain.Array (u32 DevBase)
          (u32 (u16 PwrDomain.Array.StartCol + u16 PwrDomain.Array.NumCols + 2 ^ 32 - 1))
          (u32 (u16 PwrDomain.Array.StartRow + u16 PwrDomain.Array.NumRows + 2 ^ 32 - 1))
          (u32 (u16 PwrDomain.Array.StartRow + u16 PwrDomain.Array.NumMemRows + 2 ^ 32 - 1))
          fuel K.XST_FAILURE K.XST_FAILURE K.XST_FAILURE 0
          (h ++ zeroizeStart K env PwrDomain DevBase h)).2) := by
  unfold Aie2MemInit
  rw [run_lookup_bind, hl]
  simp only [run_bind, zeroizeStart, List.append_assoc]

theorem poll_success_start (hne : K.XST_FAILURE ≠ K.XST_SUCCESS)
    (hT : K.XPLMI_TIME_OUT_DEFAULT + 1 < 2 ^ 32) (A : XPm_AieArray) (b col row mrow : Nat)
    (a1 a2 a3 : Nat)
    (h1 : a1 = AIE2_TILE_BADDR A.NocAddress col mrow + K.AIE2_MEM_TILE_MODULE_MEM_CTRL_OFFSET)
    (h2 : a2 = AIE2_TILE_BADDR A.NocAddress col row + K.AIE2_CORE_MODULE_MEM_CTRL_OFFSET)
    (h3 : a3 = AIE2_TILE_BADDR A.NocAddress col row + K.AIE2_MEM_MODULE_MEM_CTRL_OFFSET)
    (h : List Event) (k fuel : Nat) (hk : k ≤ K.XPLMI_TIME_OUT_DEFAULT) (hf : k < fuel)
    (hnot : ∀ j, j < k → allZeroBy env a1 a2 a3 h j = false)
    (hall : allZeroBy env a1 a2 a3 h k = true) :
    Aie2MemInit_poll K env A b col row mrow fuel K.XST_FAILURE K.XST_FAILURE K.XST_FAILURE 0
        h =
      (some K.XST_SUCCESS,
       pollTrace env a1 a2 a3 h k ++
        [Event.PrintDbgErr K.XST_SUCCESS XPm_IntErr.XPM_INT_ERR_UNDEFINED]) := by
  have hp := poll_success K env hne hT A b col row mrow a1 a2 a3 h1 h2 h3 h k 0 fuel
    (by omega) hf (fun j hj => by rw [Nat.zero_add]; exact hnot j hj)
    (by rw [Nat.zero_add]; exact hall)
  have e0 : pollTrace env a1 a2 a3 h 0 = [] := rfl
  have es : seenZero env a1 a2 a3 h 0 = (false, false, false) := rfl
  have ez : zeroStatus K false = K.XST_FAILURE := rfl
  rw [e0, es, List.append_nil, List.nil_append, ez, Nat.zero_add] at hp
  exact Prod.ext hp.1 hp.2

theorem poll_failure_start (hne : K.XST_FAILURE ≠ K.XST_SUCCESS)
    (hT : K.XPLMI_TIME_OUT_DEFAULT + 1 < 2 ^ 32) (A : XPm_AieArray) (b col row mrow : Nat)
    (a1 a2 a3 : Nat)
    (h1 : a1 = AIE2_TILE_BADDR A.NocAddress col mrow + K.AIE2_MEM_TILE_MODULE_MEM_CTRL_OFFSET)
    (h2 : a2 = AIE2_TILE_BADDR A.NocAddress col row + K.AIE2_CORE_MODULE_MEM_CTRL_OFFSET)
    (h3 : a3 = AIE2_TILE_BADDR A.NocAddress col row + K.AIE2_MEM_MODULE_MEM_CTRL_OFFSET)
    (h : List Event) (fuel : Nat) (hf : K.XPLMI_TIME_OUT_DEFAULT < fuel)
    (hnot : allZeroBy env a1 a2 a3 h K.XPLMI_TIME_OUT_DEFAULT = false) :
    Aie2MemInit_poll K env A b col row mrow fuel K.XST_FAILURE K.XST_FAILURE K.XST_FAILURE 0
        h =
      (some K.XST_FAILURE,
       pollTrace env a1 a2 a3 h (K.XPLMI_TIME_OUT_DEFAULT + 1) ++
        [Event.LockPcsr b,
         Event.PrintDbgErr K.XST_FAILURE XPm_IntErr.XPM_INT_ERR_AIE_MEMORY_ZEROISATION]) := by
  have hp := poll_failure K env hne hT A b col row mrow a1 a2 a3 h1 h2 h3 h
    K.XPLMI_TIME_OUT_DEFAULT 0 fuel (by omega) hf
    (fun j hj => by
      rw [Nat.zero_add]
      cases hc : allZeroBy env a1 a2 a3 h j with
      | false => rfl
      | true =>
        rw [allZeroBy_mono env _ _ _ _ hj hc] at hnot
        exact absurd hnot (by simp))
  have e0 : pollTrace env a1 a2 a3 h 0 = [] := rfl
  have es : seenZero env a1 a2 a3 h 0 = (false, false, false) := rfl
  have ez : zeroStatus K false = K.XST_FAILURE := rfl
  rw [e0, es, List.append_nil, List.nil_append, ez] at hp
  exact Prod.ext hp.1 hp.2

theorem aie2MemInit_success (hne : K.XST_FAILURE ≠ K.XST_SUCCESS)
    (hT : K.XPLMI_TIME_OUT_DEFAULT + 1 < 2 ^ 32) (fuel : Nat)
    (hfuel : K.XPLMI_TIME_OUT_DEFAULT < fuel) (PwrDomain : XPm_AieDomain) (Args : Nat → Nat)
    (NumOfArgs : Nat) (h : List Event) (DevBase : Nat)
    (hl : env.XPmDevice_GetById h K.PM_DEV_AIE = some DevBase) (k : Nat)
    (hk : k ≤ K.XPLMI_TIME_OUT_DEFAULT)
    (hall : allZeroBy env (memTilePollAddr K PwrDomain.Array) (corePollAddr K PwrDomain.Array)
      (memPollAddr K PwrDomain.Array) (h ++ zeroizeStart K env PwrDomain DevBase h) k = true)
    (hnot : ∀ j, j < k → allZeroBy env (memTilePollAddr K PwrDomain.Array)
      (corePollAddr K PwrDomain.Array) (memPollAddr K PwrDomain.Array)
      (h ++ zeroizeStart K env PwrDomain DevBase h) j = false) :
    Aie2MemInit K env fuel PwrDomain Args NumOfArgs h =
      (some K.XST_SUCCESS,
       zeroizeStart K env PwrDomain DevBase h ++
        (pollTrace env (memTilePollAddr K PwrDomain.Array) (corePollAddr K PwrDomain.Array)
          (memPollAddr K PwrDomain.Array) (h ++ zeroizeStart K env PwrDomain DevBase h) k ++
         [Event.PrintDbgErr K.XST_SUCCESS XPm_IntErr.XPM_INT_ERR_UNDEFINED])) := by
  rw [run_Aie2MemInit K env fuel PwrDomain Args NumOfArgs h DevBase hl,
    poll_success_start K env hne hT PwrDomain.Array (u32 DevBase) _ _ _
      (memTilePollAddr K PwrDomain.Array) (corePollAddr K PwrDomain.Array)
      (memPollAddr K PwrDomain.Array) rfl rfl rfl _ k fuel hk (by omega) hnot hall]

theorem aie2MemInit_failure (hne : K.XST_FAILURE ≠ K.XST_SUCCESS)
    (hT : K.XPLMI_TIME_OUT_DEFAULT + 1 < 2 ^ 32) (fuel : Nat)
    (hfuel : K.XPLMI_TIME_OUT_DEFAULT < fuel) (PwrDomain : XPm_AieDomain) (Args : Nat → Nat)
    (NumOfArgs : Nat) (h : List Event) (DevBase : Nat)
    (hl : env.XPmDevice_GetById h K.PM_DEV_AIE = some DevBase)
    (hnot : allZeroBy env (memTilePollAddr K PwrDomain.Array) (corePollAddr K PwrDomain.Array)
      (memPollAddr K PwrDomain.Array) (h ++ zeroizeStart K env PwrDomain DevBase h)
      K.XPLMI_TIME_OUT_DEFAULT = false) :
    Aie2MemInit K env fuel PwrDomain Args NumOfArgs h =
      (some K.XST_FAILURE,
       zeroizeStart K env PwrDomain DevBase h ++
        (pollTrace env (memTilePollAddr K PwrDomain.Array) (corePollAddr K PwrDomain.Array)
          (memPollAddr K PwrDomain.Array) (h ++ zeroizeStart K env PwrDomain DevBase h)
          (K.XPLMI_TIME_OUT_DEFAULT + 1) ++
         [Event.LockPcsr (u32 DevBase),
          Event.PrintDbgErr K.XST_FAILURE XPm_IntErr.XPM_INT_ERR_AIE_MEMORY_ZEROISATION])) := by
  rw [run_Aie2MemInit K env fuel PwrDomain Args NumOfArgs h DevBase hl,
    poll_failure_start K env hne hT PwrDomain.Array (u32 DevBase) _ _ _
      (memTilePollAddr K PwrDomain.Array) (corePollAddr K PwrDomain.Array)
      (memPollAddr K PwrDomain.Array) rfl rfl rfl _ fuel hfuel hnot]

end ZeroizationRun

section ZeroizationSample

variable (K : Consts) (env : Env)

/-- C16, the claim fails: with a budget of one iteration and registers that read nonzero
in the first round and zero in the second, each of the three registers has been read as
zero by the end of the second iteration, yet the step locks the PCSR and returns
`XST_FAILURE` with the zeroization diagnostic. -/
theorem zeroization_poll_counterexample :
    allZeroBy (sampleEnvZeroAfter (sampleConstsBudget 1) 0xF70A0000 5)
      (memTilePollAddr (sampleConstsBudget 1) (sampleDomain 0 aie2Hooks).Array)
      (corePollAddr (sampleConstsBudget 1) (sampleDomain 0 aie2Hooks).Array)
      (memPollAddr (sampleConstsBudget 1) (sampleDomain 0 aie2Hooks).Array)
      (zeroizeStart (sampleConstsBudget 1) (sampleEnvZeroAfter (sampleConstsBudget 1) 0xF70A0000 5)
        (sampleDomain 0 aie2Hooks) 0xF70A0000 []) 2 = true ∧
    (Aie2MemInit (sampleConstsBudget 1) (sampleEnvZeroAfter (sampleConstsBudget 1) 0xF70A0000 5)
      3 (sampleDomain 0 aie2Hooks) (fun _ => 0) 0 []).1 =
      some (sampleConstsBudget 1).XST_FAILURE ∧
    (Aie2MemInit (sampleConstsBudget 1) (sampleEnvZeroAfter (sampleConstsBudget 1) 0xF70A0000 5)
      3 (sampleDomain 0 aie2Hooks) (fun _ => 0) 0 []).2 =
      zeroizeStart (sampleConstsBudget 1) (sampleEnvZeroAfter (sampleConstsBudget 1) 0xF70A0000 5)
        (sampleDomain 0 aie2Hooks) 0xF70A0000 [] ++
      [Event.lwea 0x20000196048 1, Event.lwea 0x20000236070 1, Event.lwea 0x20000213008 1,
       Event.lwea 0x20000196048 0, Event.lwea 0x20000236070 0, Event.lwea 0x20000213008 0,
       Event.LockPcsr 0xF70A0000,
       Event.PrintDbgErr (sampleConstsBudget 1).XST_FAILURE
         XPm_IntErr.XPM_INT_ERR_AIE_MEMORY_ZEROISATION] := by
  decide

end ZeroizationSample

section ZeroizationClaims

variable (K : Consts) (env : Env)

theorem exists_first_round (a1 a2 a3 : Nat) (h : List Event) (T : Nat)
    (hall : allZeroBy env a1 a2 a3 h T = true) :
    ∃ k, k ≤ T ∧ allZeroBy env a1 a2 a3 h k = true ∧
      ∀ j, j < k → allZeroBy env a1 a2 a3 h j = false := by
  have hex : ∃ k, allZeroBy env a1 a2 a3 h k = true := ⟨T, hall⟩
  refine ⟨Nat.find hex, Nat.find_min' hex hall, Nat.find_spec hex, fun j hj => ?_⟩
  have hmin := Nat.find_min hex hj
  simpa using hmin

/-- C16 as amended: the outcome of the zeroization poll of `Aie2MemInit`, for every
behaviour of the three polled registers, when the device lookup succeeds (`XST_FAILURE`
and `XST_SUCCESS` distinct, the budget plus one within 32 bits).  If `k` is the first
round by which each of the three registers has been read as zero at least once, and `k`
is at most `XPLMI_TIME_OUT_DEFAULT`, the step returns `XST_SUCCESS` after exactly `k`
rounds of reads, without locking.  If after `XPLMI_TIME_OUT_DEFAULT` rounds one of the
registers has never been read as zero, the step reads one more round, whose values do not
count, locks the PCSR and returns `XST_FAILURE` with the zeroization diagnostic.  So the
step succeeds exactly when each register has been read as zero within the first
`XPLMI_TIME_OUT_DEFAULT` rounds. -/
theorem zeroization_poll_outcome (hne : K.XST_FAILURE ≠ K.XST_SUCCESS)
    (hT : K.XPLMI_TIME_OUT_DEFAULT + 1 < 2 ^ 32) (fuel : Nat)
    (hfuel : K.XPLMI_TIME_OUT_DEFAULT < fuel) (PwrDomain : XPm_AieDomain) (Args : Nat → Nat)
    (NumOfArgs : Nat) (h : List Event) (DevBase : Nat)
    (hl : env.XPmDevice_GetById h K.PM_DEV_AIE = some DevBase) :
    (∀ k, k ≤ K.XPLMI_TIME_OUT_DEFAULT →
      allZeroBy env (memTilePollAddr K PwrDomain.Array) (corePollAddr K PwrDomain.Array)
        (memPollAddr K PwrDomain.Array) (h ++ zeroizeStart K env PwrDomain DevBase h) k = true →
      (∀ j, j < k → allZeroBy env (memTilePollAddr K PwrDomain.Array)
        (corePollAddr K PwrDomain.Array) (memPollAddr K PwrDomain.Array)
        (h ++ zeroizeStart K env PwrDomain DevBase h) j = false) →
      Aie2MemInit K env fuel PwrDomain Args NumOfArgs h =
        (some K.XST_SUCCESS,
         zeroizeStart K env PwrDomain DevBase h ++
          (pollTrace env (memTilePollAddr K PwrDomain.Array) (corePollAddr K PwrDomain.Array)
            (memPollAddr K PwrDomain.Array) (h ++ zeroizeStart K env PwrDomain DevBase h) k ++
           [Event.PrintDbgErr K.XST_SUCCESS XPm_IntErr.XPM_INT_ERR_UNDEFINED]))) ∧
    (allZeroBy env (memTilePollAddr K PwrDomain.Array) (corePollAddr K PwrDomain.Array)
        (memPollAddr K PwrDomain.Array) (h ++ zeroizeStart K env PwrDomain DevBase h)
        K.XPLMI_TIME_OUT_DEFAULT = false →
      Aie2MemInit K env fuel PwrDomain Args NumOfArgs h =
        (some K.XST_FAILURE,
         zeroizeStart K env PwrDomain DevBase h ++
          (pollTrace env (memTilePollAddr K PwrDomain.Array) (corePollAddr K PwrDomain.Array)
            (memPollAddr K PwrDomain.Array) (h ++ zeroizeStart K env PwrDomain DevBase h)
            (K.XPLMI_TIME_OUT_DEFAULT + 1) ++
           [Event.LockPcsr (u32 DevBase),
            Event.PrintDbgErr K.XST_FAILURE
              XPm_IntErr.XPM_INT_ERR_AIE_MEMORY_ZEROISATION]))) ∧
    ((Aie2MemInit K env fuel PwrDomain Args NumOfArgs h).1 = some K.XST_SUCCESS ↔
      allZeroBy env (memTilePollAddr K PwrDomain.Array) (corePollAddr K PwrDomain.Array)
        (memPollAddr K PwrDomain.Array) (h ++ zeroizeStart K env PwrDomain DevBase h)
        K.XPLMI_TIME_OUT_DEFAULT = true) := by
  refine ⟨fun k hk hall hnot =>
      aie2MemInit_success K env hne hT fuel hfuel PwrDomain Args NumOfArgs h DevBase hl k hk
        hall hnot,
    fun hnot =>
      aie2MemInit_failure K env hne hT fuel hfuel PwrDomain Args NumOfArgs h DevBase hl hnot,
    fun hs => ?_, fun hall => ?_⟩
  · cases hc : allZeroBy env (memTilePollAddr K PwrDomain.Array)
        (corePollAddr K PwrDomain.Array) (memPollAddr K PwrDomain.Array)
        (h ++ zeroizeStart K env PwrDomain DevBase h) K.XPLMI_TIME_OUT_DEFAULT with
    | true => rfl
    | false =>
      rw [aie2MemInit_failure K env hne hT fuel hfuel PwrDomain Args NumOfArgs h DevBase hl
        hc] at hs
      exact absurd (Option.some.inj hs) hne
  · obtain ⟨k, hk, hk1, hk2⟩ := exists_first_round env _ _ _ _ _ hall
    rw [aie2MemInit_success K env hne hT fuel hfuel PwrDomain Args NumOfArgs h DevBase hl k hk
      hk1 hk2]

/-- C16 as amended, an instance: the sample environment, whose registers read zero at
once; the step succeeds after one round. -/
theorem zeroization_poll_outcome_witness :
    (sampleConsts.XST_FAILURE ≠ sampleConsts.XST_SUCCESS ∧
      sampleConsts.XPLMI_TIME_OUT_DEFAULT + 1 < 2 ^ 32 ∧
      sampleConsts.XPLMI_TIME_OUT_DEFAULT < 0x10000001 ∧
      (sampleEnv sampleConsts true 0xF70A0000 0xFFFFFFFF 0 0).XPmDevice_GetById []
        sampleConsts.PM_DEV_AIE = some 0xF70A0000) ∧
    ((Aie2MemInit sampleConsts (sampleEnv sampleConsts true 0xF70A0000 0xFFFFFFFF 0 0)
        0x10000001 (sampleDomain 0 aie2Hooks) (fun _ => 0) 0 []).1 =
        some sampleConsts.XST_SUCCESS ↔
      allZeroBy (sampleEnv sampleConsts true 0xF70A0000 0xFFFFFFFF 0 0)
        (memTilePollAddr sampleConsts (sampleDomain 0 aie2Hooks).Array)
        (corePollAddr sampleConsts (sampleDomain 0 aie2Hooks).Array)
        (memPollAddr sampleConsts (sampleDomain 0 aie2Hooks).Array)
        ([] ++ zeroizeStart sampleConsts (sampleEnv sampleConsts true 0xF70A0000 0xFFFFFFFF 0 0)
          (sampleDomain 0 aie2Hooks) 0xF70A0000 [])
        sampleConsts.XPLMI_TIME_OUT_DEFAULT = true) :=
  ⟨⟨by decide, by decide, by decide, by decide⟩,
   (zeroization_poll_outcome sampleConsts (sampleEnv sampleConsts true 0xF70A0000 0xFFFFFFFF 0 0)
     (by decide) (by decide) 0x10000001 (by decide) (sampleDomain 0 aie2Hooks) (fun _ => 0) 0 []
     0xF70A0000 (by decide)).2.2⟩

/-- C17: bounded waiting in `Aie2MemInit`, for every geometry and every behaviour of the
polled registers, the budget plus one being within 32 bits.  The step returns; when the
device is found it issues at most `XPLMI_TIME_OUT_DEFAULT + 1` rounds of poll reads,
followed either by the report of success or by the PCSR lock and the report of the
zeroization failure; and when one of the registers has never been read as zero within the
budget, the status is `XST_FAILURE`. -/
theorem zeroization_poll_bounded (hT : K.XPLMI_TIME_OUT_DEFAULT + 1 < 2 ^ 32) (fuel : Nat)
    (hfuel : K.XPLMI_TIME_OUT_DEFAULT < fuel) (PwrDomain : XPm_AieDomain) (Args : Nat → Nat)
    (NumOfArgs : Nat) (h : List Event) :
    (∃ Status, (Aie2MemInit K env fuel PwrDomain Args NumOfArgs h).1 = some Status) ∧
    (∀ DevBase, env.XPmDevice_GetById h K.PM_DEV_AIE = some DevBase →
      ∃ k tail, k ≤ K.XPLMI_TIME_OUT_DEFAULT + 1 ∧
        (Aie2MemInit K env fuel PwrDomain Args NumOfArgs h).2 =
          zeroizeStart K env PwrDomain DevBase h ++
            (pollTrace env (memTilePollAddr K PwrDomain.Array)
              (corePollAddr K PwrDomain.Array) (memPollAddr K PwrDomain.Array)
              (h ++ zeroizeStart K env PwrDomain DevBase h) k ++ tail) ∧
        (tail = [Event.PrintDbgErr K.XST_SUCCESS XPm_IntErr.XPM_INT_ERR_UNDEFINED] ∨
          tail = [Event.LockPcsr (u32 DevBase),
            Event.PrintDbgErr K.XST_FAILURE XPm_IntErr.XPM_INT_ERR_AIE_MEMORY_ZEROISATION])) ∧
    (∀ DevBase, env.XPmDevice_GetById h K.PM_DEV_AIE = some DevBase →
      allZeroBy env (memTilePollAddr K PwrDomain.Array) (corePollAddr K PwrDomain.Array)
        (memPollAddr K PwrDomain.Array) (h ++ zeroizeStart K env PwrDomain DevBase h)
        K.XPLMI_TIME_OUT_DEFAULT = false →
      (Aie2MemInit K env fuel PwrDomain Args NumOfArgs h).1 = some K.XST_FAILURE) := by
  have hsame : K.XST_FAILURE = K.XST_SUCCESS → ∀ DevBase,
      env.XPmDevice_GetById h K.PM_DEV_AIE = some DevBase →
      Aie2MemInit K env fuel PwrDomain Args NumOfArgs h =
        (some K.XST_SUCCESS, zeroizeStart K env PwrDomain DevBase h ++
          [Event.PrintDbgErr K.XST_SUCCESS XPm_IntErr.XPM_INT_ERR_UNDEFINED]) := by
    intro he DevBase hl
    obtain ⟨fuel, rfl⟩ : ∃ f, fuel = f + 1 := ⟨fuel - 1, by omega⟩
    rw [run_Aie2MemInit K env _ PwrDomain Args NumOfArgs h DevBase hl, he, poll_exit]
  refine ⟨Option.ne_none_iff_exists'.1
      (Aie2MemInit_returns K env hT fuel hfuel PwrDomain Args NumOfArgs h),
    fun DevBase hl => ?_, fun DevBase hl hnot => ?_⟩
  · by_cases hne : K.XST_FAILURE = K.XST_SUCCESS
    · exact ⟨0, _, Nat.zero_le _, by rw [hsame hne DevBase hl]; rfl, Or.inl rfl⟩
    · cases hc : allZeroBy env (memTilePollAddr K PwrDomain.Array)
          (corePollAddr K PwrDomain.Array) (memPollAddr K PwrDomain.Array)
          (h ++ zeroizeStart K env PwrDomain DevBase h) K.XPLMI_TIME_OUT_DEFAULT with
      | true =>
        obtain ⟨k, hk, hk1, hk2⟩ := exists_first_round env _ _ _ _ _ hc
        exact ⟨k, _, by omega, by
          rw [aie2MemInit_success K env hne hT fuel hfuel PwrDomain Args NumOfArgs h DevBase hl
            k hk hk1 hk2], Or.inl rfl⟩
      | false =>
        exact ⟨K.XPLMI_TIME_OUT_DEFAULT + 1, _, Nat.le_refl _, by
          rw [aie2MemInit_failure K env hne hT fuel hfuel PwrDomain Args NumOfArgs h DevBase hl
            hc], Or.inr rfl⟩
  · by_cases hne : K.XST_FAILURE = K.XST_SUCCESS
    · rw [hsame hne DevBase hl, hne]
    · rw [aie2MemInit_failure K env hne hT fuel hfuel PwrDomain Args NumOfArgs h DevBase hl
        hnot]

/-- C17, an instance: the sample constants, whose budget is `0x10000000`. -/
theorem zeroization_poll_bounded_witness :
    (sampleConsts.XPLMI_TIME_OUT_DEFAULT + 1 < 2 ^ 32 ∧
      sampleConsts.XPLMI_TIME_OUT_DEFAULT < 0x10000001) ∧
    ∃ Status, (Aie2MemInit sampleConsts (sampleEnv sampleConsts true 0xF70A0000 0xFFFFFFFF 1 0)
      0x10000001 (sampleDomain 0 aie2Hooks) (fun _ => 0) 0 []).1 = some Status :=
  ⟨⟨by decide, by decide⟩,
   (zeroization_poll_bounded sampleConsts (sampleEnv sampleConsts true 0xF70A0000 0xFFFFFFFF 1 0)
     (by decide) 0x10000001 (by decide) (sampleDomain 0 aie2Hooks) (fun _ => 0) 0 []).1⟩

end ZeroizationClaims

/-! ## The BISR repair passes -/

section BisrRepairs

variable (K : Consts) (env : Env) {α β : Type}

theorem repairCalls_append (a b : List Event) :
    repairCalls (a ++ b) = repairCalls a ++ repairCalls b := by
  induction a with
  | nil => rfl
  | cons e a ih => cases e <;> simp [repairCalls, ih]

theorem noRepairM_pure (a : α) : NoRepairM (pure a : M α) := ⟨fun _ => rfl⟩

theorem noRepairM_bind {m : M α} {f : α → M β} (hm : NoRepairM m)
    (hf : ∀ a, NoRepairM (f a)) : NoRepairM (m >>= f) :=
  ⟨fun h => by
    rw [run_bind, repairCalls_append, hm.noRepair h, (hf _).noRepair _]
    rfl⟩

theorem noRepairM_ite {c : Prop} [Decidable c] {a b : M α} (ha : NoRepairM a)
    (hb : NoRepairM b) : NoRepairM (if c then a else b) := by
  split
  · exact ha
  · exact hb

theorem noRepairM_GetById (Id : Nat) : NoRepairM (XPmDevice_GetById env Id) := ⟨fun _ => rfl⟩

theorem noRepairM_In32 (a : Nat) : NoRepairM (XPm_In32 env a) := ⟨fun _ => rfl⟩

theorem noRepairM_Out32 (a v : Nat) : NoRepairM (PmOut32 a v) := ⟨fun _ => rfl⟩

theorem noRepairM_AieWrite64 (a v : Nat) : NoRepairM (AieWrite64 a v) := ⟨fun _ => rfl⟩

theorem noRepairM_IsoControl (a b : Nat) : NoRepairM (XPmDomainIso_Control env a b) :=
  ⟨fun _ => rfl⟩

theorem noRepairM_gotoDone (s : XStatus) (d : XPm_IntErr) : NoRepairM (gotoDone s d) :=
  ⟨fun _ => rfl⟩

theorem noRepairM_PmChkRegOut32 (a d : Nat) (s : XStatus) :
    NoRepairM (PmChkRegOut32 K env a d s) :=
  noRepairM_bind (noRepairM_In32 env a) fun _ =>
    noRepairM_ite (noRepairM_pure _) (noRepairM_pure _)

theorem noRepairM_PmChkRegMask32 (a m d : Nat) (s : XStatus) :
    NoRepairM (PmChkRegMask32 K env a m d s) :=
  noRepairM_bind (noRepairM_In32 env a) fun _ =>
    noRepairM_ite (noRepairM_pure _) (noRepairM_pure _)

theorem noRepairM_RMW32 (a m v : Nat) : NoRepairM (XPm_RMW32 env a m v) :=
  noRepairM_bind (noRepairM_In32 env a) fun _ => noRepairM_Out32 _ _

theorem noRepairM_forLoop {body : Nat → M Unit} (hb : ∀ i, NoRepairM (body i)) (n i : Nat) :
    NoRepairM (forLoop body n i) := by
  induction n generalizing i with
  | zero => exact noRepairM_pure _
  | succ n ih => exact noRepairM_bind (hb i) fun _ => ih (i + 1)

theorem noRepairM_forRange {body : Nat → M Unit} (hb : ∀ i, NoRepairM (body i))
    (lo hi : Nat) : NoRepairM (forRange lo hi body) :=
  noRepairM_forLoop hb _ _

theorem noRepairM_AiePcsrWrite (Mask Value : Nat) :
    NoRepairM (AiePcsrWrite K env Mask Value) := by
  unfold AiePcsrWrite
  repeat' first
    | with_reducible exact noRepairM_pure _
    | with_reducible exact noRepairM_GetById _ _
    | with_reducible exact noRepairM_gotoDone _ _
    | with_reducible exact noRepairM_Out32 _ _
    | with_reducible exact noRepairM_PmChkRegOut32 _ _ _ _ _
    | with_reducible exact noRepairM_PmChkRegMask32 _ _ _ _ _ _
    | with_reducible apply noRepairM_bind
    | with_reducible apply noRepairM_ite
    | intro _
    | split

theorem noRepairM_invokePreBisrHook (d : XPm_AieDomain) (b : Nat) (f : PreBisrHookFn) :
    NoRepairM (invokePreBisrHook K env d b f) := by
  cases f
  · unfold invokePreBisrHook AiePreBisrHook
    exact noRepairM_bind (noRepairM_Out32 _ _) fun _ =>
      noRepairM_bind (noRepairM_Out32 _ _) fun _ => noRepairM_AiePcsrWrite K env _ _
  · unfold invokePreBisrHook Aie2PreBisrHook
    exact noRepairM_bind (noRepairM_AiePcsrWrite K env _ _) fun _ =>
      noRepairM_ite (noRepairM_pure _)
        (noRepairM_bind (noRepairM_Out32 _ _) fun _ =>
          noRepairM_bind (noRepairM_Out32 _ _) fun _ => noRepairM_pure _)

theorem noRepairM_Aie2ClockInit (d : XPm_AieDomain) (b : Nat) :
    NoRepairM (Aie2ClockInit K env d b) := by
  unfold Aie2ClockInit
  try dsimp only
  repeat' first
    | with_reducible exact noRepairM_pure _
    | with_reducible exact noRepairM_AieWrite64 _ _
    | with_reducible exact noRepairM_RMW32 _ _ _ _
    | with_reducible apply noRepairM_forRange
    | with_reducible apply noRepairM_bind
    | intro _

theorem repairOutcome_prefix {b : Nat} {s : XStatus} {evs : List Event} (pre : List Event)
    (hr : repairCalls pre = []) (hn : NoLock pre) (ho : RepairOutcome K b (s, evs)) :
    RepairOutcome K b (s, pre ++ evs) := by
  unfold RepairOutcome at ho ⊢
  simp only [repairCalls_append, hr, List.nil_append, noLock_append]
  rcases ho with ⟨s', h1, h2, h3, p, h4⟩ | ⟨s', h1, h2, h3, p, h4⟩ | ⟨s', h1, h2, h3, p, h4⟩ |
    ⟨h1, h2, h3⟩
  · exact Or.inl ⟨s', h1, h2, h3, pre ++ p, by
      simp only at h4
      simp only [h4, List.append_assoc]⟩
  · exact Or.inr (Or.inl ⟨s', h1, h2, h3, pre ++ p, by
      simp only at h4
      simp only [h4, List.append_assoc]⟩)
  · exact Or.inr (Or.inr (Or.inl ⟨s', h1, h2, h3, pre ++ p, by
      simp only at h4
      simp only [h4, List.append_assoc]⟩))
  · exact Or.inr (Or.inr (Or.inr ⟨h1, h2, hn, h3⟩))

theorem repairOutcome_bisrRepairs (PwrDomain : XPm_AieDomain) (b : Nat) (s0 : XStatus)
    (hnot : K.HOUSECLEAN_DISABLE_BISR_MASK ≠
      (PwrDomain.Domain.HcDisableMask &&& K.HOUSECLEAN_DISABLE_BISR_MASK))
    (h : List Event) : RepairOutcome K b (bisrRepairs K env PwrDomain b s0 h) := by
  unfold bisrRepairs
  rw [if_pos hnot, run_bind]
  by_cases hA : K.XST_SUCCESS ≠ (XPmBisr_Repair env K.MEA_TAG_ID h).1
  · rw [if_pos hA]
    exact Or.inl ⟨_, hA, rfl, rfl, [Event.BisrRepair K.MEA_TAG_ID _], rfl⟩
  · rw [if_neg hA, run_bind]
    have hA' := (not_not.1 hA).symm
    by_cases hB : K.XST_SUCCESS ≠ (XPmBisr_Repair env K.MEB_TAG_ID
        (h ++ (XPmBisr_Repair env K.MEA_TAG_ID h).2)).1
    · rw [if_pos hB]
      refine Or.inr (Or.inl ⟨_, hB, ?_, rfl, [Event.BisrRepair K.MEA_TAG_ID _,
        Event.BisrRepair K.MEB_TAG_ID _], rfl⟩)
      simp only [XPmBisr_Repair] at hA' ⊢
      simp [repairCalls, hA', run_gotoFail]
    · rw [if_neg hB, run_bind]
      have hB' := (not_not.1 hB).symm
      by_cases hC : K.XST_SUCCESS ≠ (XPmBisr_Repair env K.MEC_TAG_ID
          (h ++ (XPmBisr_Repair env K.MEA_TAG_ID h).2 ++
            (XPmBisr_Repair env K.MEB_TAG_ID
              (h ++ (XPmBisr_Repair env K.MEA_TAG_ID h).2)).2)).1
      · rw [if_pos hC]
        refine Or.inr (Or.inr (Or.inl ⟨_, hC, ?_, rfl, [Event.BisrRepair K.MEA_TAG_ID _,
          Event.BisrRepair K.MEB_TAG_ID _, Event.BisrRepair K.MEC_TAG_ID _], rfl⟩))
        simp only [XPmBisr_Repair] at hA' hB' ⊢
        rw [hA'] at hB'
        simp [repairCalls, hA', hB', run_gotoFail]
      · rw [if_neg hC]
        have hC' := (not_not.1 hC).symm
        refine Or.inr (Or.inr (Or.inr ⟨?_, hC', ?_⟩))
        · simp only [XPmBisr_Repair, List.append_assoc, List.singleton_append] at hA' hB' hC' ⊢
          rw [hA'] at hB' hC'
          rw [hB'] at hC'
          simp [repairCalls, hA', hB', hC', run_gotoDone]
        · simp only [XPmBisr_Repair, run_gotoDone]
          intro e he
          simp only [List.mem_append, List.mem_cons, List.mem_singleton, List.not_mem_nil,
            or_false] at he
          rcases he with rfl | rfl | rfl | rfl <;> rfl

end BisrRepairs

section BisrClaim

variable (K : Consts) (env : Env) {α : Type}

theorem repairOutcome_bind {b : Nat} {m : M α} {f : α → M XStatus} (hm1 : NoRepairM m)
    (hm2 : NoLockM m) (hf : ∀ a h, RepairOutcome K b (f a h)) (h : List Event) :
    RepairOutcome K b ((m >>= f) h) := by
  rw [run_bind]
  exact repairOutcome_prefix K _ (hm1.noRepair h) (hm2.noLock h) (hf _ _)

theorem repairOutcome_step {b : Nat} {m : M XStatus} {x y : XStatus → M XStatus}
    (hm1 : NoRepairM m) (hm2 : NoLockM m) (h : List Event) (hs : (m h).1 = K.XST_SUCCESS)
    (hf : ∀ s h, RepairOutcome K b (y s h)) :
    RepairOutcome K b ((m >>= fun s => if K.XST_SUCCESS ≠ s then x s else y s) h) := by
  rw [run_bind, hs, if_neg (fun hh => hh rfl)]
  exact repairOutcome_prefix K _ (hm1.noRepair h) (hm2.noLock h) (hf _ _)

theorem repairOutcome_iso (PwrDomain : XPm_AieDomain) (b : Nat) (e : XPm_IntErr)
    (hnot : K.HOUSECLEAN_DISABLE_BISR_MASK ≠
      (PwrDomain.Domain.HcDisableMask &&& K.HOUSECLEAN_DISABLE_BISR_MASK))
    (hiso : ∀ h, env.XPmDomainIso_Control h K.XPM_NODEIDX_ISO_PMC_SOC K.FALSE_VALUE =
      K.XST_SUCCESS) (h : List Event) :
    RepairOutcome K b
      ((XPmDomainIso_Control env K.XPM_NODEIDX_ISO_PMC_SOC K.FALSE_VALUE >>= fun Status =>
        if K.XST_SUCCESS ≠ Status then gotoFail b Status e
        else bisrRepairs K env PwrDomain b Status) h) :=
  repairOutcome_step K (noRepairM_IsoControl env _ _) (noLockM_IsoControl env _ _) h (hiso h)
    fun s h' => repairOutcome_bisrRepairs K env PwrDomain b s hnot h'

/-- C18: the repair passes of `AieBisr` and `Aie2Bisr`, with BISR not suppressed and the
device lookup, the pre-BISR hook (when one is installed) and the isolation removal
succeeding.  `XPmBisr_Repair` is called with the tags `MEA_TAG_ID`, `MEB_TAG_ID`,
`MEC_TAG_ID` in that order, each only if the ones before it returned `XST_SUCCESS`; at the
first other status no later repair is tried, the PCSR is locked and the step returns that
status with the diagnostic of that region; the step returns `XST_SUCCESS`, without lock,
only when all three repairs succeeded. -/
theorem bisr_repair_sequence (PwrDomain : XPm_AieDomain) (Args : Nat → Nat) (NumOfArgs : Nat)
    (h : List Event) (DevBase : Nat)
    (hl : env.XPmDevice_GetById h K.PM_DEV_AIE = some DevBase)
    (hnot : K.HOUSECLEAN_DISABLE_BISR_MASK ≠
      (PwrDomain.Domain.HcDisableMask &&& K.HOUSECLEAN_DISABLE_BISR_MASK))
    (hhook : ∀ Hook, PwrDomain.Hooks.PreBisrHook = some Hook →
      (invokePreBisrHook K env PwrDomain (u32 DevBase) Hook h).1 = K.XST_SUCCESS)
    (hiso : ∀ h', env.XPmDomainIso_Control h' K.XPM_NODEIDX_ISO_PMC_SOC K.FALSE_VALUE =
      K.XST_SUCCESS) :
    RepairOutcome K (u32 DevBase) (AieBisr K env PwrDomain Args NumOfArgs h) ∧
    RepairOutcome K (u32 DevBase) (Aie2Bisr K env PwrDomain Args NumOfArgs h) := by
  constructor
  · unfold AieBisr
    rw [run_lookup_bind, hl]
    dsimp only
    cases hk : PwrDomain.Hooks.PreBisrHook with
    | none => exact repairOutcome_iso K env PwrDomain _ _ hnot hiso h
    | some Hook =>
      exact repairOutcome_step K (noRepairM_invokePreBisrHook K env _ _ _)
        (noLockM_invokePreBisrHook K env _ _ _) h (hhook Hook hk)
        fun _ h' => repairOutcome_iso K env PwrDomain _ _ hnot hiso h'
  · unfold Aie2Bisr
    rw [run_lookup_bind, hl]
    dsimp only
    cases hk : PwrDomain.Hooks.PreBisrHook with
    | none =>
      exact repairOutcome_bind K (noRepairM_Aie2ClockInit K env _ _)
        (noLockM_Aie2ClockInit K env _ _)
        (fun _ h' => repairOutcome_iso K env PwrDomain _ _ hnot hiso h') h
    | some Hook =>
      exact repairOutcome_step K (noRepairM_invokePreBisrHook K env _ _ _)
        (noLockM_invokePreBisrHook K env _ _ _) h (hhook Hook hk)
        fun _ h' => repairOutcome_bind K (noRepairM_Aie2ClockInit K env _ _)
          (noLockM_Aie2ClockInit K env _ _)
          (fun _ h'' => repairOutcome_iso K env PwrDomain _ _ hnot hiso h'') h'

/-- C18, an instance: the sample environment, in which every repair succeeds. -/
theorem bisr_repair_sequence_witness :
    ((sampleEnv sampleConsts true 0xF70A0000 0xFFFFFFFF 0 0).XPmDevice_GetById []
        sampleConsts.PM_DEV_AIE = some 0xF70A0000 ∧
      sampleConsts.HOUSECLEAN_DISABLE_BISR_MASK ≠
        ((sampleDomain 0 aie1Hooks).Domain.HcDisableMask &&&
          sampleConsts.HOUSECLEAN_DISABLE_BISR_MASK) ∧
      (∀ Hook, (sampleDomain 0 aie1Hooks).Hooks.PreBisrHook = some Hook →
        (invokePreBisrHook sampleConsts (sampleEnv sampleConsts true 0xF70A0000 0xFFFFFFFF 0 0)
          (sampleDomain 0 aie1Hooks) (u32 0xF70A0000) Hook []).1 = sampleConsts.XST_SUCCESS) ∧
      (∀ h', (sampleEnv sampleConsts true 0xF70A0000 0xFFFFFFFF 0 0).XPmDomainIso_Control h'
        sampleConsts.XPM_NODEIDX_ISO_PMC_SOC sampleConsts.FALSE_VALUE =
          sampleConsts.XST_SUCCESS)) ∧
    RepairOutcome sampleConsts (u32 0xF70A0000)
      (AieBisr sampleConsts (sampleEnv sampleConsts true 0xF70A0000 0xFFFFFFFF 0 0)
        (sampleDomain 0 aie1Hooks) (fun _ => 0) 0 []) :=
  ⟨⟨by decide, by decide, by decide, fun _ => rfl⟩,
   (bisr_repair_sequence sampleConsts (sampleEnv sampleConsts true 0xF70A0000 0xFFFFFFFF 0 0)
     (sampleDomain 0 aie1Hooks) (fun _ => 0) 0 [] 0xF70A0000 (by decide) (by decide)
     (by decide) (fun _ => rfl)).1⟩

end BisrClaim

/-! ## The order of the PCSR writes of Memory-BIST-Clear -/

section MbistOrder

variable (K : Consts) (env : Env) {α : Type}

theorem regWrites_append (a b : List Event) :
    regWrites (a ++ b) = regWrites a ++ regWrites b := by
  induction a with
  | nil => rfl
  | cons e a ih => cases e <;> simp [regWrites, ih]

theorem regWrites_poll (a m n : Nat) (h : List Event) :
    regWrites (XPm_PollForMask K env a m n h).2 = [] := by
  induction n generalizing h with
  | zero => rfl
  | succ n ih =>
    rw [poll_succ]
    split
    · rfl
    · exact ih _

theorem wo_AiePcsrWrite (hwf : K.XPM_REG_WRITE_FAILED ≠ K.XST_FAILURE)
    (hws : K.XPM_REG_WRITE_FAILED ≠ K.XST_SUCCESS) (hne : K.XST_FAILURE ≠ K.XST_SUCCESS)
    (DevBase : Nat) (hst : ∀ h, env.XPmDevice_GetById h K.PM_DEV_AIE = some DevBase)
    (Mask Value : Nat) :
    WritesOk K id (AiePcsrWrite K env Mask Value) (pcsrWritePair K DevBase Mask Value) := by
  refine ⟨fun h hs => ?_⟩
  by_cases hm : maskReadback K env DevBase Mask h = u32 Mask
  · by_cases hc : controlReadback K env DevBase Mask Value h &&& u32 Mask =
        u32 Value &&& u32 Mask
    · rw [run_AiePcsrWrite_ok K env hwf Mask Value h DevBase (hst h) hm hc]
      rfl
    · rw [run_AiePcsrWrite_control K env hwf Mask Value h DevBase (hst h) hm hc] at hs
      exact absurd hs hws
  · rw [run_AiePcsrWrite_mask K env hwf Mask Value h DevBase (hst h) hm] at hs
    exact absurd hs hws

theorem wo_step {ret : α → XStatus} {m : M XStatus} {x y : XStatus → M α}
    {w1 w2 : List (Nat × Nat)} (hm : WritesOk K id m w1)
    (hx : ∀ s, K.XST_SUCCESS ≠ s → ∀ h, ret (x s h).1 ≠ K.XST_SUCCESS)
    (hy : WritesOk K ret (y K.XST_SUCCESS) w2) :
    WritesOk K ret (m >>= fun s => if K.XST_SUCCESS ≠ s then x s else y s) (w1 ++ w2) := by
  refine ⟨fun h hs => ?_⟩
  rw [run_bind] at hs ⊢
  by_cases hc : K.XST_SUCCESS ≠ (m h).1
  · rw [if_pos hc] at hs
    exact absurd hs (hx _ hc _)
  · have hc' : (m h).1 = K.XST_SUCCESS := (not_not.1 hc).symm
    rw [hc', if_neg (fun hh => hh rfl)] at hs ⊢
    rw [regWrites_append, hm.writes h hc', hy.writes _ hs]

theorem wo_step_symm {ret : α → XStatus} {m : M XStatus} {x y : XStatus → M α}
    {w1 w2 : List (Nat × Nat)} (hm : WritesOk K id m w1)
    (hx : ∀ s, s ≠ K.XST_SUCCESS → ∀ h, ret (x s h).1 ≠ K.XST_SUCCESS)
    (hy : WritesOk K ret (y K.XST_SUCCESS) w2) :
    WritesOk K ret (m >>= fun s => if s ≠ K.XST_SUCCESS then x s else y s) (w1 ++ w2) := by
  refine ⟨fun h hs => ?_⟩
  rw [run_bind] at hs ⊢
  by_cases hc : (m h).1 ≠ K.XST_SUCCESS
  · rw [if_pos hc] at hs
    exact absurd hs (hx _ hc _)
  · have hc' : (m h).1 = K.XST_SUCCESS := not_not.1 hc
    rw [hc', if_neg (fun hh => hh rfl)] at hs ⊢
    rw [regWrites_append, hm.writes h hc', hy.writes _ hs]

theorem wo_pair {m : M (XStatus × XPm_IntErr)} {x y : XStatus × XPm_IntErr → M XStatus}
    {w1 w2 : List (Nat × Nat)} (hm : WritesOk K Prod.fst m w1)
    (hx : ∀ r, K.XST_SUCCESS ≠ r.1 → ∀ h, (x r h).1 ≠ K.XST_SUCCESS)
    (hy : ∀ r, WritesOk K id (y r) w2) :
    WritesOk K id (m >>= fun r => if K.XST_SUCCESS ≠ r.1 then x r else y r) (w1 ++ w2) := by
  refine ⟨fun h hs => ?_⟩
  rw [run_bind] at hs ⊢
  by_cases hc : K.XST_SUCCESS ≠ (m h).1.1
  · rw [if_pos hc] at hs
    exact absurd hs (hx _ hc _)
  · have hc' : (m h).1.1 = K.XST_SUCCESS := (not_not.1 hc).symm
    rw [if_neg hc] at hs ⊢
    rw [regWrites_append, hm.writes h hc', (hy _).writes _ hs]

theorem wo_read {ret : α → XStatus} {c : Nat → Prop} [DecidablePred c] {x y : Nat → M α}
    {w : List (Nat × Nat)} (a : Nat)
    (hx : ∀ v h, ret (x v h).1 ≠ K.XST_SUCCESS) (hy : ∀ v, WritesOk K ret (y v) w) :
    WritesOk K ret (XPm_In32 env a >>= fun v => if c v then x v else y v) w := by
  refine ⟨fun h hs => ?_⟩
  rw [run_bind] at hs ⊢
  by_cases hc : c (XPm_In32 env a h).1
  · rw [if_pos hc] at hs
    exact absurd hs (hx _ _)
  · rw [if_neg hc] at hs ⊢
    rw [regWrites_append, (hy _).writes _ hs]
    rfl

theorem wo_poll (a m n : Nat) : WritesOk K id (XPm_PollForMask K env a m n) [] :=
  ⟨fun h _ => regWrites_poll K env a m n h⟩

theorem wo_gotoDone (s : XStatus) (e : XPm_IntErr) : WritesOk K id (gotoDone s e) [] :=
  ⟨fun _ _ => rfl⟩

theorem wo_pure (r : XStatus × XPm_IntErr) :
    WritesOk K Prod.fst (pure r : M (XStatus × XPm_IntErr)) [] :=
  ⟨fun _ _ => rfl⟩

end MbistOrder

section MbistOrder2

variable (K : Consts) (env : Env)

theorem writes_id {m : M XStatus} {w : List (Nat × Nat)} (hW : WritesOk K id m w)
    (h : List Event) (hs : (m h).1 = K.XST_SUCCESS) : regWrites (m h).2 = w :=
  hW.writes h hs

theorem wo_TriggerMemClear (hwf : K.XPM_REG_WRITE_FAILED ≠ K.XST_FAILURE)
    (hws : K.XPM_REG_WRITE_FAILED ≠ K.XST_SUCCESS) (hne : K.XST_FAILURE ≠ K.XST_SUCCESS)
    (DevBase : Nat) (hst : ∀ h, env.XPmDevice_GetById h K.PM_DEV_AIE = some DevBase)
    (e : XPm_IntErr) :
    WritesOk K Prod.fst (TriggerMemClear K env e)
      (pcsrWritePair K DevBase K.ME_NPI_REG_PCSR_MASK_MEM_CLEAR_EN_ALL_MASK 0 ++
        (pcsrWritePair K DevBase K.ME_NPI_REG_PCSR_MASK_OD_MBIST_ASYNC_RESET_N_MASK
            K.ME_NPI_REG_PCSR_MASK_OD_MBIST_ASYNC_RESET_N_MASK ++
          (pcsrWritePair K DevBase K.ME_NPI_REG_PCSR_MASK_OD_BIST_SETUP_1_MASK
              K.ME_NPI_REG_PCSR_MASK_OD_BIST_SETUP_1_MASK ++
            (pcsrWritePair K DevBase K.ME_NPI_REG_PCSR_MASK_MEM_CLEAR_TRIGGER_MASK
                K.ME_NPI_REG_PCSR_MASK_MEM_CLEAR_TRIGGER_MASK ++ [])))) := by
  unfold TriggerMemClear
  refine wo_step K (wo_AiePcsrWrite K env hwf hws hne DevBase hst _ _)
    (fun s hs h => Ne.symm hs) ?_
  refine wo_step K (wo_AiePcsrWrite K env hwf hws hne DevBase hst _ _)
    (fun s hs h => Ne.symm hs) ?_
  refine wo_step K (wo_AiePcsrWrite K env hwf hws hne DevBase hst _ _)
    (fun s hs h => Ne.symm hs) ?_
  refine wo_step K (wo_AiePcsrWrite K env hwf hws hne DevBase hst _ _)
    (fun s hs h => Ne.symm hs) ?_
  exact wo_pure K _

theorem wo_IsMemClearDone (hne : K.XST_FAILURE ≠ K.XST_SUCCESS) (b : Nat) (e : XPm_IntErr) :
    WritesOk K Prod.fst (IsMemClearDone K env b e) [] := by
  have hw : WritesOk K Prod.fst (IsMemClearDone K env b e) ([] ++ []) := by
    unfold IsMemClearDone
    refine wo_step_symm K (wo_poll K env _ _ _) (fun s hs h => hs) ?_
    exact wo_read K env _ (fun v h => hne) fun v => wo_pure K _
  exact hw

theorem wo_CleanupMemClear (hwf : K.XPM_REG_WRITE_FAILED ≠ K.XST_FAILURE)
    (hws : K.XPM_REG_WRITE_FAILED ≠ K.XST_SUCCESS) (hne : K.XST_FAILURE ≠ K.XST_SUCCESS)
    (DevBase : Nat) (hst : ∀ h, env.XPmDevice_GetById h K.PM_DEV_AIE = some DevBase)
    (e : XPm_IntErr) :
    WritesOk K Prod.fst (CleanupMemClear K env e)
      (pcsrWritePair K DevBase K.ME_NPI_REG_PCSR_MASK_OD_MBIST_ASYNC_RESET_N_MASK 0 ++
        (pcsrWritePair K DevBase K.ME_NPI_REG_PCSR_MASK_OD_BIST_SETUP_1_MASK 0 ++
          (pcsrWritePair K DevBase K.ME_NPI_REG_PCSR_MASK_MEM_CLEAR_TRIGGER_MASK 0 ++ []))) := by
  unfold CleanupMemClear
  refine wo_step K (wo_AiePcsrWrite K env hwf hws hne DevBase hst _ _)
    (fun s hs h => Ne.symm hs) ?_
  refine wo_step K (wo_AiePcsrWrite K env hwf hws hne DevBase hst _ _)
    (fun s hs h => Ne.symm hs) ?_
  refine wo_step K (wo_AiePcsrWrite K env hwf hws hne DevBase hst _ _)
    (fun s hs h => Ne.symm hs) ?_
  exact wo_pure K _

theorem writes_AieMbistClear (hwf : K.XPM_REG_WRITE_FAILED ≠ K.XST_FAILURE)
    (hws : K.XPM_REG_WRITE_FAILED ≠ K.XST_SUCCESS) (hne : K.XST_FAILURE ≠ K.XST_SUCCESS)
    (DevBase : Nat) (hst : ∀ h, env.XPmDevice_GetById h K.PM_DEV_AIE = some DevBase)
    (PwrDomain : XPm_AieDomain) (Args : Nat → Nat) (NumOfArgs : Nat) (h : List Event)
    (hnot : K.HOUSECLEAN_DISABLE_MBIST_CLEAR_MASK ≠
      (PwrDomain.Domain.HcDisableMask &&& K.HOUSECLEAN_DISABLE_MBIST_CLEAR_MASK))
    (hs : (AieMbistClear K env PwrDomain Args NumOfArgs h).1 = K.XST_SUCCESS) :
    regWrites (AieMbistClear K env PwrDomain Args NumOfArgs h).2 =
      pcsrWritePair K DevBase K.ME_NPI_REG_PCSR_MASK_MEM_CLEAR_EN_ALL_MASK 0 ++
      pcsrWritePair K DevBase K.ME_NPI_REG_PCSR_MASK_OD_MBIST_ASYNC_RESET_N_MASK
        K.ME_NPI_REG_PCSR_MASK_OD_MBIST_ASYNC_RESET_N_MASK ++
      pcsrWritePair K DevBase K.ME_NPI_REG_PCSR_MASK_OD_BIST_SETUP_1_MASK
        K.ME_NPI_REG_PCSR_MASK_OD_BIST_SETUP_1_MASK ++
      pcsrWritePair K DevBase K.ME_NPI_REG_PCSR_MASK_MEM_CLEAR_TRIGGER_MASK
        K.ME_NPI_REG_PCSR_MASK_MEM_CLEAR_TRIGGER_MASK ++
      pcsrWritePair K DevBase K.ME_NPI_REG_PCSR_MASK_OD_MBIST_ASYNC_RESET_N_MASK 0 ++
      pcsrWritePair K DevBase K.ME_NPI_REG_PCSR_MASK_OD_BIST_SETUP_1_MASK 0 ++
      pcsrWritePair K DevBase K.ME_NPI_REG_PCSR_MASK_MEM_CLEAR_TRIGGER_MASK 0 := by
  unfold AieMbistClear at hs ⊢
  rw [run_lookup_bind, hst h] at hs ⊢
  dsimp only at hs ⊢
  rw [if_pos hnot] at hs ⊢
  refine (writes_id K (w := pcsrWritePair K DevBase K.ME_NPI_REG_PCSR_MASK_MEM_CLEAR_EN_ALL_MASK 0 ++
      (pcsrWritePair K DevBase K.ME_NPI_REG_PCSR_MASK_OD_MBIST_ASYNC_RESET_N_MASK
          K.ME_NPI_REG_PCSR_MASK_OD_MBIST_ASYNC_RESET_N_MASK ++
        (pcsrWritePair K DevBase K.ME_NPI_REG_PCSR_MASK_OD_BIST_SETUP_1_MASK
            K.ME_NPI_REG_PCSR_MASK_OD_BIST_SETUP_1_MASK ++
          (pcsrWritePair K DevBase K.ME_NPI_REG_PCSR_MASK_MEM_CLEAR_TRIGGER_MASK
              K.ME_NPI_REG_PCSR_MASK_MEM_CLEAR_TRIGGER_MASK ++ []))) ++
      ([] ++
        (pcsrWritePair K DevBase K.ME_NPI_REG_PCSR_MASK_OD_MBIST_ASYNC_RESET_N_MASK 0 ++
          (pcsrWritePair K DevBase K.ME_NPI_REG_PCSR_MASK_OD_BIST_SETUP_1_MASK 0 ++
            (pcsrWritePair K DevBase K.ME_NPI_REG_PCSR_MASK_MEM_CLEAR_TRIGGER_MASK 0 ++ [])) ++
          []))) ?_ h hs).trans ?_
  · refine wo_pair K (wo_TriggerMemClear K env hwf hws hne DevBase hst _)
      (fun r hr h => Ne.symm hr) fun r => ?_
    refine wo_pair K (wo_IsMemClearDone K env hne _ _) (fun r hr h => Ne.symm hr) fun r => ?_
    refine wo_pair K (wo_CleanupMemClear K env hwf hws hne DevBase hst _)
      (fun r hr h => Ne.symm hr) fun r => ?_
    exact wo_gotoDone K _ _
  · simp only [List.append_nil, List.append_assoc, List.nil_append]

theorem writes_Aie2MbistClear (hwf : K.XPM_REG_WRITE_FAILED ≠ K.XST_FAILURE)
    (hws : K.XPM_REG_WRITE_FAILED ≠ K.XST_SUCCESS) (hne : K.XST_FAILURE ≠ K.XST_SUCCESS)
    (DevBase : Nat) (hst : ∀ h, env.XPmDevice_GetById h K.PM_DEV_AIE = some DevBase)
    (PwrDomain : XPm_AieDomain) (Args : Nat → Nat) (NumOfArgs : Nat) (h : List Event)
    (hnot : K.HOUSECLEAN_DISABLE_MBIST_CLEAR_MASK ≠
      (PwrDomain.Domain.HcDisableMask &&& K.HOUSECLEAN_DISABLE_MBIST_CLEAR_MASK))
    (hs : (Aie2MbistClear K env PwrDomain Args NumOfArgs h).1 = K.XST_SUCCESS) :
    regWrites (Aie2MbistClear K env PwrDomain Args NumOfArgs h).2 =
      pcsrWritePair K DevBase K.ME_NPI_REG_PCSR_MASK_MEM_CLEAR_EN_ALL_MASK
        K.ME_NPI_REG_PCSR_MASK_MEM_CLEAR_EN_ALL_MASK ++
      pcsrWritePair K DevBase K.ME_NPI_REG_PCSR_MASK_OD_MBIST_ASYNC_RESET_N_MASK
        K.ME_NPI_REG_PCSR_MASK_OD_MBIST_ASYNC_RESET_N_MASK ++
      pcsrWritePair K DevBase K.ME_NPI_REG_PCSR_MASK_OD_BIST_SETUP_1_MASK
        K.ME_NPI_REG_PCSR_MASK_OD_BIST_SETUP_1_MASK ++
      pcsrWritePair K DevBase K.ME_NPI_REG_PCSR_MASK_MEM_CLEAR_TRIGGER_MASK
        K.ME_NPI_REG_PCSR_MASK_MEM_CLEAR_TRIGGER_MASK ++
      pcsrWritePair K DevBase K.ME_NPI_REG_PCSR_MASK_OD_MBIST_ASYNC_RESET_N_MASK 0 ++
      pcsrWritePair K DevBase K.ME_NPI_REG_PCSR_MASK_OD_BIST_SETUP_1_MASK 0 ++
      pcsrWritePair K DevBase K.ME_NPI_REG_PCSR_MASK_MEM_CLEAR_TRIGGER_MASK 0 := by
  unfold Aie2MbistClear at hs ⊢
  rw [run_lookup_bind, hst h] at hs ⊢
  dsimp only at hs ⊢
  rw [if_pos hnot] at hs ⊢
  refine (writes_id K (w := pcsrWritePair K DevBase K.ME_NPI_REG_PCSR_MASK_MEM_CLEAR_EN_ALL_MASK
        K.ME_NPI_REG_PCSR_MASK_MEM_CLEAR_EN_ALL_MASK ++
      (pcsrWritePair K DevBase K.ME_NPI_REG_PCSR_MASK_OD_MBIST_ASYNC_RESET_N_MASK
          K.ME_NPI_REG_PCSR_MASK_OD_MBIST_ASYNC_RESET_N_MASK ++
        (pcsrWritePair K DevBase K.ME_NPI_REG_PCSR_MASK_OD_BIST_SETUP_1_MASK
            K.ME_NPI_REG_PCSR_MASK_OD_BIST_SETUP_1_MASK ++
          (pcsrWritePair K DevBase K.ME_NPI_REG_PCSR_MASK_MEM_CLEAR_TRIGGER_MASK
              K.ME_NPI_REG_PCSR_MASK_MEM_CLEAR_TRIGGER_MASK ++
            ([] ++
              (pcsrWritePair K DevBase K.ME_NPI_REG_PCSR_MASK_OD_MBIST_ASYNC_RESET_N_MASK 0 ++
                (pcsrWritePair K DevBase K.ME_NPI_REG_PCSR_MASK_OD_BIST_SETUP_1_MASK 0 ++
                  (pcsrWritePair K DevBase K.ME_NPI_REG_PCSR_MASK_MEM_CLEAR_TRIGGER_MASK 0 ++
                    [])))))))) ?_ h hs).trans ?_
  · refine wo_step K (wo_AiePcsrWrite K env hwf hws hne DevBase hst _ _)
      (fun s hs h => Ne.symm hs) ?_
    refine wo_step K (wo_AiePcsrWrite K env hwf hws hne DevBase hst _ _)
      (fun s hs h => Ne.symm hs) ?_
    refine wo_step K (wo_AiePcsrWrite K env hwf hws hne DevBase hst _ _)
      (fun s hs h => Ne.symm hs) ?_
    refine wo_step K (wo_AiePcsrWrite K env hwf hws hne DevBase hst _ _)
      (fun s hs h => Ne.symm hs) ?_
    refine wo_step_symm K (wo_poll K env _ _ _) (fun s hs h => hs) ?_
    refine wo_read K env _ (fun v h => hne) fun v => ?_
    refine wo_step K (wo_AiePcsrWrite K env hwf hws hne DevBase hst _ _)
      (fun s hs h => Ne.symm hs) ?_
    refine wo_step K (wo_AiePcsrWrite K env hwf hws hne DevBase hst _ _)
      (fun s hs h => Ne.symm hs) ?_
    refine wo_step K (wo_AiePcsrWrite K env hwf hws hne DevBase hst _ _)
      (fun s hs h => Ne.symm hs) ?_
    exact wo_gotoDone K _ _
  · simp only [List.append_nil, List.append_assoc, List.nil_append]

end MbistOrder2

section MbistClaims

variable (K : Consts) (env : Env)

/-- C19, the claim fails: in a successful, unsuppressed Memory-BIST-Clear of either
generation on the sample device, the last six register writes de-assert
OD_MBIST_ASYNC_RESET_N, then OD_BIST_SETUP_1, then MEM_CLEAR_TRIGGER: the order in which
the bits were asserted, not the reverse. -/
theorem mbist_teardown_order_counterexample :
    (AieMbistClear sampleConsts (sampleEnv sampleConsts true 0xF70A0000 0xFFFFFFFF 0 0)
      (sampleDomain 0 aie1Hooks) (fun _ => 0) 0 []).1 = sampleConsts.XST_SUCCESS ∧
    (regWrites (AieMbistClear sampleConsts (sampleEnv sampleConsts true 0xF70A0000 0xFFFFFFFF 0 0)
      (sampleDomain 0 aie1Hooks) (fun _ => 0) 0 []).2).drop 8 =
      pcsrWritePair sampleConsts 0xF70A0000
          sampleConsts.ME_NPI_REG_PCSR_MASK_OD_MBIST_ASYNC_RESET_N_MASK 0 ++
        pcsrWritePair sampleConsts 0xF70A0000
          sampleConsts.ME_NPI_REG_PCSR_MASK_OD_BIST_SETUP_1_MASK 0 ++
        pcsrWritePair sampleConsts 0xF70A0000
          sampleConsts.ME_NPI_REG_PCSR_MASK_MEM_CLEAR_TRIGGER_MASK 0 ∧
    (regWrites (AieMbistClear sampleConsts (sampleEnv sampleConsts true 0xF70A0000 0xFFFFFFFF 0 0)
      (sampleDomain 0 aie1Hooks) (fun _ => 0) 0 []).2).drop 8 ≠
      pcsrWritePair sampleConsts 0xF70A0000
          sampleConsts.ME_NPI_REG_PCSR_MASK_MEM_CLEAR_TRIGGER_MASK 0 ++
        pcsrWritePair sampleConsts 0xF70A0000
          sampleConsts.ME_NPI_REG_PCSR_MASK_OD_BIST_SETUP_1_MASK 0 ++
        pcsrWritePair sampleConsts 0xF70A0000
          sampleConsts.ME_NPI_REG_PCSR_MASK_OD_MBIST_ASYNC_RESET_N_MASK 0 ∧
    (Aie2MbistClear sampleConsts (sampleEnv sampleConsts true 0xF70A0000 0xFFFFFFFF 0 0)
      (sampleDomain 0 aie2Hooks) (fun _ => 0) 0 []).1 = sampleConsts.XST_SUCCESS ∧
    (regWrites (Aie2MbistClear sampleConsts
      (sampleEnv sampleConsts true 0xF70A0000 0xFFFFFFFF 0 0)
      (sampleDomain 0 aie2Hooks) (fun _ => 0) 0 []).2).drop 8 =
      pcsrWritePair sampleConsts 0xF70A0000
          sampleConsts.ME_NPI_REG_PCSR_MASK_OD_MBIST_ASYNC_RESET_N_MASK 0 ++
        pcsrWritePair sampleConsts 0xF70A0000
          sampleConsts.ME_NPI_REG_PCSR_MASK_OD_BIST_SETUP_1_MASK 0 ++
        pcsrWritePair sampleConsts 0xF70A0000
          sampleConsts.ME_NPI_REG_PCSR_MASK_MEM_CLEAR_TRIGGER_MASK 0 := by
  decide

/-- C19 as amended: in an unsuppressed Memory-BIST-Clear that returns `XST_SUCCESS`, the
device being found at `DevBase` throughout and the status codes distinct, the register
writes of the step are, in this order: for Generation 1 MEM_CLEAR_EN_ALL cleared, for
Generation 2 MEM_CLEAR_EN_ALL asserted; then OD_MBIST_ASYNC_RESET_N, OD_BIST_SETUP_1 and
MEM_CLEAR_TRIGGER asserted; then, after the completion poll and the PASS check, the three
bits de-asserted in the same order: OD_MBIST_ASYNC_RESET_N first, then OD_BIST_SETUP_1,
then MEM_CLEAR_TRIGGER.  Each is one write of the mask register followed by one write of
the control register. -/
theorem mbist_teardown_order (hwf : K.XPM_REG_WRITE_FAILED ≠ K.XST_FAILURE)
    (hws : K.XPM_REG_WRITE_FAILED ≠ K.XST_SUCCESS) (hne : K.XST_FAILURE ≠ K.XST_SUCCESS)
    (DevBase : Nat) (hst : ∀ h, env.XPmDevice_GetById h K.PM_DEV_AIE = some DevBase)
    (PwrDomain : XPm_AieDomain) (Args : Nat → Nat) (NumOfArgs : Nat) (h : List Event)
    (hnot : K.HOUSECLEAN_DISABLE_MBIST_CLEAR_MASK ≠
      (PwrDomain.Domain.HcDisableMask &&& K.HOUSECLEAN_DISABLE_MBIST_CLEAR_MASK)) :
    ((AieMbistClear K env PwrDomain Args NumOfArgs h).1 = K.XST_SUCCESS →
      regWrites (AieMbistClear K env PwrDomain Args NumOfArgs h).2 =
        pcsrWritePair K DevBase K.ME_NPI_REG_PCSR_MASK_MEM_CLEAR_EN_ALL_MASK 0 ++
        pcsrWritePair K DevBase K.ME_NPI_REG_PCSR_MASK_OD_MBIST_ASYNC_RESET_N_MASK
          K.ME_NPI_REG_PCSR_MASK_OD_MBIST_ASYNC_RESET_N_MASK ++
        pcsrWritePair K DevBase K.ME_NPI_REG_PCSR_MASK_OD_BIST_SETUP_1_MASK
          K.ME_NPI_REG_PCSR_MASK_OD_BIST_SETUP_1_MASK ++
        pcsrWritePair K DevBase K.ME_NPI_REG_PCSR_MASK_MEM_CLEAR_TRIGGER_MASK
          K.ME_NPI_REG_PCSR_MASK_MEM_CLEAR_TRIGGER_MASK ++
        pcsrWritePair K DevBase K.ME_NPI_REG_PCSR_MASK_OD_MBIST_ASYNC_RESET_N_MASK 0 ++
        pcsrWritePair K DevBase K.ME_NPI_REG_PCSR_MASK_OD_BIST_SETUP_1_MASK 0 ++
        pcsrWritePair K DevBase K.ME_NPI_REG_PCSR_MASK_MEM_CLEAR_TRIGGER_MASK 0) ∧
    ((Aie2MbistClear K env PwrDomain Args NumOfArgs h).1 = K.XST_SUCCESS →
      regWrites (Aie2MbistClear K env PwrDomain Args NumOfArgs h).2 =
        pcsrWritePair K DevBase K.ME_NPI_REG_PCSR_MASK_MEM_CLEAR_EN_ALL_MASK
          K.ME_NPI_REG_PCSR_MASK_MEM_CLEAR_EN_ALL_MASK ++
        pcsrWritePair K DevBase K.ME_NPI_REG_PCSR_MASK_OD_MBIST_ASYNC_RESET_N_MASK
          K.ME_NPI_REG_PCSR_MASK_OD_MBIST_ASYNC_RESET_N_MASK ++
        pcsrWritePair K DevBase K.ME_NPI_REG_PCSR_MASK_OD_BIST_SETUP_1_MASK
          K.ME_NPI_REG_PCSR_MASK_OD_BIST_SETUP_1_MASK ++
        pcsrWritePair K DevBase K.ME_NPI_REG_PCSR_MASK_MEM_CLEAR_TRIGGER_MASK
          K.ME_NPI_REG_PCSR_MASK_MEM_CLEAR_TRIGGER_MASK ++
        pcsrWritePair K DevBase K.ME_NPI_REG_PCSR_MASK_OD_MBIST_ASYNC_RESET_N_MASK 0 ++
        pcsrWritePair K DevBase K.ME_NPI_REG_PCSR_MASK_OD_BIST_SETUP_1_MASK 0 ++
        pcsrWritePair K DevBase K.ME_NPI_REG_PCSR_MASK_MEM_CLEAR_TRIGGER_MASK 0) :=
  ⟨fun hs => writes_AieMbistClear K env hwf hws hne DevBase hst PwrDomain Args NumOfArgs h
      hnot hs,
   fun hs => writes_Aie2MbistClear K env hwf hws hne DevBase hst PwrDomain Args NumOfArgs h
      hnot hs⟩

theorem sampleEnv_lookup (D s w p : Nat) (h : List Event) :
    (sampleEnv sampleConsts true D s w p).XPmDevice_GetById h sampleConsts.PM_DEV_AIE =
      some D := by
  simp [sampleEnv]

/-- C19 as amended, an instance: the sample environment and the Generation 1 step. -/
theorem mbist_teardown_order_witness :
    (sampleConsts.XPM_REG_WRITE_FAILED ≠ sampleConsts.XST_FAILURE ∧
      sampleConsts.XPM_REG_WRITE_FAILED ≠ sampleConsts.XST_SUCCESS ∧
      sampleConsts.XST_FAILURE ≠ sampleConsts.XST_SUCCESS ∧
      (∀ h, (sampleEnv sampleConsts true 0xF70A0000 0xFFFFFFFF 0 0).XPmDevice_GetById h
        sampleConsts.PM_DEV_AIE = some 0xF70A0000) ∧
      sampleConsts.HOUSECLEAN_DISABLE_MBIST_CLEAR_MASK ≠
        ((sampleDomain 0 aie1Hooks).Domain.HcDisableMask &&&
          sampleConsts.HOUSECLEAN_DISABLE_MBIST_CLEAR_MASK) ∧
      (AieMbistClear sampleConsts (sampleEnv sampleConsts true 0xF70A0000 0xFFFFFFFF 0 0)
        (sampleDomain 0 aie1Hooks) (fun _ => 0) 0 []).1 = sampleConsts.XST_SUCCESS) ∧
    regWrites (AieMbistClear sampleConsts (sampleEnv sampleConsts true 0xF70A0000 0xFFFFFFFF 0 0)
        (sampleDomain 0 aie1Hooks) (fun _ => 0) 0 []).2 =
      pcsrWritePair sampleConsts 0xF70A0000
        sampleConsts.ME_NPI_REG_PCSR_MASK_MEM_CLEAR_EN_ALL_MASK 0 ++
      pcsrWritePair sampleConsts 0xF70A0000
        sampleConsts.ME_NPI_REG_PCSR_MASK_OD_MBIST_ASYNC_RESET_N_MASK
        sampleConsts.ME_NPI_REG_PCSR_MASK_OD_MBIST_ASYNC_RESET_N_MASK ++
      pcsrWritePair sampleConsts 0xF70A0000 sampleConsts.ME_NPI_REG_PCSR_MASK_OD_BIST_SETUP_1_MASK
        sampleConsts.ME_NPI_REG_PCSR_MASK_OD_BIST_SETUP_1_MASK ++
      pcsrWritePair sampleConsts 0xF70A0000
        sampleConsts.ME_NPI_REG_PCSR_MASK_MEM_CLEAR_TRIGGER_MASK
        sampleConsts.ME_NPI_REG_PCSR_MASK_MEM_CLEAR_TRIGGER_MASK ++
      pcsrWritePair sampleConsts 0xF70A0000
        sampleConsts.ME_NPI_REG_PCSR_MASK_OD_MBIST_ASYNC_RESET_N_MASK 0 ++
      pcsrWritePair sampleConsts 0xF70A0000
        sampleConsts.ME_NPI_REG_PCSR_MASK_OD_BIST_SETUP_1_MASK 0 ++
      pcsrWritePair sampleConsts 0xF70A0000
        sampleConsts.ME_NPI_REG_PCSR_MASK_MEM_CLEAR_TRIGGER_MASK 0 :=
  ⟨⟨by decide, by decide, by decide, sampleEnv_lookup _ _ _ _, by decide, by decide⟩,
   (mbist_teardown_order sampleConsts (sampleEnv sampleConsts true 0xF70A0000 0xFFFFFFFF 0 0)
     (by decide) (by decide) (by decide) 0xF70A0000 (sampleEnv_lookup _ _ _ _)
     (sampleDomain 0 aie1Hooks) (fun _ => 0) 0 [] (by decide)).1 (by decide)⟩

/-- C20, the claim fails: in a successful, unsuppressed `Aie2MbistClear` on the sample
device, the first two register writes assert MEM_CLEAR_EN_ALL, the last two release
MEM_CLEAR_TRIGGER, and no write after the first addresses the MEM_CLEAR_EN_ALL bit: the
bit is left asserted. -/
theorem clear_enable_all_counterexample :
    (Aie2MbistClear sampleConsts (sampleEnv sampleConsts true 0xF70A0000 0xFFFFFFFF 0 0)
      (sampleDomain 0 aie2Hooks) (fun _ => 0) 0 []).1 = sampleConsts.XST_SUCCESS ∧
    (regWrites (Aie2MbistClear sampleConsts
      (sampleEnv sampleConsts true 0xF70A0000 0xFFFFFFFF 0 0)
      (sampleDomain 0 aie2Hooks) (fun _ => 0) 0 []).2).take 2 =
      pcsrWritePair sampleConsts 0xF70A0000
        sampleConsts.ME_NPI_REG_PCSR_MASK_MEM_CLEAR_EN_ALL_MASK
        sampleConsts.ME_NPI_REG_PCSR_MASK_MEM_CLEAR_EN_ALL_MASK ∧
    (regWrites (Aie2MbistClear sampleConsts
      (sampleEnv sampleConsts true 0xF70A0000 0xFFFFFFFF 0 0)
      (sampleDomain 0 aie2Hooks) (fun _ => 0) 0 []).2).drop 12 =
      pcsrWritePair sampleConsts 0xF70A0000
        sampleConsts.ME_NPI_REG_PCSR_MASK_MEM_CLEAR_TRIGGER_MASK 0 ∧
    (pcsrMaskAddr sampleConsts 0xF70A0000,
        u32 sampleConsts.ME_NPI_REG_PCSR_MASK_MEM_CLEAR_EN_ALL_MASK) ∉
      (regWrites (Aie2MbistClear sampleConsts
        (sampleEnv sampleConsts true 0xF70A0000 0xFFFFFFFF 0 0)
        (sampleDomain 0 aie2Hooks) (fun _ => 0) 0 []).2).drop 2 := by
  decide

/-- C20 as amended: in an unsuppressed `Aie2MbistClear` that returns `XST_SUCCESS`, the
device being found at `DevBase` throughout and the status codes distinct,
MEM_CLEAR_EN_ALL is asserted by the first PCSR write of the step, before the
async-reset, BIST-setup and trigger writes; the twelve register writes that follow are
those that assert and then release these three bits, the release of MEM_CLEAR_TRIGGER
being the last write of the step.  When the mask of MEM_CLEAR_EN_ALL differs from the
three other masks, no write after the first addresses it: the step leaves the bit
asserted. -/
theorem clear_enable_all_left_asserted (hwf : K.XPM_REG_WRITE_FAILED ≠ K.XST_FAILURE)
    (hws : K.XPM_REG_WRITE_FAILED ≠ K.XST_SUCCESS) (hne : K.XST_FAILURE ≠ K.XST_SUCCESS)
    (DevBase : Nat) (hst : ∀ h, env.XPmDevice_GetById h K.PM_DEV_AIE = some DevBase)
    (PwrDomain : XPm_AieDomain) (Args : Nat → Nat) (NumOfArgs : Nat) (h : List Event)
    (hnot : K.HOUSECLEAN_DISABLE_MBIST_CLEAR_MASK ≠
      (PwrDomain.Domain.HcDisableMask &&& K.HOUSECLEAN_DISABLE_MBIST_CLEAR_MASK))
    (hs : (Aie2MbistClear K env PwrDomain Args NumOfArgs h).1 = K.XST_SUCCESS) :
    (regWrites (Aie2MbistClear K env PwrDomain Args NumOfArgs h).2).take 2 =
      pcsrWritePair K DevBase K.ME_NPI_REG_PCSR_MASK_MEM_CLEAR_EN_ALL_MASK
        K.ME_NPI_REG_PCSR_MASK_MEM_CLEAR_EN_ALL_MASK ∧
    (regWrites (Aie2MbistClear K env PwrDomain Args NumOfArgs h).2).drop 2 =
      pcsrWritePair K DevBase K.ME_NPI_REG_PCSR_MASK_OD_MBIST_ASYNC_RESET_N_MASK
        K.ME_NPI_REG_PCSR_MASK_OD_MBIST_ASYNC_RESET_N_MASK ++
      pcsrWritePair K DevBase K.ME_NPI_REG_PCSR_MASK_OD_BIST_SETUP_1_MASK
        K.ME_NPI_REG_PCSR_MASK_OD_BIST_SETUP_1_MASK ++
      pcsrWritePair K DevBase K.ME_NPI_REG_PCSR_MASK_MEM_CLEAR_TRIGGER_MASK
        K.ME_NPI_REG_PCSR_MASK_MEM_CLEAR_TRIGGER_MASK ++
      pcsrWritePair K DevBase K.ME_NPI_REG_PCSR_MASK_OD_MBIST_ASYNC_RESET_N_MASK 0 ++
      pcsrWritePair K DevBase K.ME_NPI_REG_PCSR_MASK_OD_BIST_SETUP_1_MASK 0 ++
      pcsrWritePair K DevBase K.ME_NPI_REG_PCSR_MASK_MEM_CLEAR_TRIGGER_MASK 0 ∧
    (pcsrMaskAddr K DevBase ≠ pcsrControlAddr K DevBase →
      u32 K.ME_NPI_REG_PCSR_MASK_MEM_CLEAR_EN_ALL_MASK ≠
        u32 K.ME_NPI_REG_PCSR_MASK_OD_MBIST_ASYNC_RESET_N_MASK →
      u32 K.ME_NPI_REG_PCSR_MASK_MEM_CLEAR_EN_ALL_MASK ≠
        u32 K.ME_NPI_REG_PCSR_MASK_OD_BIST_SETUP_1_MASK →
      u32 K.ME_NPI_REG_PCSR_MASK_MEM_CLEAR_EN_ALL_MASK ≠
        u32 K.ME_NPI_REG_PCSR_MASK_MEM_CLEAR_TRIGGER_MASK →
      (pcsrMaskAddr K DevBase, u32 K.ME_NPI_REG_PCSR_MASK_MEM_CLEAR_EN_ALL_MASK) ∉
        (regWrites (Aie2MbistClear K env PwrDomain Args NumOfArgs h).2).drop 2) := by
  rw [writes_Aie2MbistClear K env hwf hws hne DevBase hst PwrDomain Args NumOfArgs h hnot hs]
  refine ⟨rfl, rfl, fun hadr h1 h2 h3 => ?_⟩
  simp [pcsrWritePair, hadr, h1, h2, h3]

/-- C20 as amended, an instance: the sample environment. -/
theorem clear_enable_all_left_asserted_witness :
    (sampleConsts.XPM_REG_WRITE_FAILED ≠ sampleConsts.XST_FAILURE ∧
      sampleConsts.XPM_REG_WRITE_FAILED ≠ sampleConsts.XST_SUCCESS ∧
      sampleConsts.XST_FAILURE ≠ sampleConsts.XST_SUCCESS ∧
      (∀ h, (sampleEnv sampleConsts true 0xF70A0000 0xFFFFFFFF 0 0).XPmDevice_GetById h
        sampleConsts.PM_DEV_AIE = some 0xF70A0000) ∧
      sampleConsts.HOUSECLEAN_DISABLE_MBIST_CLEAR_MASK ≠
        ((sampleDomain 0 aie2Hooks).Domain.HcDisableMask &&&
          sampleConsts.HOUSECLEAN_DISABLE_MBIST_CLEAR_MASK) ∧
      (Aie2MbistClear sampleConsts (sampleEnv sampleConsts true 0xF70A0000 0xFFFFFFFF 0 0)
        (sampleDomain 0 aie2Hooks) (fun _ => 0) 0 []).1 = sampleConsts.XST_SUCCESS) ∧
    (regWrites (Aie2MbistClear sampleConsts
      (sampleEnv sampleConsts true 0xF70A0000 0xFFFFFFFF 0 0)
      (sampleDomain 0 aie2Hooks) (fun _ => 0) 0 []).2).take 2 =
      pcsrWritePair sampleConsts 0xF70A0000
        sampleConsts.ME_NPI_REG_PCSR_MASK_MEM_CLEAR_EN_ALL_MASK
        sampleConsts.ME_NPI_REG_PCSR_MASK_MEM_CLEAR_EN_ALL_MASK :=
  ⟨⟨by decide, by decide, by decide, sampleEnv_lookup _ _ _ _, by decide, by decide⟩,
   (clear_enable_all_left_asserted sampleConsts
     (sampleEnv sampleConsts true 0xF70A0000 0xFFFFFFFF 0 0) (by decide) (by decide)
     (by decide) 0xF70A0000 (sampleEnv_lookup _ _ _ _) (sampleDomain 0 aie2Hooks)
     (fun _ => 0) 0 [] (by decide) (by decide)).1⟩

end MbistClaims

/-! ## C21: the order of the register operations of Scan-Clear -/

section ScanClearOrder

variable (K : Consts) (env : Env) {α : Type}

end ScanClearOrder

section ScanClearOrder2

variable (K : Consts) (env : Env)

end ScanClearOrder2

section ScanClearOrder3

variable (K : Consts) (env : Env)

end ScanClearOrder3

/-! ## C26: tile base addresses are injective -/

section TileInjectivity

variable (K : Consts) (env : Env)

theorem init_default_geometry (AieDomain : XPm_AieDomain) (Id BaseAddress Parent : Nat)
    (Args : Nat → Nat) (NumArgs : Nat) (h : List Event) (hn : NumArgs < 3)
    (hid : K.PM_POWER_ME = Id ∨ K.PM_POWER_ME2 = Id) :
    (XPmAieDomain_Init K env AieDomain Id BaseAddress Parent Args NumArgs h).1.2.Array.StartRow +
        (XPmAieDomain_Init K env AieDomain Id BaseAddress Parent Args NumArgs
          h).1.2.Array.NumRows ≤ 32 ∧
    (XPmAieDomain_Init K env AieDomain Id BaseAddress Parent Args NumArgs h).1.2.Array.StartCol +
        (XPmAieDomain_Init K env AieDomain Id BaseAddress Parent Args NumArgs
          h).1.2.Array.NumCols < 2 ^ 16 := by
  have hn3 : ¬ 3 ≤ NumArgs := by omega
  by_cases h1 : K.PM_POWER_ME = Id
  · simp only [XPmAieDomain_Init, h1, if_true, run_bind, run_pure, withDomain, hn3, if_false,
      aie1DefaultGeometry]
    split <;> split <;> simp
  · have h2 : K.PM_POWER_ME2 = Id := hid.resolve_left h1
    simp only [XPmAieDomain_Init, h1, h2, if_true, if_false, run_bind, run_pure, withDomain,
      hn3, aie2DefaultGeometry]
    split <;> simp

/-- C26: tile base addresses are injective for 16-bit columns and rows below 32.  For
both generations (shifts 23/18 and 25/20), when the sums `NocAddress + col * 2^23 +
row * 2^18` (Generation 2: `2^25`, `2^20`) of the two tiles do not wrap past `2^64`, equal
addresses come only from equal tiles, and the address grows strictly with `(col, row)` in
lexicographic order.  With row 32 injectivity fails: tile `(c, 32)` is at the address of
tile `(c + 1, 0)`.  Every default geometry stored by `XPmAieDomain_Init` (fewer than three
arguments, a recognised identity) has `StartRow + NumRows ≤ 32` and 16-bit columns. -/
theorem tile_baddr_injective (NocAddress c1 r1 c2 r2 : Nat) (hc1 : c1 < 2 ^ 16)
    (hc2 : c2 < 2 ^ 16) (hr1 : r1 < 32) (hr2 : r2 < 32) :
    (NocAddress + c1 * 2 ^ 23 + r1 * 2 ^ 18 < 2 ^ 64 →
      NocAddress + c2 * 2 ^ 23 + r2 * 2 ^ 18 < 2 ^ 64 →
      (AIE1_TILE_BADDR NocAddress c1 r1 = AIE1_TILE_BADDR NocAddress c2 r2 →
        c1 = c2 ∧ r1 = r2) ∧
      (c1 < c2 ∨ (c1 = c2 ∧ r1 < r2) →
        AIE1_TILE_BADDR NocAddress c1 r1 < AIE1_TILE_BADDR NocAddress c2 r2)) ∧
    (NocAddress + c1 * 2 ^ 25 + r1 * 2 ^ 20 < 2 ^ 64 →
      NocAddress + c2 * 2 ^ 25 + r2 * 2 ^ 20 < 2 ^ 64 →
      (AIE2_TILE_BADDR NocAddress c1 r1 = AIE2_TILE_BADDR NocAddress c2 r2 →
        c1 = c2 ∧ r1 = r2) ∧
      (c1 < c2 ∨ (c1 = c2 ∧ r1 < r2) →
        AIE2_TILE_BADDR NocAddress c1 r1 < AIE2_TILE_BADDR NocAddress c2 r2)) ∧
    AIE1_TILE_BADDR NocAddress c1 32 = AIE1_TILE_BADDR NocAddress (c1 + 1) 0 ∧
    AIE2_TILE_BADDR NocAddress c1 32 = AIE2_TILE_BADDR NocAddress (c1 + 1) 0 ∧
    (∀ (AieDomain : XPm_AieDomain) (Id BaseAddress Parent : Nat) (Args : Nat → Nat)
        (NumArgs : Nat) (h : List Event), NumArgs < 3 →
      K.PM_POWER_ME = Id ∨ K.PM_POWER_ME2 = Id →
      (XPmAieDomain_Init K env AieDomain Id BaseAddress Parent Args NumArgs
          h).1.2.Array.StartRow +
        (XPmAieDomain_Init K env AieDomain Id BaseAddress Parent Args NumArgs
          h).1.2.Array.NumRows ≤ 32 ∧
      (XPmAieDomain_Init K env AieDomain Id BaseAddress Parent Args NumArgs
          h).1.2.Array.StartCol +
        (XPmAieDomain_Init K env AieDomain Id BaseAddress Parent Args NumArgs
          h).1.2.Array.NumCols < 2 ^ 16) := by
  refine ⟨?_, ?_, ?_, ?_, fun AieDomain Id BaseAddress Parent Args NumArgs h hn hid =>
    init_default_geometry K env AieDomain Id BaseAddress Parent Args NumArgs h hn hid⟩
  · intro h1 h2
    simp only [AIE1_TILE_BADDR, u64, COL_SHIFT, ROW_SHIFT, Nat.shiftLeft_eq]
    constructor
    · intro he
      omega
    · intro hlt
      omega
  · intro h1 h2
    simp only [AIE2_TILE_BADDR, u64, AIE2_COL_SHIFT, AIE2_ROW_SHIFT, Nat.shiftLeft_eq]
    constructor
    · intro he
      omega
    · intro hlt
      omega
  · simp only [AIE1_TILE_BADDR, u64, COL_SHIFT, ROW_SHIFT, Nat.shiftLeft_eq]
    omega
  · simp only [AIE2_TILE_BADDR, u64, AIE2_COL_SHIFT, AIE2_ROW_SHIFT, Nat.shiftLeft_eq]
    omega

/-- C26, an instance: the Generation-1 tiles (1, 2) and (1, 3) over the NoC address
`0x20000000000` of the sample constants. -/
theorem tile_baddr_injective_witness :
    ((1 : Nat) < 2 ^ 16 ∧ (2 : Nat) < 32 ∧ (3 : Nat) < 32) ∧
    AIE1_TILE_BADDR 0x20000000000 1 2 < AIE1_TILE_BADDR 0x20000000000 1 3 ∧
    AIE1_TILE_BADDR 0x20000000000 1 32 = AIE1_TILE_BADDR 0x20000000000 2 0 :=
  ⟨⟨by decide, by decide, by decide⟩,
   ((tile_baddr_injective sampleConsts (sampleEnv sampleConsts true 0xF70A0000 0xFFFFFFFF 0 0)
      0x20000000000 1 2 1 3 (by decide) (by decide) (by decide) (by decide)).1
      (by decide) (by decide)).2 (Or.inr ⟨rfl, by decide⟩),
   (tile_baddr_injective sampleConsts (sampleEnv sampleConsts true 0xF70A0000 0xFFFFFFFF 0 0)
      0x20000000000 1 2 1 3 (by decide) (by decide) (by decide) (by decide)).2.2.1⟩

end TileInjectivity

/-! ## C23: the range and the effect of the Generation-1 clock gating -/

section TileLoops

variable (K : Consts) (env : Env)

theorem not32_lt (x : Nat) : not32 x < 2 ^ 32 := by
  unfold not32
  omega

theorem not32_testBit (x i : Nat) :
    (not32 x).testBit i = (decide (i < 32) && !(u32 x).testBit i) := by
  have hx : u32 x < 2 ^ 32 := Nat.mod_lt _ (by decide)
  have h := Nat.testBit_two_pow_sub_succ hx i
  have he : not32 x = 2 ^ 32 - (u32 x + 1) := by
    unfold not32
    omega
  rw [he, h]

theorem u32_and_not32 (x : Nat) : u32 x &&& not32 x = 0 := by
  apply Nat.eq_of_testBit_eq
  intro i
  rw [Nat.testBit_and, not32_testBit, Nat.zero_testBit]
  cases (u32 x).testBit i <;> simp

theorem u32_of_lt {x : Nat} (hx : x < 2 ^ 32) : u32 x = x := Nat.mod_eq_of_lt hx

theorem and_lt_of_right (a : Nat) {b n : Nat} (hb : b < 2 ^ n) : a &&& b < 2 ^ n :=
  lt_of_le_of_lt Nat.and_le_right hb

theorem mem_loopPairs (lo1 hi1 lo2 hi2 i j : Nat) :
    (i, j) ∈ loopPairs lo1 hi1 lo2 hi2 ↔ (lo1 ≤ i ∧ i < hi1) ∧ (lo2 ≤ j ∧ j < hi2) := by
  simp only [loopPairs, List.mem_flatMap, List.mem_map, List.mem_range'_1, Prod.mk.injEq]
  constructor
  · rintro ⟨a, ha, b, hb, rfl, rfl⟩
    omega
  · intro hh
    exact ⟨i, by omega, j, by omega, rfl, rfl⟩

theorem nodup_loopPairs (lo1 hi1 lo2 hi2 : Nat) : (loopPairs lo1 hi1 lo2 hi2).Nodup := by
  unfold loopPairs
  rw [List.nodup_flatMap]
  constructor
  · intro i _
    exact (List.nodup_range' _ _).map fun a b hab => (Prod.mk.inj hab).2
  · refine (List.nodup_range' lo1 (hi1 - lo1)).imp ?_
    intro a b hab
    simp only [Function.onFun]
    intro t hta htb
    simp only [List.mem_map] at hta htb
    obtain ⟨_, _, rfl⟩ := hta
    obtain ⟨_, _, he⟩ := htb
    exact hab (Prod.mk.inj he).1.symm

theorem run_forLoop_succ (body : Nat → M Unit) (n i : Nat) (h : List Event) :
    (forLoop body (n + 1) i h).2 = (body i h).2 ++ (forLoop body n (i + 1) (h ++ (body i h).2)).2 :=
  rfl

theorem forLoop_rel {β : Type} (P : List β → List Event → Prop) (hnil : P [] [])
    (happ : ∀ a b e1 e2, P a e1 → P b e2 → P (a ++ b) (e1 ++ e2))
    {body : Nat → M Unit} {f : Nat → List β} (hb : ∀ i h, P (f i) (body i h).2)
    (n i : Nat) (h : List Event) :
    P ((List.range' i n).flatMap f) (forLoop body n i h).2 := by
  induction n generalizing i h with
  | zero => exact hnil
  | succ n ih =>
    rw [run_forLoop_succ, List.range'_succ, List.flatMap_cons]
    exact happ _ _ _ _ (hb i h) (ih _ _)

theorem forRange_rel {β : Type} (P : List β → List Event → Prop) (hnil : P [] [])
    (happ : ∀ a b e1 e2, P a e1 → P b e2 → P (a ++ b) (e1 ++ e2))
    {body : Nat → M Unit} {f : Nat → List β} (hb : ∀ i h, P (f i) (body i h).2)
    (lo hi : Nat) (h : List Event) :
    P ((List.range' lo (hi - lo)).flatMap f) (forRange lo hi body h).2 :=
  forLoop_rel P hnil happ hb _ _ h

theorem rmwClears_append (Mask : Nat) (a b : List Nat) (e1 e2 : List Event)
    (h1 : RmwClears Mask a e1) (h2 : RmwClears Mask b e2) :
    RmwClears Mask (a ++ b) (e1 ++ e2) := by
  induction a generalizing e1 with
  | nil =>
    simp only [RmwClears] at h1
    subst h1
    exact h2
  | cons x a ih =>
    match e1, h1 with
    | Event.lwea a1 v :: Event.swea a2 w :: evs, h1 =>
      simp only [RmwClears] at h1
      obtain ⟨r1, r2, r3, r4, r5⟩ := h1
      simp only [List.cons_append, RmwClears]
      exact ⟨r1, r2, r3, r4, ih _ r5⟩

theorem rmwClears_AieRMW64 (addr Mask : Nat) (h : List Event) :
    RmwClears Mask [u64 addr] (AieRMW64 env addr Mask (not32 Mask) h).2 := by
  have hn := not32_lt Mask
  have hv : ∀ v : Nat, u32 ((v &&& not32 Mask) ||| (u32 Mask &&& u32 (not32 Mask))) =
      v &&& not32 Mask := by
    intro v
    rw [u32_of_lt hn, u32_and_not32, Nat.or_zero, u32_of_lt (and_lt_of_right v hn)]
  have h1 : ∀ v : Nat, (v &&& not32 Mask) &&& u32 Mask = 0 := by
    intro v
    rw [Nat.and_assoc, Nat.and_comm (not32 Mask), u32_and_not32, Nat.and_zero]
  have h2 : ∀ v : Nat, (v &&& not32 Mask) &&& not32 Mask = v &&& not32 Mask := by
    intro v
    rw [Nat.and_assoc, Nat.and_self]
  simp only [AieRMW64, AieRead64, AieWrite64, run_bind, run_emit, List.singleton_append,
    RmwClears, hv, h1, h2, and_self]

end TileLoops

section ClkGate

variable (K : Consts) (env : Env)

theorem map_loopPairs {β : Type} (g : Nat × Nat → β) (lo1 hi1 lo2 hi2 : Nat) :
    (loopPairs lo1 hi1 lo2 hi2).map g =
      (List.range' lo1 (hi1 - lo1)).flatMap fun i =>
        (List.range' lo2 (hi2 - lo2)).flatMap fun j => [g (i, j)] := by
  unfold loopPairs
  induction List.range' lo1 (hi1 - lo1) with
  | nil => rfl
  | cons i l ih =>
    rw [List.flatMap_cons, List.map_append, ih, List.flatMap_cons, List.map_map]
    congr 1
    induction List.range' lo2 (hi2 - lo2) with
    | nil => rfl
    | cons j l2 ih2 =>
      rw [List.map_cons, List.flatMap_cons, ih2]
      rfl

theorem init_columns_fit (AieDomain : XPm_AieDomain) (Id BaseAddress Parent : Nat)
    (Args : Nat → Nat) (NumArgs : Nat) (h : List Event)
    (hid : K.PM_POWER_ME = Id ∨ K.PM_POWER_ME2 = Id) :
    (XPmAieDomain_Init K env AieDomain Id BaseAddress Parent Args NumArgs h).1.2.Array.StartCol +
        (XPmAieDomain_Init K env AieDomain Id BaseAddress Parent Args NumArgs
          h).1.2.Array.NumCols < 2 ^ 16 := by
  by_cases hn : NumArgs < 3
  · exact (init_default_geometry K env AieDomain Id BaseAddress Parent Args NumArgs h hn hid).2
  · have hn3 : 3 ≤ NumArgs := by omega
    have hu : ∀ x, u16 x < 2 ^ 16 := fun x => Nat.mod_lt _ (by decide)
    by_cases h1 : K.PM_POWER_ME = Id
    · simp only [XPmAieDomain_Init, h1, if_true, run_bind, run_pure, withDomain, hn3,
        topologyGeometry, Nat.zero_add]
      exact hu _
    · have h2 : K.PM_POWER_ME2 = Id := hid.resolve_left h1
      simp only [XPmAieDomain_Init, h1, h2, if_true, if_false, run_bind, run_pure, withDomain,
        hn3, topologyGeometry, Nat.zero_add]
      exact hu _

/-- C23: the range and the effect of the Generation-1 clock gating.  For a geometry whose
16-bit fields give a column bound `StartCol + NumCols` that fits 16 bits, the events of
`AieClkGateByCol` are exactly one read-modify-write per pair `(row, col)` with `row` in
`[0, NumShimRows)` and `col` in `[StartCol, StartCol + NumCols)`, each pair once, at
`AIE1_TILE_BADDR(NocAddress, col, row) + AIE_TILE_CLOCK_CONTROL_OFFSET`; the value written
has the CLK_BUFF_EN bits clear and every other bit as it was read; no tile with
`row ≥ NumShimRows` is visited.  Every geometry stored by `XPmAieDomain_Init` for a
recognised identity has such a column bound. -/
theorem clk_gate_by_col (AieDomain : XPm_AieDomain) (h : List Event)
    (hcols : AieDomain.Array.StartCol + AieDomain.Array.NumCols < 2 ^ 16)
    (hshim : AieDomain.Array.NumShimRows < 2 ^ 16) :
    RmwClears K.AIE_TILE_CLOCK_CONTROL_CLK_BUFF_EN_MASK
      ((loopPairs 0 AieDomain.Array.NumShimRows AieDomain.Array.StartCol
          (AieDomain.Array.StartCol + AieDomain.Array.NumCols)).map fun t =>
        u64 (AIE1_TILE_BADDR AieDomain.Array.NocAddress t.2 t.1 +
          K.AIE_TILE_CLOCK_CONTROL_OFFSET))
      (AieClkGateByCol K env AieDomain h).2 ∧
    (loopPairs 0 AieDomain.Array.NumShimRows AieDomain.Array.StartCol
      (AieDomain.Array.StartCol + AieDomain.Array.NumCols)).Nodup ∧
    (∀ row col, (row, col) ∈ loopPairs 0 AieDomain.Array.NumShimRows
        AieDomain.Array.StartCol (AieDomain.Array.StartCol + AieDomain.Array.NumCols) ↔
      (AieDomain.Array.StartCol ≤ col ∧
        col < AieDomain.Array.StartCol + AieDomain.Array.NumCols) ∧
      row < AieDomain.Array.NumShimRows) ∧
    (∀ (D : XPm_AieDomain) (Id BaseAddress Parent : Nat) (Args : Nat → Nat) (NumArgs : Nat)
        (h0 : List Event), K.PM_POWER_ME = Id ∨ K.PM_POWER_ME2 = Id →
      (XPmAieDomain_Init K env D Id BaseAddress Parent Args NumArgs h0).1.2.Array.StartCol +
        (XPmAieDomain_Init K env D Id BaseAddress Parent Args NumArgs
          h0).1.2.Array.NumCols < 2 ^ 16) := by
  refine ⟨?_, nodup_loopPairs _ _ _ _, fun row col => ?_, fun D Id BaseAddress Parent Args
    NumArgs h0 hid => init_columns_fit K env D Id BaseAddress Parent Args NumArgs h0 hid⟩
  · have e1 : u16 AieDomain.Array.StartCol = AieDomain.Array.StartCol :=
      Nat.mod_eq_of_lt (by omega)
    have e2 : u16 AieDomain.Array.NumCols = AieDomain.Array.NumCols :=
      Nat.mod_eq_of_lt (by omega)
    have e3 : u16 (AieDomain.Array.StartCol + AieDomain.Array.NumCols) =
        AieDomain.Array.StartCol + AieDomain.Array.NumCols := Nat.mod_eq_of_lt hcols
    have e4 : u16 AieDomain.Array.NumShimRows = AieDomain.Array.NumShimRows :=
      Nat.mod_eq_of_lt hshim
    rw [map_loopPairs]
    unfold AieClkGateByCol
    simp only [e1, e2, e3, e4]
    refine forRange_rel (RmwClears K.AIE_TILE_CLOCK_CONTROL_CLK_BUFF_EN_MASK) rfl
      (rmwClears_append _) (fun row h1 => ?_) _ _ h
    exact forRange_rel (RmwClears K.AIE_TILE_CLOCK_CONTROL_CLK_BUFF_EN_MASK) rfl
      (rmwClears_append _) (fun col h2 => rmwClears_AieRMW64 env _ _ h2) _ _ h1
  · rw [mem_loopPairs]
    constructor
    · rintro ⟨⟨_, hr⟩, hc⟩
      exact ⟨hc, hr⟩
    · rintro ⟨hc, hr⟩
      exact ⟨⟨Nat.zero_le _, hr⟩, hc⟩

/-- C23, an instance: the sample geometry (one column, one shim row) in the sample
environment. -/
theorem clk_gate_by_col_witness :
    ((sampleDomain 0 aie1Hooks).Array.StartCol + (sampleDomain 0 aie1Hooks).Array.NumCols <
        2 ^ 16 ∧
      (sampleDomain 0 aie1Hooks).Array.NumShimRows < 2 ^ 16) ∧
    RmwClears sampleConsts.AIE_TILE_CLOCK_CONTROL_CLK_BUFF_EN_MASK
      ((loopPairs 0 (sampleDomain 0 aie1Hooks).Array.NumShimRows
          (sampleDomain 0 aie1Hooks).Array.StartCol
          ((sampleDomain 0 aie1Hooks).Array.StartCol +
            (sampleDomain 0 aie1Hooks).Array.NumCols)).map fun t =>
        u64 (AIE1_TILE_BADDR (sampleDomain 0 aie1Hooks).Array.NocAddress t.2 t.1 +
          sampleConsts.AIE_TILE_CLOCK_CONTROL_OFFSET))
      (AieClkGateByCol sampleConsts (sampleEnv sampleConsts true 0xF70A0000 0xFFFFFFFF 0 0)
        (sampleDomain 0 aie1Hooks) []).2 :=
  ⟨⟨by decide, by decide⟩,
   (clk_gate_by_col sampleConsts (sampleEnv sampleConsts true 0xF70A0000 0xFFFFFFFF 0 0)
     (sampleDomain 0 aie1Hooks) [] (by decide) (by decide)).1⟩

end ClkGate

/-! ## C22: the regions zeroized by `Aie2MemInit` -/

section RegionLemmas

variable (K : Consts) (env : Env) {α β : Type}

theorem wordWriteAddrs_append (a b : List Event) :
    wordWriteAddrs (a ++ b) = wordWriteAddrs a ++ wordWriteAddrs b := by
  induction a with
  | nil => rfl
  | cons e a ih => cases e <;> simp [wordWriteAddrs, ih]

theorem ww_pure (a : α) : WordWrites (pure a : M α) [] := ⟨fun _ => rfl⟩

theorem ww_bind {m : M α} {f : α → M β} {w1 w2 : List Nat} (hm : WordWrites m w1)
    (hf : ∀ a, WordWrites (f a) w2) : WordWrites (m >>= f) (w1 ++ w2) := by
  refine ⟨fun h => ?_⟩
  rw [run_bind, wordWriteAddrs_append, hm.addrs, (hf _).addrs]

theorem ww_bind_nil {m : M α} {f : α → M β} {w : List Nat} (hm : WordWrites m [])
    (hf : ∀ a, WordWrites (f a) w) : WordWrites (m >>= f) w :=
  ww_bind hm hf

theorem ww_ite {c : Prop} [Decidable c] {a b : M α} {w : List Nat} (ha : c → WordWrites a w)
    (hb : ¬ c → WordWrites b w) : WordWrites (if c then a else b) w := by
  split
  · exact ha ‹_›
  · exact hb ‹_›

theorem ww_AieRead64 (addr : Nat) : WordWrites (AieRead64 env addr) [] := ⟨fun _ => rfl⟩

theorem ww_AieWrite64 (addr val : Nat) : WordWrites (AieWrite64 addr val) [u64 addr] :=
  ⟨fun _ => rfl⟩

theorem ww_AieRMW64 (addr Mask Value : Nat) :
    WordWrites (AieRMW64 env addr Mask Value) [u64 addr] := ⟨fun _ => rfl⟩

theorem ww_RMW32 (a Mask Value : Nat) : WordWrites (XPm_RMW32 env a Mask Value) [] :=
  ⟨fun _ => rfl⟩

theorem ww_gotoDone (s : XStatus) (e : XPm_IntErr) : WordWrites (gotoDone s e) [] :=
  ⟨fun _ => rfl⟩

theorem ww_LockPcsr (b : Nat) : WordWrites (XPmAieDomain_LockPcsr b) [] := ⟨fun _ => rfl⟩

theorem ww_forRange {body : Nat → M Unit} {f : Nat → List Nat}
    (hb : ∀ i, WordWrites (body i) (f i)) (lo hi : Nat) :
    WordWrites (forRange lo hi body) ((List.range' lo (hi - lo)).flatMap f) := by
  refine ⟨fun h => ?_⟩
  refine forRange_rel (fun w evs => wordWriteAddrs evs = w) rfl ?_ (fun i h' => (hb i).addrs h')
    lo hi h
  intro a b e1 e2 h1 h2
  rw [wordWriteAddrs_append, h1, h2]

theorem ww_Aie2MemInit_poll (A : XPm_AieArray) (b col row mrow fuel : Nat)
    (mt cz mz : XStatus) (t : Nat) :
    WordWrites (Aie2MemInit_poll K env A b col row mrow fuel mt cz mz t) [] := by
  induction fuel generalizing mt cz mz t with
  | zero => exact ww_pure _
  | succ fuel ih =>
    unfold Aie2MemInit_poll
    refine ww_ite (fun _ => ?_) (fun _ => ww_bind_nil (ww_gotoDone _ _) fun _ => ww_pure _)
    refine ww_bind_nil (ww_AieRead64 env _) fun _ => ?_
    refine ww_bind_nil (ww_AieRead64 env _) fun _ => ?_
    refine ww_bind_nil (ww_AieRead64 env _) fun _ => ?_
    refine ww_ite (fun _ => ?_) (fun _ => ih _ _ _ _)
    exact ww_bind_nil (ww_LockPcsr _) fun _ => ww_bind_nil (ww_gotoDone _ _) fun _ => ww_pure _

theorem flatMap_loopPairs {γ : Type} (g : Nat × Nat → List γ) (lo1 hi1 lo2 hi2 : Nat) :
    (loopPairs lo1 hi1 lo2 hi2).flatMap g =
      (List.range' lo1 (hi1 - lo1)).flatMap fun i =>
        (List.range' lo2 (hi2 - lo2)).flatMap fun j => g (i, j) := by
  unfold loopPairs
  induction List.range' lo1 (hi1 - lo1) with
  | nil => rfl
  | cons i l ih =>
    rw [List.flatMap_cons, List.flatMap_append, ih, List.flatMap_cons]
    congr 1
    induction List.range' lo2 (hi2 - lo2) with
    | nil => rfl
    | cons j l2 ih2 =>
      rw [List.map_cons, List.flatMap_cons, List.flatMap_cons, ih2]

end RegionLemmas

section RegionClaim

variable (K : Consts) (env : Env)

theorem ww_Aie2MemInit_found (fuel : Nat) (PwrDomain : XPm_AieDomain) (Args : Nat → Nat)
    (NumOfArgs : Nat) (h : List Event) (DevBase : Nat)
    (hl : env.XPmDevice_GetById h K.PM_DEV_AIE = some DevBase) :
    wordWriteAddrs (Aie2MemInit K env fuel PwrDomain Args NumOfArgs h).2 =
      ((List.range' (u16 PwrDomain.Array.StartCol)
          (u16 (u16 PwrDomain.Array.StartCol + u16 PwrDomain.Array.NumCols) -
            u16 PwrDomain.Array.StartCol)).flatMap fun col =>
        (List.range' (u16 PwrDomain.Array.StartRow)
          (u16 (u16 PwrDomain.Array.StartRow + u16 PwrDomain.Array.NumMemRows) -
            u16 PwrDomain.Array.StartRow)).flatMap fun row =>
          [u64 (AIE2_TILE_BADDR PwrDomain.Array.NocAddress col row +
            K.AIE2_MEM_TILE_MODULE_MEM_CTRL_OFFSET)]) ++
      (((List.range' (u16 PwrDomain.Array.StartCol)
          (u16 (u16 PwrDomain.Array.StartCol + u16 PwrDomain.Array.NumCols) -
            u16 PwrDomain.Array.StartCol)).flatMap fun col =>
        (List.range' (u16 (u16 PwrDomain.Array.StartRow + u16 PwrDomain.Array.NumMemRows))
          (u16 (u16 PwrDomain.Array.StartRow + u16 PwrDomain.Array.NumRows) -
            u16 (u16 PwrDomain.Array.StartRow + u16 PwrDomain.Array.NumMemRows))).flatMap
          fun row =>
          [u64 (AIE2_TILE_BADDR PwrDomain.Array.NocAddress col row +
              K.AIE2_CORE_MODULE_MEM_CTRL_OFFSET)] ++
            [u64 (AIE2_TILE_BADDR PwrDomain.Array.NocAddress col row +
              K.AIE2_MEM_MODULE_MEM_CTRL_OFFSET)]) ++ []) := by
  unfold Aie2MemInit
  rw [run_lookup_bind, hl]
  dsimp only
  refine WordWrites.addrs ?_ h
  refine ww_bind_nil (ww_RMW32 env _ _ _) fun _ => ?_
  refine ww_bind ?_ fun _ => ?_
  · refine ww_forRange (fun col => ?_) _ _
    refine ww_forRange (fun row => ?_) _ _
    exact ww_AieRMW64 env _ _ _
  refine ww_bind ?_ fun _ => ?_
  · refine ww_forRange (fun col => ?_) _ _
    refine ww_forRange (fun row => ?_) _ _
    exact ww_bind (ww_AieWrite64 _ _) fun _ => ww_AieWrite64 _ _
  exact ww_Aie2MemInit_poll K env _ _ _ _ _ _ _ _ _ _

/-- C22: the region partition of `Aie2MemInit`.  For a geometry with
`NumMemRows ≤ NumRows` whose sums `StartCol + NumCols` and `StartRow + NumRows` fit 16 bits,
on a run that finds the device, the word writes of the step go, in order, to the
memory-tile control register of every tile of the memory-tile region (rows
`[StartRow, StartRow + NumMemRows)`) and then to the core-module and memory-module control
registers of every tile of the core region (rows
`[StartRow + NumMemRows, StartRow + NumRows)`), and to nothing else.  The two regions have
no tile in common, no tile occurs twice, and together they are exactly the array
`[StartCol, StartCol + NumCols) × [StartRow, StartRow + NumRows)`; when `StartRow` is at
least `NumShimRows` no tile of a shim row is among them. -/
theorem mem_init_region_partition (fuel : Nat) (PwrDomain : XPm_AieDomain) (Args : Nat → Nat)
    (NumOfArgs : Nat) (h : List Event) (DevBase : Nat)
    (hl : env.XPmDevice_GetById h K.PM_DEV_AIE = some DevBase)
    (hcols : PwrDomain.Array.StartCol + PwrDomain.Array.NumCols < 2 ^ 16)
    (hrows : PwrDomain.Array.StartRow + PwrDomain.Array.NumRows < 2 ^ 16)
    (hmem : PwrDomain.Array.NumMemRows ≤ PwrDomain.Array.NumRows) :
    wordWriteAddrs (Aie2MemInit K env fuel PwrDomain Args NumOfArgs h).2 =
      ((memTileRegion PwrDomain.Array).map fun t =>
        u64 (AIE2_TILE_BADDR PwrDomain.Array.NocAddress t.1 t.2 +
          K.AIE2_MEM_TILE_MODULE_MEM_CTRL_OFFSET)) ++
      ((coreRegion PwrDomain.Array).flatMap fun t =>
        [u64 (AIE2_TILE_BADDR PwrDomain.Array.NocAddress t.1 t.2 +
            K.AIE2_CORE_MODULE_MEM_CTRL_OFFSET),
         u64 (AIE2_TILE_BADDR PwrDomain.Array.NocAddress t.1 t.2 +
            K.AIE2_MEM_MODULE_MEM_CTRL_OFFSET)]) ∧
    (memTileRegion PwrDomain.Array ++ coreRegion PwrDomain.Array).Nodup ∧
    (∀ col row, (col, row) ∈ memTileRegion PwrDomain.Array → (col, row) ∉
      coreRegion PwrDomain.Array) ∧
    (∀ col row, (col, row) ∈ memTileRegion PwrDomain.Array ↔
      (PwrDomain.Array.StartCol ≤ col ∧
        col < PwrDomain.Array.StartCol + PwrDomain.Array.NumCols) ∧
      (PwrDomain.Array.StartRow ≤ row ∧
        row < PwrDomain.Array.StartRow + PwrDomain.Array.NumMemRows)) ∧
    (∀ col row, (col, row) ∈ coreRegion PwrDomain.Array ↔
      (PwrDomain.Array.StartCol ≤ col ∧
        col < PwrDomain.Array.StartCol + PwrDomain.Array.NumCols) ∧
      (PwrDomain.Array.StartRow + PwrDomain.Array.NumMemRows ≤ row ∧
        row < PwrDomain.Array.StartRow + PwrDomain.Array.NumRows)) ∧
    (∀ col row, (col, row) ∈ memTileRegion PwrDomain.Array ++ coreRegion PwrDomain.Array ↔
      (PwrDomain.Array.StartCol ≤ col ∧
        col < PwrDomain.Array.StartCol + PwrDomain.Array.NumCols) ∧
      (PwrDomain.Array.StartRow ≤ row ∧
        row < PwrDomain.Array.StartRow + PwrDomain.Array.NumRows)) ∧
    (PwrDomain.Array.NumShimRows ≤ PwrDomain.Array.StartRow →
      ∀ col row, (col, row) ∈ memTileRegion PwrDomain.Array ++ coreRegion PwrDomain.Array →
        ¬ row < PwrDomain.Array.NumShimRows) := by
  have hdisj : ∀ col row, (col, row) ∈ memTileRegion PwrDomain.Array → (col, row) ∉
      coreRegion PwrDomain.Array := by
    intro col row h1 h2
    rw [memTileRegion, mem_loopPairs] at h1
    rw [coreRegion, mem_loopPairs] at h2
    omega
  have hunion : ∀ col row,
      (col, row) ∈ memTileRegion PwrDomain.Array ++ coreRegion PwrDomain.Array ↔
      (PwrDomain.Array.StartCol ≤ col ∧
        col < PwrDomain.Array.StartCol + PwrDomain.Array.NumCols) ∧
      (PwrDomain.Array.StartRow ≤ row ∧
        row < PwrDomain.Array.StartRow + PwrDomain.Array.NumRows) := by
    intro col row
    rw [List.mem_append, memTileRegion, coreRegion, mem_loopPairs, mem_loopPairs]
    omega
  refine ⟨?_, ?_, hdisj, fun col row => mem_loopPairs _ _ _ _ _ _,
    fun col row => mem_loopPairs _ _ _ _ _ _, hunion, fun hshim col row hm => ?_⟩
  · have e1 : u16 PwrDomain.Array.StartCol = PwrDomain.Array.StartCol :=
      Nat.mod_eq_of_lt (by omega)
    have e2 : u16 PwrDomain.Array.NumCols = PwrDomain.Array.NumCols :=
      Nat.mod_eq_of_lt (by omega)
    have e3 : u16 (PwrDomain.Array.StartCol + PwrDomain.Array.NumCols) =
        PwrDomain.Array.StartCol + PwrDomain.Array.NumCols := Nat.mod_eq_of_lt hcols
    have e4 : u16 PwrDomain.Array.StartRow = PwrDomain.Array.StartRow :=
      Nat.mod_eq_of_lt (by omega)
    have e5 : u16 PwrDomain.Array.NumRows = PwrDomain.Array.NumRows :=
      Nat.mod_eq_of_lt (by omega)
    have e6 : u16 PwrDomain.Array.NumMemRows = PwrDomain.Array.NumMemRows :=
      Nat.mod_eq_of_lt (by omega)
    have e7 : u16 (PwrDomain.Array.StartRow + PwrDomain.Array.NumRows) =
        PwrDomain.Array.StartRow + PwrDomain.Array.NumRows := Nat.mod_eq_of_lt hrows
    have e8 : u16 (PwrDomain.Array.StartRow + PwrDomain.Array.NumMemRows) =
        PwrDomain.Array.StartRow + PwrDomain.Array.NumMemRows :=
      Nat.mod_eq_of_lt (by omega)
    rw [ww_Aie2MemInit_found K env fuel PwrDomain Args NumOfArgs h DevBase hl, memTileRegion,
      coreRegion, map_loopPairs, flatMap_loopPairs]
    simp only [e1, e2, e3, e4, e5, e6, e7, e8, List.append_nil, List.singleton_append]
  · rw [List.nodup_append]
    exact ⟨nodup_loopPairs _ _ _ _, nodup_loopPairs _ _ _ _, fun t h1 h2 => hdisj t.1 t.2 h1 h2⟩
  · have hm2 := (hunion col row).1 hm
    omega

/-- C22, an instance: the sample geometry (one column, rows 1 and 2, one memory row) in the
sample environment; the memory tile is (0, 1) and the core tile (0, 2). -/
theorem mem_init_region_partition_witness :
    ((sampleEnv sampleConsts true 0xF70A0000 0xFFFFFFFF 0 0).XPmDevice_GetById []
        sampleConsts.PM_DEV_AIE = some 0xF70A0000 ∧
      (sampleDomain 0 aie2Hooks).Array.StartCol + (sampleDomain 0 aie2Hooks).Array.NumCols <
        2 ^ 16 ∧
      (sampleDomain 0 aie2Hooks).Array.StartRow + (sampleDomain 0 aie2Hooks).Array.NumRows <
        2 ^ 16 ∧
      (sampleDomain 0 aie2Hooks).Array.NumMemRows ≤ (sampleDomain 0 aie2Hooks).Array.NumRows) ∧
    wordWriteAddrs (Aie2MemInit sampleConsts
        (sampleEnv sampleConsts true 0xF70A0000 0xFFFFFFFF 0 0) 2 (sampleDomain 0 aie2Hooks)
        (fun _ => 0) 0 []).2 =
      ((memTileRegion (sampleDomain 0 aie2Hooks).Array).map fun t =>
        u64 (AIE2_TILE_BADDR (sampleDomain 0 aie2Hooks).Array.NocAddress t.1 t.2 +
          sampleConsts.AIE2_MEM_TILE_MODULE_MEM_CTRL_OFFSET)) ++
      ((coreRegion (sampleDomain 0 aie2Hooks).Array).flatMap fun t =>
        [u64 (AIE2_TILE_BADDR (sampleDomain 0 aie2Hooks).Array.NocAddress t.1 t.2 +
            sampleConsts.AIE2_CORE_MODULE_MEM_CTRL_OFFSET),
         u64 (AIE2_TILE_BADDR (sampleDomain 0 aie2Hooks).Array.NocAddress t.1 t.2 +
            sampleConsts.AIE2_MEM_MODULE_MEM_CTRL_OFFSET)]) :=
  ⟨⟨by decide, by decide, by decide, by decide⟩,
   (mem_init_region_partition sampleConsts
     (sampleEnv sampleConsts true 0xF70A0000 0xFFFFFFFF 0 0) 2 (sampleDomain 0 aie2Hooks)
     (fun _ => 0) 0 [] 0xF70A0000 (by decide) (by decide) (by decide) (by decide)).1⟩

end RegionClaim

/-! ## C27: the privileged-write bracket of Generation 2 -/

section PrivilegedWrite

/-- C27: the privileged-write bracket is left open by `Aie2MemInit`.  In the sample
environment (device at `0xF70A0000`, every word read as 0, so that the zeroization poll
ends at once) `Aie2MemInit` returns `XST_SUCCESS` and its only 32-bit register write sets
the PROTECTED_REG_EN bit of the register at `BaseAddress +
AIE2_NPI_ME_PROT_REG_CTRL_OFFSET`: the bit is never cleared.  On the same input
`Aie2ClockInit` and `Aie2ClockGate` write the register twice, setting the bit and then
clearing it. -/
theorem priv_write_left_open_by_mem_init :
    (Aie2MemInit sampleConsts (sampleEnv sampleConsts true 0xF70A0000 0xFFFFFFFF 0 0) 2
        (sampleDomain 0 aie2Hooks) (fun _ => 0) 0 []).1 = some sampleConsts.XST_SUCCESS ∧
    regWrites (Aie2MemInit sampleConsts (sampleEnv sampleConsts true 0xF70A0000 0xFFFFFFFF 0 0)
        2 (sampleDomain 0 aie2Hooks) (fun _ => 0) 0 []).2 =
      [(0xF70A0000 + sampleConsts.AIE2_NPI_ME_PROT_REG_CTRL_OFFSET,
        sampleConsts.ME_PROT_REG_CTRL_PROTECTED_REG_EN_MASK)] ∧
    regWrites (Aie2ClockInit sampleConsts (sampleEnv sampleConsts true 0xF70A0000 0xFFFFFFFF 0 0)
        (sampleDomain 0 aie2Hooks) 0xF70A0000 []).2 =
      [(0xF70A0000 + sampleConsts.AIE2_NPI_ME_PROT_REG_CTRL_OFFSET,
        sampleConsts.ME_PROT_REG_CTRL_PROTECTED_REG_EN_MASK),
       (0xF70A0000 + sampleConsts.AIE2_NPI_ME_PROT_REG_CTRL_OFFSET, 0)] ∧
    regWrites (Aie2ClockGate sampleConsts (sampleEnv sampleConsts true 0xF70A0000 0xFFFFFFFF 0 0)
        (sampleDomain 0 aie2Hooks) 0xF70A0000 []).2 =
      [(0xF70A0000 + sampleConsts.AIE2_NPI_ME_PROT_REG_CTRL_OFFSET,
        sampleConsts.ME_PROT_REG_CTRL_PROTECTED_REG_EN_MASK),
       (0xF70A0000 + sampleConsts.AIE2_NPI_ME_PROT_REG_CTRL_OFFSET, 0)] := by
  decide

end PrivilegedWrite

/-! ## C25: the order of the mutations of BISR -/

section BisrOrder

variable (K : Consts) (env : Env) {α β : Type}

theorem mr_pure {ret : α → XStatus} (a : α) : MutRel K ret (pure a : M α) (fun l => l = []) :=
  ⟨fun _ _ => rfl⟩

theorem mut_PmOut32 (a v : Nat) (h : List Event) :
    mutations (PmOut32 a v h).2 = [Event.Out32 (u32 a) (u32 v)] := rfl

theorem mut_RMW32 (a Mask Value : Nat) (h : List Event) :
    ∃ v, mutations (XPm_RMW32 env a Mask Value h).2 = [Event.Out32 (u32 a) v] :=
  ⟨_, rfl⟩

end BisrOrder

section BisrOrder2

variable (K : Consts) (env : Env) {α β : Type}

end BisrOrder2

section BisrOrderClaim

variable (K : Consts) (env : Env)

end BisrOrderClaim

/-! ## C24: the core memory initialisation of Generation 1 -/

section CoreInitLoops

variable (K : Consts) (env : Env) {ι : Type}

theorem run_forListE_cons (body : ι → M (Option XStatus)) (t : ι) (ts : List ι)
    (h : List Event) :
    forListE body (t :: ts) h =
      match (body t h).1 with
      | some s => (some s, (body t h).2)
      | none => ((forListE body ts (h ++ (body t h).2)).1,
          (body t h).2 ++ (forListE body ts (h ++ (body t h).2)).2) := by
  show (body t >>= fun r => match r with
    | some Status => pure (some Status)
    | none => forListE body ts) h = _
  rw [run_bind]
  cases (body t h).1 with
  | none => rfl
  | some s => simp [run_pure]

theorem forLoopE_eq_forListE (body : Nat → M (Option XStatus)) (n i : Nat) (h : List Event) :
    forLoopE body n i h = forListE body (List.range' i n) h := by
  induction n generalizing i h with
  | zero => rfl
  | succ n ih =>
    rw [List.range'_succ, run_forListE_cons]
    show (body i >>= fun r => match r with
      | some Status => pure (some Status)
      | none => forLoopE body n (i + 1)) h = _
    rw [run_bind]
    cases (body i h).1 with
    | none => simp only [ih]
    | some s => simp [run_pure]

theorem forListE_append (body : ι → M (Option XStatus)) (a b : List ι) (h : List Event) :
    forListE body (a ++ b) h =
      match (forListE body a h).1 with
      | some s => (some s, (forListE body a h).2)
      | none => ((forListE body b (h ++ (forListE body a h).2)).1,
          (forListE body a h).2 ++ (forListE body b (h ++ (forListE body a h).2)).2) := by
  induction a generalizing h with
  | nil =>
    show forListE body b h = ((forListE body b (h ++ [])).1, [] ++ (forListE body b (h ++ [])).2)
    rw [List.append_nil]
    rfl
  | cons t a ih =>
    rw [List.cons_append, run_forListE_cons, run_forListE_cons]
    cases hr : (body t h).1 with
    | some s => rfl
    | none =>
      simp only [ih]
      cases (forListE body a (h ++ (body t h).2)).1 with
      | some s => rfl
      | none => simp only [List.append_assoc]

theorem forListE_map {κ : Type} (g : κ → M (Option XStatus)) (f : ι → κ) (l : List ι)
    (h : List Event) : forListE g (l.map f) h = forListE (fun j => g (f j)) l h := by
  induction l generalizing h with
  | nil => rfl
  | cons t l ih =>
    rw [List.map_cons, run_forListE_cons, run_forListE_cons]
    cases (g (f t) h).1 with
    | some s => rfl
    | none => simp only [ih]

theorem forListE_pairs (g : Nat × Nat → M (Option XStatus)) (l1 l2 : List Nat)
    (h : List Event) :
    forListE (fun i => forListE (fun j => g (i, j)) l2) l1 h =
      forListE g (l1.flatMap fun i => l2.map fun j => (i, j)) h := by
  induction l1 generalizing h with
  | nil => rfl
  | cons i l1 ih =>
    rw [List.flatMap_cons, forListE_append, run_forListE_cons, forListE_map]
    cases (forListE (fun j => g (i, j)) l2 h).1 with
    | some s => rfl
    | none => simp only [ih]

theorem forListE_outcome {body : ι → M (Option XStatus)} (st : ι → List Event → XStatus)
    (ok : ι → List Event) (bad : ι → XStatus → List Event)
    (hb : ∀ t h, body t h = if st t h = K.XST_SUCCESS then (none, ok t)
      else (some (st t h), bad t (st t h)))
    (T : List ι) (h : List Event) :
    forListE body T h = (none, T.flatMap ok) ∨
    ∃ pre t post, T = pre ++ t :: post ∧ st t (h ++ pre.flatMap ok) ≠ K.XST_SUCCESS ∧
      forListE body T h = (some (st t (h ++ pre.flatMap ok)),
        pre.flatMap ok ++ bad t (st t (h ++ pre.flatMap ok))) := by
  induction T generalizing h with
  | nil => exact Or.inl rfl
  | cons t T ih =>
    rw [run_forListE_cons, hb t h]
    by_cases hs : st t h = K.XST_SUCCESS
    · rw [if_pos hs]
      rcases ih (h ++ ok t) with h1 | ⟨pre, t', post, hT, hne, hrun⟩
      · left
        simp only [h1, List.flatMap_cons]
      · right
        refine ⟨t :: pre, t', post, by rw [hT]; rfl, ?_, ?_⟩
        · rw [List.flatMap_cons, ← List.append_assoc]
          exact hne
        · simp only [hrun, List.flatMap_cons, List.append_assoc]
    · rw [if_neg hs]
      right
      refine ⟨[], t, T, rfl, ?_, ?_⟩
      · rw [List.flatMap_nil, List.append_nil]
        exact hs
      · simp only [List.flatMap_nil, List.append_nil, List.nil_append]

end CoreInitLoops

section CoreInitClaim

variable (K : Consts) (env : Env)

theorem run_pairLoopsE (g : Nat × Nat → M (Option XStatus)) (lo1 hi1 lo2 hi2 : Nat)
    (h : List Event) :
    (forRangeE lo1 hi1 fun col => forRangeE lo2 hi2 fun row => g (col, row)) h =
      forListE g (loopPairs lo1 hi1 lo2 hi2) h := by
  have hinner : (fun col => forRangeE lo2 hi2 fun row => g (col, row)) =
      fun col => forListE (fun row => g (col, row)) (List.range' lo2 (hi2 - lo2)) := by
    funext col h'
    exact forLoopE_eq_forListE _ _ _ h'
  rw [hinner]
  unfold forRangeE loopPairs
  rw [forLoopE_eq_forListE, forListE_pairs]

theorem run_coreBody (AieDomain : XPm_AieDomain) (t : Nat × Nat) (h : List Event) :
    (ProgramCore K env AieDomain t.1 t.2 ProgramMem ProgramMem.length >>= fun Status =>
      if K.XST_SUCCESS ≠ Status then (pure (some Status) : M (Option XStatus))
      else AieCoreEnable K AieDomain t.1 t.2 >>= fun _ => pure none) h =
    if env.XPlmi_DmaXfr h ProgramMem (programMemAddr K AieDomain.Array t) 40 K.XPLMI_PMCDMA_0 =
        K.XST_SUCCESS then (none, coreInitEvents K AieDomain.Array t)
    else (some (env.XPlmi_DmaXfr h ProgramMem (programMemAddr K AieDomain.Array t) 40
        K.XPLMI_PMCDMA_0),
      [Event.DmaXfr ProgramMem (programMemAddr K AieDomain.Array t) 40 K.XPLMI_PMCDMA_0
        (env.XPlmi_DmaXfr h ProgramMem (programMemAddr K AieDomain.Array t) 40
          K.XPLMI_PMCDMA_0)]) := by
  have hlen : ProgramMem.length = 40 := rfl
  rw [run_bind]
  simp only [ProgramCore, XPlmi_DmaXfr, hlen, programMemAddr]
  by_cases hs : env.XPlmi_DmaXfr h ProgramMem
      (u64 (AIE1_TILE_BADDR AieDomain.Array.NocAddress t.1 t.2 + K.AIE_PROGRAM_MEM_OFFSET)) 40
      K.XPLMI_PMCDMA_0 = K.XST_SUCCESS
  · rw [if_pos hs, hs, if_neg (fun hh => hh rfl)]
    rfl
  · rw [if_neg hs, if_pos (fun hh => hs hh.symm)]
    rfl

theorem bind_congr_left {α β : Type} {m m' : M α} (f : α → M β) (h : List Event)
    (hm : m h = m' h) : (m >>= f) h = (m' >>= f) h := by
  rw [run_bind, run_bind, hm]

theorem run_AieCoreMemInit (AieDomain : XPm_AieDomain) (h : List Event)
    (hcols : AieDomain.Array.StartCol + AieDomain.Array.NumCols < 2 ^ 16)
    (hrows : AieDomain.Array.StartRow + AieDomain.Array.NumRows < 2 ^ 16) :
    AieCoreMemInit K env AieDomain h =
      (forListE (fun t =>
          ProgramCore K env AieDomain t.1 t.2 ProgramMem ProgramMem.length >>= fun Status =>
            if K.XST_SUCCESS ≠ Status then (pure (some Status) : M (Option XStatus))
            else AieCoreEnable K AieDomain t.1 t.2 >>= fun _ => pure none)
        (arrayTiles AieDomain.Array) >>= fun r =>
        match r with
        | some Status => gotoDone Status .XPM_INT_ERR_PRGRM_CORE
        | none =>
          AieWaitForCoreDone K env AieDomain
            (u32 (AieDomain.Array.StartCol + AieDomain.Array.NumCols + 2 ^ 32 - 1))
            (u32 (AieDomain.Array.StartRow + AieDomain.Array.NumRows + 2 ^ 32 - 1)) >>=
          fun Status =>
            if K.XST_SUCCESS ≠ Status then
              gotoDone Status .XPM_INT_ERR_AIE_CORE_STATUS_TIMEOUT
            else gotoDone Status .XPM_INT_ERR_UNDEFINED) h := by
  have e1 : u16 AieDomain.Array.StartCol = AieDomain.Array.StartCol :=
    Nat.mod_eq_of_lt (by omega)
  have e2 : u16 AieDomain.Array.NumCols = AieDomain.Array.NumCols :=
    Nat.mod_eq_of_lt (by omega)
  have e3 : u16 (AieDomain.Array.StartCol + AieDomain.Array.NumCols) =
      AieDomain.Array.StartCol + AieDomain.Array.NumCols := Nat.mod_eq_of_lt hcols
  have e4 : u16 AieDomain.Array.StartRow = AieDomain.Array.StartRow :=
    Nat.mod_eq_of_lt (by omega)
  have e5 : u16 AieDomain.Array.NumRows = AieDomain.Array.NumRows :=
    Nat.mod_eq_of_lt (by omega)
  have e6 : u16 (AieDomain.Array.StartRow + AieDomain.Array.NumRows) =
      AieDomain.Array.StartRow + AieDomain.Array.NumRows := Nat.mod_eq_of_lt hrows
  unfold AieCoreMemInit
  simp only [e1, e2, e3, e4, e5, e6]
  exact bind_congr_left _ h (run_pairLoopsE (fun t =>
    ProgramCore K env AieDomain t.1 t.2 ProgramMem ProgramMem.length >>= fun Status =>
      if K.XST_SUCCESS ≠ Status then (pure (some Status) : M (Option XStatus))
      else AieCoreEnable K AieDomain t.1 t.2 >>= fun _ => pure none)
    AieDomain.Array.StartCol (AieDomain.Array.StartCol + AieDomain.Array.NumCols)
    AieDomain.Array.StartRow (AieDomain.Array.StartRow + AieDomain.Array.NumRows) h)

theorem coreMemInit_outcome (AieDomain : XPm_AieDomain) (h : List Event)
    (hcols : AieDomain.Array.StartCol + AieDomain.Array.NumCols < 2 ^ 16)
    (hrows : AieDomain.Array.StartRow + AieDomain.Array.NumRows < 2 ^ 16) :
    (∃ st, AieCoreMemInit K env AieDomain h =
      (st, (arrayTiles AieDomain.Array).flatMap (coreInitEvents K AieDomain.Array) ++
        coreDonePoll K AieDomain.Array st)) ∨
    (∃ pre t post s, arrayTiles AieDomain.Array = pre ++ t :: post ∧ s ≠ K.XST_SUCCESS ∧
      s = env.XPlmi_DmaXfr (h ++ pre.flatMap (coreInitEvents K AieDomain.Array)) ProgramMem
        (programMemAddr K AieDomain.Array t) 40 K.XPLMI_PMCDMA_0 ∧
      AieCoreMemInit K env AieDomain h =
        (s, pre.flatMap (coreInitEvents K AieDomain.Array) ++
          [Event.DmaXfr ProgramMem (programMemAddr K AieDomain.Array t) 40 K.XPLMI_PMCDMA_0 s,
           Event.PrintDbgErr s XPm_IntErr.XPM_INT_ERR_PRGRM_CORE])) := by
  rw [run_AieCoreMemInit K env AieDomain h hcols hrows, run_bind]
  rcases forListE_outcome K
      (fun t h' => env.XPlmi_DmaXfr h' ProgramMem (programMemAddr K AieDomain.Array t) 40
        K.XPLMI_PMCDMA_0)
      (coreInitEvents K AieDomain.Array)
      (fun t s => [Event.DmaXfr ProgramMem (programMemAddr K AieDomain.Array t) 40
        K.XPLMI_PMCDMA_0 s])
      (fun t h' => run_coreBody K env AieDomain t h') (arrayTiles AieDomain.Array) h with
    h1 | ⟨pre, t, post, hT, hne, hrun⟩
  · left
    rw [h1]
    refine ⟨env.XPlmi_UtilPollForMask64
      (h ++ (arrayTiles AieDomain.Array).flatMap (coreInitEvents K AieDomain.Array))
      (u32 (lastCoreStatusAddr K AieDomain.Array >>> 32))
      (u32 (lastCoreStatusAddr K AieDomain.Array)) AIE_CORE_STATUS_DONE_MASK 10, ?_⟩
    simp only [run_bind, AieWaitForCoreDone, XPlmi_UtilPollForMask64, run_ite,
      coreDonePoll, lastCoreStatusAddr, lastTile]
    split <;> split <;> simp_all [run_gotoDone]
  · right
    refine ⟨pre, t, post, _, hT, hne, rfl, ?_⟩
    rw [hrun]
    simp only [run_gotoDone, List.append_assoc, List.singleton_append]

/-- C24, the claim fails: a row bound that wraps.  `XPmAieDomain_Init` reads the geometry of
`rowWrapDomain` from the topology words `1`, `0xFFFF0001`, `1`; every transfer succeeds in
the sample environment and the tile (0, 1) lies in `[StartCol, StartCol + NumCols) ×
[StartRow, StartRow + NumRows)`; yet `AieCoreMemInit` loads and enables no tile, because the
16-bit bound `EndRow` is 0: its only events are the poll and the two diagnostic reports, and
the poll is at row `0xFFFFFFFF`, not at the tile (0, 65535). -/
theorem core_mem_init_row_wrap_counterexample :
    (XPmAieDomain_Init sampleConsts (sampleEnv sampleConsts true 0xF70A0000 0xFFFFFFFF 0 0)
        (sampleDomain 0 aie1Hooks) sampleConsts.PM_POWER_ME 0xF70A0000 0
        (fun i => if i = 1 then 0xFFFF0001 else 1) 3 []).1.2.Array = rowWrapDomain.Array ∧
    (∀ h src dst len flags,
      (sampleEnv sampleConsts true 0xF70A0000 0xFFFFFFFF 0 0).XPlmi_DmaXfr h src dst len
        flags = sampleConsts.XST_SUCCESS) ∧
    ((rowWrapDomain.Array.StartCol ≤ 0 ∧
        0 < rowWrapDomain.Array.StartCol + rowWrapDomain.Array.NumCols) ∧
      (rowWrapDomain.Array.StartRow ≤ 1 ∧
        1 < rowWrapDomain.Array.StartRow + rowWrapDomain.Array.NumRows)) ∧
    AieCoreMemInit sampleConsts (sampleEnv sampleConsts true 0xF70A0000 0xFFFFFFFF 0 0)
        rowWrapDomain [] =
      (sampleConsts.XST_SUCCESS,
       [Event.PollForMask64
          (u32 (u64 (AIE1_TILE_BADDR 0x200000000 0 0xFFFFFFFF +
            sampleConsts.AIE_CORE_STATUS_OFFSET) >>> 32))
          (u32 (u64 (AIE1_TILE_BADDR 0x200000000 0 0xFFFFFFFF +
            sampleConsts.AIE_CORE_STATUS_OFFSET)))
          AIE_CORE_STATUS_DONE_MASK 10 sampleConsts.XST_SUCCESS,
        Event.PrintDbgErr sampleConsts.XST_SUCCESS XPm_IntErr.XPM_INT_ERR_UNDEFINED,
        Event.PrintDbgErr sampleConsts.XST_SUCCESS XPm_IntErr.XPM_INT_ERR_UNDEFINED]) ∧
    u64 (AIE1_TILE_BADDR 0x200000000 0 0xFFFFFFFF + sampleConsts.AIE_CORE_STATUS_OFFSET) ≠
      u64 (AIE1_TILE_BADDR 0x200000000 0 65535 + sampleConsts.AIE_CORE_STATUS_OFFSET) := by
  refine ⟨by decide, fun _ _ _ _ _ => rfl, by decide, by decide, by decide⟩

/-- C24 as amended: the core memory initialisation of Generation 1, for a geometry whose
16-bit bounds `StartCol + NumCols` and `StartRow + NumRows` do not wrap.  `ProgramMem` has
40 words.  A run of `AieCoreMemInit` is one of two.  Either every tile of the array, column
by column, is loaded with the 40 words of `ProgramMem` at its base address plus
`AIE_PROGRAM_MEM_OFFSET` and then enabled (core control written 0, then 1), after which the
DONE bit of the tile `(StartCol + NumCols - 1, StartRow + NumRows - 1)` (32-bit
arithmetic) is polled once and the result of the poll is the status returned.  Or the
transfer of some tile `t` returns a status other than `XST_SUCCESS`: that status is
returned at once, the tiles before `t` in the order of the loop have been loaded and
enabled, `t` is not enabled, no later tile is touched and nothing is polled.  When every
transfer succeeds the run is of the first kind.  The tiles of the loop are those of
`[StartCol, StartCol + NumCols) × [StartRow, StartRow + NumRows)`, each once; when the
array is not empty the tile polled is one of them, with the largest column and the
largest row. -/
theorem core_mem_init (AieDomain : XPm_AieDomain) (h : List Event)
    (hcols : AieDomain.Array.StartCol + AieDomain.Array.NumCols < 2 ^ 16)
    (hrows : AieDomain.Array.StartRow + AieDomain.Array.NumRows < 2 ^ 16) :
    ProgramMem.length = 40 ∧
    ((∃ st, AieCoreMemInit K env AieDomain h =
        (st, (arrayTiles AieDomain.Array).flatMap (coreInitEvents K AieDomain.Array) ++
          coreDonePoll K AieDomain.Array st)) ∨
      (∃ pre t post s, arrayTiles AieDomain.Array = pre ++ t :: post ∧ s ≠ K.XST_SUCCESS ∧
        s = env.XPlmi_DmaXfr (h ++ pre.flatMap (coreInitEvents K AieDomain.Array)) ProgramMem
          (programMemAddr K AieDomain.Array t) 40 K.XPLMI_PMCDMA_0 ∧
        AieCoreMemInit K env AieDomain h =
          (s, pre.flatMap (coreInitEvents K AieDomain.Array) ++
            [Event.DmaXfr ProgramMem (programMemAddr K AieDomain.Array t) 40 K.XPLMI_PMCDMA_0
              s,
             Event.PrintDbgErr s XPm_IntErr.XPM_INT_ERR_PRGRM_CORE]))) ∧
    ((∀ h' src dst len flags, env.XPlmi_DmaXfr h' src dst len flags = K.XST_SUCCESS) →
      ∃ st, AieCoreMemInit K env AieDomain h =
        (st, (arrayTiles AieDomain.Array).flatMap (coreInitEvents K AieDomain.Array) ++
          coreDonePoll K AieDomain.Array st)) ∧
    (arrayTiles AieDomain.Array).Nodup ∧
    (∀ col row, (col, row) ∈ arrayTiles AieDomain.Array ↔
      (AieDomain.Array.StartCol ≤ col ∧
        col < AieDomain.Array.StartCol + AieDomain.Array.NumCols) ∧
      (AieDomain.Array.StartRow ≤ row ∧
        row < AieDomain.Array.StartRow + AieDomain.Array.NumRows)) ∧
    (0 < AieDomain.Array.NumCols → 0 < AieDomain.Array.NumRows →
      lastTile AieDomain.Array =
        (AieDomain.Array.StartCol + AieDomain.Array.NumCols - 1,
         AieDomain.Array.StartRow + AieDomain.Array.NumRows - 1) ∧
      lastTile AieDomain.Array ∈ arrayTiles AieDomain.Array) := by
  refine ⟨rfl, coreMemInit_outcome K env AieDomain h hcols hrows, fun hall => ?_,
    nodup_loopPairs _ _ _ _, fun col row => mem_loopPairs _ _ _ _ _ _, fun hc0 hr0 => ?_⟩
  · rcases coreMemInit_outcome K env AieDomain h hcols hrows with
      h1 | ⟨pre, t, post, s, _, hne, hs, _⟩
    · exact h1
    · exact absurd (hs.trans (hall _ _ _ _ _)) hne
  · have ec : u32 (AieDomain.Array.StartCol + AieDomain.Array.NumCols + 2 ^ 32 - 1) =
        AieDomain.Array.StartCol + AieDomain.Array.NumCols - 1 := by
      unfold u32
      omega
    have er : u32 (AieDomain.Array.StartRow + AieDomain.Array.NumRows + 2 ^ 32 - 1) =
        AieDomain.Array.StartRow + AieDomain.Array.NumRows - 1 := by
      unfold u32
      omega
    have he : lastTile AieDomain.Array =
        (AieDomain.Array.StartCol + AieDomain.Array.NumCols - 1,
         AieDomain.Array.StartRow + AieDomain.Array.NumRows - 1) := by
      unfold lastTile
      rw [ec, er]
    refine ⟨he, ?_⟩
    rw [he, arrayTiles, mem_loopPairs]
    omega

/-- C24 as amended, an instance: the sample Generation-1 domain (tiles (0, 1) and (0, 2)) in the
sample environment, in which every transfer succeeds; both tiles are loaded and enabled and
the tile (0, 2) is polled. -/
theorem core_mem_init_witness :
    ((sampleDomain 0 aie1Hooks).Array.StartCol + (sampleDomain 0 aie1Hooks).Array.NumCols <
        2 ^ 16 ∧
      (sampleDomain 0 aie1Hooks).Array.StartRow + (sampleDomain 0 aie1Hooks).Array.NumRows <
        2 ^ 16 ∧
      (∀ h' src dst len flags,
        (sampleEnv sampleConsts true 0xF70A0000 0xFFFFFFFF 0 0).XPlmi_DmaXfr h' src dst len
          flags = sampleConsts.XST_SUCCESS)) ∧
    arrayTiles (sampleDomain 0 aie1Hooks).Array = [(0, 1), (0, 2)] ∧
    lastTile (sampleDomain 0 aie1Hooks).Array = (0, 2) ∧
    ∃ st, AieCoreMemInit sampleConsts (sampleEnv sampleConsts true 0xF70A0000 0xFFFFFFFF 0 0)
        (sampleDomain 0 aie1Hooks) [] =
      (st, (arrayTiles (sampleDomain 0 aie1Hooks).Array).flatMap
          (coreInitEvents sampleConsts (sampleDomain 0 aie1Hooks).Array) ++
        coreDonePoll sampleConsts (sampleDomain 0 aie1Hooks).Array st) :=
  ⟨⟨by decide, by decide, fun _ _ _ _ _ => rfl⟩, by decide, by decide,
   (core_mem_init sampleConsts (sampleEnv sampleConsts true 0xF70A0000 0xFFFFFFFF 0 0)
     (sampleDomain 0 aie1Hooks) [] (by decide) (by decide)).2.2.1 fun _ _ _ _ _ => rfl⟩

end CoreInitClaim

end XilPmAie
